import Mathlib

/-!
FLUPS: plan ordering, pencil topologies and the spectral convolution.

A shallow embedding of parts of `Solver.cpp`, `Topology.cpp`, `FFTW_plan_dim.hpp` and
`defines.hpp`.

Conventions of the embedding.
* A C array `T x[3]` is a function `Fin 3 → T`.
* A C `int` is a Lean `Int`; signed overflow is undefined behaviour in C++ and is outside the
  model.  Conversions to and from `size_t` (which are defined behaviour) are modelled
  explicitly by `toSizeT` and `toInt32`.
* `FLUPS_CHECK` aborts the program when its condition is false and the library is built
  without `NDEBUG`; functions containing a check return an `Except FlupsError`, and take the
  build mode as the Boolean `checks`.
* A `double` is an element of an arbitrary commutative ring: rounding is not modelled.
-/

namespace FLUPS

/-! ## defines.hpp -/

/-- The ways in which the modelled functions abort (one constructor per `FLUPS_CHECK` site),
plus the read of a variable that was never assigned. -/
inductive FlupsError
  | commSizeMismatch
  | alignmentNotMultiple
  | wrongPlanOrder
  | imultNotSupported
  | solverTypeNotImplemented
  | notImplementedYet
  | axisMismatch
  | complexMismatch
  | uninitialisedRead
  | rhsTopoComplex
  | greenTopoComplex
  | zeroSpacing
  | lgfNotImplemented
  | hejNotImplemented
  | spacingNotZero
  | anisotropicSpacing
  | green2dNotProvided
  | shiftWithoutIgnoredMode
  | copyTooManyNodes
  deriving DecidableEq, Repr

/-- `FLUPS_CHECK(a, msg)`: with checks compiled in (`NDEBUG` undefined) a false condition
aborts; with `NDEBUG` the macro does nothing. -/
def FLUPS_CHECK (checks : Bool) (a : Bool) (e : FlupsError) : Except FlupsError Unit :=
  if checks && !a then Except.error e else Except.ok ()

/-- `enum BoundaryType` of `defines.hpp`. -/
inductive BoundaryType
  | EVEN
  | ODD
  | PER
  | UNB
  deriving DecidableEq, Repr, Fintype

/-- The integer value of a `BoundaryType` enumerator. -/
def BoundaryType.toInt : BoundaryType → Int
  | EVEN => 0
  | ODD => 1
  | PER => 3
  | UNB => 4

/-- `enum SolverType` of `defines.hpp`. -/
inductive SolverType
  | SRHS
  | VRHS
  | ROT
  | DIV
  deriving DecidableEq, Repr, Fintype

/-! ## FFTW_plan_dim.hpp -/

/-- `enum FFTW_plan_dim::PlanType`. -/
inductive PlanType
  | SYMSYM
  | MIXUNB
  | PERPER
  | UNBUNB
  | EMPTY
  deriving DecidableEq, Repr, Fintype

/-- The integer value of a `PlanType` enumerator, which is its processing priority. -/
def PlanType.toInt : PlanType → Int
  | SYMSYM => 2
  | MIXUNB => 5
  | PERPER => 6
  | UNBUNB => 8
  | EMPTY => 18

/-- The boundary pairs that the enumerator comments of `PlanType` attach to each type:
`EE (0), EO/OE (1), OO (2)`; `UE/EU (4), UO/OU (5)`; `PERPER (6)`; `UU (8)`; none for
`EMPTY`. -/
def PlanType.bcPairs : PlanType → List (BoundaryType × BoundaryType)
  | SYMSYM => [(.EVEN, .EVEN), (.EVEN, .ODD), (.ODD, .EVEN), (.ODD, .ODD)]
  | MIXUNB => [(.UNB, .EVEN), (.EVEN, .UNB), (.UNB, .ODD), (.ODD, .UNB)]
  | PERPER => [(.PER, .PER)]
  | UNBUNB => [(.UNB, .UNB)]
  | EMPTY => []

/-- The members of `FFTW_plan_dim` that `Solver.cpp` reads through `dimID()`, `type()`,
`imult()`, `shiftgreen()`, `isr2c()`, `isSpectral()`, `symstart()`, `get_outsize`,
`get_fieldstart`, `ignoreMode()` and `isr2c_green()`.  The members `kfact_` and `koffset_`,
which are doubles, are passed separately to the functions that read them.  The defaults are
the initial values of the members in the class. -/
structure FFTW_plan_dim where
  dimID : Int
  type : PlanType
  imult : Bool
  shiftgreen : Int
  isr2c : Bool
  isSpectral : Bool := false
  symstart : Int := 0
  n_out : Int := 1
  fieldstart : Int := 0
  ignoreMode : Bool := false
  isr2c_green : Bool := false
  deriving DecidableEq, Repr

/-! ## Solver.cpp: `_sort_plans` -/

/-- `INT_MAX` for a 32-bit `int`. -/
def INT_MAX : Int := 2147483647

/-- Assignment `a[i] = v` on a three-element array. -/
def set3 {α : Type} (a : Fin 3 → α) (i : Fin 3) (v : α) : Fin 3 → α :=
  fun j => if j = i then v else a j

/-- One iteration of the first loop of `_sort_plans`, acting on `(id_min, val_min)`.
`id_min` is declared without initialiser, hence the `Option`. -/
def sortMinStep (priority : Fin 3 → Int) (st : Option (Fin 3) × Int) (id : Fin 3) :
    Option (Fin 3) × Int :=
  if priority id < st.2 then (some id, priority id) else st

/-- The first loop of `_sort_plans`: `priority[id] = plan[id]->type()` and the search of the
first smallest priority. -/
def sortFindMin (priority : Fin 3 → Int) : Option (Fin 3) × Int :=
  sortMinStep priority (sortMinStep priority (sortMinStep priority (none, INT_MAX) 0) 1) 2

/-- The conditional exchange of `plan[1]` and `plan[2]` that closes both branches of
`_sort_plans`. -/
def sortSwapLast (priority : Fin 3 → Int) (plan : Fin 3 → FFTW_plan_dim) :
    Fin 3 → FFTW_plan_dim :=
  if priority 1 > priority 2 then
    let temp_plan := plan 2
    set3 (set3 plan 2 (plan 1)) 1 temp_plan
  else plan

/-- The body of `Solver::_sort_plans` up to (not including) the final check. -/
def sortPlansBody (plan : Fin 3 → FFTW_plan_dim) : Option (Fin 3 → FFTW_plan_dim) :=
  let priority : Fin 3 → Int := fun id => (plan id).type.toInt
  match (sortFindMin priority).1 with
  | none => none
  | some id_min =>
    if id_min = 0 then
      some (sortSwapLast priority plan)
    else
      let temp_priority := priority id_min
      let temp_plan := plan id_min
      let plan1 := set3 plan id_min (plan 0)
      let plan2 := set3 plan1 0 temp_plan
      let priority1 := set3 priority id_min (priority 0)
      let priority2 := set3 priority1 0 temp_priority
      some (sortSwapLast priority2 plan2)

/-- `Solver::_sort_plans`: the array is reordered in place (here: returned), then the order is
checked. -/
def Solver._sort_plans (checks : Bool) (plan : Fin 3 → FFTW_plan_dim) :
    Except FlupsError (Fin 3 → FFTW_plan_dim) :=
  match sortPlansBody plan with
  | none => Except.error FlupsError.uninitialisedRead
  | some out => do
    FLUPS_CHECK checks
      (decide ((out 0).type.toInt ≤ (out 1).type.toInt) &&
        decide ((out 1).type.toInt ≤ (out 2).type.toInt))
      FlupsError.wrongPlanOrder
    pure out

/-- The three plans that `Solver::Solver` creates in direction order (lines 38 to 42:
`plan[id]` is built with `dimID = id`), with the given types; the other members are those
of `p`. -/
def plansInDirectionOrder (t : Fin 3 → PlanType) (p : Fin 3 → FFTW_plan_dim) :
    Fin 3 → FFTW_plan_dim :=
  fun id => { p id with dimID := (id.val : Int), type := t id }

/-! ## Topology.cpp -/

/-- The value of `sizeof(double)`. -/
def SIZEOF_DOUBLE : Int := 8

/-- Conversion of an `int` to the 64-bit unsigned `size_t`: reduction modulo `2^64`. -/
def toSizeT (x : Int) : Int := x % 18446744073709551616

/-- Conversion of a `size_t` value to a 32-bit two's complement `int`. -/
def toInt32 (x : Int) : Int := (x + 2147483648) % 4294967296 - 2147483648

/-- The data members of `Topology` set by its constructor.  The fast axis indexes the arrays
in every accessor, so it is one of the three directions. -/
structure Topology where
  nglob : Fin 3 → Int
  nproc : Fin 3 → Int
  axproc : Fin 3 → Int
  rankd : Fin 3 → Int
  nbyproc : Fin 3 → Int
  nloc : Fin 3 → Int
  nmem : Fin 3 → Int
  axis : Fin 3
  nf : Int
  alignment : Int

/-- The accessor `isComplex()`, that is `_nf == 2`. -/
def Topology.isComplex (t : Topology) : Bool := decide (t.nf = 2)

/-- Line 97: `const int modulo = (_nglob[id] * _nf * sizeof(double)) % alignment;`.  The
product `_nglob[id] * _nf` is an `int`; the multiplication by `sizeof(double)` and the
remainder are computed in `size_t`; the result is stored in an `int`. -/
def padModulo (nglob nf alignment : Int) : Int :=
  toInt32 (toSizeT (toSizeT (nglob * nf) * SIZEOF_DOUBLE) % toSizeT alignment)

/-- Line 99: `const int delta = (alignment - modulo) / sizeof(double);`, a `size_t` division
whose result is stored in an `int`. -/
def padDelta (alignment modulo : Int) : Int :=
  toInt32 (toSizeT (alignment - modulo) / SIZEOF_DOUBLE)

/-- The values `_nbyproc[id]`, `_nloc[id]`, `_nmem[id]` of one direction. -/
structure DimSizes where
  nbyproc : Int
  nloc : Int
  nmem : Int
  deriving DecidableEq, Repr

/-- The body of the loop `for (int id = 0; id < 3; id++)` of the constructor (lines 82 to
104) for the direction `id`. Integer division of `int`s truncates toward zero. -/
def topoDimSizes (checks : Bool) (id axis : Fin 3) (nf alignment nglob nproc rankd : Int) :
    Except FlupsError DimSizes :=
  let nbyproc := Int.tdiv nglob nproc
  if rankd < nproc - 1 then
    Except.ok { nbyproc := nbyproc, nloc := nbyproc, nmem := nbyproc }
  else
    let nloc := max nbyproc (nglob - nbyproc * rankd)
    if id = axis then
      let modulo := padModulo nglob nf alignment
      let delta := padDelta alignment modulo
      let nmem := nloc + (if modulo = 0 then 0 else Int.tdiv delta nf)
      do
        FLUPS_CHECK checks (decide (Int.tmod delta nf = 0)) FlupsError.alignmentNotMultiple
        pure { nbyproc := nbyproc, nloc := nloc, nmem := nmem }
    else
      Except.ok { nbyproc := nbyproc, nloc := nloc, nmem := nloc }

/-- `Topology::Topology`.  The communicator enters through its size `comm_size` and through
`rankd`, the coordinates that `ranksplit` (not part of the sources at hand) computes from
the rank of the calling process. -/
def Topology.new (checks : Bool) (axis : Fin 3) (nglob nproc : Fin 3 → Int) (isComplex : Bool)
    (axproc : Option (Fin 3 → Int)) (alignment : Int) (comm_size : Int)
    (rankd : Fin 3 → Int) : Except FlupsError Topology := do
  FLUPS_CHECK checks (decide (nproc 0 * nproc 1 * nproc 2 = comm_size))
    FlupsError.commSizeMismatch
  let axproc_ : Fin 3 → Int := fun id =>
    match axproc with
    | none => (id.val : Int)
    | some a => a id
  let nf : Int := if !isComplex then 1 else 2
  let s0 ← topoDimSizes checks 0 axis nf alignment (nglob 0) (nproc 0) (rankd 0)
  let s1 ← topoDimSizes checks 1 axis nf alignment (nglob 1) (nproc 1) (rankd 1)
  let s2 ← topoDimSizes checks 2 axis nf alignment (nglob 2) (nproc 2) (rankd 2)
  pure
    { nglob := nglob
      nproc := nproc
      axproc := axproc_
      rankd := rankd
      nbyproc := ![s0.nbyproc, s1.nbyproc, s2.nbyproc]
      nloc := ![s0.nloc, s1.nloc, s2.nloc]
      nmem := ![s0.nmem, s1.nmem, s2.nmem]
      axis := axis
      nf := nf
      alignment := alignment }

/-- The state `(start[id], end[id])` after the first `n` iterations of the loop over `i` in
`Topology::cmpt_intersect_id` (lines 189 to 197). -/
def intersectLoop (rankd nbyproc shift onglob : Int) : Nat → Int × Int
  | 0 => (0, 0)
  | n + 1 =>
    let st := intersectLoop rankd nbyproc shift onglob n
    let i : Int := (n : Int)
    let oid_global := rankd * nbyproc + i + shift
    (if oid_global ≤ 0 then i else st.1, if oid_global < onglob then i + 1 else st.2)

/-- `Topology::cmpt_intersect_id`: returns the arrays `(start, end)`.  The loop over `i` runs
`_nloc[id]` times (not at all when `_nloc[id]` is not positive). -/
def Topology.cmpt_intersect_id (checks : Bool) (self : Topology) (shift : Fin 3 → Int)
    (other : Topology) : Except FlupsError ((Fin 3 → Int) × (Fin 3 → Int)) := do
  FLUPS_CHECK checks (self.isComplex == other.isComplex) FlupsError.complexMismatch
  let res : Fin 3 → Int × Int := fun id =>
    intersectLoop (self.rankd id) (self.nbyproc id) (shift id) (other.nglob id)
      (self.nloc id).toNat
  pure (fun id => (res id).1, fun id => (res id).2)

/-! ## Solver.cpp: the factor `_nbr_imult` -/

/-- One iteration of the loop of `Solver::Solver` over `ip` (lines 62 to 74), restricted to
`_nbr_imult`. -/
def nbrImultStep (plan_forward plan_backward plan_green : Fin 3 → FFTW_plan_dim)
    (nbr_imult : Int) (ip : Fin 3) : Int :=
  let n1 := if (plan_forward ip).imult then nbr_imult + 1 else nbr_imult
  let n2 := if (plan_backward ip).imult then n1 - 1 else n1
  if (plan_green ip).imult then n2 + 1 else n2

/-- The value of `_nbr_imult` at the end of `Solver::Solver`: it starts from `0` and the
loop visits `ip = 0, 1, 2`. -/
def Solver.cmpt_nbr_imult (plan_forward plan_backward plan_green : Fin 3 → FFTW_plan_dim) :
    Int :=
  List.foldl (nbrImultStep plan_forward plan_backward plan_green) 0 [0, 1, 2]

/-- The number of plans of an array whose `imult` flag is set. -/
def countImult (plan : Fin 3 → FFTW_plan_dim) : Int :=
  (((List.finRange 3).filter (fun ip => (plan ip).imult)).length : Int)

/-! ## Solver.cpp: the convolution step of `solve` -/

/-- A loop `for (int i = 0; i < n; ++i)` whose body transforms a state: the body runs for
`i = 0`, then `i = 1`, up to `i = n - 1`. -/
def forLoop {σ : Type} (body : Nat → σ → σ) : Nat → σ → σ
  | 0, s => s
  | n + 1, s => body n (forLoop body n s)

/-- The assignment `buf[i] = v` on a buffer of doubles. -/
def writeAt {R : Type} (buf : Nat → R) (i : Nat) (v : R) : Nat → R :=
  fun j => if j = i then v else buf j

/-- The members of `Solver` used by `solve`: the topologies and plans, the scalar factors,
the Green buffer `_green` and the scratch buffer `_data`. -/
structure Solver (R : Type) where
  topo_hat : Fin 3 → Topology
  topo_green : Fin 3 → Topology
  plan_forward : Fin 3 → FFTW_plan_dim
  plan_backward : Fin 3 → FFTW_plan_dim
  plan_green : Fin 3 → FFTW_plan_dim
  normfact : R
  volfact : R
  nbr_imult : Int
  green : Nat → R
  data : Nat → R

/-- The body of the loop over `i0` in `dothemagic_rhs_real`:
`mydata[id+i0] *= _normfact * mygreen[id_green+i0]`. -/
def magicRealCell {R : Type} [CommRing R] (normfact : R) (green : Nat → R)
    (id id_green : Nat) (i0 : Nat) (data : Nat → R) : Nat → R :=
  writeAt data (id + i0) (data (id + i0) * (normfact * green (id_green + i0)))

/-- The body of the loop over `i0` in `dothemagic_rhs_complex_nmult0` (lines 821 to 833),
acting on `(mydata, id, id_green)`. -/
def magicComplexCell {R : Type} [CommRing R] (normfact : R) (green : Nat → R) (_i0 : Nat)
    (st : (Nat → R) × Nat × Nat) : (Nat → R) × Nat × Nat :=
  let data := st.1
  let id := st.2.1
  let id_green := st.2.2
  let a := data (id + 0)
  let b := data (id + 1)
  let c := green (id_green + 0)
  let d := green (id_green + 1)
  let data1 := writeAt data (id + 0) (normfact * (a * c - b * d))
  let data2 := writeAt data1 (id + 1) (normfact * (a * d + b * c))
  (data2, id + 2, id_green + 2)

/-- `Solver::dothemagic_rhs_real`.  The index function `localindex_ao` is declared in a
header that is not part of the sources at hand and is a parameter. -/
def Solver.dothemagic_rhs_real {R : Type} [CommRing R] (checks : Bool)
    (localindex_ao : Int → Int → Int → Topology → Nat) (s : Solver R) :
    Except FlupsError (Solver R) := do
  FLUPS_CHECK checks (decide ((s.topo_hat 2).axis = (s.topo_green 2).axis))
    FlupsError.axisMismatch
  FLUPS_CHECK checks (!(s.topo_hat 2).isComplex && !(s.topo_green 2).isComplex)
    FlupsError.complexMismatch
  let ax0 := (s.topo_hat 2).axis
  let ax1 := ax0 + 1
  let ax2 := ax0 + 2
  let shiftgreen := (s.plan_green 2).shiftgreen
  let data := forLoop (fun i2 data2 =>
    forLoop (fun i1 data1 =>
      let id := localindex_ao 0 i1 i2 (s.topo_hat 2)
      let id_green := localindex_ao shiftgreen i1 i2 (s.topo_green 2)
      forLoop (magicRealCell s.normfact s.green id id_green)
        ((s.topo_hat 2).nloc ax0).toNat data1)
      ((s.topo_hat 2).nloc ax1).toNat data2)
    ((s.topo_hat 2).nloc ax2).toNat s.data
  pure { s with data := data }

/-- `Solver::dothemagic_rhs_complex_nmult0`, with `localindex_ao` as a parameter. -/
def Solver.dothemagic_rhs_complex_nmult0 {R : Type} [CommRing R] (checks : Bool)
    (localindex_ao : Int → Int → Int → Topology → Nat) (s : Solver R) :
    Except FlupsError (Solver R) := do
  FLUPS_CHECK checks (decide ((s.topo_hat 2).axis = (s.topo_green 2).axis))
    FlupsError.axisMismatch
  let ax0 := (s.topo_hat 2).axis
  let ax1 := ax0 + 1
  let ax2 := ax0 + 2
  let shiftgreen := (s.plan_green 2).shiftgreen
  let data := forLoop (fun i2 data2 =>
    forLoop (fun i1 data1 =>
      let id := localindex_ao 0 i1 i2 (s.topo_hat 2)
      let id_green := localindex_ao shiftgreen i1 i2 (s.topo_green 2)
      (forLoop (magicComplexCell s.normfact s.green)
        ((s.topo_hat 2).nloc ax0).toNat (data1, id, id_green)).1)
      ((s.topo_hat 2).nloc ax1).toNat data2)
    ((s.topo_hat 2).nloc ax2).toNat s.data
  pure { s with data := data }

/-- `Solver::dothemagic_rhs_complex_nmult1`: `FLUPS_CHECK(false, "not implemented yet")`. -/
def Solver.dothemagic_rhs_complex_nmult1 {R : Type} (checks : Bool) (s : Solver R) :
    Except FlupsError (Solver R) := do
  FLUPS_CHECK checks false FlupsError.notImplementedYet
  pure s

/-- `Solver::dothemagic_rhs_complex_nmult2`: `FLUPS_CHECK(false, "not implemented yet")`. -/
def Solver.dothemagic_rhs_complex_nmult2 {R : Type} (checks : Bool) (s : Solver R) :
    Except FlupsError (Solver R) := do
  FLUPS_CHECK checks false FlupsError.notImplementedYet
  pure s

/-- `Solver::dothemagic_rhs_complex_nmult3`: `FLUPS_CHECK(false, "not implemented yet")`. -/
def Solver.dothemagic_rhs_complex_nmult3 {R : Type} (checks : Bool) (s : Solver R) :
    Except FlupsError (Solver R) := do
  FLUPS_CHECK checks false FlupsError.notImplementedYet
  pure s

/-- The convolution step of `Solver::solve` (lines 700 to 718). -/
def Solver.solve_domagic {R : Type} [CommRing R] (checks : Bool)
    (localindex_ao : Int → Int → Int → Topology → Nat) (type : SolverType) (s : Solver R) :
    Except FlupsError (Solver R) :=
  if type = SolverType.SRHS then
    if !(s.topo_hat 2).isComplex then
      if s.nbr_imult = 0 then
        Solver.dothemagic_rhs_real checks localindex_ao s
      else do
        FLUPS_CHECK checks false FlupsError.imultNotSupported
        pure s
    else
      if s.nbr_imult = 0 then
        Solver.dothemagic_rhs_complex_nmult0 checks localindex_ao s
      else do
        FLUPS_CHECK checks false FlupsError.imultNotSupported
        pure s
  else do
    FLUPS_CHECK checks false FlupsError.solverTypeNotImplemented
    pure s

/-! ### The convolution as the specification words it -/

/-- The product of two complex numbers given as pairs (real part, imaginary part). -/
def cmul {R : Type} [CommRing R] (x g : R × R) : R × R :=
  (x.1 * g.1 - x.2 * g.2, x.1 * g.2 + x.2 * g.1)

/-- The product of a real scalar and a complex number. -/
def cscale {R : Type} [CommRing R] (a : R) (x : R × R) : R × R :=
  (a * x.1, a * x.2)

/-- The extra factor of the specification: `1`, `-i`, `-1`, `+i` when `nbr_imult mod 4` is
`0`, `1`, `2`, `3`. -/
def specImultFactor {R : Type} [CommRing R] (nbr_imult : Int) : R × R :=
  if nbr_imult % 4 = 0 then (1, 0)
  else if nbr_imult % 4 = 1 then (0, -1)
  else if nbr_imult % 4 = 2 then (-1, 0)
  else (0, 1)

/-- The complex number stored at the doubles `id` and `id + 1` of a buffer. -/
def complexAt {R : Type} (buf : Nat → R) (id : Nat) : R × R :=
  (buf id, buf (id + 1))

/-! ## Solver.cpp: `_allocate_data` and `solve` -/

/-- The value of `FLUPS_FORWARD`. -/
def FLUPS_FORWARD : Int := -1

/-- The value of `FLUPS_BACKWARD`. -/
def FLUPS_BACKWARD : Int := 1

/-- The collaborators of `Solver::solve` whose code is not part of the sources at hand:
the index function `localindex_ao`, the accessor `locmemsize()` and the methods
`switch2complex()` and `switch2real()` of `Topology`, the execution
`_switchtopo[ip]->execute(mydata, sign)` of the remaps, and the executions
`_plan_forward[ip]->execute_plan()` and `_plan_backward[ip]->execute_plan()` of the
transforms, which act in place on the scratch buffer. -/
structure SolveExt (R : Type) where
  localindex_ao : Int → Int → Int → Topology → Nat
  locmemsize : Topology → Nat
  switch2complex : Topology → Topology
  switch2real : Topology → Topology
  switchtopo_execute : Fin 3 → (Nat → R) → Int → (Nat → R)
  plan_forward_execute : Fin 3 → (Nat → R) → (Nat → R)
  plan_backward_execute : Fin 3 → (Nat → R) → (Nat → R)

/-- The number of doubles that `Solver::_allocate_data` allocates (lines 421 to 426):
`size_tot` starts from 1 and takes the maximum with the `locmemsize()` of the three
topologies. -/
def Solver._allocate_data_size (locmemsize : Topology → Nat) (topo : Fin 3 → Topology) : Nat :=
  List.foldl (fun size_tot id => max (locmemsize (topo id)) size_tot) 1 [0, 1, 2]

/-- The number of doubles that `Solver::solve` clears (lines 628 to 630): `size_tot` starts
from `topo->locmemsize()` and takes the maximum with the `locmemsize()` of the three
topologies `_topo_hat`. -/
def Solver.solve_size_tot (locmemsize : Topology → Nat) (topo : Topology)
    (topo_hat : Fin 3 → Topology) : Nat :=
  List.foldl (fun size_tot id => max (locmemsize (topo_hat id)) size_tot) (locmemsize topo)
    [0, 1, 2]

/-- The call `std::memset(buf, 0, sizeof(double) * n)`. -/
def memsetZero {R : Type} [Zero R] (buf : Nat → R) (n : Nat) : Nat → R :=
  fun j => if j < n then 0 else buf j

/-- The body of the innermost loop of the two copies of `solve` (`dst[id] = src[id]; id++`),
acting on `(dst, id)`. -/
def copyCell {R : Type} (src : Nat → R) (_i0 : Nat) (st : (Nat → R) × Nat) : (Nat → R) × Nat :=
  (writeAt st.1 st.2 (src st.2), st.2 + 1)

/-- The three nested loops of the copies of `solve` (lines 654 to 664 and 744 to 754): the
local cells of `topo` are copied from `src` to `dst`. -/
def copyLocalCells {R : Type} (localindex_ao : Int → Int → Int → Topology → Nat)
    (topo : Topology) (src dst : Nat → R) : Nat → R :=
  let ax0 := topo.axis
  let ax1 := ax0 + 1
  let ax2 := ax0 + 2
  forLoop (fun i2 d2 =>
    forLoop (fun i1 d1 =>
      let id := localindex_ao 0 i1 i2 topo
      (forLoop (copyCell src) (topo.nloc ax0).toNat (d1, id)).1)
      (topo.nloc ax1).toNat d2)
    (topo.nloc ax2).toNat dst

/-- The first steps of `Solver::solve` (lines 627 to 664): the scratch buffer is cleared over
`size_tot` doubles, the topology of the right-hand side is checked to be real, and the
right-hand side is copied.  (The checks of lines 612 to 615 concern the pointers `field` and
`rhs`, which the model does not represent.)  The buffer is a total function of the index:
a write past the `_allocate_data_size` doubles that `_allocate_data` allocates, which is
undefined in the program, has a value here, so the statements about this function assume
that the cleared range fits in the allocation. -/
def Solver.solve_clear_copy {R : Type} [Zero R] (checks : Bool) (ext : SolveExt R)
    (topo : Topology) (rhs : Nat → R) (s : Solver R) : Except FlupsError (Solver R) := do
  let size_tot := Solver.solve_size_tot ext.locmemsize topo s.topo_hat
  let mydata := memsetZero s.data size_tot
  FLUPS_CHECK checks (!topo.isComplex) FlupsError.rhsTopoComplex
  pure { s with data := copyLocalCells ext.localindex_ao topo rhs mydata }

/-- One iteration of the forward loop of `solve` (lines 676 to 690). -/
def Solver.solve_forward_step {R : Type} (ext : SolveExt R) (s : Solver R) (ip : Fin 3) :
    Solver R :=
  let data1 := ext.switchtopo_execute ip s.data FLUPS_FORWARD
  let data2 := ext.plan_forward_execute ip data1
  let topo_hat :=
    if (s.plan_forward ip).isr2c then set3 s.topo_hat ip (ext.switch2complex (s.topo_hat ip))
    else s.topo_hat
  { s with data := data2, topo_hat := topo_hat }

/-- One iteration of the backward loop of `solve` (lines 727 to 738). -/
def Solver.solve_backward_step {R : Type} (ext : SolveExt R) (s : Solver R) (ip : Fin 3) :
    Solver R :=
  let data1 := ext.plan_backward_execute ip s.data
  let topo_hat :=
    if (s.plan_forward ip).isr2c then set3 s.topo_hat ip (ext.switch2real (s.topo_hat ip))
    else s.topo_hat
  let data2 := ext.switchtopo_execute ip data1 FLUPS_BACKWARD
  { s with data := data2, topo_hat := topo_hat }

/-- `Solver::solve`: returns the solver state and the array `field`. -/
def Solver.solve {R : Type} [CommRing R] (checks : Bool) (ext : SolveExt R) (topo : Topology)
    (field rhs : Nat → R) (type : SolverType) (s : Solver R) :
    Except FlupsError (Solver R × (Nat → R)) := do
  let s1 ← Solver.solve_clear_copy checks ext topo rhs s
  let s2 := List.foldl (Solver.solve_forward_step ext) s1 [0, 1, 2]
  let s3 ← Solver.solve_domagic checks ext.localindex_ao type s2
  let s4 := List.foldl (Solver.solve_backward_step ext) s3 [2, 1, 0]
  pure (s4, copyLocalCells ext.localindex_ao topo s4.data field)

/-- The topology `_topo_hat[2]` as the convolution step of `solve` sees it, that is after the
forward loop has switched it to complex when `_plan_forward[2]` is a real-to-complex
plan. -/
def Solver.spectralTopo {R : Type} (ext : SolveExt R) (s : Solver R) : Topology :=
  if (s.plan_forward 2).isr2c then ext.switch2complex (s.topo_hat 2) else s.topo_hat 2

/-! ## Green_functions_3d.cpp -/

/-- `enum GreenType` of `defines.hpp`. -/
inductive GreenType
  | CHAT_2
  | LGF_2
  | HEJ_2
  | HEJ_4
  | HEJ_6
  deriving DecidableEq, Repr, Fintype

/-- The constants and functions of `<cmath>` that the Green routines use, and the value
`divZero a` that the machine gives to a quotient `a / 0` (an IEEE infinity or NaN, on which
the model makes no assumption). -/
structure MathFns (R : Type) where
  pi : R
  sqrt2 : R
  sqrt : R → R
  pow : R → R → R
  exp : R → R
  erf : R → R
  divZero : R → R

/-- A division `a / b` of doubles by a run-time value. -/
def fdiv {R : Type} [Field R] [DecidableEq R] (m : MathFns R) (a b : R) : R :=
  if b = 0 then m.divZero a else a / b

/-- The constant `c_1o4pi = 1.0 / (4.0 * M_PI)` of `defines.hpp`. -/
def c_1o4pi {R : Type} [Field R] (m : MathFns R) : R := 1 / (4 * m.pi)

/-- The constant `c_1o2pi = 1.0 / (2.0 * M_PI)` of `defines.hpp`. -/
def c_1o2pi {R : Type} [Field R] (m : MathFns R) : R := 1 / (2 * m.pi)

/-- The constant `c_1osqrtpi = 1.0 / sqrt(M_PI)` of `defines.hpp`. -/
def c_1osqrtpi {R : Type} [Field R] (m : MathFns R) : R := 1 / m.sqrt m.pi

/-- The constant `c_1osqrt2 = 1.0 / M_SQRT2` of `defines.hpp`. -/
def c_1osqrt2 {R : Type} [Field R] (m : MathFns R) : R := 1 / m.sqrt2

/-- The kernel `_hej_2`, with `params = {r, eps}`. -/
def _hej_2 {R : Type} [Field R] [DecidableEq R] (m : MathFns R) (r eps : R) : R :=
  fdiv m (c_1o4pi m) r * m.erf (fdiv m r eps * c_1osqrt2 m)

/-- The kernel `_hej_4`, with `params = {r, eps}`. -/
def _hej_4 {R : Type} [Field R] [DecidableEq R] (m : MathFns R) (r eps : R) : R :=
  let rho := fdiv m r eps
  fdiv m (c_1o4pi m) r *
    (c_1osqrt2 m * c_1osqrtpi m * rho * m.exp (-rho * rho * (1 / 2))
      + m.erf (rho * c_1osqrt2 m))

/-- The kernel `_hej_6`, with `params = {r, eps}`. -/
def _hej_6 {R : Type} [Field R] [DecidableEq R] (m : MathFns R) (r eps : R) : R :=
  let rho := fdiv m r eps
  fdiv m (c_1o4pi m) r *
    (c_1osqrt2 m * c_1osqrtpi m * ((7 / 4) * rho - (1 / 4) * m.pow rho 3)
        * m.exp (-rho * rho * (1 / 2))
      + m.erf (rho * c_1osqrt2 m))

/-- The kernel `_chat_2`, with `params = {r, eps}`. -/
def _chat_2 {R : Type} [Field R] [DecidableEq R] (m : MathFns R) (r _eps : R) : R :=
  fdiv m (c_1o4pi m) r

/-- The symmetrised index on an unbounded axis (lines 126 to 128):
`(symstart == 0 || ie <= symstart) ? ie : std::max(abs(2 * symstart - ie), 1)`. -/
def symUnbounded (symstart ie : Int) : Int :=
  if symstart = 0 ∨ ie ≤ symstart then ie else max (|2 * symstart - ie|) 1

/-- The symmetrised index on a spectral axis (lines 457 to 459):
`(symstart == 0 || ie <= symstart) ? ie : std::min(-2 * symstart + ie, -1)`. -/
def symSpectral (symstart ie : Int) : Int :=
  if symstart = 0 ∨ ie ≤ symstart then ie else min (-2 * symstart + ie) (-1)

/-- The loops of the four Green routines in which symmetrised indices are computed:
`cmpt_Green_3D_3dirunbounded_0dirspectral` (lines 117 to 144),
`cmpt_Green_3D_2dirunbounded_1dirspectral` (main loops, lines 213 to 253, and the pencil
`x = y = 0`, lines 262 to 276), `cmpt_Green_3D_1dirunbounded_2dirspectral` (main loops,
lines 332 to 364, and the pencil `k1 = k2 = 0`, lines 368 to 381) and
`cmpt_Green_3D_0dirunbounded_3dirspectral` (complex branch, lines 445 to 480, and real
branch, lines 487 to 517). -/
inductive GreenLoop
  | unb3
  | unb2
  | unb2_origin
  | unb1
  | unb1_origin
  | unb0_complex
  | unb0_real
  deriving DecidableEq, Repr, Fintype

/-- The nature of a direction in a Green routine. -/
inductive AxisKind
  | unbounded
  | spectral
  deriving DecidableEq, Repr, Fintype

/-- The nature of the direction `ax0` (index 0), `ax1` (index 1), `ax2` (index 2) in the
routine of each loop: three unbounded directions; `ax0` spectral and `ax1`, `ax2` unbounded
(`kfact[ax0] != 0`, `hfact[ax1] != 0`, `hfact[ax2] != 0`); `ax0` unbounded and `ax1`, `ax2`
spectral; three spectral directions. -/
def GreenLoop.axisKind : GreenLoop → Fin 3 → AxisKind
  | unb3, _ => AxisKind.unbounded
  | unb2, a => if a = 0 then AxisKind.spectral else AxisKind.unbounded
  | unb2_origin, a => if a = 0 then AxisKind.spectral else AxisKind.unbounded
  | unb1, a => if a = 0 then AxisKind.unbounded else AxisKind.spectral
  | unb1_origin, a => if a = 0 then AxisKind.unbounded else AxisKind.spectral
  | unb0_complex, _ => AxisKind.spectral
  | unb0_real, _ => AxisKind.spectral

/-- The expression of the symmetrised index `is0`, `is1`, `is2` along `ax0`, `ax1`, `ax2`
in each loop, as a function of `symstart` and of the global index; `none` when the loop
does not compute it.  Lines 126 to 128; 239, 222, 223; 268; 355, 341, 342; 374; 457 to 459;
496 to 498. -/
def GreenLoop.symIndex : GreenLoop → Fin 3 → Option (Int → Int → Int)
  | unb3, _ => some symUnbounded
  | unb2, a => if a = 0 then some symSpectral else some symUnbounded
  | unb2_origin, a => if a = 0 then some symUnbounded else none
  | unb1, a => if a = 0 then some symUnbounded else some symSpectral
  | unb1_origin, a => if a = 0 then some symUnbounded else none
  | unb0_complex, _ => some symSpectral
  | unb0_real, _ => some symSpectral

/-- The reflection rule as the specification words it: beyond a positive `symstart` the
index is `max(|2 symstart - i|, 1)` on an unbounded axis and `min(i - 2 symstart, -1)` on a
spectral axis; otherwise it is unchanged. -/
def specReflect (kind : AxisKind) (symstart i : Int) : Int :=
  if 0 < symstart ∧ symstart < i then
    match kind with
    | AxisKind.unbounded => max (|2 * symstart - i|) 1
    | AxisKind.spectral => min (i - 2 * symstart) (-1)
  else i

/-- The square `r2` of the symmetrised radius of the local cell `(i0, i1, i2)` in
`cmpt_Green_3D_3dirunbounded_0dirspectral` (lines 121 to 136); `istart` is the result of
`get_istart_glob`. -/
def green3dRadiusSq {R : Type} [Field R] (hfact : Fin 3 → R) (symstart istart : Fin 3 → Int)
    (ax0 : Fin 3) (i0 i1 i2 : Nat) : R :=
  let ax1 := ax0 + 1
  let ax2 := ax0 + 2
  let ie0 := istart ax0 + (i0 : Int)
  let ie1 := istart ax1 + (i1 : Int)
  let ie2 := istart ax2 + (i2 : Int)
  let is0 := symUnbounded (symstart ax0) ie0
  let is1 := symUnbounded (symstart ax1) ie1
  let is2 := symUnbounded (symstart ax2) ie2
  let x0 := (is0 : R) * hfact ax0
  let x1 := (is1 : R) * hfact ax1
  let x2 := (is2 : R) * hfact ax2
  x0 * x0 + x1 * x1 + x2 * x2

/-- The index `i0 + topo->nloc(ax0) * (i1 + i2 * topo->nloc(ax1))` of the local cell
`(i0, i1, i2)` in a real Green array (lines 138 and 509). -/
def greenFlatIndex (topo : Topology) (i0 i1 i2 : Nat) : Nat :=
  ((i0 : Int) + topo.nloc topo.axis * ((i1 : Int) + (i2 : Int) * topo.nloc (topo.axis + 1))).toNat

/-- The `switch (typeGreen)` of `cmpt_Green_3D_3dirunbounded_0dirspectral` (lines 89 to
112): the kernel `G` and the value `G0`, or the error raised for `LGF_2`. -/
def green3dUnbSwitch {R : Type} [Field R] [DecidableEq R] (m : MathFns R)
    (typeGreen : GreenType) (hfact : Fin 3 → R) (eps : R) :
    Except FlupsError ((R → R → R) × R) :=
  match typeGreen with
  | GreenType.HEJ_2 =>
    Except.ok (_hej_2 m, fdiv m m.sqrt2 (4 * eps * m.sqrt (m.pi * m.pi * m.pi)))
  | GreenType.HEJ_4 =>
    Except.ok (_hej_4 m, fdiv m (3 * m.sqrt2) (8 * eps * m.sqrt (m.pi * m.pi * m.pi)))
  | GreenType.HEJ_6 =>
    Except.ok (_hej_6 m, fdiv m (15 * m.sqrt2) (32 * eps * m.sqrt (m.pi * m.pi * m.pi)))
  | GreenType.CHAT_2 =>
    Except.ok (_chat_2 m,
      (1 / 2) * m.pow ((3 / 2) * c_1o2pi m * hfact 0 * hfact 1 * hfact 2) (2 / 3))
  | GreenType.LGF_2 => Except.error FlupsError.lgfNotImplemented

/-- The three nested loops of `cmpt_Green_3D_3dirunbounded_0dirspectral` (lines 117 to
144): every local cell receives `-G(r, eps)`. -/
def green3dUnbFill {R : Type} [Field R] (m : MathFns R) (G : R → R → R) (eps : R)
    (topo : Topology) (istart : Fin 3 → Int) (hfact : Fin 3 → R) (symstart : Fin 3 → Int)
    (green : Nat → R) : Nat → R :=
  forLoop (fun i2 g2 =>
    forLoop (fun i1 g1 =>
      forLoop (fun i0 g0 =>
        let r2 := green3dRadiusSq hfact symstart istart topo.axis i0 i1 i2
        let r := m.sqrt r2
        writeAt g0 (greenFlatIndex topo i0 i1 i2) (-(G r eps)))
        (topo.nloc topo.axis).toNat g1)
      (topo.nloc (topo.axis + 1)).toNat g2)
    (topo.nloc (topo.axis + 2)).toNat green

/-- `cmpt_Green_3D_3dirunbounded_0dirspectral`.  The macro `UP_CHECK0` is modelled as
`FLUPS_CHECK` and `UP_ERROR` as an abort; `istart` is the result of `get_istart_glob`. -/
def cmpt_Green_3D_3dirunbounded_0dirspectral {R : Type} [Field R] [DecidableEq R]
    (checks : Bool) (m : MathFns R) (istart : Fin 3 → Int) (topo : Topology)
    (hfact : Fin 3 → R) (symstart : Fin 3 → Int) (green : Nat → R) (typeGreen : GreenType)
    (alpha : R) : Except FlupsError (Nat → R) := do
  FLUPS_CHECK checks (!topo.isComplex) FlupsError.greenTopoComplex
  FLUPS_CHECK checks (decide (hfact 0 ≠ 0)) FlupsError.zeroSpacing
  FLUPS_CHECK checks (decide (hfact 1 ≠ 0)) FlupsError.zeroSpacing
  FLUPS_CHECK checks (decide (hfact 2 ≠ 0)) FlupsError.zeroSpacing
  let ax0 := topo.axis
  let ax1 := ax0 + 1
  let ax2 := ax0 + 2
  let eps := alpha * hfact 0
  let GG0 ← green3dUnbSwitch m typeGreen hfact eps
  let green1 := green3dUnbFill m GG0.1 eps topo istart hfact symstart green
  if istart ax0 = 0 ∧ istart ax1 = 0 ∧ istart ax2 = 0 then
    pure (writeAt green1 0 (-GG0.2))
  else
    pure green1

/-- The value `ksqr` of the local cell `(i0, i1, i2)` in
`cmpt_Green_3D_0dirunbounded_3dirspectral` (lines 452 to 468 and 491 to 507). -/
def green3dKsqr {R : Type} [Field R] (kfact : Fin 3 → R) (symstart istart : Fin 3 → Int)
    (ax0 : Fin 3) (i0 i1 i2 : Nat) : R :=
  let ax1 := ax0 + 1
  let ax2 := ax0 + 2
  let ie0 := istart ax0 + (i0 : Int)
  let ie1 := istart ax1 + (i1 : Int)
  let ie2 := istart ax2 + (i2 : Int)
  let is0 := symSpectral (symstart ax0) ie0
  let is1 := symSpectral (symstart ax1) ie1
  let is2 := symSpectral (symstart ax2) ie2
  let k0 := (is0 : R) * kfact ax0
  let k1 := (is1 : R) * kfact ax1
  let k2 := (is2 : R) * kfact ax2
  k0 * k0 + k1 * k1 + k2 * k2

/-- The body of the loop over `i0` in the complex branch of
`cmpt_Green_3D_0dirunbounded_3dirspectral` (lines 450 to 478), acting on `(mygreen, id)`. -/
def greenSpectralCell {R : Type} [Field R] [DecidableEq R] (m : MathFns R)
    (kfact : Fin 3 → R) (symstart istart : Fin 3 → Int) (ax0 : Fin 3) (i1 i2 : Nat) (i0 : Nat)
    (st : (Nat → R) × Nat) : (Nat → R) × Nat :=
  let ksqr := green3dKsqr kfact symstart istart ax0 i0 i1 i2
  let ooksqr := fdiv m 1 ksqr
  let g1 := writeAt st.1 (st.2 + 0) (-ooksqr)
  let g2 := writeAt g1 (st.2 + 1) 0
  (g2, st.2 + 2)

/-- The three nested loops of the complex branch of
`cmpt_Green_3D_0dirunbounded_3dirspectral` (lines 444 to 480), with `localindex_ao` as a
parameter. -/
def greenSpectralFillComplex {R : Type} [Field R] [DecidableEq R] (m : MathFns R)
    (localindex_ao : Int → Int → Int → Topology → Nat) (topo : Topology)
    (istart : Fin 3 → Int) (kfact : Fin 3 → R) (symstart : Fin 3 → Int) (green : Nat → R) :
    Nat → R :=
  forLoop (fun i2 g2 =>
    forLoop (fun i1 g1 =>
      let id := localindex_ao 0 i1 i2 topo
      (forLoop (greenSpectralCell m kfact symstart istart topo.axis i1 i2)
        (topo.nloc topo.axis).toNat (g1, id)).1)
      (topo.nloc (topo.axis + 1)).toNat g2)
    (topo.nloc (topo.axis + 2)).toNat green

/-- The three nested loops of the real branch of
`cmpt_Green_3D_0dirunbounded_3dirspectral` (lines 487 to 517). -/
def greenSpectralFillReal {R : Type} [Field R] [DecidableEq R] (m : MathFns R)
    (topo : Topology) (istart : Fin 3 → Int) (kfact : Fin 3 → R) (symstart : Fin 3 → Int)
    (green : Nat → R) : Nat → R :=
  forLoop (fun i2 g2 =>
    forLoop (fun i1 g1 =>
      forLoop (fun i0 g0 =>
        let ksqr := green3dKsqr kfact symstart istart topo.axis i0 i1 i2
        let ooksqr := fdiv m 1 ksqr
        writeAt g0 (greenFlatIndex topo i0 i1 i2) (-ooksqr))
        (topo.nloc topo.axis).toNat g1)
      (topo.nloc (topo.axis + 1)).toNat g2)
    (topo.nloc (topo.axis + 2)).toNat green

/-- `cmpt_Green_3D_0dirunbounded_3dirspectral`, with `localindex_ao` as a parameter and
`istart` the result of `get_istart_glob`. -/
def cmpt_Green_3D_0dirunbounded_3dirspectral {R : Type} [Field R] [DecidableEq R]
    (checks : Bool) (m : MathFns R) (localindex_ao : Int → Int → Int → Topology → Nat)
    (istart : Fin 3 → Int) (topo : Topology) (kfact : Fin 3 → R) (symstart : Fin 3 → Int)
    (green : Nat → R) (typeGreen : GreenType) (_alpha : R) : Except FlupsError (Nat → R) := do
  FLUPS_CHECK checks (decide (kfact 0 ≠ 0)) FlupsError.zeroSpacing
  FLUPS_CHECK checks (decide (kfact 1 ≠ 0)) FlupsError.zeroSpacing
  FLUPS_CHECK checks (decide (kfact 2 ≠ 0)) FlupsError.zeroSpacing
  let ax0 := topo.axis
  let ax1 := ax0 + 1
  let ax2 := ax0 + 2
  let G0 : R := 0
  match typeGreen with
  | GreenType.HEJ_2 => throw FlupsError.hejNotImplemented
  | GreenType.HEJ_4 => throw FlupsError.hejNotImplemented
  | GreenType.HEJ_6 => throw FlupsError.hejNotImplemented
  | GreenType.LGF_2 => throw FlupsError.lgfNotImplemented
  | GreenType.CHAT_2 =>
    if topo.nf = 2 then
      let green1 := greenSpectralFillComplex m localindex_ao topo istart kfact symstart green
      if istart ax0 = 0 ∧ istart ax1 = 0 ∧ istart ax2 = 0 then
        pure (writeAt (writeAt green1 0 (-G0)) 1 0)
      else
        pure green1
    else
      let green1 := greenSpectralFillReal m topo istart kfact symstart green
      if istart ax0 = 0 ∧ istart ax1 = 0 ∧ istart ax2 = 0 then
        pure (writeAt green1 0 (-G0))
      else
        pure green1

/-- The value `G0` at the origin as the specification words it. -/
def specG0 {R : Type} [Field R] [DecidableEq R] (m : MathFns R) (typeGreen : GreenType)
    (h_x h_y h_z eps : R) : R :=
  match typeGreen with
  | GreenType.CHAT_2 => (1 / 2) * m.pow ((3 / 2) * h_x * h_y * h_z / (2 * m.pi)) (2 / 3)
  | GreenType.HEJ_2 => fdiv m m.sqrt2 (4 * eps * m.sqrt (m.pi ^ 3))
  | GreenType.HEJ_4 => fdiv m (3 * m.sqrt2) (8 * eps * m.sqrt (m.pi ^ 3))
  | GreenType.HEJ_6 => fdiv m (15 * m.sqrt2) (32 * eps * m.sqrt (m.pi ^ 3))
  | GreenType.LGF_2 => 0

/-- The squared wave number `k0^2 + k1^2 + k2^2` of the local cell `(i0, i1, i2)` as the
specification words it: `k_d` is the symmetrised global index in direction `d`, by the
reflection rule of a spectral axis, times `kfact[d]`. -/
def specKsqr {R : Type} [Field R] (kfact : Fin 3 → R) (symstart istart : Fin 3 → Int)
    (ax0 : Fin 3) (i0 i1 i2 : Nat) : R :=
  ((specReflect AxisKind.spectral (symstart ax0) (istart ax0 + (i0 : Int)) : R)
      * kfact ax0) ^ 2
    + ((specReflect AxisKind.spectral (symstart (ax0 + 1)) (istart (ax0 + 1) + (i1 : Int)) : R)
      * kfact (ax0 + 1)) ^ 2
    + ((specReflect AxisKind.spectral (symstart (ax0 + 2)) (istart (ax0 + 2) + (i2 : Int)) : R)
      * kfact (ax0 + 2)) ^ 2

/-- The kernel attached to each Green type by the `switch` of
`cmpt_Green_3D_3dirunbounded_0dirspectral`. -/
def greenKernel {R : Type} [Field R] [DecidableEq R] (m : MathFns R) :
    GreenType → R → R → R
  | GreenType.HEJ_2 => _hej_2 m
  | GreenType.HEJ_4 => _hej_4 m
  | GreenType.HEJ_6 => _hej_6 m
  | _ => _chat_2 m

/-! ## SwitchTopoX_part.hpp, SwitchTopoX_isr.hpp, SwitchTopoX_stream.hpp -/

/-- `SwitchTopoX_part::need_send_buf`. -/
def SwitchTopoX_part.need_send_buf : Bool := true

/-- `SwitchTopoX_part::need_recv_buf`. -/
def SwitchTopoX_part.need_recv_buf : Bool := true

/-- `SwitchTopoX_isr::need_send_buf`. -/
def SwitchTopoX_isr.need_send_buf : Bool := false

/-- `SwitchTopoX_isr::need_recv_buf`. -/
def SwitchTopoX_isr.need_recv_buf : Bool := true

/-- `SwitchTopoX_stream::need_send_buf`. -/
def SwitchTopoX_stream.need_send_buf : Bool := false

/-- `SwitchTopoX_stream::need_recv_buf`. -/
def SwitchTopoX_stream.need_recv_buf : Bool := true

/-- `SwitchTopoX_stream::overlap_comm`. -/
def SwitchTopoX_stream.overlap_comm : Bool := true

/-! ## ji0.hpp -/

/-- `#define N_KEPT 50`. -/
def N_KEPT : Nat := 50

/-- `#define C_GAMMA 0.5772156649015328606`. -/
def C_GAMMA {R : Type} [Field R] : R := 5772156649015328606 / 10000000000000000000

/-- The body of the loop of `init_Ji0` for `i = k + 1` (lines 50 and 51):
`inv_f_sqr[i] = inv_f_sqr[i - 1] * i;`
`inv_f_sqr[i - 1] = 1 / (inv_f_sqr[i - 1] * inv_f_sqr[i - 1]);`.  The `long double`
values are taken in exact arithmetic. -/
def initJi0Step {R : Type} [Field R] [DecidableEq R] (m : MathFns R) (k : Nat)
    (inv_f_sqr : Nat → R) : Nat → R :=
  let i := k + 1
  let t1 := writeAt inv_f_sqr i (inv_f_sqr (i - 1) * (i : R))
  writeAt t1 (i - 1) (fdiv m 1 (t1 (i - 1) * t1 (i - 1)))

/-- `init_Ji0`, acting on the static array `inv_f_sqr`: the loop runs for
`i = 1 .. N_KEPT`. -/
def init_Ji0 {R : Type} [Field R] [DecidableEq R] (m : MathFns R) (inv_f_sqr : Nat → R) :
    Nat → R :=
  let t0 := writeAt inv_f_sqr 0 1
  let t1 := forLoop (initJi0Step m) N_KEPT t0
  writeAt t1 N_KEPT (fdiv m 1 (t1 N_KEPT * t1 N_KEPT))

/-- The body of the loop of `Ji0c` at its iteration number `k`, where `n = N_KEPT - k`
(the loop runs for `n = N_KEPT` down to 1):
`val -= pow(-(.25 * x * x), n) * inv_f_sqr[n] / n * .5;`. -/
def ji0cStep {R : Type} [Field R] [DecidableEq R] (m : MathFns R) (inv_f_sqr : Nat → R)
    (x : R) (k : Nat) (val : R) : R :=
  let n := N_KEPT - k
  val - fdiv m ((-(1 / 4 * x * x)) ^ n * inv_f_sqr n) (n : R) * (1 / 2)

/-- `Ji0c`, reading the static array `inv_f_sqr`. -/
def Ji0c {R : Type} [Field R] [DecidableEq R] (m : MathFns R) (inv_f_sqr : Nat → R) (x : R) :
    R :=
  forLoop (ji0cStep m inv_f_sqr x) N_KEPT 0

/-- `Ji0`; `log` is the logarithm of the C library. -/
def Ji0 {R : Type} [Field R] [DecidableEq R] (m : MathFns R) (log : R → R)
    (inv_f_sqr : Nat → R) (x : R) : R :=
  -(Ji0c m inv_f_sqr x) + log (x / 2) + C_GAMMA

/-! ## Topology.cpp: `change_comm` -/

/-- The values `_nloc[id]` and `_nmem[id]` that `Topology::change_comm` recomputes in one
direction (lines 140 to 158) from the members of the topology and the new coordinate
`rankd`. -/
def changeCommDimSizes (id axis : Fin 3) (nf alignment nglob nproc nbyproc rankd : Int) :
    Int × Int :=
  if rankd < nproc - 1 then
    (nbyproc, nbyproc)
  else
    let nloc := max nbyproc (nglob - nbyproc * rankd)
    if id = axis then
      let modulo := padModulo nglob nf alignment
      let delta := padDelta alignment modulo
      (nloc, nloc + (if modulo = 0 then 0 else Int.tdiv delta nf))
    else
      (nloc, nloc)

/-- `Topology::change_comm`.  The new communicator enters through `rankd`, the coordinates
received through MPI from the rank that the calling process becomes. -/
def Topology.change_comm (self : Topology) (rankd : Fin 3 → Int) : Topology :=
  { self with
    rankd := rankd
    nloc := (fun id => (changeCommDimSizes id self.axis self.nf self.alignment (self.nglob id)
      (self.nproc id) (self.nbyproc id) (rankd id)).1)
    nmem := (fun id => (changeCommDimSizes id self.axis self.nf self.alignment (self.nglob id)
      (self.nproc id) (self.nbyproc id) (rankd id)).2) }

/-! ## Solver.cpp: `_scaleGreenFunction` -/

/-- The body of the loop over `i0` in `_scaleGreenFunction`:
`data[id + i0] = data[id + i0] * _volfact`. -/
def scaleCell {R : Type} [Mul R] (volfact : R) (id : Nat) (i0 : Nat) (data : Nat → R) :
    Nat → R :=
  writeAt data (id + i0) (data (id + i0) * volfact)

/-- `Solver::_scaleGreenFunction`, with `localindex_ao` as a parameter and `istart` the
result of `get_istart_glob`. -/
def Solver._scaleGreenFunction {R : Type} [Mul R] [Zero R] (s : Solver R)
    (localindex_ao : Int → Int → Int → Topology → Nat) (istart : Fin 3 → Int)
    (topo : Topology) (data : Nat → R) (killModeZero : Bool) : Nat → R :=
  let ax0 := topo.axis
  let ax1 := ax0 + 1
  let ax2 := ax0 + 2
  let data1 := forLoop (fun i2 d2 =>
    forLoop (fun i1 d1 =>
      let id := localindex_ao 0 i1 i2 topo
      forLoop (scaleCell s.volfact id) (topo.nloc ax0 * topo.nf).toNat d1)
      (topo.nloc ax1).toNat d2)
    (topo.nloc ax2).toNat data
  if killModeZero then
    if istart ax0 = 0 ∧ istart ax1 = 0 ∧ istart ax2 = 0 then
      forLoop (fun i0 d => writeAt d i0 0) topo.nf.toNat data1
    else
      data1
  else
    data1

/-! ## Green_functions_3d.cpp: the routines with one and two spectral directions -/

/-- `cmpt_Green_3D_2dirunbounded_1dirspectral`: its checks and its `switch (typeGreen)`
(lines 162 to 206).  The loops that follow (lines 208 to 277), which contain no check and
raise no error, enter as the function `loops`. -/
def cmpt_Green_3D_2dirunbounded_1dirspectral {R : Type} [Field R] [DecidableEq R]
    (checks : Bool)
    (loops : Topology → (Fin 3 → R) → (Fin 3 → R) → (Fin 3 → Int) → (Nat → R) → (Nat → R))
    (topo : Topology) (hfact kfact : Fin 3 → R) (symstart : Fin 3 → Int) (green : Nat → R)
    (typeGreen : GreenType) (_alpha : R) : Except FlupsError (Nat → R) := do
  let ax0 := topo.axis
  let ax1 := ax0 + 1
  let ax2 := ax0 + 2
  FLUPS_CHECK checks (decide (kfact ax0 ≠ 0)) FlupsError.zeroSpacing
  FLUPS_CHECK checks (decide (hfact ax1 ≠ 0)) FlupsError.zeroSpacing
  FLUPS_CHECK checks (decide (hfact ax2 ≠ 0)) FlupsError.zeroSpacing
  FLUPS_CHECK checks (decide (hfact ax0 = 0)) FlupsError.spacingNotZero
  FLUPS_CHECK checks (decide (kfact ax1 = 0)) FlupsError.spacingNotZero
  FLUPS_CHECK checks (decide (kfact ax2 = 0)) FlupsError.spacingNotZero
  match typeGreen with
  | GreenType.HEJ_2 => throw FlupsError.hejNotImplemented
  | GreenType.HEJ_4 => throw FlupsError.hejNotImplemented
  | GreenType.HEJ_6 => throw FlupsError.hejNotImplemented
  | GreenType.LGF_2 => throw FlupsError.lgfNotImplemented
  | GreenType.CHAT_2 => pure (loops topo hfact kfact symstart green)

/-- `cmpt_Green_3D_1dirunbounded_2dirspectral`: its checks and its `switch (typeGreen)`
(lines 280 to 325).  The loops that follow (lines 327 to 383), which contain no check and
raise no error, enter as the function `loops`. -/
def cmpt_Green_3D_1dirunbounded_2dirspectral {R : Type} [Field R] [DecidableEq R]
    (checks : Bool)
    (loops : Topology → (Fin 3 → R) → (Fin 3 → R) → (Fin 3 → Int) → (Nat → R) → (Nat → R))
    (topo : Topology) (hfact kfact : Fin 3 → R) (symstart : Fin 3 → Int) (green : Nat → R)
    (typeGreen : GreenType) (_alpha : R) : Except FlupsError (Nat → R) := do
  let ax0 := topo.axis
  let ax1 := ax0 + 1
  let ax2 := ax0 + 2
  FLUPS_CHECK checks (decide (kfact ax0 = 0)) FlupsError.spacingNotZero
  FLUPS_CHECK checks (decide (kfact ax1 ≠ 0)) FlupsError.zeroSpacing
  FLUPS_CHECK checks (decide (kfact ax2 ≠ 0)) FlupsError.zeroSpacing
  FLUPS_CHECK checks (decide (hfact ax0 ≠ 0)) FlupsError.zeroSpacing
  FLUPS_CHECK checks (decide (hfact ax1 = 0)) FlupsError.spacingNotZero
  FLUPS_CHECK checks (decide (hfact ax2 = 0)) FlupsError.spacingNotZero
  match typeGreen with
  | GreenType.HEJ_2 => throw FlupsError.hejNotImplemented
  | GreenType.HEJ_4 => throw FlupsError.hejNotImplemented
  | GreenType.HEJ_6 => throw FlupsError.hejNotImplemented
  | GreenType.LGF_2 => throw FlupsError.lgfNotImplemented
  | GreenType.CHAT_2 => pure (loops topo hfact kfact symstart green)

/-! ## Solver.cpp: `_cmptGreenFunction` -/

/-- `#define GREEN_DIM 3` of `defines.hpp`. -/
def GREEN_DIM : Int := 3

/-- The position in a three-element array designated by an `int` index.  The indices used
are values of `dimID()`, which lie in `0 .. 2`; any other value (an access out of bounds in
C) is read as 0. -/
def dimOf (i : Int) : Fin 3 := if i = 1 then 1 else if i = 2 then 2 else 0

/-- The local arrays `isSpectral`, `hfact`, `kfact`, `koffset` and `symstart` of
`_cmptGreenFunction`. -/
structure GreenArrays (R : Type) where
  isSpectral : Fin 3 → Bool
  hfact : Fin 3 → R
  kfact : Fin 3 → R
  koffset : Fin 3 → R
  symstart : Fin 3 → Int

/-- The collaborators of `Solver::_cmptGreenFunction` whose code is not part of the sources
at hand: `localindex_ao` and `get_istart_glob`, the loops of the routines with one and two
spectral directions, the executions of the Green remaps and transforms,
`Topology::switch2complex`, and the overload of `cmpt_Green_3D_0dirunbounded_3dirspectral`
that takes `istart` and `ishift`. -/
structure GreenExt (R : Type) where
  localindex_ao : Int → Int → Int → Topology → Nat
  get_istart_glob : Topology → Fin 3 → Int
  loops_2dirunbounded :
    Topology → (Fin 3 → R) → (Fin 3 → R) → (Fin 3 → Int) → (Nat → R) → (Nat → R)
  loops_1dirunbounded :
    Topology → (Fin 3 → R) → (Fin 3 → R) → (Fin 3 → Int) → (Nat → R) → (Nat → R)
  switchtopo_green_execute : Fin 3 → (Nat → R) → Int → (Nat → R)
  plan_green_execute : Fin 3 → (Nat → R) → (Nat → R)
  switch2complex : Topology → Topology
  green_0dirunbounded_shifted : Topology → (Fin 3 → R) → (Fin 3 → R) → (Fin 3 → Int) →
    (Nat → R) → GreenType → R → (Fin 3 → Int) → (Fin 3 → Int) → Except FlupsError (Nat → R)

/-- One iteration of the first loop over `ip` of `_cmptGreenFunction` (lines 468 to 482);
`kfact ip` and `koffset ip` are the values of `planmap[ip]->kfact()` and
`planmap[ip]->koffset()`. -/
def cmptGreenArraysStep {R : Type} [Zero R] (hgrid : Fin 3 → R)
    (planmap : Fin 3 → FFTW_plan_dim) (kfact koffset : Fin 3 → R) (a : GreenArrays R)
    (ip : Fin 3) : GreenArrays R :=
  let dimID := dimOf (planmap ip).dimID
  let a1 : GreenArrays R :=
    { isSpectral := set3 a.isSpectral dimID (planmap ip).isSpectral
      symstart := set3 a.symstart dimID (planmap ip).symstart
      hfact := set3 a.hfact dimID (hgrid dimID)
      kfact := set3 a.kfact dimID 0
      koffset := set3 a.koffset dimID 0 }
  if a1.isSpectral dimID then
    { a1 with
      hfact := set3 a1.hfact dimID 0
      kfact := set3 a1.kfact dimID (kfact ip)
      koffset := set3 a1.koffset dimID (koffset ip) }
  else
    a1

/-- The arrays after the first loop of `_cmptGreenFunction`; `a0` holds the values of the
arrays that the function declares without initialising them (`isSpectral` is initialised to
`false`). -/
def cmptGreenArrays {R : Type} [Zero R] (hgrid : Fin 3 → R)
    (planmap : Fin 3 → FFTW_plan_dim) (kfact koffset : Fin 3 → R) (a0 : GreenArrays R) :
    GreenArrays R :=
  List.foldl (cmptGreenArraysStep hgrid planmap kfact koffset)
    { a0 with isSpectral := fun _ => false } [0, 1, 2]

/-- The count `nbr_spectral` of `_cmptGreenFunction` (lines 485 to 488). -/
def cmptGreenNbrSpectral (isSpectral : Fin 3 → Bool) : Int :=
  List.foldl (fun n id => if isSpectral id then n + 1 else n) 0 [0, 1, 2]

/-- The first part of `Solver::_cmptGreenFunction` (lines 450 to 512): the smoothing length,
the check of the spacings, the arrays and the call of the fill routine.  The members
`_alphaGreen`, `_hgrid` and `_typeGreen` enter as arguments.  `FLUPS_ERROR` aborts whether
checks are compiled in or not.  The calls are bound here to the routines of
`Green_functions_3d.cpp`, which take no `koffset` and whose last argument is a smoothing
parameter; `Solver._cmptGreenFunction_call` leaves the routines called as parameters. -/
def Solver._cmptGreenFunction_fill {R : Type} [Field R] [DecidableEq R] (checks : Bool)
    (m : MathFns R) (ext : GreenExt R) (alphaGreen : R) (hgrid : Fin 3 → R)
    (typeGreen : GreenType) (topo : Fin 3 → Topology) (green : Nat → R)
    (planmap : Fin 3 → FFTW_plan_dim) (kfact koffset : Fin 3 → R) (a0 : GreenArrays R) :
    Except FlupsError (Nat → R) := do
  let epsilon := alphaGreen * hgrid 0
  if (typeGreen = GreenType.HEJ_2 ∨ typeGreen = GreenType.HEJ_4 ∨ typeGreen = GreenType.HEJ_6)
      ∧ (hgrid 0 ≠ hgrid 1 ∨ hgrid 1 ≠ hgrid 2) then
    throw FlupsError.anisotropicSpacing
  let a := cmptGreenArrays hgrid planmap kfact koffset a0
  let nbr_spectral := cmptGreenNbrSpectral a.isSpectral
  if GREEN_DIM = 3 then
    if nbr_spectral = 0 then
      cmpt_Green_3D_3dirunbounded_0dirspectral checks m (ext.get_istart_glob (topo 0))
        (topo 0) a.hfact a.symstart green typeGreen epsilon
    else if nbr_spectral = 1 then
      cmpt_Green_3D_2dirunbounded_1dirspectral checks ext.loops_2dirunbounded (topo 0)
        a.hfact a.kfact a.symstart green typeGreen epsilon
    else if nbr_spectral = 2 then
      cmpt_Green_3D_1dirunbounded_2dirspectral checks ext.loops_1dirunbounded (topo 0)
        a.hfact a.kfact a.symstart green typeGreen epsilon
    else if nbr_spectral = 3 then
      cmpt_Green_3D_0dirunbounded_3dirspectral checks m ext.localindex_ao
        (ext.get_istart_glob (topo 0)) (topo 0) a.kfact a.symstart green typeGreen epsilon
    else
      pure green
  else
    throw FlupsError.green2dNotProvided

/-- One iteration of the second loop over `ip` of `_cmptGreenFunction` (lines 522 to 538),
acting on the Green array and the topologies. -/
def cmptGreenTransformStep {R : Type} (ext : GreenExt R) (s : Solver R)
    (planmap : Fin 3 → FFTW_plan_dim) (isSpectral : Fin 3 → Bool)
    (st : (Nat → R) × (Fin 3 → Topology)) (ip : Fin 3) : (Nat → R) × (Fin 3 → Topology) :=
  let dimID := dimOf (planmap ip).dimID
  let g1 := if 0 < ip.val then ext.switchtopo_green_execute ip st.1 FLUPS_FORWARD else st.1
  let g2 := if !isSpectral dimID then ext.plan_green_execute ip g1 else g1
  let t2 := if (s.plan_green ip).isr2c_green then
    set3 st.2 ip (ext.switch2complex (st.2 ip)) else st.2
  (g2, t2)

/-- The arrays `istart`, `ishift` and `kfact` of the last block of `_cmptGreenFunction`
(lines 549 to 557). -/
def cmptGreenShiftArrays {R : Type} (s : Solver R) (planmap : Fin 3 → FFTW_plan_dim)
    (kfact : Fin 3 → R) (isSpectral : Fin 3 → Bool)
    (st : (Fin 3 → Int) × (Fin 3 → Int) × (Fin 3 → R)) (ip : Fin 3) :
    (Fin 3 → Int) × (Fin 3 → Int) × (Fin 3 → R) :=
  let dimID := dimOf (planmap ip).dimID
  (set3 st.1 dimID (if isSpectral dimID then 1 - (s.plan_green 2).shiftgreen else 0),
    set3 st.2.1 dimID (if isSpectral dimID then 0 else (s.plan_green dimID).shiftgreen),
    set3 st.2.2 dimID (kfact ip))

/-- `Solver::_cmptGreenFunction`: the fill, the remaps and transforms, the scaling and the
completion for the regularised kernels with one spectral direction.  It returns the Green
array and the topologies.  The dumps to file are left out. -/
def Solver._cmptGreenFunction {R : Type} [Field R] [DecidableEq R] (checks : Bool)
    (m : MathFns R) (ext : GreenExt R) (s : Solver R) (alphaGreen : R) (hgrid : Fin 3 → R)
    (typeGreen : GreenType) (topo : Fin 3 → Topology) (green : Nat → R)
    (planmap : Fin 3 → FFTW_plan_dim) (kfact koffset : Fin 3 → R) (a0 : GreenArrays R) :
    Except FlupsError ((Nat → R) × (Fin 3 → Topology)) := do
  let epsilon := alphaGreen * hgrid 0
  let a := cmptGreenArrays hgrid planmap kfact koffset a0
  let nbr_spectral := cmptGreenNbrSpectral a.isSpectral
  let green1 ← Solver._cmptGreenFunction_fill checks m ext alphaGreen hgrid typeGreen topo
    green planmap kfact koffset a0
  let st := List.foldl (cmptGreenTransformStep ext s planmap a.isSpectral) (green1, topo)
    [0, 1, 2]
  let green2 := s._scaleGreenFunction ext.localindex_ao (ext.get_istart_glob (st.2 2))
    (st.2 2) st.1 false
  if GREEN_DIM = 3 ∧ nbr_spectral = 1 ∧ (typeGreen = GreenType.HEJ_2 ∨
      typeGreen = GreenType.HEJ_4 ∨ typeGreen = GreenType.HEJ_6) then
    let sh := List.foldl (cmptGreenShiftArrays s planmap kfact a.isSpectral)
      (fun _ => 0, fun _ => 0, a.kfact) [0, 1, 2]
    let green3 ← ext.green_0dirunbounded_shifted (st.2 2) sh.2.2 a.koffset a.symstart green2
      typeGreen epsilon sh.1 sh.2.1
    pure (green3, st.2)
  else
    pure (green2, st.2)

/-- The arguments with which a `SwitchTopo` is constructed: the input and output topologies,
as they are at the time of the call, and the shift. -/
structure SwitchTopo where
  topo_in : Topology
  topo_out : Topology
  shift : Fin 3 → Int

/-- The collaborators of `Solver::_init_plansAndTopos` whose code is not part of the sources
at hand: `FFTW_plan_dim::init`, `_pencil_nproc`, the coordinates that `ranksplit` gives to
the calling process in a process grid, the default alignment of the `Topology` constructor,
and the methods `switch2real()` and `switch2complex()` of `Topology`. -/
structure DryRunExt where
  init : FFTW_plan_dim → (Fin 3 → Int) → Bool → FFTW_plan_dim
  pencil_nproc : Int → Int → Fin 3 → Int
  rankd : (Fin 3 → Int) → Fin 3 → Int
  alignment : Int
  switch2real : Topology → Topology
  switch2complex : Topology → Topology

/-- The variables of `_init_plansAndTopos`: the arrays `planmap`, `topomap` and
`switchtopo`, and the locals `size_tmp`, `isComplex` and `current_topo` (a pointer that may
be `NULL`). -/
structure DryRunState where
  planmap : Fin 3 → FFTW_plan_dim
  topomap : Fin 3 → Option Topology
  switchtopo : Fin 3 → Option SwitchTopo
  size_tmp : Fin 3 → Int
  isComplex : Bool
  current_topo : Option Topology

/-- One iteration of the forward loop of `_init_plansAndTopos` (lines 262 to 306).
`hasTopomap` and `hasSwitchtopo` tell whether the pointers `topomap` and `switchtopo` are
not `NULL`; `comm_size` is `topo->comm_size()`. -/
def dryRunForwardStep (checks : Bool) (ext : DryRunExt) (comm_size : Int)
    (isGreen hasTopomap hasSwitchtopo : Bool) (st : DryRunState) (ip : Fin 3) :
    Except FlupsError DryRunState := do
  let p := ext.init (st.planmap ip) st.size_tmp st.isComplex
  let dimID := dimOf p.dimID
  let size1 := set3 st.size_tmp dimID p.n_out
  let isComplex := st.isComplex || p.isr2c
  let size2 := if isGreen && p.ignoreMode then set3 size1 dimID (size1 dimID - 1) else size1
  let st1 : DryRunState :=
    { st with planmap := set3 st.planmap ip p, size_tmp := size2, isComplex := isComplex }
  if !isGreen && hasTopomap && hasSwitchtopo then
    let nproc := ext.pencil_nproc p.dimID comm_size
    let t ← Topology.new checks dimID size2 nproc isComplex none ext.alignment comm_size
      (ext.rankd nproc)
    let fieldstart : Fin 3 → Int := set3 (fun _ => 0) dimID p.fieldstart
    match st.current_topo with
    | none => throw FlupsError.uninitialisedRead
    | some cur =>
      if p.isr2c then
        let t1 := ext.switch2real t
        let sw : SwitchTopo := { topo_in := cur, topo_out := t1, shift := fieldstart }
        let t2 := ext.switch2complex t1
        pure { st1 with
          topomap := set3 st.topomap ip (some t2)
          switchtopo := set3 st.switchtopo ip (some sw)
          current_topo := some t2 }
      else
        let sw : SwitchTopo := { topo_in := cur, topo_out := t, shift := fieldstart }
        pure { st1 with
          topomap := set3 st.topomap ip (some t)
          switchtopo := set3 st.switchtopo ip (some sw)
          current_topo := some t }
  else
    pure st1

/-- The checks and the remap of one iteration of the backward loop (lines 336 to 351), for
`ip < 2`: `t` is the topology just created for the plan `ip`. -/
def dryRunReverseSwitch (checks : Bool) (st : DryRunState) (ip : Fin 3) (t : Topology) :
    Except FlupsError (Fin 3 → Option SwitchTopo) := do
  let p := st.planmap ip
  let dimID := dimOf p.dimID
  let q := st.planmap (ip + 1)
  let fieldstart : Fin 3 → Int := set3 (fun _ => 0) (dimOf q.dimID) q.fieldstart
  let shift := p.shiftgreen
  if !p.ignoreMode then
    FLUPS_CHECK checks (decide (shift = 0)) FlupsError.shiftWithoutIgnoredMode
  else
    match st.current_topo with
    | none => throw FlupsError.uninitialisedRead
    | some cur =>
      FLUPS_CHECK checks (decide (t.nglob dimID - 1 = cur.nglob dimID - fieldstart dimID))
        FlupsError.copyTooManyNodes
  let fieldstart2 := set3 fieldstart dimID (-shift)
  match st.current_topo with
  | none => throw FlupsError.uninitialisedRead
  | some cur =>
    pure (set3 st.switchtopo (ip + 1)
      (some { topo_in := t, topo_out := cur, shift := fieldstart2 }))

/-- One iteration of the backward loop of `_init_plansAndTopos` for Green (lines 319 to
364). -/
def dryRunReverseStep (checks : Bool) (ext : DryRunExt) (comm_size : Int)
    (st : DryRunState) (ip : Fin 3) : Except FlupsError DryRunState := do
  let p := st.planmap ip
  let dimID := dimOf p.dimID
  let nproc := ext.pencil_nproc p.dimID comm_size
  let size1 := if p.ignoreMode then set3 st.size_tmp dimID (st.size_tmp dimID + 1)
    else st.size_tmp
  let t ← Topology.new checks dimID size1 nproc st.isComplex none ext.alignment comm_size
    (ext.rankd nproc)
  let switchtopo ← if ip.val < 2 then dryRunReverseSwitch checks st ip t
    else pure st.switchtopo
  if p.isr2c_green then
    pure { st with
      topomap := set3 st.topomap ip (some (ext.switch2real t))
      switchtopo := switchtopo
      size_tmp := set3 size1 dimID (size1 dimID * 2)
      isComplex := false
      current_topo := some (ext.switch2real t) }
  else
    pure { st with
      topomap := set3 st.topomap ip (some t)
      switchtopo := switchtopo
      size_tmp := size1
      current_topo := some t }

/-- One iteration of the last loop of `_init_plansAndTopos` (lines 383 to 387). -/
def dryRunResetStep (ext : DryRunExt) (isGreen hasTopomap : Bool) (st : DryRunState)
    (ip : Fin 3) : DryRunState :=
  if !isGreen && (st.planmap ip).isr2c && hasTopomap then
    { st with topomap := set3 st.topomap ip (Option.map ext.switch2real (st.topomap ip)) }
  else
    st

/-- `Solver::_init_plansAndTopos`: the forward dry run over the plans 0, 1, 2, the backward
walk over the plans 2, 1, 0 for Green, and the reset of the topologies.  It returns the
final values of its variables. -/
def Solver._init_plansAndTopos (checks : Bool) (ext : DryRunExt) (comm_size : Int)
    (topo : Topology) (topomap : Fin 3 → Option Topology)
    (switchtopo : Fin 3 → Option SwitchTopo) (planmap : Fin 3 → FFTW_plan_dim)
    (hasTopomap hasSwitchtopo isGreen : Bool) : Except FlupsError DryRunState := do
  let st0 : DryRunState :=
    { planmap := planmap
      topomap := topomap
      switchtopo := switchtopo
      size_tmp := topo.nglob
      isComplex := false
      current_topo := some topo }
  let st1 ← List.foldlM
    (dryRunForwardStep checks ext comm_size isGreen hasTopomap hasSwitchtopo) st0 [0, 1, 2]
  let st2 : DryRunState := { st1 with current_topo := none }
  let st3 ← if isGreen && hasTopomap && hasSwitchtopo then
      List.foldlM (dryRunReverseStep checks ext comm_size) st2 [2, 1, 0]
    else pure st2
  pure (List.foldl (dryRunResetStep ext isGreen hasTopomap) st3 [0, 1, 2])

/-! ## Example configurations -/

/-- Three plans in direction order, of type PERPER, without `imult` and without Green
shift. -/
def examplePlans : Fin 3 → FFTW_plan_dim := fun id =>
  { dimID := (id.val : Int), type := PlanType.PERPER, imult := false, shiftgreen := 0,
    isr2c := false }

/-- The topology built for `nglob = (65, 31, 127)` on `3 x 1 x 1` ranks with fast axis 1,
alignment 32 and real data, on the rank of coordinates `(r, 0, 0)`. -/
def exampleTopoRank (r : Nat) : Topology :=
  { nglob := ![65, 31, 127]
    nproc := ![3, 1, 1]
    axproc := fun id => (id.val : Int)
    rankd := ![(r : Int), 0, 0]
    nbyproc := ![21, 31, 127]
    nloc := ![if r < 2 then 21 else 23, 31, 127]
    nmem := ![if r < 2 then 21 else 23, 32, 127]
    axis := 1
    nf := 1
    alignment := 32 }

/-- The topology built for `nglob = (65, 31, 127)` on `3 x 1 x 1` ranks with fast axis 0
(the split direction), alignment 32 and real data, on the last rank `(2, 0, 0)`. -/
def exampleTopoSplitLast : Topology :=
  { nglob := ![65, 31, 127]
    nproc := ![3, 1, 1]
    axproc := fun id => (id.val : Int)
    rankd := ![2, 0, 0]
    nbyproc := ![21, 31, 127]
    nloc := ![23, 31, 127]
    nmem := ![26, 31, 127]
    axis := 0
    nf := 1
    alignment := 32 }

/-- A pencil of `nglob = (8, 4, 4)` on `2 x 1 x 1` ranks with fast axis 1, on the rank
`(0, 0, 0)`, which owns the indices `0 .. 3` of direction 0. -/
def exampleTopoWide : Topology :=
  { nglob := ![8, 4, 4]
    nproc := ![2, 1, 1]
    axproc := fun id => (id.val : Int)
    rankd := ![0, 0, 0]
    nbyproc := ![4, 4, 4]
    nloc := ![4, 4, 4]
    nmem := ![4, 4, 4]
    axis := 1
    nf := 1
    alignment := 32 }

/-- A pencil of `nglob = (4, 4, 4)` on `2 x 1 x 1` ranks with fast axis 1, on the rank
`(0, 0, 0)`. -/
def exampleTopoNarrow : Topology :=
  { nglob := ![4, 4, 4]
    nproc := ![2, 1, 1]
    axproc := fun id => (id.val : Int)
    rankd := ![0, 0, 0]
    nbyproc := ![2, 4, 4]
    nloc := ![2, 4, 4]
    nmem := ![2, 4, 4]
    axis := 1
    nf := 1
    alignment := 32 }

/-- An index function of the kind that `localindex_ao` stands for, used in the examples:
the pencils along the fast axis follow each other in memory, `nmem(ax0) * nf` doubles
apart. -/
def exampleLocalIndex (i0 i1 i2 : Int) (topo : Topology) : Nat :=
  (i0 * topo.nf + topo.nmem topo.axis * topo.nf * (i1 + topo.nmem (topo.axis + 1) * i2)).toNat

/-- A complex topology of `nglob = (2, 2, 1)` on one rank with fast axis 0. -/
def exampleSpectralTopo : Topology :=
  { nglob := ![2, 2, 1]
    nproc := ![1, 1, 1]
    axproc := fun id => (id.val : Int)
    rankd := ![0, 0, 0]
    nbyproc := ![2, 2, 1]
    nloc := ![2, 2, 1]
    nmem := ![2, 2, 1]
    axis := 0
    nf := 2
    alignment := 32 }

/-- A solver state over the integers whose last spectral topology is
`exampleSpectralTopo`, with `normfact = 3`, the data `j + 1` and the Green value `2 j + 1`
at the double of index `j`, and the given `nbr_imult`. -/
def exampleSolver (nbr_imult : Int) : Solver Int :=
  { topo_hat := fun _ => exampleSpectralTopo
    topo_green := fun _ => exampleSpectralTopo
    plan_forward := examplePlans
    plan_backward := examplePlans
    plan_green := examplePlans
    normfact := 3
    volfact := 1
    nbr_imult := nbr_imult
    green := fun j => 2 * (j : Int) + 1
    data := fun j => (j : Int) + 1 }

/-- An accessor of the kind that `locmemsize()` stands for, used in the examples: the number
of doubles `nmem[0] * nmem[1] * nmem[2] * nf` of the local memory block. -/
def exampleLocmemsize (topo : Topology) : Nat :=
  (topo.nmem 0 * topo.nmem 1 * topo.nmem 2 * topo.nf).toNat

/-- A method of the kind that `switch2complex()` stands for, used in the examples: a real
topology becomes complex and its extents along the fast axis are halved. -/
def exampleSwitch2complex (topo : Topology) : Topology :=
  if topo.nf = 1 then
    { topo with
      nf := 2
      nglob := set3 topo.nglob topo.axis (Int.tdiv (topo.nglob topo.axis) 2)
      nloc := set3 topo.nloc topo.axis (Int.tdiv (topo.nloc topo.axis) 2)
      nmem := set3 topo.nmem topo.axis (Int.tdiv (topo.nmem topo.axis) 2) }
  else topo

/-- A method of the kind that `switch2real()` stands for, used in the examples: a complex
topology becomes real and its extents along the fast axis are doubled. -/
def exampleSwitch2real (topo : Topology) : Topology :=
  if topo.nf = 2 then
    { topo with
      nf := 1
      nglob := set3 topo.nglob topo.axis (topo.nglob topo.axis * 2)
      nloc := set3 topo.nloc topo.axis (topo.nloc topo.axis * 2)
      nmem := set3 topo.nmem topo.axis (topo.nmem topo.axis * 2) }
  else topo

/-- Collaborators for the examples, over the integers: the remap `ip` negates the buffer in
both directions, the forward transform `ip` adds `ip + 1` to every double and the backward
transform subtracts it. -/
def exampleExt : SolveExt Int :=
  { localindex_ao := exampleLocalIndex
    locmemsize := exampleLocmemsize
    switch2complex := exampleSwitch2complex
    switch2real := exampleSwitch2real
    switchtopo_execute := fun _ d _ => fun j => - d j
    plan_forward_execute := fun ip d => fun j => d j + ((ip.val : Int) + 1)
    plan_backward_execute := fun ip d => fun j => d j - ((ip.val : Int) + 1) }

/-- The real topology of `nglob = (3, 3, 3)` on one rank with fast axis 0 and alignment 64:
its pencils of 3 doubles are padded to 8 doubles. -/
def exampleTopoUser : Topology :=
  { nglob := ![3, 3, 3]
    nproc := ![1, 1, 1]
    axproc := fun id => (id.val : Int)
    rankd := ![0, 0, 0]
    nbyproc := ![3, 3, 3]
    nloc := ![3, 3, 3]
    nmem := ![8, 3, 3]
    axis := 0
    nf := 1
    alignment := 64 }

/-- The real pencil of `nglob = (3, 3, 3)` on one rank with fast axis `d` and alignment 32:
its pencils of 3 doubles are padded to 4 doubles. -/
def exampleTopoHat (d : Fin 3) : Topology :=
  { nglob := ![3, 3, 3]
    nproc := ![1, 1, 1]
    axproc := fun id => (id.val : Int)
    rankd := ![0, 0, 0]
    nbyproc := ![3, 3, 3]
    nloc := ![3, 3, 3]
    nmem :=
      match d with
      | 0 => ![4, 3, 3]
      | 1 => ![3, 4, 3]
      | 2 => ![3, 3, 4]
    axis := d
    nf := 1
    alignment := 32 }

/-- Three plans in direction order of which the first is the real-to-complex one. -/
def exampleR2CPlans : Fin 3 → FFTW_plan_dim := fun id =>
  { dimID := (id.val : Int), type := PlanType.PERPER, imult := false, shiftgreen := 0,
    isr2c := decide (id = 0) }

/-- A solver state over the integers whose convolution step is the identity: `normfact = 1`
and the Green function is `1 + 0 i` in every complex cell; the first plan is real-to-complex,
its topology is the real pencil `exampleTopoHat 0` and the two others are the complex
topology `exampleSpectralTopo`. -/
def exampleIdentitySolver : Solver Int :=
  { topo_hat := ![exampleTopoHat 0, exampleSpectralTopo, exampleSpectralTopo]
    topo_green := fun _ => exampleSpectralTopo
    plan_forward := exampleR2CPlans
    plan_backward := exampleR2CPlans
    plan_green := exampleR2CPlans
    normfact := 1
    volfact := 1
    nbr_imult := 0
    green := fun j => if j % 2 = 0 then 1 else 0
    data := fun _ => 7 }

/-- The result of `solve` with checks enabled on `exampleIdentitySolver`, for the input
topology `exampleTopoUser`, the right-hand side `j + 5` and a zero `field`. -/
def exampleSolveResult : Solver Int × (Nat → Int) :=
  match Solver.solve true exampleExt exampleTopoUser (fun _ => 0) (fun j => (j : Int) + 5)
    SolverType.SRHS exampleIdentitySolver with
  | Except.ok r => r
  | Except.error _ => (exampleIdentitySolver, fun _ => 0)

/-- Rational stand-ins for the constants and functions of the C math library, used to
evaluate the Green routines on examples: `pi = 22/7`, `sqrt2 = 7/5`, one Newton step from 1
for `sqrt` (with `sqrt 0 = 0`), crude values for `pow`, `exp` and `erf`, and the
recognisable value `1000000` for the result of a division by zero. -/
def exampleMath : MathFns ℚ :=
  { pi := 22 / 7
    sqrt2 := 7 / 5
    sqrt := fun x => if x = 0 then 0 else (x + 1) / 2
    pow := fun x _ => x
    exp := fun x => 1 + x
    erf := fun x => x
    divZero := fun _ => 1000000 }

/-- The grid spacings `(1, 1/2, 1/4)`. -/
def exampleHfact : Fin 3 → ℚ := ![1, 1 / 2, 1 / 4]

/-- A symmetry in direction 0 around the index 1, none in the other directions. -/
def exampleSymstart : Fin 3 → Int := ![1, 0, 0]

/-- The start indices of the rank that owns the global origin. -/
def exampleIstart : Fin 3 → Int := fun _ => 0

/-- The solver state `exampleSolver 0` with the volume factor 5. -/
def exampleScaleSolver : Solver Int :=
  { exampleSolver 0 with volfact := 5 }

/-- Three Green plans in direction order with `n_out = 8`, each of which ignores one mode;
the plan of direction 0 is a real-to-complex transform done on the Green array. -/
def exampleDryRunPlans : Fin 3 → FFTW_plan_dim := fun id =>
  { dimID := (id.val : Int), type := PlanType.UNBUNB, imult := false, shiftgreen := 0,
    isr2c := decide (id = 0), n_out := 8, ignoreMode := true,
    isr2c_green := decide (id = 0) }

/-- Collaborators of `_init_plansAndTopos` used in the examples: the plans are taken as
already initialised, there is one process, and the alignment is 16 bytes. -/
def exampleDryRunExt : DryRunExt :=
  { init := fun p _ _ => p
    pencil_nproc := fun _ _ _ => 1
    rankd := fun _ _ => 0
    alignment := 16
    switch2real := exampleSwitch2real
    switch2complex := exampleSwitch2complex }

/-- A complex topology of `nglob = (3, 2, 1)` on one rank with fast axis 0. -/
def exampleSpectralTopoLong : Topology :=
  { nglob := ![3, 2, 1]
    nproc := ![1, 1, 1]
    axproc := fun id => (id.val : Int)
    rankd := ![0, 0, 0]
    nbyproc := ![3, 2, 1]
    nloc := ![3, 2, 1]
    nmem := ![3, 2, 1]
    axis := 0
    nf := 2
    alignment := 16 }

/-! # Theorems -/

/-! ## Plan types and plan ordering -/

theorem set3_swap_last {α : Type} (a : Fin 3 → α) :
    set3 (set3 a 2 (a 1)) 1 (a 2) = a ∘ Equiv.swap 1 2 := by
  funext j
  fin_cases j <;> simp [set3, Equiv.swap_apply_def]

theorem set3_swap_first {α : Type} (a : Fin 3 → α) (i : Fin 3) :
    set3 (set3 a i (a 0)) 0 (a i) = a ∘ Equiv.swap 0 i := by
  funext j
  fin_cases i <;> fin_cases j <;> simp [set3, Equiv.swap_apply_def]

theorem sortSwapLast_perm (priority : Fin 3 → Int) (plan : Fin 3 → FFTW_plan_dim) :
    ∃ σ : Equiv.Perm (Fin 3), sortSwapLast priority plan = plan ∘ σ := by
  unfold sortSwapLast
  split_ifs
  · exact ⟨Equiv.swap 1 2, set3_swap_last plan⟩
  · exact ⟨Equiv.refl _, rfl⟩

theorem sortPlansBody_perm (plan out : Fin 3 → FFTW_plan_dim)
    (h : sortPlansBody plan = some out) : ∃ σ : Equiv.Perm (Fin 3), out = plan ∘ σ := by
  simp only [sortPlansBody] at h
  split at h
  · exact absurd h (by simp)
  · rename_i id_min _
    split_ifs at h with h0
    · obtain ⟨σ, hσ⟩ := sortSwapLast_perm (fun id => (plan id).type.toInt) plan
      exact ⟨σ, by rw [← hσ]; exact (Option.some.inj h).symm⟩
    · rw [set3_swap_first plan id_min] at h
      obtain ⟨σ, hσ⟩ := sortSwapLast_perm (set3 (set3 (fun id => (plan id).type.toInt) id_min
        (plan 0).type.toInt) 0 (plan id_min).type.toInt) (plan ∘ Equiv.swap 0 id_min)
      refine ⟨σ.trans (Equiv.swap 0 id_min), ?_⟩
      rw [← Option.some.inj h, hσ]
      rfl

theorem sortPlansBody_sorted (plan : Fin 3 → FFTW_plan_dim) :
    ∃ out, sortPlansBody plan = some out ∧
      (out 0).type.toInt ≤ (out 1).type.toInt ∧ (out 1).type.toInt ≤ (out 2).type.toInt := by
  rcases h0 : (plan 0).type <;> rcases h1 : (plan 1).type <;> rcases h2 : (plan 2).type <;>
    simp [sortPlansBody, sortFindMin, sortMinStep, sortSwapLast, set3, INT_MAX, PlanType.toInt,
      h0, h1, h2]

/-- C1: for every three plans (every combination of plan types, in both build modes)
`Solver::_sort_plans` passes its final order check and returns the three input plans
rearranged by a permutation of the positions, in non-decreasing `PlanType` order.  With
directions 0, 1, 2 of type UNBUNB, SYMSYM, PERPER the resulting order is direction 1,
direction 2, direction 0. -/
theorem sort_plans_sorted_permutation :
    (∀ (checks : Bool) (plan : Fin 3 → FFTW_plan_dim),
      ∃ out, Solver._sort_plans checks plan = Except.ok out ∧
        (∃ σ : Equiv.Perm (Fin 3), out = plan ∘ σ) ∧
        (out 0).type.toInt ≤ (out 1).type.toInt ∧ (out 1).type.toInt ≤ (out 2).type.toInt) ∧
    (∀ (checks : Bool) (p : Fin 3 → FFTW_plan_dim),
      ∃ out, Solver._sort_plans checks
          (plansInDirectionOrder ![PlanType.UNBUNB, PlanType.SYMSYM, PlanType.PERPER] p)
          = Except.ok out ∧
        (out 0).dimID = 1 ∧ (out 1).dimID = 2 ∧ (out 2).dimID = 0) := by
  constructor
  · intro checks plan
    obtain ⟨out, hout, h01, h12⟩ := sortPlansBody_sorted plan
    refine ⟨out, ?_, sortPlansBody_perm plan out hout, h01, h12⟩
    simp [Solver._sort_plans, hout, FLUPS_CHECK, h01, h12, bind, Except.bind, pure,
      Except.pure]
  · intro checks p
    simp [Solver._sort_plans, sortPlansBody, sortFindMin, sortMinStep, sortSwapLast, set3,
      INT_MAX, PlanType.toInt, plansInDirectionOrder, FLUPS_CHECK, bind, Except.bind, pure,
      Except.pure]

/-- C2 (counterexample): with the plans in direction order and the types MIXUNB, MIXUNB,
SYMSYM, `Solver::_sort_plans` returns the order direction 2, direction 1, direction 0: the
plans of directions 1 and 0 have the same type and the one with the larger `dimID` comes
first. -/
theorem sort_plans_tie_larger_dimID_first :
    ∃ out, Solver._sort_plans true
        (plansInDirectionOrder ![PlanType.MIXUNB, PlanType.MIXUNB, PlanType.SYMSYM]
          examplePlans) = Except.ok out ∧
      (out 0).dimID = 2 ∧ (out 1).dimID = 1 ∧ (out 2).dimID = 0 ∧
      (out 1).type = (out 2).type ∧ (out 2).dimID < (out 1).dimID := by
  simp [Solver._sort_plans, sortPlansBody, sortFindMin, sortMinStep, sortSwapLast, set3,
    INT_MAX, PlanType.toInt, plansInDirectionOrder, FLUPS_CHECK, bind, Except.bind, pure,
    Except.pure]

set_option maxHeartbeats 4000000 in
/-- C2 (amended): for every combination of plan types given to `Solver::_sort_plans` with
the plans in direction order, two plans of the same `PlanType` appear in the result in the
order of their `dimID`, unless directions 0 and 1 share a type whose value is greater than
that of direction 2; in that case the result is direction 2, direction 1, direction 0. -/
theorem sort_plans_tie_order (checks : Bool) (t : Fin 3 → PlanType)
    (p : Fin 3 → FFTW_plan_dim) :
    ∃ out, Solver._sort_plans checks (plansInDirectionOrder t p) = Except.ok out ∧
      (¬ (t 0 = t 1 ∧ (t 2).toInt < (t 0).toInt) →
        ((out 0).type = (out 1).type → (out 0).dimID < (out 1).dimID) ∧
        ((out 0).type = (out 2).type → (out 0).dimID < (out 2).dimID) ∧
        ((out 1).type = (out 2).type → (out 1).dimID < (out 2).dimID)) ∧
      ((t 0 = t 1 ∧ (t 2).toInt < (t 0).toInt) →
        (out 0).dimID = 2 ∧ (out 1).dimID = 1 ∧ (out 2).dimID = 0) := by
  rcases h0 : t 0 <;> rcases h1 : t 1 <;> rcases h2 : t 2 <;>
    simp [Solver._sort_plans, sortPlansBody, sortFindMin, sortMinStep, sortSwapLast, set3,
      INT_MAX, PlanType.toInt, plansInDirectionOrder, FLUPS_CHECK, bind, Except.bind, pure,
      Except.pure, h0, h1, h2]

/-- C3: the enumerators have the values EVEN=0, ODD=1, PER=3, UNB=4 and SYMSYM=2, MIXUNB=5,
PERPER=6, UNBUNB=8, EMPTY=18; for every boundary pair listed for a plan type, the sum of the
two codes is at most the value of that type and strictly greater than the value of every
type of smaller value (the earlier rows); hence two listed pairs with the same sum belong to
the same type. -/
theorem plan_type_sum_brackets :
    (BoundaryType.EVEN.toInt = 0 ∧ BoundaryType.ODD.toInt = 1 ∧ BoundaryType.PER.toInt = 3 ∧
      BoundaryType.UNB.toInt = 4) ∧
    (PlanType.SYMSYM.toInt = 2 ∧ PlanType.MIXUNB.toInt = 5 ∧ PlanType.PERPER.toInt = 6 ∧
      PlanType.UNBUNB.toInt = 8 ∧ PlanType.EMPTY.toInt = 18) ∧
    (∀ t : PlanType, ∀ bc ∈ t.bcPairs,
      bc.1.toInt + bc.2.toInt ≤ t.toInt ∧
      ∀ t0 : PlanType, t0.toInt < t.toInt → t0.toInt < bc.1.toInt + bc.2.toInt) ∧
    (∀ t t0 : PlanType, ∀ bc ∈ t.bcPairs, ∀ bc0 ∈ t0.bcPairs,
      bc.1.toInt + bc.2.toInt = bc0.1.toInt + bc0.2.toInt → t = t0) := by
  refine ⟨by decide, by decide, by decide, by decide⟩

/-! ## Topology -/

theorem FLUPS_CHECK_ok_or_error (checks a : Bool) (e : FlupsError) :
    FLUPS_CHECK checks a e = Except.ok () ∨ FLUPS_CHECK checks a e = Except.error e := by
  unfold FLUPS_CHECK
  split_ifs <;> simp

/-- What a successful constructor call stores: the inputs, and in each direction the sizes
computed by the loop body. -/
theorem Topology.new_ok {checks : Bool} {axis : Fin 3} {nglob nproc : Fin 3 → Int}
    {isComplex : Bool} {axproc : Option (Fin 3 → Int)} {alignment comm_size : Int}
    {rankd : Fin 3 → Int} {t : Topology}
    (h : Topology.new checks axis nglob nproc isComplex axproc alignment comm_size rankd
      = Except.ok t) :
    t.nglob = nglob ∧ t.nproc = nproc ∧ t.rankd = rankd ∧ t.axis = axis ∧
    t.nf = (if !isComplex then 1 else 2) ∧ t.alignment = alignment ∧
    ∀ d : Fin 3, ∃ s : DimSizes,
      topoDimSizes checks d axis (if !isComplex then 1 else 2) alignment (nglob d) (nproc d)
        (rankd d) = Except.ok s ∧
      t.nbyproc d = s.nbyproc ∧ t.nloc d = s.nloc ∧ t.nmem d = s.nmem := by
  unfold Topology.new at h
  rcases FLUPS_CHECK_ok_or_error checks (decide (nproc 0 * nproc 1 * nproc 2 = comm_size))
    FlupsError.commSizeMismatch with hc | hc
  · rw [hc] at h
    simp only [bind, Except.bind, pure, Except.pure] at h
    split at h
    · exact absurd h (by simp)
    · rename_i s0 h0
      split at h
      · exact absurd h (by simp)
      · rename_i s1 h1
        split at h
        · exact absurd h (by simp)
        · rename_i s2 h2
          have ht := Except.ok.inj h
          subst ht
          refine ⟨rfl, rfl, rfl, rfl, rfl, rfl, ?_⟩
          intro d
          fin_cases d
          · exact ⟨s0, h0, rfl, rfl, rfl⟩
          · exact ⟨s1, h1, rfl, rfl, rfl⟩
          · exact ⟨s2, h2, rfl, rfl, rfl⟩
  · rw [hc] at h
    simp [bind, Except.bind] at h

/-- The sizes computed by the loop body when it does not abort. -/
theorem topoDimSizes_ok {checks : Bool} {id axis : Fin 3} {nf alignment nglob nproc rankd : Int}
    {s : DimSizes}
    (h : topoDimSizes checks id axis nf alignment nglob nproc rankd = Except.ok s) :
    s.nbyproc = Int.tdiv nglob nproc ∧
    s.nloc = (if rankd < nproc - 1 then Int.tdiv nglob nproc
      else max (Int.tdiv nglob nproc) (nglob - Int.tdiv nglob nproc * rankd)) ∧
    s.nmem = s.nloc + (if rankd < nproc - 1 then 0 else if id = axis then
      (if padModulo nglob nf alignment = 0 then 0
        else Int.tdiv (padDelta alignment (padModulo nglob nf alignment)) nf) else 0) := by
  unfold topoDimSizes at h
  by_cases h1 : rankd < nproc - 1
  · simp only [h1, if_true] at h
    have := Except.ok.inj h
    subst this
    simp [h1]
  · simp only [h1, if_false] at h
    by_cases h2 : id = axis
    · simp only [h2, if_true] at h
      rcases FLUPS_CHECK_ok_or_error checks
        (decide (Int.tmod (padDelta alignment (padModulo nglob nf alignment)) nf = 0))
        FlupsError.alignmentNotMultiple with hc | hc
      · rw [hc] at h
        simp only [bind, Except.bind, pure, Except.pure] at h
        have := Except.ok.inj h
        subst this
        simp [h1, h2]
      · rw [hc] at h
        simp [bind, Except.bind] at h
    · simp only [h2, if_false] at h
      have := Except.ok.inj h
      subst this
      simp [h1, h2]

theorem toSizeT_of_range {x : Int} (h0 : 0 ≤ x) (h1 : x < 18446744073709551616) :
    toSizeT x = x := by
  unfold toSizeT
  omega

theorem toInt32_of_range {x : Int} (h0 : 0 ≤ x) (h1 : x ≤ INT_MAX) : toInt32 x = x := by
  unfold toInt32
  unfold INT_MAX at h1
  omega

/-- For a positive alignment that fits an `int`, `modulo` lies in `[0, alignment)`. -/
theorem padModulo_range (nglob nf : Int) {alignment : Int} (h0 : 0 < alignment)
    (h1 : alignment ≤ INT_MAX) :
    0 ≤ padModulo nglob nf alignment ∧ padModulo nglob nf alignment < alignment := by
  unfold padModulo
  have ha : toSizeT alignment = alignment :=
    toSizeT_of_range (le_of_lt h0) (by unfold INT_MAX at h1; omega)
  rw [ha]
  have hn := Int.emod_nonneg (toSizeT (toSizeT (nglob * nf) * SIZEOF_DOUBLE))
    (ne_of_gt h0)
  have hl := Int.emod_lt_of_pos (toSizeT (toSizeT (nglob * nf) * SIZEOF_DOUBLE)) h0
  rw [toInt32_of_range hn (by omega)]
  exact ⟨hn, hl⟩

/-- For sizes that fit an `int`, `modulo` is the remainder of the pencil size in bytes. -/
theorem padModulo_eq {nglob nf alignment : Int} (h0 : 0 < alignment)
    (h1 : alignment ≤ INT_MAX) (hg0 : 0 ≤ nglob * nf) (hg1 : nglob * nf ≤ INT_MAX) :
    padModulo nglob nf alignment = (nglob * nf * SIZEOF_DOUBLE) % alignment := by
  have hr := padModulo_range nglob nf h0 h1
  unfold padModulo at hr ⊢
  have ha : toSizeT alignment = alignment :=
    toSizeT_of_range (le_of_lt h0) (by unfold INT_MAX at h1; omega)
  have hx : toSizeT (nglob * nf) = nglob * nf :=
    toSizeT_of_range hg0 (by unfold INT_MAX at hg1; omega)
  have hy : toSizeT (nglob * nf * SIZEOF_DOUBLE) = nglob * nf * SIZEOF_DOUBLE :=
    toSizeT_of_range (by unfold SIZEOF_DOUBLE; omega)
      (by unfold INT_MAX at hg1; unfold SIZEOF_DOUBLE; omega)
  rw [ha, hx, hy] at hr ⊢
  exact toInt32_of_range (Int.emod_nonneg _ (ne_of_gt h0))
    (le_trans (le_of_lt (Int.emod_lt_of_pos _ h0)) h1)

/-- For `0 ≤ modulo < alignment`, `delta` is `(alignment - modulo) / 8`. -/
theorem padDelta_eq {alignment modulo : Int} (h1 : alignment ≤ INT_MAX) (hm0 : 0 ≤ modulo)
    (hm1 : modulo < alignment) :
    padDelta alignment modulo = (alignment - modulo) / SIZEOF_DOUBLE := by
  unfold padDelta
  rw [toSizeT_of_range (by omega) (by unfold INT_MAX at h1; omega)]
  apply toInt32_of_range
  · unfold SIZEOF_DOUBLE; omega
  · unfold SIZEOF_DOUBLE; unfold INT_MAX at h1 ⊢; omega

/-- The number of points added along the fast axis is never negative. -/
theorem pad_nonneg (nglob : Int) {nf alignment : Int} (hnf : nf = 1 ∨ nf = 2)
    (h0 : 0 < alignment) (h1 : alignment ≤ INT_MAX) :
    0 ≤ (if padModulo nglob nf alignment = 0 then 0
      else Int.tdiv (padDelta alignment (padModulo nglob nf alignment)) nf) := by
  have hr := padModulo_range nglob nf h0 h1
  split_ifs
  · exact le_refl 0
  · rw [padDelta_eq h1 hr.1 hr.2]
    have hd : 0 ≤ (alignment - padModulo nglob nf alignment) / SIZEOF_DOUBLE := by
      unfold SIZEOF_DOUBLE; omega
    rcases hnf with h | h <;> subst h
    · rw [Int.tdiv_eq_ediv hd (by decide)]; omega
    · rw [Int.tdiv_eq_ediv hd (by decide)]; omega

/-- The local extent stored by a successful constructor call. -/
theorem Topology.new_nloc {checks : Bool} {axis : Fin 3} {nglob nproc : Fin 3 → Int}
    {isComplex : Bool} {axproc : Option (Fin 3 → Int)} {alignment comm_size : Int}
    {rankd : Fin 3 → Int} {t : Topology}
    (h : Topology.new checks axis nglob nproc isComplex axproc alignment comm_size rankd
      = Except.ok t) (d : Fin 3) :
    t.nloc d = (if rankd d < nproc d - 1 then Int.tdiv (nglob d) (nproc d)
      else max (Int.tdiv (nglob d) (nproc d))
        (nglob d - Int.tdiv (nglob d) (nproc d) * rankd d)) := by
  obtain ⟨-, -, -, -, -, -, hd⟩ := Topology.new_ok h
  obtain ⟨s, hs, -, hloc, -⟩ := hd d
  rw [hloc]
  exact (topoDimSizes_ok hs).2.1

/-- The memory extent stored by a successful constructor call. -/
theorem Topology.new_nmem {checks : Bool} {axis : Fin 3} {nglob nproc : Fin 3 → Int}
    {isComplex : Bool} {axproc : Option (Fin 3 → Int)} {alignment comm_size : Int}
    {rankd : Fin 3 → Int} {t : Topology}
    (h : Topology.new checks axis nglob nproc isComplex axproc alignment comm_size rankd
      = Except.ok t) (d : Fin 3) :
    t.nmem d = t.nloc d + (if rankd d < nproc d - 1 then 0 else if d = axis then
      (if padModulo (nglob d) t.nf alignment = 0 then 0
        else Int.tdiv (padDelta alignment (padModulo (nglob d) t.nf alignment)) t.nf)
      else 0) := by
  obtain ⟨-, -, -, -, hnf, -, hd⟩ := Topology.new_ok h
  obtain ⟨s, hs, -, hloc, hmem⟩ := hd d
  rw [hloc, hmem, hnf]
  exact (topoDimSizes_ok hs).2.2

/-- C4: let `nproc[d] ≥ 1` and `nglob[d] ≥ 0`, and let `topo r` be the topology that the
constructor builds on a rank whose coordinate along `d` is `r`, for `r = 0 .. nproc[d]-1`.
Then the local extents `nloc[d]` of these ranks sum to `nglob[d]`; every rank but the last
owns `floor(nglob[d]/nproc[d])` points and the last rank owns all the remaining ones. -/
theorem topology_nloc_sum (checks : Bool) (axis : Fin 3) (nglob nproc : Fin 3 → Int)
    (isComplex : Bool) (axproc : Option (Fin 3 → Int)) (alignment comm_size : Int)
    (d : Fin 3) (rankd : Nat → Fin 3 → Int) (topo : Nat → Topology)
    (hproc : 1 ≤ nproc d) (hglob : 0 ≤ nglob d)
    (hrank : ∀ r : Nat, (r : Int) < nproc d → rankd r d = (r : Int))
    (hbuilt : ∀ r : Nat, (r : Int) < nproc d →
      Topology.new checks axis nglob nproc isComplex axproc alignment comm_size (rankd r)
        = Except.ok (topo r)) :
    (∑ r in Finset.range (nproc d).toNat, (topo r).nloc d) = nglob d ∧
    (∀ r : Nat, (r : Int) < nproc d - 1 → (topo r).nloc d = nglob d / nproc d) ∧
    (topo ((nproc d).toNat - 1)).nloc d
      = nglob d - (nproc d - 1) * (nglob d / nproc d) := by
  have hq : Int.tdiv (nglob d) (nproc d) = nglob d / nproc d :=
    Int.tdiv_eq_ediv hglob (by omega)
  have hmul : nproc d * (nglob d / nproc d) ≤ nglob d :=
    Int.mul_ediv_self_le (by omega)
  have hq0 : 0 ≤ nglob d / nproc d := Int.ediv_nonneg hglob (by omega)
  obtain ⟨m, hm⟩ : ∃ m : Nat, nproc d = (m : Int) + 1 :=
    ⟨(nproc d - 1).toNat, by omega⟩
  have hfirst : ∀ r : Nat, (r : Int) < nproc d - 1 →
      (topo r).nloc d = nglob d / nproc d := by
    intro r hr
    rw [Topology.new_nloc (hbuilt r (by omega)) d, hrank r (by omega), if_pos hr, hq]
  have hlast : (topo m).nloc d = nglob d - (nproc d - 1) * (nglob d / nproc d) := by
    rw [Topology.new_nloc (hbuilt m (by omega)) d, hrank m (by omega),
      if_neg (by omega), hq]
    have h1 : nproc d - 1 = (m : Int) := by omega
    rw [h1] at *
    have h2 : nproc d * (nglob d / nproc d)
        = (m : Int) * (nglob d / nproc d) + nglob d / nproc d := by
      rw [hm]; ring
    rw [max_eq_right (by linarith)]
    ring
  have hn : (nproc d).toNat = m + 1 := by omega
  refine ⟨?_, hfirst, ?_⟩
  · rw [hn, Finset.sum_range_succ, hlast]
    rw [Finset.sum_congr rfl (fun r hr => hfirst r (by
      have := Finset.mem_range.mp hr
      omega))]
    rw [Finset.sum_const, Finset.card_range, nsmul_eq_mul]
    have h1 : nproc d - 1 = (m : Int) := by omega
    rw [h1]
    ring
  · rw [hn]
    simpa using hlast

/-- C6: in every topology that the constructor builds with a positive alignment (one that
fits an `int`), `nmem[d] = nloc[d]` in each direction other than the fast axis, and
`nmem[d] ≥ nloc[d]` in every direction, the fast axis included. -/
theorem topology_nmem_ge_nloc (checks : Bool) (axis : Fin 3) (nglob nproc : Fin 3 → Int)
    (isComplex : Bool) (axproc : Option (Fin 3 → Int)) (alignment comm_size : Int)
    (rankd : Fin 3 → Int) (t : Topology)
    (hal0 : 0 < alignment) (hal1 : alignment ≤ INT_MAX)
    (h : Topology.new checks axis nglob nproc isComplex axproc alignment comm_size rankd
      = Except.ok t) :
    ∀ d : Fin 3, (d ≠ t.axis → t.nmem d = t.nloc d) ∧ t.nloc d ≤ t.nmem d := by
  intro d
  have hmem := Topology.new_nmem h d
  obtain ⟨-, -, -, hax, hnf, -, -⟩ := Topology.new_ok h
  have hnf2 : t.nf = 1 ∨ t.nf = 2 := by
    rw [hnf]; cases isComplex <;> simp
  have hpad := pad_nonneg (nglob d) hnf2 hal0 hal1
  constructor
  · intro hd
    rw [hax] at hd
    rw [hmem, if_neg hd]
    simp
  · rw [hmem]
    split_ifs <;> omega

/-- For an alignment that is a positive multiple of `nf * sizeof(double)` and a size that
fits an `int`, the points added along the fast axis complete the global pencil to a multiple
of the alignment. -/
theorem pad_completes {nglob nf alignment : Int} (k : Int) (hnf : nf = 1 ∨ nf = 2)
    (hk : alignment = k * (nf * SIZEOF_DOUBLE)) (h0 : 0 < alignment)
    (h1 : alignment ≤ INT_MAX) (hg0 : 0 ≤ nglob) (hg1 : nglob * nf ≤ INT_MAX) :
    alignment ∣ (nglob + (if padModulo nglob nf alignment = 0 then 0
      else Int.tdiv (padDelta alignment (padModulo nglob nf alignment)) nf))
        * nf * SIZEOF_DOUBLE := by
  have hnf0 : 0 < nf := by rcases hnf with h | h <;> omega
  have hgn : 0 ≤ nglob * nf := Int.mul_nonneg hg0 (le_of_lt hnf0)
  have hm := padModulo_eq h0 h1 hgn hg1
  have hr := padModulo_range nglob nf h0 h1
  rw [hm] at hr ⊢
  have hX := Int.emod_add_ediv (nglob * nf * SIZEOF_DOUBLE) alignment
  split_ifs with hz
  · rw [add_zero]
    exact Int.dvd_of_emod_eq_zero hz
  · rw [padDelta_eq h1 hr.1 hr.2]
    have hdvd : (nf * SIZEOF_DOUBLE) ∣ alignment := ⟨k, by rw [hk]; ring⟩
    have hmd : (nf * SIZEOF_DOUBLE) ∣ (nglob * nf * SIZEOF_DOUBLE) % alignment := by
      apply Int.dvd_of_emod_eq_zero
      rw [Int.emod_emod_of_dvd _ hdvd]
      exact Int.emod_eq_zero_of_dvd ⟨nglob, by ring⟩
    obtain ⟨j, hj⟩ := Int.dvd_sub hdvd hmd
    have hj0 : 0 ≤ nf * j := by
      have : 0 < nf * SIZEOF_DOUBLE * j := by rw [← hj]; omega
      unfold SIZEOF_DOUBLE at this
      nlinarith
    have hdelta : (alignment - (nglob * nf * SIZEOF_DOUBLE) % alignment) / SIZEOF_DOUBLE
        = nf * j := by
      rw [hj, show nf * SIZEOF_DOUBLE * j = SIZEOF_DOUBLE * (nf * j) by ring]
      exact Int.mul_ediv_cancel_left _ (by decide)
    rw [hdelta, Int.tdiv_eq_ediv hj0 (le_of_lt hnf0),
      Int.mul_ediv_cancel_left _ (ne_of_gt hnf0)]
    refine ⟨(nglob * nf * SIZEOF_DOUBLE) / alignment + 1, ?_⟩
    have e1 : (nglob + j) * nf * SIZEOF_DOUBLE
        = nglob * nf * SIZEOF_DOUBLE + nf * SIZEOF_DOUBLE * j := by ring
    rw [e1, ← hj]
    linarith

/-- C5 (amended): in every topology that the constructor builds with an alignment that is a
positive multiple of `nf * sizeof(double)` (sizes and alignment fitting an `int`), on every
rank of the process grid, if the fast axis is not split (`nproc[axis] = 1`) or the share
`floor(nglob[axis]/nproc[axis]) * nf * sizeof(double)` of a rank is itself a multiple of the
alignment, then `(nmem[axis] * nf * sizeof(double)) mod alignment = 0`. -/
theorem topology_fast_axis_aligned (checks : Bool) (axis : Fin 3) (nglob nproc : Fin 3 → Int)
    (isComplex : Bool) (axproc : Option (Fin 3 → Int)) (alignment comm_size : Int)
    (rankd : Fin 3 → Int) (t : Topology) (k : Int)
    (h : Topology.new checks axis nglob nproc isComplex axproc alignment comm_size rankd
      = Except.ok t)
    (hk0 : 0 < k) (hk : alignment = k * (t.nf * SIZEOF_DOUBLE))
    (hal : alignment ≤ INT_MAX)
    (hg0 : 0 ≤ nglob axis) (hg1 : nglob axis * t.nf ≤ INT_MAX)
    (hr0 : 0 ≤ rankd axis) (hr1 : rankd axis < nproc axis)
    (hpencil : nproc axis = 1 ∨
      (nglob axis / nproc axis * t.nf * SIZEOF_DOUBLE) % alignment = 0) :
    (t.nmem t.axis * t.nf * SIZEOF_DOUBLE) % alignment = 0 := by
  have hmem := Topology.new_nmem h axis
  have hloc := Topology.new_nloc h axis
  obtain ⟨-, -, -, hax, hnf, -, -⟩ := Topology.new_ok h
  have hnf2 : t.nf = 1 ∨ t.nf = 2 := by
    rw [hnf]; cases isComplex <;> simp
  have hnf0 : 0 < t.nf := by rcases hnf2 with h | h <;> omega
  have h0 : 0 < alignment := by
    rw [hk]
    exact Int.mul_pos hk0 (Int.mul_pos hnf0 (by decide))
  have hp : 0 < nproc axis := by omega
  have hq : Int.tdiv (nglob axis) (nproc axis) = nglob axis / nproc axis :=
    Int.tdiv_eq_ediv hg0 (le_of_lt hp)
  have hmul : nproc axis * (nglob axis / nproc axis) ≤ nglob axis :=
    Int.mul_ediv_self_le (ne_of_gt hp)
  have hq0 : 0 ≤ nglob axis / nproc axis := Int.ediv_nonneg hg0 (le_of_lt hp)
  rw [hax]
  apply Int.emod_eq_zero_of_dvd
  by_cases hlast : rankd axis < nproc axis - 1
  · rw [hmem, hloc, if_pos hlast, if_pos hlast, add_zero, hq]
    rcases hpencil with h1 | h1
    · omega
    · exact Int.dvd_of_emod_eq_zero h1
  · have hr : rankd axis = nproc axis - 1 := by omega
    have hshare : alignment ∣
        (nproc axis - 1) * (nglob axis / nproc axis * t.nf * SIZEOF_DOUBLE) := by
      rcases hpencil with h1 | h1
      · rw [h1]; simp
      · exact Dvd.dvd.mul_left (Int.dvd_of_emod_eq_zero h1) _
    have hpad := pad_completes k hnf2 hk h0 hal hg0 hg1
    rw [hmem, hloc, if_neg hlast, if_neg hlast, if_pos rfl, hq, hr]
    have hmax : max (nglob axis / nproc axis)
        (nglob axis - nglob axis / nproc axis * (nproc axis - 1))
        = nglob axis - nglob axis / nproc axis * (nproc axis - 1) := by
      apply max_eq_right
      nlinarith
    rw [hmax]
    have e : ∀ pad : Int, (nglob axis - nglob axis / nproc axis * (nproc axis - 1) + pad)
        * t.nf * SIZEOF_DOUBLE
        = (nglob axis + pad) * t.nf * SIZEOF_DOUBLE
          - (nproc axis - 1) * (nglob axis / nproc axis * t.nf * SIZEOF_DOUBLE) := by
      intro pad; ring
    rw [e]
    exact Int.dvd_sub hpad hshare

/-- The constructor builds `exampleTopoRank r` on the rank `(r, 0, 0)`. -/
theorem exampleTopoRank_built (r : Nat) (hr : r < 3) :
    Topology.new true 1 ![65, 31, 127] ![3, 1, 1] false none 32 3 ![(r : Int), 0, 0]
      = Except.ok (exampleTopoRank r) := by
  interval_cases r <;> rfl

/-- Instance of `topology_nloc_sum`: `21 + 21 + 23 = 65` along direction 0. -/
theorem topology_nloc_sum_witness :
    (∑ r in Finset.range 3, (exampleTopoRank r).nloc 0) = 65 ∧
    (∀ r : Nat, (r : Int) < 3 - 1 → (exampleTopoRank r).nloc 0 = 65 / 3) ∧
    (exampleTopoRank (3 - 1)).nloc 0 = 65 - (3 - 1) * (65 / 3) :=
  topology_nloc_sum true 1 ![65, 31, 127] ![3, 1, 1] false none 32 3 0
    (fun r => ![(r : Int), 0, 0]) exampleTopoRank (by decide) (by decide)
    (fun _ _ => rfl)
    (fun r hr => exampleTopoRank_built r (by
      have h3 : (r : Int) < 3 := hr
      omega))

/-- Instance of `topology_nmem_ge_nloc`: on the last rank of a split fast axis,
`nloc[0] = 23` and `nmem[0] = 26`. -/
theorem topology_nmem_ge_nloc_witness :
    (0 : Int) < 32 ∧ (32 : Int) ≤ INT_MAX ∧
    Topology.new true 0 ![65, 31, 127] ![3, 1, 1] false none 32 3 ![2, 0, 0]
      = Except.ok exampleTopoSplitLast ∧
    ∀ d : Fin 3, (d ≠ exampleTopoSplitLast.axis →
        exampleTopoSplitLast.nmem d = exampleTopoSplitLast.nloc d) ∧
      exampleTopoSplitLast.nloc d ≤ exampleTopoSplitLast.nmem d :=
  ⟨by decide, by decide, rfl,
    topology_nmem_ge_nloc true 0 ![65, 31, 127] ![3, 1, 1] false none 32 3 ![2, 0, 0]
      exampleTopoSplitLast (by decide) (by decide) rfl⟩

/-- C5 (counterexample): for `nglob = (65, 31, 127)` on `3 x 1 x 1` ranks with alignment 32
(four times `nf * sizeof(double) = 8`), real data and fast axis 0, the constructor gives
`nmem[0] = 21` on rank `(0, 0, 0)`, and `21 * 1 * 8 = 168` leaves the remainder 8 modulo
32. -/
theorem topology_split_axis_not_aligned :
    ∃ t : Topology,
      Topology.new true 0 ![65, 31, 127] ![3, 1, 1] false none 32 3 ![0, 0, 0] = Except.ok t ∧
      (32 : Int) = 4 * (t.nf * SIZEOF_DOUBLE) ∧ t.nmem t.axis = 21 ∧
      (t.nmem t.axis * t.nf * SIZEOF_DOUBLE) % 32 = 8 ∧
      (t.nmem t.axis * t.nf * SIZEOF_DOUBLE) % 32 ≠ 0 := by
  refine ⟨_, rfl, ?_, ?_, ?_, ?_⟩ <;> decide

/-- Instance of `topology_fast_axis_aligned`: with fast axis 1, `nmem[1] = 32` and
`32 * 1 * 8 = 256` is a multiple of 32. -/
theorem topology_fast_axis_aligned_witness :
    Topology.new true 1 ![65, 31, 127] ![3, 1, 1] false none 32 3 ![0, 0, 0]
      = Except.ok (exampleTopoRank 0) ∧
    (0 : Int) < 4 ∧ (32 : Int) = 4 * ((exampleTopoRank 0).nf * SIZEOF_DOUBLE) ∧
    ((exampleTopoRank 0).nmem (exampleTopoRank 0).axis * (exampleTopoRank 0).nf
      * SIZEOF_DOUBLE) % 32 = 0 :=
  ⟨rfl, by decide, by decide,
    topology_fast_axis_aligned true 1 ![65, 31, 127] ![3, 1, 1] false none 32 3 ![0, 0, 0]
      (exampleTopoRank 0) 4 rfl (by decide) (by decide) (by decide) (by decide) (by decide)
      (by decide) (by decide) (Or.inl rfl)⟩

/-- C7 (the code at failing inputs): with checks enabled the constructor returns a topology,
without any error, for real data (`nf = 1`) and alignment 12, and for complex data
(`nf = 2`), `nglob[axis] = 2` and alignment 24, although 12 is not a multiple of
`1 * sizeof(double) = 8` and 24 is not a multiple of `2 * sizeof(double) = 16`; for real data
the alignment error is raised for no input at all. -/
theorem topology_bad_alignment_accepted :
    (∃ t : Topology,
      Topology.new true 0 ![4, 4, 4] ![1, 1, 1] false none 12 1 ![0, 0, 0] = Except.ok t ∧
      (12 : Int) % (t.nf * SIZEOF_DOUBLE) ≠ 0) ∧
    (∃ t : Topology,
      Topology.new true 0 ![2, 4, 4] ![1, 1, 1] true none 24 1 ![0, 0, 0] = Except.ok t ∧
      (24 : Int) % (t.nf * SIZEOF_DOUBLE) ≠ 0) ∧
    (∀ (checks : Bool) (axis : Fin 3) (nglob nproc : Fin 3 → Int)
      (axproc : Option (Fin 3 → Int)) (alignment comm_size : Int) (rankd : Fin 3 → Int),
      Topology.new checks axis nglob nproc false axproc alignment comm_size rankd
        ≠ Except.error FlupsError.alignmentNotMultiple) := by
  refine ⟨⟨_, rfl, by decide⟩, ⟨_, rfl, by decide⟩, ?_⟩
  intro checks axis nglob nproc axproc alignment comm_size rankd
  have hd : ∀ (id : Fin 3) (g p r : Int), ∃ s,
      topoDimSizes checks id axis 1 alignment g p r = Except.ok s := by
    intro id g p r
    unfold topoDimSizes
    by_cases h1 : r < p - 1
    · simp [h1]
    · by_cases h2 : id = axis
      · simp [h1, h2, FLUPS_CHECK, bind, Except.bind, pure, Except.pure]
      · simp [h1, h2]
  obtain ⟨s0, h0⟩ := hd 0 (nglob 0) (nproc 0) (rankd 0)
  obtain ⟨s1, h1⟩ := hd 1 (nglob 1) (nproc 1) (rankd 1)
  obtain ⟨s2, h2⟩ := hd 2 (nglob 2) (nproc 2) (rankd 2)
  unfold Topology.new
  rcases FLUPS_CHECK_ok_or_error checks (decide (nproc 0 * nproc 1 * nproc 2 = comm_size))
    FlupsError.commSizeMismatch with hc | hc
  · rw [hc]
    simp [bind, Except.bind, pure, Except.pure, h0, h1, h2]
  · rw [hc]
    simp [bind, Except.bind]

/-- C8 (the code at a failing input): the rank `(0, 0, 0)` of `exampleTopoWide` owns the
local indices `0 .. 3` of direction 0; with the shift `-4` they are the indices `-4 .. -1`
of `exampleTopoNarrow`, all outside its bounds `[0, 4)`.  `cmpt_intersect_id` returns
`start[0] = 3` and `end[0] = 4`: the range holds the local index 3, whose index in the other
topology is `-1`. -/
theorem cmpt_intersect_id_below_bounds :
    Topology.new true 1 ![8, 4, 4] ![2, 1, 1] false none 32 2 ![0, 0, 0]
      = Except.ok exampleTopoWide ∧
    Topology.new true 1 ![4, 4, 4] ![2, 1, 1] false none 32 2 ![0, 0, 0]
      = Except.ok exampleTopoNarrow ∧
    ∃ res : (Fin 3 → Int) × (Fin 3 → Int),
      exampleTopoWide.cmpt_intersect_id true ![-4, 0, 0] exampleTopoNarrow = Except.ok res ∧
      res.1 0 = 3 ∧ res.2 0 = 4 ∧
      exampleTopoWide.rankd 0 * exampleTopoWide.nbyproc 0 + 3 + (-4) = -1 ∧
      exampleTopoNarrow.nglob 0 = 4 := by
  refine ⟨rfl, rfl, _, rfl, ?_, ?_, ?_, ?_⟩ <;> decide

theorem nbrImultStep_eq (f b g : Fin 3 → FFTW_plan_dim) (n : Int) (ip : Fin 3) :
    nbrImultStep f b g n ip
      = n + ((if (f ip).imult then 1 else 0) - (if (b ip).imult then 1 else 0)
        + (if (g ip).imult then 1 else 0)) := by
  unfold nbrImultStep
  cases (f ip).imult <;> cases (b ip).imult <;> cases (g ip).imult <;> simp <;> ring

theorem nbrImult_fold (f b g : Fin 3 → FFTW_plan_dim) :
    Solver.cmpt_nbr_imult f b g
      = ((if (f 0).imult then 1 else 0) + (if (f 1).imult then 1 else 0)
          + (if (f 2).imult then 1 else 0))
        - ((if (b 0).imult then 1 else 0) + (if (b 1).imult then 1 else 0)
          + (if (b 2).imult then 1 else 0))
        + ((if (g 0).imult then 1 else 0) + (if (g 1).imult then 1 else 0)
          + (if (g 2).imult then 1 else 0)) := by
  simp only [Solver.cmpt_nbr_imult, List.foldl, nbrImultStep_eq]
  ring

theorem countImult_eq (p : Fin 3 → FFTW_plan_dim) :
    countImult p = (if (p 0).imult then 1 else 0) + (if (p 1).imult then 1 else 0)
      + (if (p 2).imult then 1 else 0) := by
  unfold countImult
  have h : List.finRange 3 = [0, 1, 2] := by decide
  rw [h]
  simp only [List.filter]
  cases (p 0).imult <;> cases (p 1).imult <;> cases (p 2).imult <;> simp

/-- C9: for every assignment of the `imult` flags of the three forward, the three backward
and the three Green plans, the value of `_nbr_imult` computed by `Solver::Solver` is the
number of forward plans with `imult` set, minus the number of backward plans with `imult`
set, plus the number of Green plans with `imult` set. -/
theorem nbr_imult_net_count (plan_forward plan_backward plan_green : Fin 3 → FFTW_plan_dim) :
    Solver.cmpt_nbr_imult plan_forward plan_backward plan_green
      = countImult plan_forward - countImult plan_backward + countImult plan_green := by
  rw [nbrImult_fold, countImult_eq, countImult_eq, countImult_eq]

/-! ## The convolution step -/

theorem writeAt_same {R : Type} (buf : Nat → R) (i : Nat) (v : R) : writeAt buf i v i = v := by
  simp [writeAt]

theorem writeAt_other {R : Type} (buf : Nat → R) (i j : Nat) (v : R) (h : j ≠ i) :
    writeAt buf i v j = buf j := by
  simp [writeAt, h]

/-- The effect of the loop over `i0` of `dothemagic_rhs_complex_nmult0` on one pencil that
starts at `id` in the data and at `id_green` in the Green buffer. -/
theorem magicComplexPencil_spec {R : Type} [CommRing R] (normfact : R) (green data : Nat → R)
    (id id_green : Nat) (n : Nat) :
    (forLoop (magicComplexCell normfact green) n (data, id, id_green)).2.1 = id + 2 * n ∧
    (forLoop (magicComplexCell normfact green) n (data, id, id_green)).2.2
      = id_green + 2 * n ∧
    (∀ j, (j < id ∨ id + 2 * n ≤ j) →
      (forLoop (magicComplexCell normfact green) n (data, id, id_green)).1 j = data j) ∧
    (∀ k, k < n →
      (forLoop (magicComplexCell normfact green) n (data, id, id_green)).1 (id + 2 * k)
        = normfact * (data (id + 2 * k) * green (id_green + 2 * k)
          - data (id + 2 * k + 1) * green (id_green + 2 * k + 1)) ∧
      (forLoop (magicComplexCell normfact green) n (data, id, id_green)).1 (id + 2 * k + 1)
        = normfact * (data (id + 2 * k) * green (id_green + 2 * k + 1)
          + data (id + 2 * k + 1) * green (id_green + 2 * k))) := by
  induction n with
  | zero => simp [forLoop]
  | succ n ih =>
    obtain ⟨h1, h2, h3, h4⟩ := ih
    simp only [forLoop, magicComplexCell, h1, h2, add_zero]
    have ha := h3 (id + 2 * n) (Or.inr (le_refl _))
    have hb := h3 (id + 2 * n + 1) (Or.inr (by omega))
    refine ⟨by ring, by ring, ?_, ?_⟩
    · intro j hj
      rw [writeAt_other _ _ _ _ (by omega), writeAt_other _ _ _ _ (by omega)]
      exact h3 j (by omega)
    · intro k hk
      by_cases hkn : k = n
      · subst hkn
        rw [writeAt_other _ _ _ _ (by omega), writeAt_same, writeAt_same, ha, hb]
        exact ⟨rfl, rfl⟩
      · have hk2 : k < n := by omega
        rw [writeAt_other _ _ _ _ (by omega), writeAt_other _ _ _ _ (by omega),
          writeAt_other _ _ _ _ (by omega), writeAt_other _ _ _ _ (by omega)]
        exact h4 k hk2

/-- A loop whose iterations update pairwise disjoint regions `F i` of a buffer, each
iteration reading only its own region: on `F i` the result is what iteration `i` alone
computes from the initial buffer, and outside all regions the buffer is unchanged. -/
theorem forLoop_disjoint_regions {R : Type} (U : Nat → (Nat → R) → (Nat → R))
    (F : Nat → Nat → Prop) (n : Nat)
    (hout : ∀ i, i < n → ∀ (d : Nat → R) (j : Nat), ¬ F i j → U i d j = d j)
    (hloc : ∀ i, i < n → ∀ (d e : Nat → R) (j : Nat), F i j →
      (∀ l, F i l → d l = e l) → U i d j = U i e j)
    (hdisj : ∀ i, i < n → ∀ l, l < n → ∀ j, F i j → F l j → i = l)
    (data : Nat → R) :
    ∀ m, m ≤ n → ∀ j,
      (∀ i, i < m → F i j → forLoop U m data j = U i data j) ∧
      ((∀ i, i < m → ¬ F i j) → forLoop U m data j = data j) := by
  intro m
  induction m with
  | zero =>
    intro _ j
    exact ⟨fun i hi => absurd hi (Nat.not_lt_zero i), fun _ => rfl⟩
  | succ m ih =>
    intro hm j
    have ihm := ih (by omega)
    constructor
    · intro i hi hF
      by_cases him : i = m
      · subst him
        show U i (forLoop U i data) j = U i data j
        apply hloc i (by omega) _ _ j hF
        intro l hl
        apply (ihm l).2
        intro i2 hi2 hF2
        have := hdisj i2 (by omega) i (by omega) l hF2 hl
        omega
      · have hi2 : i < m := by omega
        show U m (forLoop U m data) j = U i data j
        rw [hout m (by omega) _ j]
        · exact (ihm j).1 i hi2 hF
        · intro hFm
          have := hdisj i (by omega) m (by omega) j hF hFm
          omega
    · intro hnone
      show U m (forLoop U m data) j = data j
      rw [hout m (by omega) _ j (hnone m (by omega))]
      exact (ihm j).2 (fun i hi => hnone i (by omega))

/-- Outside its pencil the loop over `i0` leaves the buffer unchanged. -/
theorem magicComplexPencil_outside {R : Type} [CommRing R] (normfact : R)
    (green d : Nat → R) (id id_green n j : Nat) (h : ¬ (id ≤ j ∧ j < id + 2 * n)) :
    (forLoop (magicComplexCell normfact green) n (d, id, id_green)).1 j = d j :=
  (magicComplexPencil_spec normfact green d id id_green n).2.2.1 j (by omega)

/-- Inside its pencil the result of the loop over `i0` depends only on the values that the
buffer holds in the pencil. -/
theorem magicComplexPencil_local {R : Type} [CommRing R] (normfact : R)
    (green d e : Nat → R) (id id_green n j : Nat) (h : id ≤ j ∧ j < id + 2 * n)
    (hde : ∀ l, (id ≤ l ∧ l < id + 2 * n) → d l = e l) :
    (forLoop (magicComplexCell normfact green) n (d, id, id_green)).1 j
      = (forLoop (magicComplexCell normfact green) n (e, id, id_green)).1 j := by
  have hd := (magicComplexPencil_spec normfact green d id id_green n).2.2.2
  have he := (magicComplexPencil_spec normfact green e id id_green n).2.2.2
  obtain ⟨k, hk, hj⟩ : ∃ k, k < n ∧ (j = id + 2 * k ∨ j = id + 2 * k + 1) :=
    ⟨(j - id) / 2, by omega, by omega⟩
  have e0 := hde (id + 2 * k) (by omega)
  have e1 := hde (id + 2 * k + 1) (by omega)
  rcases hj with hj | hj <;> subst hj
  · rw [(hd k hk).1, (he k hk).1, e0, e1]
  · rw [(hd k hk).2, (he k hk).2, e0, e1]

/-- The three nested loops of `dothemagic_rhs_complex_nmult0`, for pencils that start at
`L0 i1 i2` in the data and at `Lg i1 i2` in the Green buffer and do not overlap in the data:
every complex cell of every pencil is replaced by `normfact` times its product with the
Green value, computed from the initial buffer, and every double outside the pencils is
unchanged. -/
theorem magicComplexLoops_spec {R : Type} [CommRing R] (normfact : R)
    (green data : Nat → R) (L0 Lg : Nat → Nat → Nat) (n0 n1 n2 : Nat)
    (hlayout : ∀ i1, i1 < n1 → ∀ i2, i2 < n2 → ∀ j1, j1 < n1 → ∀ j2, j2 < n2 →
      ∀ k, k < 2 * n0 → ∀ l, l < 2 * n0 → L0 i1 i2 + k = L0 j1 j2 + l → i1 = j1 ∧ i2 = j2) :
    (∀ i1, i1 < n1 → ∀ i2, i2 < n2 → ∀ i0, i0 < n0 →
      forLoop (fun i2 d2 => forLoop (fun i1 d1 =>
          (forLoop (magicComplexCell normfact green) n0 (d1, L0 i1 i2, Lg i1 i2)).1)
          n1 d2) n2 data (L0 i1 i2 + 2 * i0)
        = normfact * (data (L0 i1 i2 + 2 * i0) * green (Lg i1 i2 + 2 * i0)
          - data (L0 i1 i2 + 2 * i0 + 1) * green (Lg i1 i2 + 2 * i0 + 1)) ∧
      forLoop (fun i2 d2 => forLoop (fun i1 d1 =>
          (forLoop (magicComplexCell normfact green) n0 (d1, L0 i1 i2, Lg i1 i2)).1)
          n1 d2) n2 data (L0 i1 i2 + 2 * i0 + 1)
        = normfact * (data (L0 i1 i2 + 2 * i0) * green (Lg i1 i2 + 2 * i0 + 1)
          + data (L0 i1 i2 + 2 * i0 + 1) * green (Lg i1 i2 + 2 * i0))) ∧
    (∀ j, (∀ i1, i1 < n1 → ∀ i2, i2 < n2 → ¬ (L0 i1 i2 ≤ j ∧ j < L0 i1 i2 + 2 * n0)) →
      forLoop (fun i2 d2 => forLoop (fun i1 d1 =>
          (forLoop (magicComplexCell normfact green) n0 (d1, L0 i1 i2, Lg i1 i2)).1)
          n1 d2) n2 data j = data j) := by
  -- the loop over `i1`, for a fixed `i2`
  have inner : ∀ i2, i2 < n2 → ∀ (d : Nat → R) (j : Nat),
      (∀ i1, i1 < n1 → (L0 i1 i2 ≤ j ∧ j < L0 i1 i2 + 2 * n0) →
        forLoop (fun i1 d1 =>
          (forLoop (magicComplexCell normfact green) n0 (d1, L0 i1 i2, Lg i1 i2)).1) n1 d j
          = (forLoop (magicComplexCell normfact green) n0 (d, L0 i1 i2, Lg i1 i2)).1 j) ∧
      ((∀ i1, i1 < n1 → ¬ (L0 i1 i2 ≤ j ∧ j < L0 i1 i2 + 2 * n0)) →
        forLoop (fun i1 d1 =>
          (forLoop (magicComplexCell normfact green) n0 (d1, L0 i1 i2, Lg i1 i2)).1) n1 d j
          = d j) := by
    intro i2 hi2 d j
    exact forLoop_disjoint_regions
      (fun i1 d1 => (forLoop (magicComplexCell normfact green) n0 (d1, L0 i1 i2, Lg i1 i2)).1)
      (fun i1 j => L0 i1 i2 ≤ j ∧ j < L0 i1 i2 + 2 * n0) n1
      (fun i1 _ d j h => magicComplexPencil_outside normfact green d _ _ n0 j h)
      (fun i1 _ d e j h hde => magicComplexPencil_local normfact green d e _ _ n0 j h hde)
      (fun i1 hi1 l hl j h1 h2 =>
        (hlayout i1 hi1 i2 hi2 l hl i2 hi2 (j - L0 i1 i2) (by omega) (j - L0 l i2) (by omega)
          (by omega)).1)
      d n1 (le_refl _) j
  -- the loop over `i2`
  have outer := forLoop_disjoint_regions
    (fun i2 d2 => forLoop (fun i1 d1 =>
      (forLoop (magicComplexCell normfact green) n0 (d1, L0 i1 i2, Lg i1 i2)).1) n1 d2)
    (fun i2 j => ∃ i1, i1 < n1 ∧ (L0 i1 i2 ≤ j ∧ j < L0 i1 i2 + 2 * n0)) n2
    (fun i2 hi2 d j h => (inner i2 hi2 d j).2 (fun i1 hi1 hF => h ⟨i1, hi1, hF⟩))
    (fun i2 hi2 d e j h hde => by
      obtain ⟨i1, hi1, hF⟩ := h
      show forLoop _ n1 d j = forLoop _ n1 e j
      rw [(inner i2 hi2 d j).1 i1 hi1 hF, (inner i2 hi2 e j).1 i1 hi1 hF]
      exact magicComplexPencil_local normfact green d e _ _ n0 j hF
        (fun l hl => hde l ⟨i1, hi1, hl⟩))
    (fun i2 hi2 l hl j h1 h2 => by
      obtain ⟨i1, hi1, hF1⟩ := h1
      obtain ⟨j1, hj1, hF2⟩ := h2
      exact (hlayout i1 hi1 i2 hi2 j1 hj1 l hl (j - L0 i1 i2) (by omega) (j - L0 j1 l)
        (by omega) (by omega)).2)
    data n2 (le_refl _)
  have cell : ∀ i1, i1 < n1 → ∀ i2, i2 < n2 → ∀ j,
      (L0 i1 i2 ≤ j ∧ j < L0 i1 i2 + 2 * n0) →
      forLoop (fun i2 d2 => forLoop (fun i1 d1 =>
          (forLoop (magicComplexCell normfact green) n0 (d1, L0 i1 i2, Lg i1 i2)).1)
          n1 d2) n2 data j
        = (forLoop (magicComplexCell normfact green) n0 (data, L0 i1 i2, Lg i1 i2)).1 j := by
    intro i1 hi1 i2 hi2 j hF
    rw [(outer j).1 i2 hi2 ⟨i1, hi1, hF⟩]
    exact (inner i2 hi2 data j).1 i1 hi1 hF
  constructor
  · intro i1 hi1 i2 hi2 i0 hi0
    have hs := (magicComplexPencil_spec normfact green data (L0 i1 i2) (Lg i1 i2) n0).2.2.2
      i0 hi0
    rw [cell i1 hi1 i2 hi2 _ (by omega), cell i1 hi1 i2 hi2 _ (by omega)]
    exact hs
  · intro j hj
    exact (outer j).2 (fun i2 hi2 ⟨i1, hi1, hF⟩ => hj i1 hi1 i2 hi2 hF)

/-- When the fast axes of the field and Green topologies agree,
`dothemagic_rhs_complex_nmult0` returns the solver with the data produced by its three
nested loops. -/
theorem nmult0_ok {R : Type} [CommRing R] (checks : Bool)
    (localindex_ao : Int → Int → Int → Topology → Nat) (s : Solver R)
    (haxis : (s.topo_hat 2).axis = (s.topo_green 2).axis) :
    Solver.dothemagic_rhs_complex_nmult0 checks localindex_ao s = Except.ok
      { s with
        data := (forLoop (fun i2 d2 => forLoop (fun i1 d1 =>
          (forLoop (magicComplexCell s.normfact s.green)
            ((s.topo_hat 2).nloc (s.topo_hat 2).axis).toNat
            (d1, localindex_ao 0 (i1 : Int) (i2 : Int) (s.topo_hat 2),
              localindex_ao (s.plan_green 2).shiftgreen (i1 : Int) (i2 : Int)
                (s.topo_green 2))).1)
          ((s.topo_hat 2).nloc ((s.topo_hat 2).axis + 1)).toNat d2)
          ((s.topo_hat 2).nloc ((s.topo_hat 2).axis + 2)).toNat s.data) } := by
  simp [Solver.dothemagic_rhs_complex_nmult0, FLUPS_CHECK, haxis, bind, Except.bind, pure,
    Except.pure]

/-- C10 (amended): on a complex last spectral topology whose pencils do not overlap in
memory (and whose fast axis is that of the Green topology), the convolution step of `solve`
for the solver type SRHS behaves as follows.  When `nbr_imult = 0` it succeeds and replaces
every spectral element `x` (every local cell of the topology) by `normfact * x * G * c` with
`c = 1`, the factor that the specification gives for `nbr_imult mod 4 = 0`.  For every other
value of `nbr_imult` (a non-zero multiple of 4 included) no product is computed: the step
raises the "number of imult not supported" error when checks are enabled and leaves the
solver unchanged otherwise. -/
theorem solve_domagic_complex_imult {R : Type} [CommRing R] (checks : Bool)
    (localindex_ao : Int → Int → Int → Topology → Nat) (s : Solver R)
    (hcomplex : (s.topo_hat 2).isComplex = true)
    (haxis : (s.topo_hat 2).axis = (s.topo_green 2).axis)
    (hlayout : ∀ i1, i1 < ((s.topo_hat 2).nloc ((s.topo_hat 2).axis + 1)).toNat →
      ∀ i2, i2 < ((s.topo_hat 2).nloc ((s.topo_hat 2).axis + 2)).toNat →
      ∀ j1, j1 < ((s.topo_hat 2).nloc ((s.topo_hat 2).axis + 1)).toNat →
      ∀ j2, j2 < ((s.topo_hat 2).nloc ((s.topo_hat 2).axis + 2)).toNat →
      ∀ k, k < 2 * ((s.topo_hat 2).nloc (s.topo_hat 2).axis).toNat →
      ∀ l, l < 2 * ((s.topo_hat 2).nloc (s.topo_hat 2).axis).toNat →
      localindex_ao 0 (i1 : Int) (i2 : Int) (s.topo_hat 2) + k
        = localindex_ao 0 (j1 : Int) (j2 : Int) (s.topo_hat 2) + l → i1 = j1 ∧ i2 = j2) :
    (s.nbr_imult = 0 →
      ∃ s1 : Solver R,
        Solver.solve_domagic checks localindex_ao SolverType.SRHS s = Except.ok s1 ∧
        ∀ i0 i1 i2 : Nat,
          i0 < ((s.topo_hat 2).nloc (s.topo_hat 2).axis).toNat →
          i1 < ((s.topo_hat 2).nloc ((s.topo_hat 2).axis + 1)).toNat →
          i2 < ((s.topo_hat 2).nloc ((s.topo_hat 2).axis + 2)).toNat →
          complexAt s1.data (localindex_ao 0 (i1 : Int) (i2 : Int) (s.topo_hat 2) + 2 * i0)
            = cscale s.normfact (cmul
                (cmul
                  (complexAt s.data
                    (localindex_ao 0 (i1 : Int) (i2 : Int) (s.topo_hat 2) + 2 * i0))
                  (complexAt s.green
                    (localindex_ao (s.plan_green 2).shiftgreen (i1 : Int) (i2 : Int)
                      (s.topo_green 2) + 2 * i0)))
                (specImultFactor s.nbr_imult))) ∧
    (s.nbr_imult ≠ 0 →
      Solver.solve_domagic checks localindex_ao SolverType.SRHS s
        = if checks then Except.error FlupsError.imultNotSupported else Except.ok s) := by
  constructor
  · intro h0
    have hspec := magicComplexLoops_spec s.normfact s.green s.data
      (fun i1 i2 => localindex_ao 0 (i1 : Int) (i2 : Int) (s.topo_hat 2))
      (fun i1 i2 => localindex_ao (s.plan_green 2).shiftgreen (i1 : Int) (i2 : Int)
        (s.topo_green 2))
      ((s.topo_hat 2).nloc (s.topo_hat 2).axis).toNat
      ((s.topo_hat 2).nloc ((s.topo_hat 2).axis + 1)).toNat
      ((s.topo_hat 2).nloc ((s.topo_hat 2).axis + 2)).toNat hlayout
    have hsolve : Solver.solve_domagic checks localindex_ao SolverType.SRHS s
        = Solver.dothemagic_rhs_complex_nmult0 checks localindex_ao s := by
      simp [Solver.solve_domagic, hcomplex, h0]
    rw [hsolve, nmult0_ok checks localindex_ao s haxis]
    refine ⟨_, rfl, ?_⟩
    · intro i0 i1 i2 hi0 hi1 hi2
      obtain ⟨hre, him⟩ := hspec.1 i1 hi1 i2 hi2 i0 hi0
      simp only [complexAt, cscale, cmul, specImultFactor, h0]
      simp only [hre, him]
      simp
  · intro h0
    cases checks <;>
      simp [Solver.solve_domagic, hcomplex, h0, FLUPS_CHECK, bind, Except.bind, pure,
        Except.pure]



example : exampleLocalIndex 0 1 0 exampleSpectralTopo = 4 := by decide
example : Solver.solve_domagic true exampleLocalIndex SolverType.SRHS (exampleSolver 1) = Except.error FlupsError.imultNotSupported := by
  rfl

/-- C10 (counterexample): for `nbr_imult = 1` on the complex topology of `exampleSolver` the
convolution step of `solve` raises the "number of imult not supported" error when checks are
enabled; when they are disabled it returns the data unchanged, so that the first spectral
element stays `1 + 2i`, whereas `normfact * x * G * (-i)` with `normfact = 3`, `x = 1 + 2i`
and `G = 1 + 3i` is `15 + 15i`. -/
theorem solve_domagic_imult1_not_multiplied :
    (exampleSolver 1).nbr_imult % 4 = 1 ∧
    (exampleSolver 1).topo_hat 2 = exampleSpectralTopo ∧ exampleSpectralTopo.isComplex = true ∧
    Solver.solve_domagic true exampleLocalIndex SolverType.SRHS (exampleSolver 1)
      = Except.error FlupsError.imultNotSupported ∧
    (∃ s1 : Solver Int,
      Solver.solve_domagic false exampleLocalIndex SolverType.SRHS (exampleSolver 1)
        = Except.ok s1 ∧
      complexAt s1.data (exampleLocalIndex 0 0 0 exampleSpectralTopo) = (1, 2) ∧
      complexAt (exampleSolver 1).data (exampleLocalIndex 0 0 0 exampleSpectralTopo) = (1, 2) ∧
      complexAt (exampleSolver 1).green (exampleLocalIndex 0 0 0 exampleSpectralTopo) = (1, 3) ∧
      cscale (exampleSolver 1).normfact (cmul (cmul (1, 2) (1, 3))
        (specImultFactor (exampleSolver 1).nbr_imult)) = ((15, 15) : Int × Int)) := by
  refine ⟨by decide, rfl, by decide, rfl, _, rfl, ?_, ?_, ?_, ?_⟩ <;> decide

/-- Instance of `solve_domagic_complex_imult` on `exampleSolver 0`. -/
theorem solve_domagic_complex_imult_witness :
    ((exampleSolver 0).topo_hat 2).isComplex = true ∧
    ((exampleSolver 0).topo_hat 2).axis = ((exampleSolver 0).topo_green 2).axis ∧
    ((exampleSolver 0).nbr_imult = 0 →
      ∃ s1 : Solver Int,
        Solver.solve_domagic true exampleLocalIndex SolverType.SRHS (exampleSolver 0)
          = Except.ok s1 ∧
        ∀ i0 i1 i2 : Nat,
          i0 < (((exampleSolver 0).topo_hat 2).nloc ((exampleSolver 0).topo_hat 2).axis).toNat →
          i1 < (((exampleSolver 0).topo_hat 2).nloc
            (((exampleSolver 0).topo_hat 2).axis + 1)).toNat →
          i2 < (((exampleSolver 0).topo_hat 2).nloc
            (((exampleSolver 0).topo_hat 2).axis + 2)).toNat →
          complexAt s1.data
              (exampleLocalIndex 0 (i1 : Int) (i2 : Int) ((exampleSolver 0).topo_hat 2) + 2 * i0)
            = cscale (exampleSolver 0).normfact (cmul
                (cmul
                  (complexAt (exampleSolver 0).data
                    (exampleLocalIndex 0 (i1 : Int) (i2 : Int) ((exampleSolver 0).topo_hat 2)
                      + 2 * i0))
                  (complexAt (exampleSolver 0).green
                    (exampleLocalIndex ((exampleSolver 0).plan_green 2).shiftgreen (i1 : Int)
                      (i2 : Int) ((exampleSolver 0).topo_green 2) + 2 * i0)))
                (specImultFactor (exampleSolver 0).nbr_imult))) ∧
    ((exampleSolver 0).nbr_imult ≠ 0 →
      Solver.solve_domagic true exampleLocalIndex SolverType.SRHS (exampleSolver 0)
        = if true then Except.error FlupsError.imultNotSupported
          else Except.ok (exampleSolver 0)) :=
  ⟨by decide, rfl,
    solve_domagic_complex_imult true exampleLocalIndex (exampleSolver 0) (by decide) rfl
      (by
        intro i1 hi1 i2 hi2 j1 hj1 j2 hj2 k hk l hl h
        have h1 : i1 < 2 := hi1
        have h2 : i2 < 1 := hi2
        have h3 : j1 < 2 := hj1
        have h4 : j2 < 1 := hj2
        have h5 : k < 4 := hk
        have h6 : l < 4 := hl
        interval_cases i1 <;> interval_cases j1 <;> interval_cases i2 <;> interval_cases j2 <;>
          simp [exampleLocalIndex, exampleSolver, exampleSpectralTopo] at h ⊢ <;> omega)⟩

/-! ## The pipeline of `solve` -/

/-- A loop whose iteration `i` overwrites the region `F i` of a buffer with the values of
`src` and leaves the rest unchanged: after the loop the buffer holds `src` on the union of
the regions and is unchanged elsewhere. -/
theorem forLoop_overwrite {R : Type} (U : Nat → (Nat → R) → (Nat → R))
    (F : Nat → Nat → Prop) (src : Nat → R) (n : Nat)
    (hin : ∀ i, i < n → ∀ (d : Nat → R) (j : Nat), F i j → U i d j = src j)
    (hout : ∀ i, i < n → ∀ (d : Nat → R) (j : Nat), ¬ F i j → U i d j = d j)
    (d : Nat → R) (j : Nat) :
    ((∃ i, i < n ∧ F i j) → forLoop U n d j = src j) ∧
    ((¬ ∃ i, i < n ∧ F i j) → forLoop U n d j = d j) := by
  induction n with
  | zero =>
    exact ⟨fun ⟨i, hi, _⟩ => absurd hi (Nat.not_lt_zero i), fun _ => rfl⟩
  | succ n ih =>
    have ihn := ih (fun i hi => hin i (by omega)) (fun i hi => hout i (by omega))
    constructor
    · rintro ⟨i, hi, hF⟩
      show U n (forLoop U n d) j = src j
      by_cases hFn : F n j
      · exact hin n (by omega) _ j hFn
      · rw [hout n (by omega) _ j hFn]
        have hin2 : i < n := by
          rcases Nat.lt_succ_iff_lt_or_eq.mp hi with h | h
          · exact h
          · subst h; exact absurd hF hFn
        exact ihn.1 ⟨i, hin2, hF⟩
    · intro hnone
      show U n (forLoop U n d) j = d j
      rw [hout n (by omega) _ j (fun hFn => hnone ⟨n, by omega, hFn⟩)]
      exact ihn.2 (fun ⟨i, hi, hF⟩ => hnone ⟨i, by omega, hF⟩)

/-- The loop over `i0` of a copy: the `n` doubles from `id` on are copied. -/
theorem copyPencil_spec {R : Type} (src d : Nat → R) (id n : Nat) :
    (forLoop (copyCell src) n (d, id)).2 = id + n ∧
    ∀ j, (forLoop (copyCell src) n (d, id)).1 j
      = if id ≤ j ∧ j < id + n then src j else d j := by
  induction n with
  | zero =>
    refine ⟨rfl, fun j => ?_⟩
    have : ¬ (id ≤ j ∧ j < id + 0) := by omega
    rw [if_neg this]
    rfl
  | succ n ih =>
    obtain ⟨h1, h2⟩ := ih
    simp only [forLoop, copyCell, h1]
    refine ⟨by omega, fun j => ?_⟩
    by_cases hj : j = id + n
    · subst hj
      rw [writeAt_same, if_pos (by omega)]
    · rw [writeAt_other _ _ _ _ hj, h2 j]
      by_cases hr : id ≤ j ∧ j < id + n
      · rw [if_pos hr, if_pos (by omega)]
      · rw [if_neg hr, if_neg (by omega)]

/-- The copy loops of `solve`: a double of `dst` is replaced by the one of `src` exactly when
its index is that of a local cell of `topo`. -/
theorem copyLocalCells_spec {R : Type} (localindex_ao : Int → Int → Int → Topology → Nat)
    (topo : Topology) (src dst : Nat → R) (j : Nat) :
    ((∃ i2, i2 < (topo.nloc (topo.axis + 2)).toNat ∧
        ∃ i1, i1 < (topo.nloc (topo.axis + 1)).toNat ∧
          (localindex_ao 0 (i1 : Int) (i2 : Int) topo ≤ j ∧
            j < localindex_ao 0 (i1 : Int) (i2 : Int) topo + (topo.nloc topo.axis).toNat)) →
      copyLocalCells localindex_ao topo src dst j = src j) ∧
    ((¬ ∃ i2, i2 < (topo.nloc (topo.axis + 2)).toNat ∧
        ∃ i1, i1 < (topo.nloc (topo.axis + 1)).toNat ∧
          (localindex_ao 0 (i1 : Int) (i2 : Int) topo ≤ j ∧
            j < localindex_ao 0 (i1 : Int) (i2 : Int) topo + (topo.nloc topo.axis).toNat)) →
      copyLocalCells localindex_ao topo src dst j = dst j) := by
  have inner : ∀ (i2 : Nat) (d : Nat → R) (j : Nat),
      ((∃ i1, i1 < (topo.nloc (topo.axis + 1)).toNat ∧
          (localindex_ao 0 (i1 : Int) (i2 : Int) topo ≤ j ∧
            j < localindex_ao 0 (i1 : Int) (i2 : Int) topo + (topo.nloc topo.axis).toNat)) →
        forLoop (fun i1 d1 =>
          (forLoop (copyCell src) (topo.nloc topo.axis).toNat
            (d1, localindex_ao 0 (i1 : Int) (i2 : Int) topo)).1)
          (topo.nloc (topo.axis + 1)).toNat d j = src j) ∧
      ((¬ ∃ i1, i1 < (topo.nloc (topo.axis + 1)).toNat ∧
          (localindex_ao 0 (i1 : Int) (i2 : Int) topo ≤ j ∧
            j < localindex_ao 0 (i1 : Int) (i2 : Int) topo + (topo.nloc topo.axis).toNat)) →
        forLoop (fun i1 d1 =>
          (forLoop (copyCell src) (topo.nloc topo.axis).toNat
            (d1, localindex_ao 0 (i1 : Int) (i2 : Int) topo)).1)
          (topo.nloc (topo.axis + 1)).toNat d j = d j) := by
    intro i2 d j
    exact forLoop_overwrite
      (fun i1 d1 => (forLoop (copyCell src) (topo.nloc topo.axis).toNat
        (d1, localindex_ao 0 (i1 : Int) (i2 : Int) topo)).1)
      (fun i1 j => localindex_ao 0 (i1 : Int) (i2 : Int) topo ≤ j ∧
        j < localindex_ao 0 (i1 : Int) (i2 : Int) topo + (topo.nloc topo.axis).toNat)
      src _
      (fun i1 _ d j h => by
        show (forLoop (copyCell src) _ (d, _)).1 j = src j
        rw [(copyPencil_spec src d _ _).2 j, if_pos h])
      (fun i1 _ d j h => by
        show (forLoop (copyCell src) _ (d, _)).1 j = d j
        rw [(copyPencil_spec src d _ _).2 j, if_neg h])
      d j
  exact forLoop_overwrite
    (fun i2 d2 => forLoop (fun i1 d1 =>
      (forLoop (copyCell src) (topo.nloc topo.axis).toNat
        (d1, localindex_ao 0 (i1 : Int) (i2 : Int) topo)).1)
      (topo.nloc (topo.axis + 1)).toNat d2)
    (fun i2 j => ∃ i1, i1 < (topo.nloc (topo.axis + 1)).toNat ∧
      (localindex_ao 0 (i1 : Int) (i2 : Int) topo ≤ j ∧
        j < localindex_ao 0 (i1 : Int) (i2 : Int) topo + (topo.nloc topo.axis).toNat))
    src _
    (fun i2 _ d j h => (inner i2 d j).1 h)
    (fun i2 _ d j h => (inner i2 d j).2 h)
    dst j

/-- The range that `solve` clears is the union of the memory blocks of the input topology
and of the three intermediate topologies. -/
theorem solve_size_tot_lt_iff (locmemsize : Topology → Nat) (topo : Topology)
    (topo_hat : Fin 3 → Topology) (j : Nat) :
    j < Solver.solve_size_tot locmemsize topo topo_hat ↔
      (j < locmemsize topo ∨ ∃ id : Fin 3, j < locmemsize (topo_hat id)) := by
  simp only [Solver.solve_size_tot, List.foldl, lt_max_iff]
  constructor
  · rintro (h | h | h | h)
    · exact Or.inr ⟨2, h⟩
    · exact Or.inr ⟨1, h⟩
    · exact Or.inr ⟨0, h⟩
    · exact Or.inl h
  · rintro (h | ⟨id, h⟩)
    · exact Or.inr (Or.inr (Or.inr h))
    · fin_cases id
      · exact Or.inr (Or.inr (Or.inl h))
      · exact Or.inr (Or.inl h)
      · exact Or.inl h

/-- The local cells of the pencil `exampleTopoHat 0` lie in its memory block of 36
doubles. -/
theorem exampleTopoHat_cells_in_block (i0 i1 i2 : Nat)
    (h0 : i0 < ((exampleTopoHat 0).nloc (exampleTopoHat 0).axis).toNat)
    (h1 : i1 < ((exampleTopoHat 0).nloc ((exampleTopoHat 0).axis + 1)).toNat)
    (h2 : i2 < ((exampleTopoHat 0).nloc ((exampleTopoHat 0).axis + 2)).toNat) :
    exampleExt.localindex_ao 0 (i1 : Int) (i2 : Int) (exampleTopoHat 0) + i0
      < exampleExt.locmemsize (exampleTopoHat 0) := by
  have h0' : i0 < 3 := h0
  have h1' : i1 < 3 := h1
  have h2' : i2 < 3 := h2
  interval_cases i0 <;> interval_cases i1 <;> interval_cases i2 <;> decide

/-- C15: let the topology of the right-hand side be real (the check of `solve`), let the
range that `solve` clears fit in the buffer that `_allocate_data` allocates, and let the
local cells of the input topology lie in its memory block.  Then the clear and copy steps
at the start of `Solver::solve` succeed for every `rhs`, and afterwards the scratch buffer
holds the value of `rhs` at the memory index of every local cell of the input topology
(`i0 < nloc` along the fast axis) and zero at every other index of the cleared range.  The
cleared range contains the memory block of the input topology and those of the three
intermediate topologies, so the padded regions of all of them are zero; no double at or
beyond the allocated size is written. -/
theorem solve_clear_copy_spec {R : Type} [Zero R] (checks : Bool) (ext : SolveExt R)
    (topo : Topology) (rhs : Nat → R) (s : Solver R) (hreal : topo.isComplex = false)
    (hfit : Solver.solve_size_tot ext.locmemsize topo s.topo_hat
      ≤ Solver._allocate_data_size ext.locmemsize s.topo_hat)
    (hblock : ∀ i0 i1 i2 : Nat, i0 < (topo.nloc topo.axis).toNat →
      i1 < (topo.nloc (topo.axis + 1)).toNat → i2 < (topo.nloc (topo.axis + 2)).toNat →
      ext.localindex_ao 0 (i1 : Int) (i2 : Int) topo + i0 < ext.locmemsize topo) :
    ∃ s1 : Solver R, Solver.solve_clear_copy checks ext topo rhs s = Except.ok s1 ∧
      (∀ i0 i1 i2 : Nat, i0 < (topo.nloc topo.axis).toNat →
        i1 < (topo.nloc (topo.axis + 1)).toNat → i2 < (topo.nloc (topo.axis + 2)).toNat →
        s1.data (ext.localindex_ao 0 (i1 : Int) (i2 : Int) topo + i0)
          = rhs (ext.localindex_ao 0 (i1 : Int) (i2 : Int) topo + i0)) ∧
      (∀ j : Nat,
        (j < ext.locmemsize topo ∨ ∃ id : Fin 3, j < ext.locmemsize (s.topo_hat id)) →
        (∀ i0 i1 i2 : Nat, i0 < (topo.nloc topo.axis).toNat →
          i1 < (topo.nloc (topo.axis + 1)).toNat → i2 < (topo.nloc (topo.axis + 2)).toNat →
          j ≠ ext.localindex_ao 0 (i1 : Int) (i2 : Int) topo + i0) →
        s1.data j = 0) ∧
      (∀ j : Nat, Solver._allocate_data_size ext.locmemsize s.topo_hat ≤ j →
        s1.data j = s.data j) := by
  have hnot : ∀ j : Nat,
      (∀ i0 i1 i2 : Nat, i0 < (topo.nloc topo.axis).toNat →
        i1 < (topo.nloc (topo.axis + 1)).toNat → i2 < (topo.nloc (topo.axis + 2)).toNat →
        j ≠ ext.localindex_ao 0 (i1 : Int) (i2 : Int) topo + i0) →
      ¬ ∃ i2, i2 < (topo.nloc (topo.axis + 2)).toNat ∧
        ∃ i1, i1 < (topo.nloc (topo.axis + 1)).toNat ∧
          (ext.localindex_ao 0 (i1 : Int) (i2 : Int) topo ≤ j ∧
            j < ext.localindex_ao 0 (i1 : Int) (i2 : Int) topo
              + (topo.nloc topo.axis).toNat) := by
    intro j hcell
    rintro ⟨i2, h2, i1, h1, hlo, hhi⟩
    exact hcell (j - ext.localindex_ao 0 (i1 : Int) (i2 : Int) topo) i1 i2 (by omega) h1 h2
      (by omega)
  refine ⟨{ s with
    data := (copyLocalCells ext.localindex_ao topo rhs
      (memsetZero s.data (Solver.solve_size_tot ext.locmemsize topo s.topo_hat))) },
    ?_, ?_, ?_, ?_⟩
  · simp [Solver.solve_clear_copy, FLUPS_CHECK, hreal, bind, Except.bind, pure, Except.pure]
  · intro i0 i1 i2 h0 h1 h2
    exact (copyLocalCells_spec ext.localindex_ao topo rhs _ _).1
      ⟨i2, h2, i1, h1, by omega, by omega⟩
  · intro j hj hcell
    have hlt := (solve_size_tot_lt_iff ext.locmemsize topo s.topo_hat j).mpr hj
    show copyLocalCells ext.localindex_ao topo rhs _ j = 0
    rw [(copyLocalCells_spec ext.localindex_ao topo rhs _ j).2 (hnot j hcell)]
    simp [memsetZero, hlt]
  · intro j hj
    have hge : ¬ j < Solver.solve_size_tot ext.locmemsize topo s.topo_hat := by omega
    have hcell : ∀ i0 i1 i2 : Nat, i0 < (topo.nloc topo.axis).toNat →
        i1 < (topo.nloc (topo.axis + 1)).toNat → i2 < (topo.nloc (topo.axis + 2)).toNat →
        j ≠ ext.localindex_ao 0 (i1 : Int) (i2 : Int) topo + i0 := by
      intro i0 i1 i2 h0 h1 h2 hj2
      apply hge
      rw [solve_size_tot_lt_iff]
      left
      rw [hj2]
      exact hblock i0 i1 i2 h0 h1 h2
    show copyLocalCells ext.localindex_ao topo rhs _ j = s.data j
    rw [(copyLocalCells_spec ext.localindex_ao topo rhs _ j).2 (hnot j hcell)]
    simp [memsetZero, hge]

/-- Instance of `solve_clear_copy_spec` on `exampleIdentitySolver` with the real pencil
`exampleTopoHat 0` as input topology: its pencils of 3 doubles are padded to 4, its block
of 36 doubles is the range cleared and the size allocated. -/
theorem solve_clear_copy_spec_witness :
    (exampleTopoHat 0).isComplex = false ∧
    Solver.solve_size_tot exampleExt.locmemsize (exampleTopoHat 0)
        exampleIdentitySolver.topo_hat = 36 ∧
    Solver._allocate_data_size exampleExt.locmemsize exampleIdentitySolver.topo_hat = 36 ∧
    ∃ s1 : Solver Int,
      Solver.solve_clear_copy true exampleExt (exampleTopoHat 0) (fun j => (j : Int) + 5)
        exampleIdentitySolver = Except.ok s1 ∧
      (∀ i0 i1 i2 : Nat, i0 < ((exampleTopoHat 0).nloc (exampleTopoHat 0).axis).toNat →
        i1 < ((exampleTopoHat 0).nloc ((exampleTopoHat 0).axis + 1)).toNat →
        i2 < ((exampleTopoHat 0).nloc ((exampleTopoHat 0).axis + 2)).toNat →
        s1.data (exampleExt.localindex_ao 0 (i1 : Int) (i2 : Int) (exampleTopoHat 0) + i0)
          = (fun j : Nat => (j : Int) + 5)
            (exampleExt.localindex_ao 0 (i1 : Int) (i2 : Int) (exampleTopoHat 0) + i0)) ∧
      (∀ j : Nat,
        (j < exampleExt.locmemsize (exampleTopoHat 0) ∨
          ∃ id : Fin 3, j < exampleExt.locmemsize (exampleIdentitySolver.topo_hat id)) →
        (∀ i0 i1 i2 : Nat, i0 < ((exampleTopoHat 0).nloc (exampleTopoHat 0).axis).toNat →
          i1 < ((exampleTopoHat 0).nloc ((exampleTopoHat 0).axis + 1)).toNat →
          i2 < ((exampleTopoHat 0).nloc ((exampleTopoHat 0).axis + 2)).toNat →
          j ≠ exampleExt.localindex_ao 0 (i1 : Int) (i2 : Int) (exampleTopoHat 0) + i0) →
        s1.data j = 0) ∧
      (∀ j : Nat,
        Solver._allocate_data_size exampleExt.locmemsize exampleIdentitySolver.topo_hat ≤ j →
        s1.data j = exampleIdentitySolver.data j) :=
  ⟨by decide, by decide, by decide,
    solve_clear_copy_spec true exampleExt (exampleTopoHat 0) (fun j => (j : Int) + 5)
      exampleIdentitySolver (by decide) (by decide) exampleTopoHat_cells_in_block⟩

/-- The clear and copy steps on the example of the witness: the cell `(2, 2, 2)` is at the
index 34 and receives `rhs[34] = 39`; the padding double of index 35, and the one of index
3 behind the first pencil, are zero; the double of index 36, beyond the allocation, keeps
its value 7. -/
theorem exampleClearCopy_values :
    (Solver.solve_clear_copy true exampleExt (exampleTopoHat 0) (fun j => (j : Int) + 5)
        exampleIdentitySolver).toOption.map
      (fun s1 => (s1.data 34, s1.data 35, s1.data 3, s1.data 36))
      = some (39, 0, 0, 7) := by
  decide

/-- C16 (the code at a failing input): the input topology `exampleTopoUser` (alignment 64)
has a local memory block of `8 * 3 * 3 = 72` doubles, the three intermediate pencils
`exampleTopoHat d` (alignment 32) have blocks of 36 doubles.  `_allocate_data` allocates 36
doubles, `solve` clears 72, and the copy of the right-hand side writes the double of index
66. -/
theorem solve_clears_past_allocation :
    Topology.new true 0 ![3, 3, 3] ![1, 1, 1] false none 64 1 ![0, 0, 0]
      = Except.ok exampleTopoUser ∧
    (∀ d : Fin 3, Topology.new true d ![3, 3, 3] ![1, 1, 1] false none 32 1 ![0, 0, 0]
      = Except.ok (exampleTopoHat d)) ∧
    Solver._allocate_data_size exampleLocmemsize exampleTopoHat = 36 ∧
    Solver.solve_size_tot exampleLocmemsize exampleTopoUser exampleTopoHat = 72 ∧
    exampleLocalIndex 0 2 2 exampleTopoUser + 2 = 66 := by
  refine ⟨rfl, ?_, by decide, by decide, by decide⟩
  intro d
  fin_cases d <;> rfl

/-- The outcomes of `dothemagic_rhs_real`: one of its two checks fails, or only the data of
the solver change. -/
theorem dothemagic_rhs_real_cases {R : Type} [CommRing R] (checks : Bool)
    (localindex_ao : Int → Int → Int → Topology → Nat) (s : Solver R) :
    Solver.dothemagic_rhs_real checks localindex_ao s = Except.error FlupsError.axisMismatch ∨
    Solver.dothemagic_rhs_real checks localindex_ao s
      = Except.error FlupsError.complexMismatch ∨
    ∃ d : Nat → R,
      Solver.dothemagic_rhs_real checks localindex_ao s = Except.ok { s with data := d } := by
  unfold Solver.dothemagic_rhs_real
  rcases FLUPS_CHECK_ok_or_error checks
    (decide ((s.topo_hat 2).axis = (s.topo_green 2).axis)) FlupsError.axisMismatch
    with h1 | h1
  · rcases FLUPS_CHECK_ok_or_error checks
      (!(s.topo_hat 2).isComplex && !(s.topo_green 2).isComplex) FlupsError.complexMismatch
      with h2 | h2
    · right; right
      rw [h1, h2]
      exact ⟨_, rfl⟩
    · right; left
      rw [h1, h2]
      rfl
  · left
    rw [h1]
    rfl

/-- The outcomes of `dothemagic_rhs_complex_nmult0`: its check fails, or only the data of the
solver change. -/
theorem dothemagic_rhs_complex_nmult0_cases {R : Type} [CommRing R] (checks : Bool)
    (localindex_ao : Int → Int → Int → Topology → Nat) (s : Solver R) :
    Solver.dothemagic_rhs_complex_nmult0 checks localindex_ao s
      = Except.error FlupsError.axisMismatch ∨
    ∃ d : Nat → R,
      Solver.dothemagic_rhs_complex_nmult0 checks localindex_ao s
        = Except.ok { s with data := d } := by
  unfold Solver.dothemagic_rhs_complex_nmult0
  rcases FLUPS_CHECK_ok_or_error checks
    (decide ((s.topo_hat 2).axis = (s.topo_green 2).axis)) FlupsError.axisMismatch
    with h1 | h1
  · right
    rw [h1]
    exact ⟨_, rfl⟩
  · left
    rw [h1]
    rfl

/-- The outcomes of the convolution step: an error, or only the data of the solver change;
the error is the one on the solver type exactly when checks are enabled and the type is not
SRHS. -/
theorem solve_domagic_cases {R : Type} [CommRing R] (checks : Bool)
    (localindex_ao : Int → Int → Int → Topology → Nat) (type : SolverType) (s : Solver R) :
    (type ≠ SolverType.SRHS ∧ checks = true ∧
      Solver.solve_domagic checks localindex_ao type s
        = Except.error FlupsError.solverTypeNotImplemented) ∨
    (∃ e, e ≠ FlupsError.solverTypeNotImplemented ∧
      Solver.solve_domagic checks localindex_ao type s = Except.error e) ∨
    ∃ d : Nat → R,
      Solver.solve_domagic checks localindex_ao type s = Except.ok { s with data := d } := by
  unfold Solver.solve_domagic
  by_cases ht : type = SolverType.SRHS
  · rw [if_pos ht]
    right
    by_cases hc : (!(s.topo_hat 2).isComplex) = true
    · rw [if_pos hc]
      by_cases hi : s.nbr_imult = 0
      · rw [if_pos hi]
        rcases dothemagic_rhs_real_cases checks localindex_ao s with h | h | h
        · exact Or.inl ⟨_, by decide, h⟩
        · exact Or.inl ⟨_, by decide, h⟩
        · exact Or.inr h
      · rw [if_neg hi]
        cases checks
        · exact Or.inr ⟨s.data, rfl⟩
        · exact Or.inl ⟨_, by decide, rfl⟩
    · rw [if_neg hc]
      by_cases hi : s.nbr_imult = 0
      · rw [if_pos hi]
        rcases dothemagic_rhs_complex_nmult0_cases checks localindex_ao s with h | h
        · exact Or.inl ⟨_, by decide, h⟩
        · exact Or.inr h
      · rw [if_neg hi]
        cases checks
        · exact Or.inr ⟨s.data, rfl⟩
        · exact Or.inl ⟨_, by decide, rfl⟩
  · rw [if_neg ht]
    cases checks
    · exact Or.inr (Or.inr ⟨s.data, rfl⟩)
    · exact Or.inl ⟨ht, rfl, rfl⟩

/-- The outcomes of the clear and copy steps of `solve`. -/
theorem solve_clear_copy_cases {R : Type} [Zero R] (checks : Bool) (ext : SolveExt R)
    (topo : Topology) (rhs : Nat → R) (s : Solver R) :
    (checks = true ∧ topo.isComplex = true ∧
      Solver.solve_clear_copy checks ext topo rhs s
        = Except.error FlupsError.rhsTopoComplex) ∨
    ((checks = false ∨ topo.isComplex = false) ∧ ∃ d : Nat → R,
      Solver.solve_clear_copy checks ext topo rhs s = Except.ok { s with data := d }) := by
  unfold Solver.solve_clear_copy
  cases checks
  · exact Or.inr ⟨Or.inl rfl, _, rfl⟩
  · cases hc : topo.isComplex
    · right
      refine ⟨Or.inr rfl, copyLocalCells ext.localindex_ao topo rhs
        (memsetZero s.data (Solver.solve_size_tot ext.locmemsize topo s.topo_hat)), ?_⟩
      simp [FLUPS_CHECK, hc, bind, Except.bind, pure, Except.pure]
    · left
      refine ⟨rfl, rfl, ?_⟩
      simp [FLUPS_CHECK, hc, bind, Except.bind]

/-- On a real right-hand-side topology the clear and copy steps succeed and leave the
value of `rhs` at the memory index of every local cell. -/
theorem solve_clear_copy_cells {R : Type} [Zero R] (checks : Bool) (ext : SolveExt R)
    (topo : Topology) (rhs : Nat → R) (s : Solver R) (hreal : topo.isComplex = false) :
    ∃ s1 : Solver R, Solver.solve_clear_copy checks ext topo rhs s = Except.ok s1 ∧
      ∀ i0 i1 i2 : Nat, i0 < (topo.nloc topo.axis).toNat →
        i1 < (topo.nloc (topo.axis + 1)).toNat → i2 < (topo.nloc (topo.axis + 2)).toNat →
        s1.data (ext.localindex_ao 0 (i1 : Int) (i2 : Int) topo + i0)
          = rhs (ext.localindex_ao 0 (i1 : Int) (i2 : Int) topo + i0) := by
  refine ⟨{ s with
    data := (copyLocalCells ext.localindex_ao topo rhs
      (memsetZero s.data (Solver.solve_size_tot ext.locmemsize topo s.topo_hat))) },
    ?_, ?_⟩
  · simp [Solver.solve_clear_copy, FLUPS_CHECK, hreal, bind, Except.bind, pure, Except.pure]
  · intro i0 i1 i2 h0 h1 h2
    exact (copyLocalCells_spec ext.localindex_ao topo rhs _ _).1
      ⟨i2, h2, i1, h1, by omega, by omega⟩

/-- C12 (amended): `Solver::solve` accepts the solver type SRHS only.  For SRHS it never
raises the unsupported-solver-type error.  For each of VRHS, ROT and DIV, with checks
enabled and a real right-hand-side topology, it raises that error; and whenever it raises
that error, checks are enabled and the type is one of VRHS, ROT, DIV. -/
theorem solve_accepts_only_SRHS {R : Type} [CommRing R] :
    (∀ (checks : Bool) (ext : SolveExt R) (topo : Topology) (field rhs : Nat → R)
      (s : Solver R),
      Solver.solve checks ext topo field rhs SolverType.SRHS s
        ≠ Except.error FlupsError.solverTypeNotImplemented) ∧
    (∀ (ext : SolveExt R) (topo : Topology) (field rhs : Nat → R) (s : Solver R)
      (type : SolverType), type ≠ SolverType.SRHS → topo.isComplex = false →
      Solver.solve true ext topo field rhs type s
        = Except.error FlupsError.solverTypeNotImplemented) ∧
    (∀ (checks : Bool) (ext : SolveExt R) (topo : Topology) (field rhs : Nat → R)
      (s : Solver R) (type : SolverType),
      Solver.solve checks ext topo field rhs type s
        = Except.error FlupsError.solverTypeNotImplemented →
      checks = true ∧
        (type = SolverType.VRHS ∨ type = SolverType.ROT ∨ type = SolverType.DIV)) := by
  have key : ∀ (checks : Bool) (ext : SolveExt R) (topo : Topology) (field rhs : Nat → R)
      (s : Solver R) (type : SolverType),
      Solver.solve checks ext topo field rhs type s
        = Except.error FlupsError.solverTypeNotImplemented →
      checks = true ∧ type ≠ SolverType.SRHS := by
    intro checks ext topo field rhs s type h
    unfold Solver.solve at h
    rcases solve_clear_copy_cases checks ext topo rhs s with ⟨-, -, h1⟩ | ⟨-, d, h1⟩
    · rw [h1] at h
      simp [bind, Except.bind] at h
    · rw [h1] at h
      simp only [bind, Except.bind] at h
      rcases solve_domagic_cases checks ext.localindex_ao type
        (List.foldl (Solver.solve_forward_step ext) { s with data := d } [0, 1, 2])
        with ⟨ht, hc, -⟩ | ⟨e, he, h3⟩ | ⟨d3, h3⟩
      · exact ⟨hc, ht⟩
      · rw [h3] at h
        simp only [Except.error.injEq] at h
        exact absurd h he
      · rw [h3] at h
        simp [pure, Except.pure] at h
  refine ⟨?_, ?_, ?_⟩
  · intro checks ext topo field rhs s h
    exact (key checks ext topo field rhs s _ h).2 rfl
  · intro ext topo field rhs s type ht hreal
    unfold Solver.solve
    rcases solve_clear_copy_cases true ext topo rhs s with ⟨-, hc, -⟩ | ⟨-, d, h1⟩
    · rw [hreal] at hc
      exact absurd hc (by decide)
    · rw [h1]
      simp only [bind, Except.bind]
      rcases solve_domagic_cases true ext.localindex_ao type
        (List.foldl (Solver.solve_forward_step ext) { s with data := d } [0, 1, 2])
        with ⟨-, -, h3⟩ | ⟨e, -, h3⟩ | ⟨d3, h3⟩
      · rw [h3]
      · have h4 : Solver.solve_domagic true ext.localindex_ao type
            (List.foldl (Solver.solve_forward_step ext) { s with data := d } [0, 1, 2])
            = Except.error FlupsError.solverTypeNotImplemented := by
          simp [Solver.solve_domagic, ht, FLUPS_CHECK, bind, Except.bind]
        rw [h4]
      · have h4 : Solver.solve_domagic true ext.localindex_ao type
            (List.foldl (Solver.solve_forward_step ext) { s with data := d } [0, 1, 2])
            = Except.error FlupsError.solverTypeNotImplemented := by
          simp [Solver.solve_domagic, ht, FLUPS_CHECK, bind, Except.bind]
        rw [h4]
  · intro checks ext topo field rhs s type h
    obtain ⟨hc, ht⟩ := key checks ext topo field rhs s type h
    refine ⟨hc, ?_⟩
    cases type
    · exact absurd rfl ht
    · exact Or.inl rfl
    · exact Or.inr (Or.inl rfl)
    · exact Or.inr (Or.inr rfl)

/-- C12 (counterexample): with checks enabled, `solve` called with the solver type ROT on
the real topology `exampleTopoUser` raises the unsupported-solver-type error; so it does
with VRHS and with DIV. -/
theorem solve_rejects_ROT :
    exampleTopoUser.isComplex = false ∧
    Solver.solve true exampleExt exampleTopoUser (fun _ => 0) (fun j => (j : Int) + 5)
      SolverType.ROT (exampleSolver 0)
      = Except.error FlupsError.solverTypeNotImplemented ∧
    Solver.solve true exampleExt exampleTopoUser (fun _ => 0) (fun j => (j : Int) + 5)
      SolverType.VRHS (exampleSolver 0)
      = Except.error FlupsError.solverTypeNotImplemented ∧
    Solver.solve true exampleExt exampleTopoUser (fun _ => 0) (fun j => (j : Int) + 5)
      SolverType.DIV (exampleSolver 0)
      = Except.error FlupsError.solverTypeNotImplemented :=
  ⟨by decide, rfl, rfl, rfl⟩

theorem writeAt_self {R : Type} (buf : Nat → R) (i : Nat) : writeAt buf i (buf i) = buf := by
  funext j
  by_cases h : j = i
  · subst h; exact writeAt_same _ _ _
  · exact writeAt_other _ _ _ _ h

/-- A loop whose iterations all leave the state unchanged leaves the state unchanged. -/
theorem forLoop_id {σ : Type} (body : Nat → σ → σ) (n : Nat) (s : σ)
    (h : ∀ i, i < n → body i s = s) : forLoop body n s = s := by
  induction n with
  | zero => rfl
  | succ n ih =>
    show body n (forLoop body n s) = s
    rw [ih (fun i hi => h i (by omega))]
    exact h n (by omega)

/-- The loop over `i0` of `dothemagic_rhs_real` is the identity when `normfact * G = 1` on
the pencil. -/
theorem magicRealPencil_id {R : Type} [CommRing R] (normfact : R) (green d : Nat → R)
    (id id_green n : Nat) (h : ∀ i0, i0 < n → normfact * green (id_green + i0) = 1) :
    forLoop (magicRealCell normfact green id id_green) n d = d := by
  apply forLoop_id
  intro i0 hi0
  unfold magicRealCell
  rw [h i0 hi0, mul_one]
  exact writeAt_self d _

/-- The loop over `i0` of `dothemagic_rhs_complex_nmult0` is the identity on the data when
`normfact * G = 1` on the pencil. -/
theorem magicComplexPencil_id {R : Type} [CommRing R] (normfact : R) (green d : Nat → R)
    (id id_green n : Nat)
    (h : ∀ i0, i0 < n → normfact * green (id_green + 2 * i0) = 1 ∧
      normfact * green (id_green + 2 * i0 + 1) = 0) :
    forLoop (magicComplexCell normfact green) n (d, id, id_green)
      = (d, id + 2 * n, id_green + 2 * n) := by
  induction n with
  | zero => rfl
  | succ n ih =>
    show magicComplexCell normfact green n
      (forLoop (magicComplexCell normfact green) n (d, id, id_green)) = _
    rw [ih (fun i0 hi0 => h i0 (by omega))]
    obtain ⟨hc, he⟩ := h n (by omega)
    simp only [magicComplexCell, add_zero]
    have e1 : normfact * (d (id + 2 * n) * green (id_green + 2 * n)
        - d (id + 2 * n + 1) * green (id_green + 2 * n + 1)) = d (id + 2 * n) := by
      have : normfact * (d (id + 2 * n) * green (id_green + 2 * n)
          - d (id + 2 * n + 1) * green (id_green + 2 * n + 1))
          = d (id + 2 * n) * (normfact * green (id_green + 2 * n))
            - d (id + 2 * n + 1) * (normfact * green (id_green + 2 * n + 1)) := by ring
      rw [this, hc, he]; ring
    have e2 : normfact * (d (id + 2 * n) * green (id_green + 2 * n + 1)
        + d (id + 2 * n + 1) * green (id_green + 2 * n)) = d (id + 2 * n + 1) := by
      have : normfact * (d (id + 2 * n) * green (id_green + 2 * n + 1)
          + d (id + 2 * n + 1) * green (id_green + 2 * n))
          = d (id + 2 * n) * (normfact * green (id_green + 2 * n + 1))
            + d (id + 2 * n + 1) * (normfact * green (id_green + 2 * n)) := by ring
      rw [this, hc, he]; ring
    rw [e1, e2, writeAt_self, writeAt_self]
    refine Prod.ext rfl (Prod.ext ?_ ?_)
    · show id + 2 * n + 2 = id + 2 * (n + 1); ring
    · show id_green + 2 * n + 2 = id_green + 2 * (n + 1); ring

/-- The convolution step of `solve` is the identity when `nbr_imult = 0` and
`normfact * G = 1` on every local cell of the last spectral topology (`G` real on a real
topology, `G = c + i d` with `normfact * c = 1` and `normfact * d = 0` on a complex one),
the field and Green topologies having the same fast axis and being both real when the field
topology is real. -/
theorem solve_domagic_identity {R : Type} [CommRing R] (checks : Bool)
    (localindex_ao : Int → Int → Int → Topology → Nat) (s : Solver R)
    (himult : s.nbr_imult = 0)
    (haxis : (s.topo_hat 2).axis = (s.topo_green 2).axis)
    (hflag : (s.topo_hat 2).isComplex = false → (s.topo_green 2).isComplex = false)
    (hreal : (s.topo_hat 2).isComplex = false →
      ∀ i0 i1 i2 : Nat, i0 < ((s.topo_hat 2).nloc (s.topo_hat 2).axis).toNat →
        i1 < ((s.topo_hat 2).nloc ((s.topo_hat 2).axis + 1)).toNat →
        i2 < ((s.topo_hat 2).nloc ((s.topo_hat 2).axis + 2)).toNat →
        s.normfact * s.green (localindex_ao (s.plan_green 2).shiftgreen (i1 : Int) (i2 : Int)
          (s.topo_green 2) + i0) = 1)
    (hcplx : (s.topo_hat 2).isComplex = true →
      ∀ i0 i1 i2 : Nat, i0 < ((s.topo_hat 2).nloc (s.topo_hat 2).axis).toNat →
        i1 < ((s.topo_hat 2).nloc ((s.topo_hat 2).axis + 1)).toNat →
        i2 < ((s.topo_hat 2).nloc ((s.topo_hat 2).axis + 2)).toNat →
        s.normfact * s.green (localindex_ao (s.plan_green 2).shiftgreen (i1 : Int) (i2 : Int)
          (s.topo_green 2) + 2 * i0) = 1 ∧
        s.normfact * s.green (localindex_ao (s.plan_green 2).shiftgreen (i1 : Int) (i2 : Int)
          (s.topo_green 2) + 2 * i0 + 1) = 0) :
    Solver.solve_domagic checks localindex_ao SolverType.SRHS s = Except.ok s := by
  unfold Solver.solve_domagic
  rw [if_pos rfl, if_pos himult, if_pos himult]
  cases hc : (s.topo_hat 2).isComplex
  · have hg := hflag hc
    have hr := hreal hc
    simp only [Bool.not_false, if_true]
    unfold Solver.dothemagic_rhs_real
    simp only [FLUPS_CHECK, haxis, hc, hg, decide_True, Bool.not_true, Bool.and_false,
      Bool.not_false, Bool.and_true, Bool.false_eq_true, if_false, bind, Except.bind, pure,
      Except.pure]
    congr 1
    have hd : forLoop (fun i2 d2 => forLoop (fun i1 d1 =>
        forLoop (magicRealCell s.normfact s.green
          (localindex_ao 0 (i1 : Int) (i2 : Int) (s.topo_hat 2))
          (localindex_ao (s.plan_green 2).shiftgreen (i1 : Int) (i2 : Int) (s.topo_green 2)))
          ((s.topo_hat 2).nloc (s.topo_green 2).axis).toNat d1)
        ((s.topo_hat 2).nloc ((s.topo_green 2).axis + 1)).toNat d2)
        ((s.topo_hat 2).nloc ((s.topo_green 2).axis + 2)).toNat s.data = s.data := by
      apply forLoop_id
      intro i2 hi2
      apply forLoop_id
      intro i1 hi1
      apply magicRealPencil_id
      intro i0 hi0
      rw [← haxis] at hi0 hi1 hi2
      exact hr i0 i1 i2 hi0 hi1 hi2
    rw [hd]
  · have hx := hcplx hc
    simp only [Bool.not_true, Bool.false_eq_true, if_false]
    rw [nmult0_ok checks localindex_ao s haxis]
    congr 1
    have hd : forLoop (fun i2 d2 => forLoop (fun i1 d1 =>
        (forLoop (magicComplexCell s.normfact s.green)
          ((s.topo_hat 2).nloc (s.topo_hat 2).axis).toNat
          (d1, localindex_ao 0 (i1 : Int) (i2 : Int) (s.topo_hat 2),
            localindex_ao (s.plan_green 2).shiftgreen (i1 : Int) (i2 : Int)
              (s.topo_green 2))).1)
        ((s.topo_hat 2).nloc ((s.topo_hat 2).axis + 1)).toNat d2)
        ((s.topo_hat 2).nloc ((s.topo_hat 2).axis + 2)).toNat s.data = s.data := by
      apply forLoop_id
      intro i2 hi2
      apply forLoop_id
      intro i1 hi1
      rw [magicComplexPencil_id]
      intro i0 hi0
      exact hx i0 i1 i2 hi0 hi1 hi2
    rw [hd]

/-- The state after the forward loop of `solve`: the data have gone through remap and
transform 0, 1, 2 in this order, the topology of every real-to-complex plan has been switched
to complex, and nothing else has changed. -/
theorem solve_forward_fold {R : Type} (ext : SolveExt R) (s : Solver R) :
    (List.foldl (Solver.solve_forward_step ext) s [0, 1, 2]).data
      = ext.plan_forward_execute 2 (ext.switchtopo_execute 2
          (ext.plan_forward_execute 1 (ext.switchtopo_execute 1
            (ext.plan_forward_execute 0 (ext.switchtopo_execute 0 s.data FLUPS_FORWARD))
            FLUPS_FORWARD)) FLUPS_FORWARD) ∧
    (∀ ip : Fin 3, (List.foldl (Solver.solve_forward_step ext) s [0, 1, 2]).topo_hat ip
      = if (s.plan_forward ip).isr2c then ext.switch2complex (s.topo_hat ip)
        else s.topo_hat ip) ∧
    (List.foldl (Solver.solve_forward_step ext) s [0, 1, 2]).topo_green = s.topo_green ∧
    (List.foldl (Solver.solve_forward_step ext) s [0, 1, 2]).plan_forward = s.plan_forward ∧
    (List.foldl (Solver.solve_forward_step ext) s [0, 1, 2]).plan_backward
      = s.plan_backward ∧
    (List.foldl (Solver.solve_forward_step ext) s [0, 1, 2]).plan_green = s.plan_green ∧
    (List.foldl (Solver.solve_forward_step ext) s [0, 1, 2]).normfact = s.normfact ∧
    (List.foldl (Solver.solve_forward_step ext) s [0, 1, 2]).volfact = s.volfact ∧
    (List.foldl (Solver.solve_forward_step ext) s [0, 1, 2]).nbr_imult = s.nbr_imult ∧
    (List.foldl (Solver.solve_forward_step ext) s [0, 1, 2]).green = s.green := by
  refine ⟨rfl, ?_, rfl, rfl, rfl, rfl, rfl, rfl, rfl, rfl⟩
  intro ip
  simp only [List.foldl, Solver.solve_forward_step]
  cases h0 : (s.plan_forward 0).isr2c <;> cases h1 : (s.plan_forward 1).isr2c <;>
    cases h2 : (s.plan_forward 2).isr2c <;> fin_cases ip <;> simp [set3, h0, h1, h2]

/-- The state after the backward loop of `solve`: the data have gone through transform and
remap 2, 1, 0 in this order, the topology of every real-to-complex plan has been switched to
real, and nothing else has changed. -/
theorem solve_backward_fold {R : Type} (ext : SolveExt R) (s : Solver R) :
    (List.foldl (Solver.solve_backward_step ext) s [2, 1, 0]).data
      = ext.switchtopo_execute 0 (ext.plan_backward_execute 0
          (ext.switchtopo_execute 1 (ext.plan_backward_execute 1
            (ext.switchtopo_execute 2 (ext.plan_backward_execute 2 s.data) FLUPS_BACKWARD))
            FLUPS_BACKWARD)) FLUPS_BACKWARD ∧
    (∀ ip : Fin 3, (List.foldl (Solver.solve_backward_step ext) s [2, 1, 0]).topo_hat ip
      = if (s.plan_forward ip).isr2c then ext.switch2real (s.topo_hat ip)
        else s.topo_hat ip) ∧
    (List.foldl (Solver.solve_backward_step ext) s [2, 1, 0]).topo_green = s.topo_green ∧
    (List.foldl (Solver.solve_backward_step ext) s [2, 1, 0]).plan_forward = s.plan_forward ∧
    (List.foldl (Solver.solve_backward_step ext) s [2, 1, 0]).plan_backward
      = s.plan_backward ∧
    (List.foldl (Solver.solve_backward_step ext) s [2, 1, 0]).plan_green = s.plan_green ∧
    (List.foldl (Solver.solve_backward_step ext) s [2, 1, 0]).normfact = s.normfact ∧
    (List.foldl (Solver.solve_backward_step ext) s [2, 1, 0]).volfact = s.volfact ∧
    (List.foldl (Solver.solve_backward_step ext) s [2, 1, 0]).nbr_imult = s.nbr_imult ∧
    (List.foldl (Solver.solve_backward_step ext) s [2, 1, 0]).green = s.green := by
  refine ⟨rfl, ?_, rfl, rfl, rfl, rfl, rfl, rfl, rfl, rfl⟩
  intro ip
  simp only [List.foldl, Solver.solve_backward_step]
  cases h0 : (s.plan_forward 0).isr2c <;> cases h1 : (s.plan_forward 1).isr2c <;>
    cases h2 : (s.plan_forward 2).isr2c <;> fin_cases ip <;> simp [set3, h0, h1, h2]

/-- The state after the forward loop of `solve`, written out: the data have gone through
remap 0, transform 0, remap 1, transform 1, remap 2, transform 2, and the topology of every
real-to-complex plan has been switched to complex. -/
theorem solve_forward_state {R : Type} (ext : SolveExt R) (s : Solver R) :
    List.foldl (Solver.solve_forward_step ext) s [0, 1, 2]
      = { s with
          data := ext.plan_forward_execute 2 (ext.switchtopo_execute 2
            (ext.plan_forward_execute 1 (ext.switchtopo_execute 1
              (ext.plan_forward_execute 0 (ext.switchtopo_execute 0 s.data FLUPS_FORWARD))
              FLUPS_FORWARD)) FLUPS_FORWARD)
          topo_hat := fun ip =>
            if (s.plan_forward ip).isr2c then ext.switch2complex (s.topo_hat ip)
            else s.topo_hat ip } := by
  obtain ⟨h1, h2, h3, h4, h5, h6, h7, h8, h9, h10⟩ := solve_forward_fold ext s
  generalize List.foldl (Solver.solve_forward_step ext) s [0, 1, 2] = t at *
  cases t
  cases s
  simp only [Solver.mk.injEq]
  exact ⟨funext h2, h3, h4, h5, h6, h7, h8, h9, h10, h1⟩

/-- The state after the backward loop of `solve`, written out: the data have gone through
transform 2, remap 2, transform 1, remap 1, transform 0, remap 0, and the topology of every
real-to-complex plan has been switched to real. -/
theorem solve_backward_state {R : Type} (ext : SolveExt R) (s : Solver R) :
    List.foldl (Solver.solve_backward_step ext) s [2, 1, 0]
      = { s with
          data := ext.switchtopo_execute 0 (ext.plan_backward_execute 0
            (ext.switchtopo_execute 1 (ext.plan_backward_execute 1
              (ext.switchtopo_execute 2 (ext.plan_backward_execute 2 s.data) FLUPS_BACKWARD))
              FLUPS_BACKWARD)) FLUPS_BACKWARD
          topo_hat := fun ip =>
            if (s.plan_forward ip).isr2c then ext.switch2real (s.topo_hat ip)
            else s.topo_hat ip } := by
  obtain ⟨h1, h2, h3, h4, h5, h6, h7, h8, h9, h10⟩ := solve_backward_fold ext s
  generalize List.foldl (Solver.solve_backward_step ext) s [2, 1, 0] = t at *
  cases t
  cases s
  simp only [Solver.mk.injEq]
  exact ⟨funext h2, h3, h4, h5, h6, h7, h8, h9, h10, h1⟩

/-- When the range that `solve` clears fits in the allocated buffer and the local cells of
the input topology lie in its memory block, the clear and copy steps write no double at or
beyond the allocated size. -/
theorem solve_clear_copy_in_bounds {R : Type} [Zero R] (checks : Bool) (ext : SolveExt R)
    (topo : Topology) (rhs : Nat → R) (s s1 : Solver R)
    (hfit : Solver.solve_size_tot ext.locmemsize topo s.topo_hat
      ≤ Solver._allocate_data_size ext.locmemsize s.topo_hat)
    (hblock : ∀ i0 i1 i2 : Nat, i0 < (topo.nloc topo.axis).toNat →
      i1 < (topo.nloc (topo.axis + 1)).toNat → i2 < (topo.nloc (topo.axis + 2)).toNat →
      ext.localindex_ao 0 (i1 : Int) (i2 : Int) topo + i0 < ext.locmemsize topo)
    (h : Solver.solve_clear_copy checks ext topo rhs s = Except.ok s1) :
    ∀ j : Nat, Solver._allocate_data_size ext.locmemsize s.topo_hat ≤ j →
      s1.data j = s.data j := by
  intro j hj
  have hs1 : s1 = { s with
      data := copyLocalCells ext.localindex_ao topo rhs
        (memsetZero s.data (Solver.solve_size_tot ext.locmemsize topo s.topo_hat)) } := by
    unfold Solver.solve_clear_copy at h
    dsimp only at h
    rcases FLUPS_CHECK_ok_or_error checks (!topo.isComplex) FlupsError.rhsTopoComplex
      with hc | hc
    · rw [hc] at h
      exact (Except.ok.inj h).symm
    · rw [hc] at h
      exact absurd h (by simp [bind, Except.bind])
  have hge : ¬ j < Solver.solve_size_tot ext.locmemsize topo s.topo_hat := by omega
  have hnot : ¬ ∃ i2, i2 < (topo.nloc (topo.axis + 2)).toNat ∧
      ∃ i1, i1 < (topo.nloc (topo.axis + 1)).toNat ∧
        (ext.localindex_ao 0 (i1 : Int) (i2 : Int) topo ≤ j ∧
          j < ext.localindex_ao 0 (i1 : Int) (i2 : Int) topo
            + (topo.nloc topo.axis).toNat) := by
    rintro ⟨i2, h2, i1, h1, hlo, hhi⟩
    apply hge
    rw [solve_size_tot_lt_iff]
    left
    have := hblock (j - ext.localindex_ao 0 (i1 : Int) (i2 : Int) topo) i1 i2 (by omega) h1 h2
    omega
  rw [hs1]
  show copyLocalCells ext.localindex_ao topo rhs _ j = s.data j
  rw [(copyLocalCells_spec ext.localindex_ao topo rhs _ j).2 hnot]
  simp [memsetZero, hge]

/-- C13: identity solve.  Let the right-hand-side topology be real, the range that `solve`
clears fit in the buffer that `_allocate_data` allocates, and the local cells of the input
topology lie in its memory block.
(a) The order of the pipeline, for arbitrary remaps and transforms: whenever
`solve(field, rhs, SRHS)` returns, the data cleared and loaded with `rhs` (nothing being
written at or beyond the allocated size) have gone through remap 0, transform 0, remap 1,
transform 1, remap 2, transform 2, then the convolution, then backward transform 2, remap 2,
transform 1, remap 1, transform 0, remap 0, and `field` receives the local cells of the
result.
(b) Let moreover `nbr_imult = 0`, every backward transform undo the forward transform of
the same index, every backward remap undo the forward remap of the same index, and
`normfact * G = 1` on every local cell of the last spectral topology (whose fast axis is
that of the Green topology, the Green topology being real when it is).  Then
`solve(field, rhs, SRHS)` returns and leaves `field` equal to `rhs` on every local cell of
the input topology. -/
theorem solve_identity {R : Type} [CommRing R] (checks : Bool) (ext : SolveExt R)
    (topo : Topology) (field rhs : Nat → R) (s : Solver R)
    (htopo : topo.isComplex = false)
    (hfit : Solver.solve_size_tot ext.locmemsize topo s.topo_hat
      ≤ Solver._allocate_data_size ext.locmemsize s.topo_hat)
    (hblock : ∀ i0 i1 i2 : Nat, i0 < (topo.nloc topo.axis).toNat →
      i1 < (topo.nloc (topo.axis + 1)).toNat → i2 < (topo.nloc (topo.axis + 2)).toNat →
      ext.localindex_ao 0 (i1 : Int) (i2 : Int) topo + i0 < ext.locmemsize topo) :
    (∀ (s4 : Solver R) (field1 : Nat → R),
      Solver.solve checks ext topo field rhs SolverType.SRHS s = Except.ok (s4, field1) →
      ∃ s1 s3 : Solver R,
        Solver.solve_clear_copy checks ext topo rhs s = Except.ok s1 ∧
        (∀ j : Nat, Solver._allocate_data_size ext.locmemsize s.topo_hat ≤ j →
          s1.data j = s.data j) ∧
        Solver.solve_domagic checks ext.localindex_ao SolverType.SRHS
          { s1 with
            data := ext.plan_forward_execute 2 (ext.switchtopo_execute 2
              (ext.plan_forward_execute 1 (ext.switchtopo_execute 1
                (ext.plan_forward_execute 0
                  (ext.switchtopo_execute 0 s1.data FLUPS_FORWARD))
                FLUPS_FORWARD)) FLUPS_FORWARD)
            topo_hat := fun ip =>
              if (s1.plan_forward ip).isr2c then ext.switch2complex (s1.topo_hat ip)
              else s1.topo_hat ip } = Except.ok s3 ∧
        s4 = { s3 with
            data := ext.switchtopo_execute 0 (ext.plan_backward_execute 0
              (ext.switchtopo_execute 1 (ext.plan_backward_execute 1
                (ext.switchtopo_execute 2 (ext.plan_backward_execute 2 s3.data)
                  FLUPS_BACKWARD))
                FLUPS_BACKWARD)) FLUPS_BACKWARD
            topo_hat := fun ip =>
              if (s3.plan_forward ip).isr2c then ext.switch2real (s3.topo_hat ip)
              else s3.topo_hat ip } ∧
        field1 = copyLocalCells ext.localindex_ao topo s4.data field) ∧
    (s.nbr_imult = 0 →
      (∀ (p : Fin 3) (x : Nat → R),
        ext.plan_backward_execute p (ext.plan_forward_execute p x) = x) →
      (∀ (p : Fin 3) (x : Nat → R),
        ext.switchtopo_execute p (ext.switchtopo_execute p x FLUPS_FORWARD) FLUPS_BACKWARD
          = x) →
      (Solver.spectralTopo ext s).axis = (s.topo_green 2).axis →
      ((Solver.spectralTopo ext s).isComplex = false →
        (s.topo_green 2).isComplex = false) →
      ((Solver.spectralTopo ext s).isComplex = false →
        ∀ i0 i1 i2 : Nat,
          i0 < ((Solver.spectralTopo ext s).nloc (Solver.spectralTopo ext s).axis).toNat →
          i1 < ((Solver.spectralTopo ext s).nloc
            ((Solver.spectralTopo ext s).axis + 1)).toNat →
          i2 < ((Solver.spectralTopo ext s).nloc
            ((Solver.spectralTopo ext s).axis + 2)).toNat →
          s.normfact * s.green (ext.localindex_ao (s.plan_green 2).shiftgreen (i1 : Int)
            (i2 : Int) (s.topo_green 2) + i0) = 1) →
      ((Solver.spectralTopo ext s).isComplex = true →
        ∀ i0 i1 i2 : Nat,
          i0 < ((Solver.spectralTopo ext s).nloc (Solver.spectralTopo ext s).axis).toNat →
          i1 < ((Solver.spectralTopo ext s).nloc
            ((Solver.spectralTopo ext s).axis + 1)).toNat →
          i2 < ((Solver.spectralTopo ext s).nloc
            ((Solver.spectralTopo ext s).axis + 2)).toNat →
          s.normfact * s.green (ext.localindex_ao (s.plan_green 2).shiftgreen (i1 : Int)
            (i2 : Int) (s.topo_green 2) + 2 * i0) = 1 ∧
          s.normfact * s.green (ext.localindex_ao (s.plan_green 2).shiftgreen (i1 : Int)
            (i2 : Int) (s.topo_green 2) + 2 * i0 + 1) = 0) →
      ∃ (s4 : Solver R) (field1 : Nat → R),
        Solver.solve checks ext topo field rhs SolverType.SRHS s = Except.ok (s4, field1) ∧
        ∀ i0 i1 i2 : Nat, i0 < (topo.nloc topo.axis).toNat →
          i1 < (topo.nloc (topo.axis + 1)).toNat → i2 < (topo.nloc (topo.axis + 2)).toNat →
          field1 (ext.localindex_ao 0 (i1 : Int) (i2 : Int) topo + i0)
            = rhs (ext.localindex_ao 0 (i1 : Int) (i2 : Int) topo + i0)) := by
  obtain ⟨s1, hs1, hcopy⟩ := solve_clear_copy_cells checks ext topo rhs s htopo
  have hsolve0 : Solver.solve checks ext topo field rhs SolverType.SRHS s
      = (Solver.solve_domagic checks ext.localindex_ao SolverType.SRHS
          (List.foldl (Solver.solve_forward_step ext) s1 [0, 1, 2]) >>= fun s3 =>
        pure (List.foldl (Solver.solve_backward_step ext) s3 [2, 1, 0],
          copyLocalCells ext.localindex_ao topo
            (List.foldl (Solver.solve_backward_step ext) s3 [2, 1, 0]).data field)) := by
    unfold Solver.solve
    rw [hs1]
    rfl
  constructor
  · intro s4 field1 h
    rw [hsolve0] at h
    cases hm : Solver.solve_domagic checks ext.localindex_ao SolverType.SRHS
        (List.foldl (Solver.solve_forward_step ext) s1 [0, 1, 2]) with
    | error e =>
      rw [hm] at h
      exact absurd h (by simp [bind, Except.bind])
    | ok s3 =>
      rw [hm] at h
      have h2 : (List.foldl (Solver.solve_backward_step ext) s3 [2, 1, 0],
          copyLocalCells ext.localindex_ao topo
            (List.foldl (Solver.solve_backward_step ext) s3 [2, 1, 0]).data field)
          = (s4, field1) := Except.ok.inj h
      have h4 : List.foldl (Solver.solve_backward_step ext) s3 [2, 1, 0] = s4 :=
        congrArg Prod.fst h2
      have h5 : copyLocalCells ext.localindex_ao topo
          (List.foldl (Solver.solve_backward_step ext) s3 [2, 1, 0]).data field = field1 :=
        congrArg Prod.snd h2
      refine ⟨s1, s3, hs1,
        solve_clear_copy_in_bounds checks ext topo rhs s s1 hfit hblock hs1, ?_, ?_, ?_⟩
      · rw [← solve_forward_state ext s1]
        exact hm
      · rw [← solve_backward_state ext s3]
        exact h4.symm
      · rw [← h5, h4]
  · intro himult hplan hremap haxis hflag hreal hcplx
    obtain ⟨d, hd⟩ : ∃ d : Nat → R, s1 = { s with data := d } := by
      rcases solve_clear_copy_cases checks ext topo rhs s with ⟨-, -, h⟩ | ⟨-, d, h⟩
      · rw [h] at hs1; exact absurd hs1 (by simp)
      · rw [h] at hs1; exact ⟨d, (Except.ok.inj hs1).symm⟩
    have hfw := solve_forward_fold ext s1
    have hT : (List.foldl (Solver.solve_forward_step ext) s1 [0, 1, 2]).topo_hat 2
        = Solver.spectralTopo ext s := by
      rw [hfw.2.1 2, hd]
      rfl
    have hmagic : Solver.solve_domagic checks ext.localindex_ao SolverType.SRHS
        (List.foldl (Solver.solve_forward_step ext) s1 [0, 1, 2])
        = Except.ok (List.foldl (Solver.solve_forward_step ext) s1 [0, 1, 2]) := by
      apply solve_domagic_identity
      · rw [hfw.2.2.2.2.2.2.2.2.1, hd]; exact himult
      · rw [hT, hfw.2.2.1, hd]; exact haxis
      · rw [hT, hfw.2.2.1, hd]; exact hflag
      · rw [hT, hfw.2.2.1, hfw.2.2.2.2.2.1, hfw.2.2.2.2.2.2.1, hfw.2.2.2.2.2.2.2.2.2, hd]
        exact hreal
      · rw [hT, hfw.2.2.1, hfw.2.2.2.2.2.1, hfw.2.2.2.2.2.2.1, hfw.2.2.2.2.2.2.2.2.2, hd]
        exact hcplx
    refine ⟨_, _, by rw [hsolve0, hmagic]; rfl, ?_⟩
    intro i0 i1 i2 h0 h1 h2
    rw [(copyLocalCells_spec ext.localindex_ao topo _ field _).1
      ⟨i2, h2, i1, h1, by omega, by omega⟩]
    rw [(solve_backward_fold ext _).1, hfw.1]
    simp only [hplan, hremap]
    exact hcopy i0 i1 i2 h0 h1 h2

/-- C14: let every real-to-complex forward plan have a real topology when `solve` is
entered (the state that `_init_plansAndTopos` leaves, lines 381 to 385), `switch2real`
producing a real topology.  When `solve` returns, each of the three intermediate topologies
has the real/complex flag it had on entry, and the Green topologies, the plans, the Green
buffer and the scalar factors are unchanged. -/
theorem solve_reusable {R : Type} [CommRing R] (checks : Bool) (ext : SolveExt R)
    (topo : Topology) (field rhs : Nat → R) (type : SolverType) (s s4 : Solver R)
    (field1 : Nat → R)
    (hsetup : ∀ ip : Fin 3, (s.plan_forward ip).isr2c = true →
      (s.topo_hat ip).isComplex = false)
    (hs2r : ∀ t : Topology, (ext.switch2real t).isComplex = false)
    (h : Solver.solve checks ext topo field rhs type s = Except.ok (s4, field1)) :
    (∀ ip : Fin 3, (s4.topo_hat ip).isComplex = (s.topo_hat ip).isComplex) ∧
    s4.topo_green = s.topo_green ∧ s4.plan_forward = s.plan_forward ∧
    s4.plan_backward = s.plan_backward ∧ s4.plan_green = s.plan_green ∧
    s4.green = s.green ∧ s4.normfact = s.normfact ∧ s4.volfact = s.volfact ∧
    s4.nbr_imult = s.nbr_imult := by
  unfold Solver.solve at h
  rcases solve_clear_copy_cases checks ext topo rhs s with ⟨-, -, h1⟩ | ⟨-, d, h1⟩
  · rw [h1] at h
    simp [bind, Except.bind] at h
  · rw [h1] at h
    simp only [bind, Except.bind] at h
    rcases solve_domagic_cases checks ext.localindex_ao type
      (List.foldl (Solver.solve_forward_step ext) { s with data := d } [0, 1, 2])
      with ⟨-, -, h3⟩ | ⟨e, -, h3⟩ | ⟨d3, h3⟩
    · rw [h3] at h; simp at h
    · rw [h3] at h; simp at h
    · rw [h3] at h
      simp only [pure, Except.pure, Except.ok.injEq, Prod.mk.injEq] at h
      obtain ⟨h4, -⟩ := h
      subst h4
      have hfw := solve_forward_fold ext { s with data := d }
      have hbw := solve_backward_fold ext
        { List.foldl (Solver.solve_forward_step ext) { s with data := d } [0, 1, 2] with
          data := d3 }
      refine ⟨?_, ?_, ?_, ?_, ?_, ?_, ?_, ?_, ?_⟩
      · intro ip
        rw [hbw.2.1 ip]
        show (if (((List.foldl (Solver.solve_forward_step ext) { s with data := d }
            [0, 1, 2]).plan_forward) ip).isr2c = true
          then ext.switch2real ((List.foldl (Solver.solve_forward_step ext)
            { s with data := d } [0, 1, 2]).topo_hat ip)
          else (List.foldl (Solver.solve_forward_step ext) { s with data := d }
            [0, 1, 2]).topo_hat ip).isComplex = _
        rw [hfw.2.2.2.1, hfw.2.1 ip]
        show (if (s.plan_forward ip).isr2c = true
          then ext.switch2real (if (s.plan_forward ip).isr2c = true
            then ext.switch2complex (s.topo_hat ip) else s.topo_hat ip)
          else (if (s.plan_forward ip).isr2c = true
            then ext.switch2complex (s.topo_hat ip) else s.topo_hat ip)).isComplex = _
        by_cases hr : (s.plan_forward ip).isr2c = true
        · rw [if_pos hr, hs2r, hsetup ip hr]
        · rw [if_neg hr, if_neg hr]
      · rw [hbw.2.2.1]; exact hfw.2.2.1
      · rw [hbw.2.2.2.1]; exact hfw.2.2.2.1
      · rw [hbw.2.2.2.2.1]; exact hfw.2.2.2.2.1
      · rw [hbw.2.2.2.2.2.1]; exact hfw.2.2.2.2.2.1
      · rw [hbw.2.2.2.2.2.2.2.2.2]; exact hfw.2.2.2.2.2.2.2.2.2
      · rw [hbw.2.2.2.2.2.2.1]; exact hfw.2.2.2.2.2.2.1
      · rw [hbw.2.2.2.2.2.2.2.1]; exact hfw.2.2.2.2.2.2.2.1
      · rw [hbw.2.2.2.2.2.2.2.2.1]; exact hfw.2.2.2.2.2.2.2.2.1

/-- On `exampleIdentitySolver` the Green function is `1 + 0 i` on every cell. -/
theorem exampleIdentitySolver_green (i0 i1 i2 : Nat)
    (h0 : i0 < ((Solver.spectralTopo exampleExt exampleIdentitySolver).nloc
      (Solver.spectralTopo exampleExt exampleIdentitySolver).axis).toNat)
    (h1 : i1 < ((Solver.spectralTopo exampleExt exampleIdentitySolver).nloc
      ((Solver.spectralTopo exampleExt exampleIdentitySolver).axis + 1)).toNat)
    (h2 : i2 < ((Solver.spectralTopo exampleExt exampleIdentitySolver).nloc
      ((Solver.spectralTopo exampleExt exampleIdentitySolver).axis + 2)).toNat) :
    exampleIdentitySolver.normfact * exampleIdentitySolver.green
        (exampleExt.localindex_ao (exampleIdentitySolver.plan_green 2).shiftgreen (i1 : Int)
          (i2 : Int) (exampleIdentitySolver.topo_green 2) + 2 * i0) = 1 ∧
      exampleIdentitySolver.normfact * exampleIdentitySolver.green
        (exampleExt.localindex_ao (exampleIdentitySolver.plan_green 2).shiftgreen (i1 : Int)
          (i2 : Int) (exampleIdentitySolver.topo_green 2) + 2 * i0 + 1) = 0 := by
  have h0' : i0 < 2 := h0
  have h1' : i1 < 2 := h1
  have h2' : i2 < 1 := h2
  interval_cases i0 <;> interval_cases i1 <;> interval_cases i2 <;> decide

/-- Instance of `solve_identity` on `exampleIdentitySolver`, with the real pencil
`exampleTopoHat 0` as input topology: the range cleared and the allocation both have 36
doubles. -/
theorem solve_identity_witness :
    (exampleTopoHat 0).isComplex = false ∧
    Solver.solve_size_tot exampleExt.locmemsize (exampleTopoHat 0)
        exampleIdentitySolver.topo_hat
      ≤ Solver._allocate_data_size exampleExt.locmemsize exampleIdentitySolver.topo_hat ∧
    exampleIdentitySolver.nbr_imult = 0 ∧
    ∃ (s4 : Solver Int) (field1 : Nat → Int),
      Solver.solve true exampleExt (exampleTopoHat 0) (fun _ => 0) (fun j => (j : Int) + 5)
        SolverType.SRHS exampleIdentitySolver = Except.ok (s4, field1) ∧
      ∀ i0 i1 i2 : Nat, i0 < ((exampleTopoHat 0).nloc (exampleTopoHat 0).axis).toNat →
        i1 < ((exampleTopoHat 0).nloc ((exampleTopoHat 0).axis + 1)).toNat →
        i2 < ((exampleTopoHat 0).nloc ((exampleTopoHat 0).axis + 2)).toNat →
        field1 (exampleExt.localindex_ao 0 (i1 : Int) (i2 : Int) (exampleTopoHat 0) + i0)
          = (fun j : Nat => (j : Int) + 5)
            (exampleExt.localindex_ao 0 (i1 : Int) (i2 : Int) (exampleTopoHat 0) + i0) :=
  ⟨by decide, by decide, rfl,
    (solve_identity true exampleExt (exampleTopoHat 0) (fun _ => 0)
      (fun j => (j : Int) + 5) exampleIdentitySolver (by decide) (by decide)
      exampleTopoHat_cells_in_block).2 rfl
      (fun p x => by funext j; simp [exampleExt])
      (fun p x => by funext j; simp [exampleExt])
      (by decide)
      (fun h => absurd h (by decide))
      (fun h => absurd h (by decide))
      (fun _ i0 i1 i2 h0 h1 h2 => exampleIdentitySolver_green i0 i1 i2 h0 h1 h2)⟩

/-- The method `exampleSwitch2real` produces a real topology. -/
theorem exampleSwitch2real_isReal (t : Topology) : (exampleSwitch2real t).isComplex = false := by
  unfold exampleSwitch2real
  split_ifs with h
  · simp [Topology.isComplex]
  · simp [Topology.isComplex, h]

/-- Instance of `solve_reusable` on `exampleIdentitySolver`, whose first plan is
real-to-complex with a real topology: the call of `solve` returns and the flags are those
on entry. -/
theorem solve_reusable_witness :
    (∀ ip : Fin 3, (exampleIdentitySolver.plan_forward ip).isr2c = true →
      (exampleIdentitySolver.topo_hat ip).isComplex = false) ∧
    Solver.solve true exampleExt exampleTopoUser (fun _ => 0) (fun j => (j : Int) + 5)
      SolverType.SRHS exampleIdentitySolver
      = Except.ok (exampleSolveResult.1, exampleSolveResult.2) ∧
    ((∀ ip : Fin 3, (exampleSolveResult.1.topo_hat ip).isComplex
        = (exampleIdentitySolver.topo_hat ip).isComplex) ∧
      exampleSolveResult.1.topo_green = exampleIdentitySolver.topo_green ∧
      exampleSolveResult.1.plan_forward = exampleIdentitySolver.plan_forward ∧
      exampleSolveResult.1.plan_backward = exampleIdentitySolver.plan_backward ∧
      exampleSolveResult.1.plan_green = exampleIdentitySolver.plan_green ∧
      exampleSolveResult.1.green = exampleIdentitySolver.green ∧
      exampleSolveResult.1.normfact = exampleIdentitySolver.normfact ∧
      exampleSolveResult.1.volfact = exampleIdentitySolver.volfact ∧
      exampleSolveResult.1.nbr_imult = exampleIdentitySolver.nbr_imult) :=
  ⟨by decide, rfl,
    solve_reusable true exampleExt exampleTopoUser (fun _ => 0) (fun j => (j : Int) + 5)
      SolverType.SRHS exampleIdentitySolver exampleSolveResult.1 exampleSolveResult.2
      (by decide) exampleSwitch2real_isReal rfl⟩

/-- C11: let the field and Green topologies have the same fast axis, and let the memory
layout be the interleaved complex one: the pencils of the last spectral topology do not
overlap, and in both topologies the cell `(a + i0, i1, i2)` lies `2 * i0` doubles after the
cell `(a, i1, i2)`.
Then `dothemagic_rhs_complex_nmult0` succeeds and replaces, for every local cell
`(i0, i1, i2)` of the last spectral topology, the complex value `a + i b` of the data by
`normfact * (a + i b) * (c + i d)`, that is real part `normfact * (a c - b d)` and imaginary
part `normfact * (a d + b c)`, where `c + i d` is the Green value of the cell
`(shiftgreen + i0, i1, i2)`; nothing but the data changes. -/
theorem dothemagic_nmult0_spec {R : Type} [CommRing R] (checks : Bool)
    (localindex_ao : Int → Int → Int → Topology → Nat) (s : Solver R)
    (haxis : (s.topo_hat 2).axis = (s.topo_green 2).axis)
    (hlayout : ∀ i1, i1 < ((s.topo_hat 2).nloc ((s.topo_hat 2).axis + 1)).toNat →
      ∀ i2, i2 < ((s.topo_hat 2).nloc ((s.topo_hat 2).axis + 2)).toNat →
      ∀ j1, j1 < ((s.topo_hat 2).nloc ((s.topo_hat 2).axis + 1)).toNat →
      ∀ j2, j2 < ((s.topo_hat 2).nloc ((s.topo_hat 2).axis + 2)).toNat →
      ∀ k, k < 2 * ((s.topo_hat 2).nloc (s.topo_hat 2).axis).toNat →
      ∀ l, l < 2 * ((s.topo_hat 2).nloc (s.topo_hat 2).axis).toNat →
      localindex_ao 0 (i1 : Int) (i2 : Int) (s.topo_hat 2) + k
        = localindex_ao 0 (j1 : Int) (j2 : Int) (s.topo_hat 2) + l → i1 = j1 ∧ i2 = j2)
    (hstride : ∀ i0 i1 i2 : Nat,
      i0 < ((s.topo_hat 2).nloc (s.topo_hat 2).axis).toNat →
      i1 < ((s.topo_hat 2).nloc ((s.topo_hat 2).axis + 1)).toNat →
      i2 < ((s.topo_hat 2).nloc ((s.topo_hat 2).axis + 2)).toNat →
      localindex_ao (i0 : Int) (i1 : Int) (i2 : Int) (s.topo_hat 2)
        = localindex_ao 0 (i1 : Int) (i2 : Int) (s.topo_hat 2) + 2 * i0 ∧
      localindex_ao ((s.plan_green 2).shiftgreen + (i0 : Int)) (i1 : Int) (i2 : Int)
          (s.topo_green 2)
        = localindex_ao (s.plan_green 2).shiftgreen (i1 : Int) (i2 : Int) (s.topo_green 2)
          + 2 * i0) :
    ∃ s1 : Solver R,
      Solver.dothemagic_rhs_complex_nmult0 checks localindex_ao s = Except.ok s1 ∧
      (∀ i0 i1 i2 : Nat,
        i0 < ((s.topo_hat 2).nloc (s.topo_hat 2).axis).toNat →
        i1 < ((s.topo_hat 2).nloc ((s.topo_hat 2).axis + 1)).toNat →
        i2 < ((s.topo_hat 2).nloc ((s.topo_hat 2).axis + 2)).toNat →
        s1.data (localindex_ao (i0 : Int) (i1 : Int) (i2 : Int) (s.topo_hat 2))
          = s.normfact *
            (s.data (localindex_ao (i0 : Int) (i1 : Int) (i2 : Int) (s.topo_hat 2))
                * s.green (localindex_ao ((s.plan_green 2).shiftgreen + (i0 : Int)) (i1 : Int)
                  (i2 : Int) (s.topo_green 2))
              - s.data (localindex_ao (i0 : Int) (i1 : Int) (i2 : Int) (s.topo_hat 2) + 1)
                * s.green (localindex_ao ((s.plan_green 2).shiftgreen + (i0 : Int)) (i1 : Int)
                  (i2 : Int) (s.topo_green 2) + 1)) ∧
        s1.data (localindex_ao (i0 : Int) (i1 : Int) (i2 : Int) (s.topo_hat 2) + 1)
          = s.normfact *
            (s.data (localindex_ao (i0 : Int) (i1 : Int) (i2 : Int) (s.topo_hat 2))
                * s.green (localindex_ao ((s.plan_green 2).shiftgreen + (i0 : Int)) (i1 : Int)
                  (i2 : Int) (s.topo_green 2) + 1)
              + s.data (localindex_ao (i0 : Int) (i1 : Int) (i2 : Int) (s.topo_hat 2) + 1)
                * s.green (localindex_ao ((s.plan_green 2).shiftgreen + (i0 : Int)) (i1 : Int)
                  (i2 : Int) (s.topo_green 2))) ∧
        complexAt s1.data (localindex_ao (i0 : Int) (i1 : Int) (i2 : Int) (s.topo_hat 2))
          = cscale s.normfact (cmul
              (complexAt s.data
                (localindex_ao (i0 : Int) (i1 : Int) (i2 : Int) (s.topo_hat 2)))
              (complexAt s.green
                (localindex_ao ((s.plan_green 2).shiftgreen + (i0 : Int)) (i1 : Int)
                  (i2 : Int) (s.topo_green 2))))) ∧
      s1.topo_hat = s.topo_hat ∧ s1.topo_green = s.topo_green ∧ s1.green = s.green ∧
      s1.normfact = s.normfact ∧ s1.nbr_imult = s.nbr_imult := by
  have hspec := magicComplexLoops_spec s.normfact s.green s.data
    (fun i1 i2 => localindex_ao 0 (i1 : Int) (i2 : Int) (s.topo_hat 2))
    (fun i1 i2 => localindex_ao (s.plan_green 2).shiftgreen (i1 : Int) (i2 : Int)
      (s.topo_green 2))
    ((s.topo_hat 2).nloc (s.topo_hat 2).axis).toNat
    ((s.topo_hat 2).nloc ((s.topo_hat 2).axis + 1)).toNat
    ((s.topo_hat 2).nloc ((s.topo_hat 2).axis + 2)).toNat hlayout
  rw [nmult0_ok checks localindex_ao s haxis]
  refine ⟨_, rfl, ?_, rfl, rfl, rfl, rfl, rfl⟩
  intro i0 i1 i2 hi0 hi1 hi2
  obtain ⟨hre, him⟩ := hspec.1 i1 hi1 i2 hi2 i0 hi0
  obtain ⟨e0, eg⟩ := hstride i0 i1 i2 hi0 hi1 hi2
  simp only [complexAt, cscale, cmul]
  rw [e0, eg]
  exact ⟨hre, him, by rw [hre, him]⟩

/-- The index function of the examples follows the interleaved complex layout on
`exampleSpectralTopo`. -/
theorem exampleLocalIndex_layout :
    ∀ i1, i1 < (((exampleSolver 0).topo_hat 2).nloc
        (((exampleSolver 0).topo_hat 2).axis + 1)).toNat →
      ∀ i2, i2 < (((exampleSolver 0).topo_hat 2).nloc
        (((exampleSolver 0).topo_hat 2).axis + 2)).toNat →
      ∀ j1, j1 < (((exampleSolver 0).topo_hat 2).nloc
        (((exampleSolver 0).topo_hat 2).axis + 1)).toNat →
      ∀ j2, j2 < (((exampleSolver 0).topo_hat 2).nloc
        (((exampleSolver 0).topo_hat 2).axis + 2)).toNat →
      ∀ k, k < 2 * (((exampleSolver 0).topo_hat 2).nloc
        ((exampleSolver 0).topo_hat 2).axis).toNat →
      ∀ l, l < 2 * (((exampleSolver 0).topo_hat 2).nloc
        ((exampleSolver 0).topo_hat 2).axis).toNat →
      exampleLocalIndex 0 (i1 : Int) (i2 : Int) ((exampleSolver 0).topo_hat 2) + k
        = exampleLocalIndex 0 (j1 : Int) (j2 : Int) ((exampleSolver 0).topo_hat 2) + l →
      i1 = j1 ∧ i2 = j2 := by
  intro i1 hi1 i2 hi2 j1 hj1 j2 hj2 k hk l hl h
  have h1 : i1 < 2 := hi1
  have h2 : i2 < 1 := hi2
  have h3 : j1 < 2 := hj1
  have h4 : j2 < 1 := hj2
  have h5 : k < 4 := hk
  have h6 : l < 4 := hl
  interval_cases i1 <;> interval_cases j1 <;> interval_cases i2 <;> interval_cases j2 <;>
    simp [exampleLocalIndex, exampleSolver, exampleSpectralTopo] at h ⊢ <;> omega

/-- Instance of `dothemagic_nmult0_spec` on `exampleSolver 0`. -/
theorem dothemagic_nmult0_spec_witness :
    ((exampleSolver 0).topo_hat 2).axis = ((exampleSolver 0).topo_green 2).axis ∧
    ∃ s1 : Solver Int,
      Solver.dothemagic_rhs_complex_nmult0 true exampleLocalIndex (exampleSolver 0)
        = Except.ok s1 ∧
      (∀ i0 i1 i2 : Nat,
        i0 < (((exampleSolver 0).topo_hat 2).nloc ((exampleSolver 0).topo_hat 2).axis).toNat →
        i1 < (((exampleSolver 0).topo_hat 2).nloc
          (((exampleSolver 0).topo_hat 2).axis + 1)).toNat →
        i2 < (((exampleSolver 0).topo_hat 2).nloc
          (((exampleSolver 0).topo_hat 2).axis + 2)).toNat →
        s1.data (exampleLocalIndex (i0 : Int) (i1 : Int) (i2 : Int)
            ((exampleSolver 0).topo_hat 2))
          = (exampleSolver 0).normfact *
            ((exampleSolver 0).data (exampleLocalIndex (i0 : Int) (i1 : Int) (i2 : Int)
                  ((exampleSolver 0).topo_hat 2))
                * (exampleSolver 0).green (exampleLocalIndex
                  (((exampleSolver 0).plan_green 2).shiftgreen + (i0 : Int)) (i1 : Int)
                  (i2 : Int) ((exampleSolver 0).topo_green 2))
              - (exampleSolver 0).data (exampleLocalIndex (i0 : Int) (i1 : Int) (i2 : Int)
                  ((exampleSolver 0).topo_hat 2) + 1)
                * (exampleSolver 0).green (exampleLocalIndex
                  (((exampleSolver 0).plan_green 2).shiftgreen + (i0 : Int)) (i1 : Int)
                  (i2 : Int) ((exampleSolver 0).topo_green 2) + 1)) ∧
        s1.data (exampleLocalIndex (i0 : Int) (i1 : Int) (i2 : Int)
            ((exampleSolver 0).topo_hat 2) + 1)
          = (exampleSolver 0).normfact *
            ((exampleSolver 0).data (exampleLocalIndex (i0 : Int) (i1 : Int) (i2 : Int)
                  ((exampleSolver 0).topo_hat 2))
                * (exampleSolver 0).green (exampleLocalIndex
                  (((exampleSolver 0).plan_green 2).shiftgreen + (i0 : Int)) (i1 : Int)
                  (i2 : Int) ((exampleSolver 0).topo_green 2) + 1)
              + (exampleSolver 0).data (exampleLocalIndex (i0 : Int) (i1 : Int) (i2 : Int)
                  ((exampleSolver 0).topo_hat 2) + 1)
                * (exampleSolver 0).green (exampleLocalIndex
                  (((exampleSolver 0).plan_green 2).shiftgreen + (i0 : Int)) (i1 : Int)
                  (i2 : Int) ((exampleSolver 0).topo_green 2))) ∧
        complexAt s1.data (exampleLocalIndex (i0 : Int) (i1 : Int) (i2 : Int)
            ((exampleSolver 0).topo_hat 2))
          = cscale (exampleSolver 0).normfact (cmul
              (complexAt (exampleSolver 0).data
                (exampleLocalIndex (i0 : Int) (i1 : Int) (i2 : Int)
                  ((exampleSolver 0).topo_hat 2)))
              (complexAt (exampleSolver 0).green
                (exampleLocalIndex (((exampleSolver 0).plan_green 2).shiftgreen + (i0 : Int))
                  (i1 : Int) (i2 : Int) ((exampleSolver 0).topo_green 2))))) ∧
      s1.topo_hat = (exampleSolver 0).topo_hat ∧
      s1.topo_green = (exampleSolver 0).topo_green ∧ s1.green = (exampleSolver 0).green ∧
      s1.normfact = (exampleSolver 0).normfact ∧
      s1.nbr_imult = (exampleSolver 0).nbr_imult :=
  ⟨rfl,
    dothemagic_nmult0_spec true exampleLocalIndex (exampleSolver 0) rfl
      exampleLocalIndex_layout
      (by
        intro i0 i1 i2 h0 h1 h2
        have h0' : i0 < 2 := h0
        have h1' : i1 < 2 := h1
        have h2' : i2 < 1 := h2
        interval_cases i0 <;> interval_cases i1 <;> interval_cases i2 <;> decide)⟩

/-! ## The Green routines -/

/-- For `symstart ≥ 0` the index of the code on an unbounded axis is the one of the
specification. -/
theorem symUnbounded_eq_spec (symstart i : Int) (h0 : 0 ≤ symstart) :
    symUnbounded symstart i = specReflect AxisKind.unbounded symstart i := by
  unfold symUnbounded specReflect
  by_cases h : symstart = 0 ∨ i ≤ symstart
  · rw [if_pos h, if_neg (by omega)]
  · rw [if_neg h, if_pos (by omega)]

/-- For `symstart ≥ 0` the index of the code on a spectral axis is the one of the
specification. -/
theorem symSpectral_eq_spec (symstart i : Int) (h0 : 0 ≤ symstart) :
    symSpectral symstart i = specReflect AxisKind.spectral symstart i := by
  unfold symSpectral specReflect
  by_cases h : symstart = 0 ∨ i ≤ symstart
  · rw [if_pos h, if_neg (by omega)]
  · rw [if_neg h, if_pos (by omega)]
    show min (-2 * symstart + i) (-1) = min (i - 2 * symstart) (-1)
    rw [show -2 * symstart + i = i - 2 * symstart by ring]

/-- C17 (counterexample): on the pencil `x = y = 0` of
`cmpt_Green_3D_2dirunbounded_1dirspectral` (line 268) the index along the spectral axis
`ax0` is computed with the rule of the unbounded axes: for `symstart = 4` and the global
index 6 it is `max(|8 - 6|, 1) = 2`, not `min(6 - 8, -1) = -2`. -/
theorem green_origin_pencil_index :
    GreenLoop.unb2_origin.axisKind 0 = AxisKind.spectral ∧
    (∃ f, GreenLoop.unb2_origin.symIndex 0 = some f ∧ f 4 6 = 2) ∧
    specReflect AxisKind.spectral 4 6 = -2 ∧ min ((6 : Int) - 2 * 4) (-1) = -2 := by
  refine ⟨by decide, ⟨symUnbounded, rfl, by decide⟩, by decide, by decide⟩

/-- C17 (amended): in every loop of the four Green routines but the pencil `x = y = 0` of
`cmpt_Green_3D_2dirunbounded_1dirspectral`, for `symstart ≥ 0`, the symmetrised index is the
one of the reflection rule for the nature of its axis; on that pencil the index along the
spectral axis follows the rule of the unbounded axes.  The rule gives, for `symstart > 0`
and a global index `i > symstart`, `max(|2 symstart - i|, 1) ≥ 1` on an unbounded axis and
`min(i - 2 symstart, -1) ≤ -1` on a spectral axis, and leaves `i` unchanged when
`i ≤ symstart` or `symstart = 0`. -/
theorem green_reflection_rule :
    (∀ (loop : GreenLoop) (a : Fin 3) (f : Int → Int → Int),
      loop.symIndex a = some f → ¬ (loop = GreenLoop.unb2_origin ∧ a = 0) →
      ∀ symstart i : Int, 0 ≤ symstart → f symstart i = specReflect (loop.axisKind a) symstart i) ∧
    (∀ f : Int → Int → Int, GreenLoop.unb2_origin.symIndex 0 = some f →
      ∀ symstart i : Int, 0 ≤ symstart →
        f symstart i = specReflect AxisKind.unbounded symstart i) ∧
    (∀ symstart i : Int, 0 < symstart → symstart < i →
      specReflect AxisKind.unbounded symstart i = max (|2 * symstart - i|) 1 ∧
      1 ≤ specReflect AxisKind.unbounded symstart i ∧
      specReflect AxisKind.spectral symstart i = min (i - 2 * symstart) (-1) ∧
      specReflect AxisKind.spectral symstart i ≤ -1) ∧
    (∀ (kind : AxisKind) (symstart i : Int), i ≤ symstart ∨ symstart = 0 →
      specReflect kind symstart i = i) := by
  refine ⟨?_, ?_, ?_, ?_⟩
  · intro loop a f hf hne symstart i h0
    cases loop <;> fin_cases a <;>
      simp [GreenLoop.symIndex] at hf hne <;> subst hf <;>
      first
        | exact symUnbounded_eq_spec symstart i h0
        | exact symSpectral_eq_spec symstart i h0
  · intro f hf symstart i h0
    simp [GreenLoop.symIndex] at hf
    subst hf
    exact symUnbounded_eq_spec symstart i h0
  · intro symstart i hs hi
    have hc : 0 < symstart ∧ symstart < i := ⟨hs, hi⟩
    have hu : specReflect AxisKind.unbounded symstart i = max (|2 * symstart - i|) 1 := by
      unfold specReflect
      rw [if_pos hc]
    have hk : specReflect AxisKind.spectral symstart i = min (i - 2 * symstart) (-1) := by
      unfold specReflect
      rw [if_pos hc]
    refine ⟨hu, ?_, hk, ?_⟩
    · rw [hu]; exact le_max_right _ _
    · rw [hk]; exact min_le_right _ _
  · intro kind symstart i h
    unfold specReflect
    rw [if_neg (by omega)]

/-- The symmetrised index on an unbounded axis is zero exactly at the global index zero. -/
theorem symUnbounded_eq_zero_iff (s ie : Int) (hs : 0 ≤ s) :
    symUnbounded s ie = 0 ↔ ie = 0 := by
  unfold symUnbounded
  by_cases h : s = 0 ∨ ie ≤ s
  · rw [if_pos h]
  · rw [if_neg h]
    have h1 := le_max_right (|2 * s - ie|) 1
    generalize max (|2 * s - ie|) 1 = x at h1
    constructor <;> intro h2 <;> omega

/-- The symmetrised index on a spectral axis is zero exactly at the global index zero. -/
theorem symSpectral_eq_zero_iff (s ie : Int) (hs : 0 ≤ s) :
    symSpectral s ie = 0 ↔ ie = 0 := by
  unfold symSpectral
  by_cases h : s = 0 ∨ ie ≤ s
  · rw [if_pos h]
  · rw [if_neg h]
    have h1 := min_le_right (-2 * s + ie) (-1)
    generalize min (-2 * s + ie) (-1) = x at h1
    constructor <;> intro h2 <;> omega

/-- A sum of three squares vanishes only when each term does. -/
theorem sum_three_squares_eq_zero_iff {R : Type} [LinearOrderedField R] (a b c : R) :
    a * a + b * b + c * c = 0 ↔ a = 0 ∧ b = 0 ∧ c = 0 := by
  constructor
  · intro h
    have ha := mul_self_nonneg a
    have hb := mul_self_nonneg b
    have hc := mul_self_nonneg c
    exact ⟨mul_self_eq_zero.mp (by linarith), mul_self_eq_zero.mp (by linarith),
      mul_self_eq_zero.mp (by linarith)⟩
  · rintro ⟨rfl, rfl, rfl⟩
    simp

/-- For non-zero spacings and `symstart ≥ 0`, the squared radius of a cell vanishes exactly
at the global origin. -/
theorem green3dRadiusSq_eq_zero_iff {R : Type} [LinearOrderedField R] (hfact : Fin 3 → R)
    (symstart istart : Fin 3 → Int) (ax0 : Fin 3) (i0 i1 i2 : Nat)
    (hh : ∀ d, hfact d ≠ 0) (hs : ∀ d, 0 ≤ symstart d) :
    green3dRadiusSq hfact symstart istart ax0 i0 i1 i2 = 0 ↔
      istart ax0 + (i0 : Int) = 0 ∧ istart (ax0 + 1) + (i1 : Int) = 0 ∧
        istart (ax0 + 2) + (i2 : Int) = 0 := by
  unfold green3dRadiusSq
  simp only []
  rw [sum_three_squares_eq_zero_iff]
  simp only [mul_eq_zero, hh, or_false, Int.cast_eq_zero, symUnbounded_eq_zero_iff _ _ (hs _)]

/-- For non-zero wave-number factors and `symstart ≥ 0`, the squared wave number of a cell
vanishes exactly at the global origin. -/
theorem green3dKsqr_eq_zero_iff {R : Type} [LinearOrderedField R] (kfact : Fin 3 → R)
    (symstart istart : Fin 3 → Int) (ax0 : Fin 3) (i0 i1 i2 : Nat)
    (hk : ∀ d, kfact d ≠ 0) (hs : ∀ d, 0 ≤ symstart d) :
    green3dKsqr kfact symstart istart ax0 i0 i1 i2 = 0 ↔
      istart ax0 + (i0 : Int) = 0 ∧ istart (ax0 + 1) + (i1 : Int) = 0 ∧
        istart (ax0 + 2) + (i2 : Int) = 0 := by
  unfold green3dKsqr
  simp only []
  rw [sum_three_squares_eq_zero_iff]
  simp only [mul_eq_zero, hk, or_false, Int.cast_eq_zero, symSpectral_eq_zero_iff _ _ (hs _)]

/-- Inside the loop bounds the index of a real Green array is the row-major index. -/
theorem greenFlatIndex_eq (topo : Topology) (i0 i1 i2 : Nat)
    (h0 : i0 < (topo.nloc topo.axis).toNat) (h1 : i1 < (topo.nloc (topo.axis + 1)).toNat) :
    greenFlatIndex topo i0 i1 i2
      = i0 + (topo.nloc topo.axis).toNat
          * (i1 + i2 * (topo.nloc (topo.axis + 1)).toNat) := by
  unfold greenFlatIndex
  obtain ⟨n0, hn0⟩ : ∃ n0 : Nat, topo.nloc topo.axis = (n0 : Int) :=
    ⟨(topo.nloc topo.axis).toNat, (Int.toNat_of_nonneg (by omega)).symm⟩
  obtain ⟨n1, hn1⟩ : ∃ n1 : Nat, topo.nloc (topo.axis + 1) = (n1 : Int) :=
    ⟨(topo.nloc (topo.axis + 1)).toNat, (Int.toNat_of_nonneg (by omega)).symm⟩
  rw [hn0, hn1]
  simp only [Int.toNat_ofNat]
  have : ((i0 : Int) + (n0 : Int) * ((i1 : Int) + (i2 : Int) * (n1 : Int)))
      = ((i0 + n0 * (i1 + i2 * n1) : Nat) : Int) := by push_cast; ring
  rw [this, Int.toNat_ofNat]

/-- The cell is recovered from its row-major index. -/
theorem flat_decode (n0 n1 i0 i1 i2 : Nat) (h0 : i0 < n0) (h1 : i1 < n1) :
    (i0 + n0 * (i1 + i2 * n1)) % n0 = i0 ∧
    (i0 + n0 * (i1 + i2 * n1)) / n0 % n1 = i1 ∧
    (i0 + n0 * (i1 + i2 * n1)) / n0 / n1 = i2 := by
  have e1 : (i0 + n0 * (i1 + i2 * n1)) % n0 = i0 := by
    rw [Nat.add_mul_mod_self_left, Nat.mod_eq_of_lt h0]
  have e2 : (i0 + n0 * (i1 + i2 * n1)) / n0 = i1 + i2 * n1 := by
    rw [Nat.add_mul_div_left _ _ (by omega), Nat.div_eq_of_lt h0, Nat.zero_add]
  refine ⟨e1, ?_, ?_⟩
  · rw [e2, Nat.add_mul_mod_self_right, Nat.mod_eq_of_lt h1]
  · rw [e2, Nat.add_mul_div_right _ _ (by omega), Nat.div_eq_of_lt h1, Nat.zero_add]

/-- Three nested loops that store `val i0 i1 i2` at the row-major index of each cell: on
exit every cell holds its value and every other entry is unchanged. -/
theorem forLoop3_flat_write {R : Type} (val : Nat → Nat → Nat → R)
    (idx : Nat → Nat → Nat → Nat) (n0 n1 n2 : Nat)
    (hidx : ∀ i0, i0 < n0 → ∀ i1, i1 < n1 → ∀ i2,
      idx i0 i1 i2 = i0 + n0 * (i1 + i2 * n1))
    (g : Nat → R) :
    (∀ i0, i0 < n0 → ∀ i1, i1 < n1 → ∀ i2, i2 < n2 →
      forLoop (fun i2 g2 => forLoop (fun i1 g1 => forLoop (fun i0 g0 =>
        writeAt g0 (idx i0 i1 i2) (val i0 i1 i2)) n0 g1) n1 g2) n2 g (idx i0 i1 i2)
        = val i0 i1 i2) ∧
    (∀ j, (¬ ∃ i2, i2 < n2 ∧ ∃ i1, i1 < n1 ∧ ∃ i0, i0 < n0 ∧ j = idx i0 i1 i2) →
      forLoop (fun i2 g2 => forLoop (fun i1 g1 => forLoop (fun i0 g0 =>
        writeAt g0 (idx i0 i1 i2) (val i0 i1 i2)) n0 g1) n1 g2) n2 g j = g j) := by
  have l0 : ∀ i1, i1 < n1 → ∀ i2 (d : Nat → R) (j : Nat),
      ((∃ i0, i0 < n0 ∧ j = idx i0 i1 i2) →
        forLoop (fun i0 g0 => writeAt g0 (idx i0 i1 i2) (val i0 i1 i2)) n0 d j
          = val (j % n0) (j / n0 % n1) (j / n0 / n1)) ∧
      ((¬ ∃ i0, i0 < n0 ∧ j = idx i0 i1 i2) →
        forLoop (fun i0 g0 => writeAt g0 (idx i0 i1 i2) (val i0 i1 i2)) n0 d j = d j) := by
    intro i1 hi1 i2 d j
    exact forLoop_overwrite
      (fun i0 g0 => writeAt g0 (idx i0 i1 i2) (val i0 i1 i2))
      (fun i0 j => j = idx i0 i1 i2) (fun j => val (j % n0) (j / n0 % n1) (j / n0 / n1)) n0
      (fun i0 hi0 d j hj => by
        obtain ⟨e1, e2, e3⟩ := flat_decode n0 n1 i0 i1 i2 hi0 hi1
        have hj2 : j = i0 + n0 * (i1 + i2 * n1) := by rw [← hidx i0 hi0 i1 hi1 i2]; exact hj
        show writeAt d (idx i0 i1 i2) (val i0 i1 i2) j
          = val (j % n0) (j / n0 % n1) (j / n0 / n1)
        rw [hidx i0 hi0 i1 hi1 i2, hj2, e1, e2, e3]
        simp [writeAt])
      (fun i0 _ d j hj => by
        show writeAt d (idx i0 i1 i2) (val i0 i1 i2) j = d j
        simp [writeAt, hj])
      d j
  have l1 : ∀ i2 (d : Nat → R) (j : Nat),
      ((∃ i1, i1 < n1 ∧ ∃ i0, i0 < n0 ∧ j = idx i0 i1 i2) →
        forLoop (fun i1 g1 => forLoop (fun i0 g0 =>
          writeAt g0 (idx i0 i1 i2) (val i0 i1 i2)) n0 g1) n1 d j
          = val (j % n0) (j / n0 % n1) (j / n0 / n1)) ∧
      ((¬ ∃ i1, i1 < n1 ∧ ∃ i0, i0 < n0 ∧ j = idx i0 i1 i2) →
        forLoop (fun i1 g1 => forLoop (fun i0 g0 =>
          writeAt g0 (idx i0 i1 i2) (val i0 i1 i2)) n0 g1) n1 d j = d j) := by
    intro i2 d j
    exact forLoop_overwrite
      (fun i1 g1 => forLoop (fun i0 g0 =>
          writeAt g0 (idx i0 i1 i2) (val i0 i1 i2)) n0 g1)
      (fun i1 j => ∃ i0, i0 < n0 ∧ j = idx i0 i1 i2)
      (fun j => val (j % n0) (j / n0 % n1) (j / n0 / n1)) n1
      (fun i1 hi1 d j hj => (l0 i1 hi1 i2 d j).1 hj)
      (fun i1 hi1 d j hj => (l0 i1 hi1 i2 d j).2 hj)
      d j
  have l2 : ∀ (j : Nat),
      ((∃ i2, i2 < n2 ∧ ∃ i1, i1 < n1 ∧ ∃ i0, i0 < n0 ∧ j = idx i0 i1 i2) →
        forLoop (fun i2 g2 => forLoop (fun i1 g1 => forLoop (fun i0 g0 =>
          writeAt g0 (idx i0 i1 i2) (val i0 i1 i2)) n0 g1) n1 g2) n2 g j
          = val (j % n0) (j / n0 % n1) (j / n0 / n1)) ∧
      ((¬ ∃ i2, i2 < n2 ∧ ∃ i1, i1 < n1 ∧ ∃ i0, i0 < n0 ∧ j = idx i0 i1 i2) →
        forLoop (fun i2 g2 => forLoop (fun i1 g1 => forLoop (fun i0 g0 =>
          writeAt g0 (idx i0 i1 i2) (val i0 i1 i2)) n0 g1) n1 g2) n2 g j = g j) := by
    intro j
    exact forLoop_overwrite
      (fun i2 g2 => forLoop (fun i1 g1 => forLoop (fun i0 g0 =>
          writeAt g0 (idx i0 i1 i2) (val i0 i1 i2)) n0 g1) n1 g2)
      (fun i2 j => ∃ i1, i1 < n1 ∧ ∃ i0, i0 < n0 ∧ j = idx i0 i1 i2)
      (fun j => val (j % n0) (j / n0 % n1) (j / n0 / n1)) n2
      (fun i2 _ d j hj => (l1 i2 d j).1 hj)
      (fun i2 _ d j hj => (l1 i2 d j).2 hj)
      g j
  refine ⟨fun i0 hi0 i1 hi1 i2 hi2 => ?_, fun j hj => (l2 j).2 hj⟩
  rw [(l2 _).1 ⟨i2, hi2, i1, hi1, i0, hi0, rfl⟩]
  obtain ⟨e1, e2, e3⟩ := flat_decode n0 n1 i0 i1 i2 hi0 hi1
  rw [hidx i0 hi0 i1 hi1 i2, e1, e2, e3]

/-- For every Green type but `LGF_2` the `switch` of
`cmpt_Green_3D_3dirunbounded_0dirspectral` selects the kernel of the type and the origin
value of the specification. -/
theorem green3dUnbSwitch_eq {R : Type} [Field R] [DecidableEq R] (m : MathFns R)
    (typeGreen : GreenType) (hfact : Fin 3 → R) (eps : R) (hT : typeGreen ≠ GreenType.LGF_2) :
    green3dUnbSwitch m typeGreen hfact eps
      = Except.ok (greenKernel m typeGreen,
          specG0 m typeGreen (hfact 0) (hfact 1) (hfact 2) eps) := by
  have hp : m.pi ^ 3 = m.pi * m.pi * m.pi := by ring
  cases typeGreen
  · show Except.ok (_, _) = Except.ok (_, _)
    congr 2
    show _ = (1 / 2) * m.pow _ (2 / 3)
    congr 2
    unfold c_1o2pi
    ring
  · exact absurd rfl hT
  · show Except.ok (_, _) = Except.ok (_, fdiv m _ _)
    rw [hp]
    rfl
  · show Except.ok (_, _) = Except.ok (_, fdiv m _ _)
    rw [hp]
    rfl
  · show Except.ok (_, _) = Except.ok (_, fdiv m _ _)
    rw [hp]
    rfl

/-- The result of `cmpt_Green_3D_3dirunbounded_0dirspectral` on a real topology with
non-zero spacings, for every Green type but `LGF_2`. -/
theorem cmpt_Green_3D_3dirunbounded_ok {R : Type} [Field R] [DecidableEq R] (checks : Bool)
    (m : MathFns R) (istart : Fin 3 → Int) (topo : Topology) (hfact : Fin 3 → R)
    (symstart : Fin 3 → Int) (green : Nat → R) (typeGreen : GreenType) (alpha : R)
    (hreal : topo.isComplex = false) (hh : ∀ d, hfact d ≠ 0)
    (hT : typeGreen ≠ GreenType.LGF_2) :
    cmpt_Green_3D_3dirunbounded_0dirspectral checks m istart topo hfact symstart green
        typeGreen alpha
      = Except.ok
        (if istart topo.axis = 0 ∧ istart (topo.axis + 1) = 0 ∧ istart (topo.axis + 2) = 0
          then writeAt (green3dUnbFill m (greenKernel m typeGreen) (alpha * hfact 0) topo
              istart hfact symstart green) 0
            (-(specG0 m typeGreen (hfact 0) (hfact 1) (hfact 2) (alpha * hfact 0)))
          else green3dUnbFill m (greenKernel m typeGreen) (alpha * hfact 0) topo istart hfact
            symstart green) := by
  unfold cmpt_Green_3D_3dirunbounded_0dirspectral
  simp only [FLUPS_CHECK, hreal, hh, green3dUnbSwitch_eq m typeGreen hfact _ hT, bind,
    Except.bind, pure, Except.pure, ne_eq, not_false_eq_true, decide_True, Bool.not_true,
    Bool.not_false, Bool.and_false, Bool.false_eq_true, if_false]
  split_ifs <;> rfl

/-- The loops of `cmpt_Green_3D_3dirunbounded_0dirspectral` store, for every local cell,
the opposite of the kernel at the symmetrised radius of the cell; they write nowhere
else. -/
theorem green3dUnbFill_spec {R : Type} [Field R] (m : MathFns R) (G : R → R → R) (eps : R)
    (topo : Topology) (istart : Fin 3 → Int) (hfact : Fin 3 → R) (symstart : Fin 3 → Int)
    (green : Nat → R) :
    (∀ i0, i0 < (topo.nloc topo.axis).toNat →
      ∀ i1, i1 < (topo.nloc (topo.axis + 1)).toNat →
      ∀ i2, i2 < (topo.nloc (topo.axis + 2)).toNat →
      green3dUnbFill m G eps topo istart hfact symstart green (greenFlatIndex topo i0 i1 i2)
        = -(G (m.sqrt (green3dRadiusSq hfact symstart istart topo.axis i0 i1 i2)) eps)) ∧
    (∀ j, (¬ ∃ i2, i2 < (topo.nloc (topo.axis + 2)).toNat ∧
        ∃ i1, i1 < (topo.nloc (topo.axis + 1)).toNat ∧
        ∃ i0, i0 < (topo.nloc topo.axis).toNat ∧ j = greenFlatIndex topo i0 i1 i2) →
      green3dUnbFill m G eps topo istart hfact symstart green j = green j) :=
  forLoop3_flat_write
    (fun i0 i1 i2 =>
      -(G (m.sqrt (green3dRadiusSq hfact symstart istart topo.axis i0 i1 i2)) eps))
    (greenFlatIndex topo) _ _ _
    (fun i0 hi0 i1 hi1 i2 => greenFlatIndex_eq topo i0 i1 i2 hi0 hi1) green

/-- Inside the loop bounds only the cell `(0, 0, 0)` has the index 0 in a real Green
array. -/
theorem greenFlatIndex_eq_zero_iff (topo : Topology) (i0 i1 i2 : Nat)
    (h0 : i0 < (topo.nloc topo.axis).toNat) (h1 : i1 < (topo.nloc (topo.axis + 1)).toNat) :
    greenFlatIndex topo i0 i1 i2 = 0 ↔ i0 = 0 ∧ i1 = 0 ∧ i2 = 0 := by
  rw [greenFlatIndex_eq topo i0 i1 i2 h0 h1]
  constructor
  · intro h
    have e0 : i0 = 0 := by omega
    have e1 : (topo.nloc topo.axis).toNat
        * (i1 + i2 * (topo.nloc (topo.axis + 1)).toNat) = 0 := by omega
    rcases Nat.mul_eq_zero.mp e1 with e | e
    · omega
    · have e2 : i1 = 0 := by omega
      have e3 : i2 * (topo.nloc (topo.axis + 1)).toNat = 0 := by omega
      rcases Nat.mul_eq_zero.mp e3 with e | e
      · exact ⟨e0, e2, e⟩
      · omega
  · rintro ⟨rfl, rfl, rfl⟩
    simp

/-- The rational stand-in for the square root vanishes only at zero on non-negative
arguments. -/
theorem exampleMath_sqrt (x : ℚ) (hx : 0 ≤ x) : exampleMath.sqrt x = 0 ↔ x = 0 := by
  show (if x = 0 then (0 : ℚ) else (x + 1) / 2) = 0 ↔ x = 0
  by_cases h : x = 0
  · simp [h]
  · rw [if_neg h]
    constructor
    · intro h2
      have : x + 1 = 0 := by linarith
      linarith
    · intro h2
      exact absurd h2 h

/-- The example spacings are not zero. -/
theorem exampleHfact_ne_zero : ∀ d, exampleHfact d ≠ 0 := by
  intro d
  fin_cases d <;> simp [exampleHfact]

/-- Two nested loops whose iterations `(i1, i2)` update pairwise disjoint regions
`F i1 i2` of a buffer, each iteration reading only its own region: on `F i1 i2` the result is
what the iteration `(i1, i2)` alone computes from the initial buffer, and outside all
regions the buffer is unchanged. -/
theorem forLoop2_regions {R : Type} (U : Nat → Nat → (Nat → R) → (Nat → R))
    (F : Nat → Nat → Nat → Prop) (n1 n2 : Nat)
    (hout : ∀ i1, i1 < n1 → ∀ i2, i2 < n2 → ∀ (d : Nat → R) (j : Nat),
      ¬ F i1 i2 j → U i1 i2 d j = d j)
    (hloc : ∀ i1, i1 < n1 → ∀ i2, i2 < n2 → ∀ (d e : Nat → R) (j : Nat), F i1 i2 j →
      (∀ l, F i1 i2 l → d l = e l) → U i1 i2 d j = U i1 i2 e j)
    (hdisj : ∀ i1, i1 < n1 → ∀ i2, i2 < n2 → ∀ j1, j1 < n1 → ∀ j2, j2 < n2 → ∀ j,
      F i1 i2 j → F j1 j2 j → i1 = j1 ∧ i2 = j2)
    (data : Nat → R) (j : Nat) :
    (∀ i1, i1 < n1 → ∀ i2, i2 < n2 → F i1 i2 j →
      forLoop (fun i2 d2 => forLoop (fun i1 d1 => U i1 i2 d1) n1 d2) n2 data j
        = U i1 i2 data j) ∧
    ((∀ i1, i1 < n1 → ∀ i2, i2 < n2 → ¬ F i1 i2 j) →
      forLoop (fun i2 d2 => forLoop (fun i1 d1 => U i1 i2 d1) n1 d2) n2 data j
        = data j) := by
  have inner : ∀ i2, i2 < n2 → ∀ (d : Nat → R) (j : Nat),
      (∀ i1, i1 < n1 → F i1 i2 j →
        forLoop (fun i1 d1 => U i1 i2 d1) n1 d j = U i1 i2 d j) ∧
      ((∀ i1, i1 < n1 → ¬ F i1 i2 j) →
        forLoop (fun i1 d1 => U i1 i2 d1) n1 d j = d j) := by
    intro i2 hi2 d j
    exact forLoop_disjoint_regions (fun i1 d1 => U i1 i2 d1) (fun i1 j => F i1 i2 j) n1
      (fun i1 hi1 d j h => hout i1 hi1 i2 hi2 d j h)
      (fun i1 hi1 d e j h hde => hloc i1 hi1 i2 hi2 d e j h hde)
      (fun i1 hi1 l hl j h1 h2 => (hdisj i1 hi1 i2 hi2 l hl i2 hi2 j h1 h2).1)
      d n1 (le_refl _) j
  have outer := forLoop_disjoint_regions
    (fun i2 d2 => forLoop (fun i1 d1 => U i1 i2 d1) n1 d2)
    (fun i2 j => ∃ i1, i1 < n1 ∧ F i1 i2 j) n2
    (fun i2 hi2 d j h => (inner i2 hi2 d j).2 (fun i1 hi1 hF => h ⟨i1, hi1, hF⟩))
    (fun i2 hi2 d e j h hde => by
      obtain ⟨i1, hi1, hF⟩ := h
      show forLoop _ n1 d j = forLoop _ n1 e j
      rw [(inner i2 hi2 d j).1 i1 hi1 hF, (inner i2 hi2 e j).1 i1 hi1 hF]
      exact hloc i1 hi1 i2 hi2 d e j hF (fun l hl => hde l ⟨i1, hi1, hl⟩))
    (fun i2 hi2 l hl j h1 h2 => by
      obtain ⟨i1, hi1, hF1⟩ := h1
      obtain ⟨j1, hj1, hF2⟩ := h2
      exact (hdisj i1 hi1 i2 hi2 j1 hj1 l hl j hF1 hF2).2)
    data n2 (le_refl _)
  constructor
  · intro i1 hi1 i2 hi2 hF
    rw [(outer j).1 i2 hi2 ⟨i1, hi1, hF⟩]
    exact (inner i2 hi2 data j).1 i1 hi1 hF
  · intro hj
    exact (outer j).2 (fun i2 hi2 ⟨i1, hi1, hF⟩ => hj i1 hi1 i2 hi2 hF)

/-- The loop over `i0` of the complex branch of `cmpt_Green_3D_0dirunbounded_3dirspectral`:
the running index advances by two per cell, the real part of the cell `i0` receives
`-1 / ksqr`, its imaginary part receives 0, and nothing else is written. -/
theorem greenSpectralPencil_spec {R : Type} [Field R] [DecidableEq R] (m : MathFns R)
    (kfact : Fin 3 → R) (symstart istart : Fin 3 → Int) (ax0 : Fin 3) (i1 i2 : Nat)
    (g : Nat → R) (id n : Nat) :
    (forLoop (greenSpectralCell m kfact symstart istart ax0 i1 i2) n (g, id)).2 = id + 2 * n ∧
    (∀ j, ¬ (id ≤ j ∧ j < id + 2 * n) →
      (forLoop (greenSpectralCell m kfact symstart istart ax0 i1 i2) n (g, id)).1 j = g j) ∧
    (∀ k, k < n →
      (forLoop (greenSpectralCell m kfact symstart istart ax0 i1 i2) n (g, id)).1 (id + 2 * k)
        = -(fdiv m 1 (green3dKsqr kfact symstart istart ax0 k i1 i2)) ∧
      (forLoop (greenSpectralCell m kfact symstart istart ax0 i1 i2) n (g, id)).1
        (id + 2 * k + 1) = 0) := by
  induction n with
  | zero =>
    exact ⟨rfl, fun _ _ => rfl, fun k hk => absurd hk (Nat.not_lt_zero k)⟩
  | succ n ih =>
    obtain ⟨h1, h2, h3⟩ := ih
    have hstep : forLoop (greenSpectralCell m kfact symstart istart ax0 i1 i2) (n + 1) (g, id)
        = greenSpectralCell m kfact symstart istart ax0 i1 i2 n
          (forLoop (greenSpectralCell m kfact symstart istart ax0 i1 i2) n (g, id)) := rfl
    rw [hstep]
    simp only [greenSpectralCell, h1]
    refine ⟨by omega, fun j hj => ?_, fun k hk => ?_⟩
    · have e1 : j ≠ id + 2 * n + 1 := by omega
      have e0 : j ≠ id + 2 * n + 0 := by omega
      simp only [writeAt, if_neg e1, if_neg e0]
      exact h2 j (by omega)
    · by_cases hkn : k = n
      · subst hkn
        constructor
        · have e1 : id + 2 * k ≠ id + 2 * k + 1 := by omega
          simp only [writeAt, if_neg e1, Nat.add_zero, if_true]
        · simp only [writeAt, if_true]
      · have hk2 : k < n := by omega
        constructor
        · have e1 : id + 2 * k ≠ id + 2 * n + 1 := by omega
          have e0 : id + 2 * k ≠ id + 2 * n + 0 := by omega
          simp only [writeAt, if_neg e1, if_neg e0]
          exact (h3 k hk2).1
        · have e1 : id + 2 * k + 1 ≠ id + 2 * n + 1 := by omega
          have e0 : id + 2 * k + 1 ≠ id + 2 * n + 0 := by omega
          simp only [writeAt, if_neg e1, if_neg e0]
          exact (h3 k hk2).2

/-- The loops of the complex branch of `cmpt_Green_3D_0dirunbounded_3dirspectral`, for
pencils that do not overlap in memory: the real part of every local cell receives
`-1 / ksqr`, its imaginary part receives 0. -/
theorem greenSpectralFillComplex_spec {R : Type} [Field R] [DecidableEq R] (m : MathFns R)
    (localindex_ao : Int → Int → Int → Topology → Nat) (topo : Topology)
    (istart : Fin 3 → Int) (kfact : Fin 3 → R) (symstart : Fin 3 → Int) (green : Nat → R)
    (hlayout : ∀ i1, i1 < (topo.nloc (topo.axis + 1)).toNat →
      ∀ i2, i2 < (topo.nloc (topo.axis + 2)).toNat →
      ∀ j1, j1 < (topo.nloc (topo.axis + 1)).toNat →
      ∀ j2, j2 < (topo.nloc (topo.axis + 2)).toNat →
      ∀ k, k < 2 * (topo.nloc topo.axis).toNat → ∀ l, l < 2 * (topo.nloc topo.axis).toNat →
      localindex_ao 0 (i1 : Int) (i2 : Int) topo + k
        = localindex_ao 0 (j1 : Int) (j2 : Int) topo + l → i1 = j1 ∧ i2 = j2) :
    ∀ i0, i0 < (topo.nloc topo.axis).toNat →
    ∀ i1, i1 < (topo.nloc (topo.axis + 1)).toNat →
    ∀ i2, i2 < (topo.nloc (topo.axis + 2)).toNat →
      greenSpectralFillComplex m localindex_ao topo istart kfact symstart green
          (localindex_ao 0 (i1 : Int) (i2 : Int) topo + 2 * i0)
        = -(fdiv m 1 (green3dKsqr kfact symstart istart topo.axis i0 i1 i2)) ∧
      greenSpectralFillComplex m localindex_ao topo istart kfact symstart green
          (localindex_ao 0 (i1 : Int) (i2 : Int) topo + 2 * i0 + 1) = 0 := by
  intro i0 hi0 i1 hi1 i2 hi2
  have key : ∀ j, (localindex_ao 0 (i1 : Int) (i2 : Int) topo ≤ j ∧
      j < localindex_ao 0 (i1 : Int) (i2 : Int) topo + 2 * (topo.nloc topo.axis).toNat) →
      greenSpectralFillComplex m localindex_ao topo istart kfact symstart green j
        = (forLoop (greenSpectralCell m kfact symstart istart topo.axis i1 i2)
            (topo.nloc topo.axis).toNat
            (green, localindex_ao 0 (i1 : Int) (i2 : Int) topo)).1 j := by
    intro j hj
    exact (forLoop2_regions
      (fun i1 i2 d => (forLoop (greenSpectralCell m kfact symstart istart topo.axis i1 i2)
        (topo.nloc topo.axis).toNat (d, localindex_ao 0 (i1 : Int) (i2 : Int) topo)).1)
      (fun i1 i2 j => localindex_ao 0 (i1 : Int) (i2 : Int) topo ≤ j ∧
        j < localindex_ao 0 (i1 : Int) (i2 : Int) topo + 2 * (topo.nloc topo.axis).toNat)
      (topo.nloc (topo.axis + 1)).toNat (topo.nloc (topo.axis + 2)).toNat
      (fun i1 _ i2 _ d j h =>
        (greenSpectralPencil_spec m kfact symstart istart topo.axis i1 i2 d _ _).2.1 j h)
      (fun i1 _ i2 _ d e j h _ => by
        obtain ⟨k, hk, hjk⟩ : ∃ k, k < (topo.nloc topo.axis).toNat ∧
            (j = localindex_ao 0 (i1 : Int) (i2 : Int) topo + 2 * k ∨
              j = localindex_ao 0 (i1 : Int) (i2 : Int) topo + 2 * k + 1) :=
          ⟨(j - localindex_ao 0 (i1 : Int) (i2 : Int) topo) / 2, by omega, by omega⟩
        have hd := (greenSpectralPencil_spec m kfact symstart istart topo.axis i1 i2 d
          (localindex_ao 0 (i1 : Int) (i2 : Int) topo) (topo.nloc topo.axis).toNat).2.2 k hk
        have he := (greenSpectralPencil_spec m kfact symstart istart topo.axis i1 i2 e
          (localindex_ao 0 (i1 : Int) (i2 : Int) topo) (topo.nloc topo.axis).toNat).2.2 k hk
        rcases hjk with hjk | hjk <;> subst hjk
        · show (forLoop _ _ (d, _)).1 _ = (forLoop _ _ (e, _)).1 _
          rw [hd.1, he.1]
        · show (forLoop _ _ (d, _)).1 _ = (forLoop _ _ (e, _)).1 _
          rw [hd.2, he.2])
      (fun i1 hi1 i2 hi2 j1 hj1 j2 hj2 j h1 h2 =>
        hlayout i1 hi1 i2 hi2 j1 hj1 j2 hj2
          (j - localindex_ao 0 (i1 : Int) (i2 : Int) topo) (by omega)
          (j - localindex_ao 0 (j1 : Int) (j2 : Int) topo) (by omega) (by omega))
      green j).1 i1 hi1 i2 hi2 hj
  have hs := (greenSpectralPencil_spec m kfact symstart istart topo.axis i1 i2 green
    (localindex_ao 0 (i1 : Int) (i2 : Int) topo) (topo.nloc topo.axis).toNat).2.2 i0 hi0
  rw [key _ (by omega), key _ (by omega)]
  exact hs

/-- The loops of the real branch of `cmpt_Green_3D_0dirunbounded_3dirspectral` store
`-1 / ksqr` in every local cell. -/
theorem greenSpectralFillReal_spec {R : Type} [Field R] [DecidableEq R] (m : MathFns R)
    (topo : Topology) (istart : Fin 3 → Int) (kfact : Fin 3 → R) (symstart : Fin 3 → Int)
    (green : Nat → R) :
    ∀ i0, i0 < (topo.nloc topo.axis).toNat →
    ∀ i1, i1 < (topo.nloc (topo.axis + 1)).toNat →
    ∀ i2, i2 < (topo.nloc (topo.axis + 2)).toNat →
      greenSpectralFillReal m topo istart kfact symstart green (greenFlatIndex topo i0 i1 i2)
        = -(fdiv m 1 (green3dKsqr kfact symstart istart topo.axis i0 i1 i2)) :=
  (forLoop3_flat_write
    (fun i0 i1 i2 => -(fdiv m 1 (green3dKsqr kfact symstart istart topo.axis i0 i1 i2)))
    (greenFlatIndex topo) _ _ _
    (fun i0 hi0 i1 hi1 i2 => greenFlatIndex_eq topo i0 i1 i2 hi0 hi1) green).1

/-- The result of `cmpt_Green_3D_0dirunbounded_3dirspectral` for CHAT_2 and non-zero
wave-number factors. -/
theorem cmpt_Green_3D_0dirunbounded_ok {R : Type} [Field R] [DecidableEq R] (checks : Bool)
    (m : MathFns R) (localindex_ao : Int → Int → Int → Topology → Nat)
    (istart : Fin 3 → Int) (topo : Topology) (kfact : Fin 3 → R) (symstart : Fin 3 → Int)
    (green : Nat → R) (alpha : R) (hk : ∀ d, kfact d ≠ 0) :
    cmpt_Green_3D_0dirunbounded_3dirspectral checks m localindex_ao istart topo kfact
        symstart green GreenType.CHAT_2 alpha
      = Except.ok
        (if topo.nf = 2 then
          (if istart topo.axis = 0 ∧ istart (topo.axis + 1) = 0 ∧ istart (topo.axis + 2) = 0
            then writeAt (writeAt (greenSpectralFillComplex m localindex_ao topo istart kfact
              symstart green) 0 (-0)) 1 0
            else greenSpectralFillComplex m localindex_ao topo istart kfact symstart green)
        else
          (if istart topo.axis = 0 ∧ istart (topo.axis + 1) = 0 ∧ istart (topo.axis + 2) = 0
            then writeAt (greenSpectralFillReal m topo istart kfact symstart green) 0 (-0)
            else greenSpectralFillReal m topo istart kfact symstart green)) := by
  unfold cmpt_Green_3D_0dirunbounded_3dirspectral
  simp only [FLUPS_CHECK, hk, bind, Except.bind, pure, Except.pure, ne_eq, not_false_eq_true,
    decide_True, Bool.not_true, Bool.and_false, Bool.false_eq_true, if_false]
  split_ifs <;> rfl

/-- C18 (counterexample): on the real topology of 27 cells owned by one rank, the cell
`(0, 0, 0)` has the squared radius 0 and the squared wave number 0, and the loops of both
routines evaluate their expression there: before the reset the entry 0 of the array holds
the opposite of the result of a division by zero, `c_1o4pi / r` with `r = 0` in
`cmpt_Green_3D_3dirunbounded_0dirspectral` (kernel CHAT_2) and `1 / ksqr` with `ksqr = 0` in
`cmpt_Green_3D_0dirunbounded_3dirspectral`. -/
theorem green_fill_divides_by_zero_at_origin :
    green3dRadiusSq exampleHfact exampleSymstart exampleIstart exampleTopoUser.axis 0 0 0 = 0 ∧
    exampleMath.sqrt 0 = 0 ∧
    green3dUnbFill exampleMath (_chat_2 exampleMath) (2 * exampleHfact 0) exampleTopoUser
        exampleIstart exampleHfact exampleSymstart (fun _ => 0) 0
      = -(exampleMath.divZero (c_1o4pi exampleMath)) ∧
    green3dKsqr exampleHfact exampleSymstart exampleIstart exampleTopoUser.axis 0 0 0 = 0 ∧
    greenSpectralFillReal exampleMath exampleTopoUser exampleIstart exampleHfact
        exampleSymstart (fun _ => 0) 0
      = -(exampleMath.divZero 1) ∧
    -(exampleMath.divZero 1) = -1000000 := by
  have hr : green3dRadiusSq exampleHfact exampleSymstart exampleIstart exampleTopoUser.axis
      0 0 0 = 0 :=
    (green3dRadiusSq_eq_zero_iff exampleHfact exampleSymstart exampleIstart
      exampleTopoUser.axis 0 0 0 exampleHfact_ne_zero (by decide)).mpr ⟨rfl, rfl, rfl⟩
  have hk : green3dKsqr exampleHfact exampleSymstart exampleIstart exampleTopoUser.axis
      0 0 0 = 0 :=
    (green3dKsqr_eq_zero_iff exampleHfact exampleSymstart exampleIstart
      exampleTopoUser.axis 0 0 0 exampleHfact_ne_zero (by decide)).mpr ⟨rfl, rfl, rfl⟩
  have hs : exampleMath.sqrt 0 = 0 := (exampleMath_sqrt 0 (le_refl _)).mpr rfl
  have hidx : greenFlatIndex exampleTopoUser 0 0 0 = 0 := by decide
  have h3 := (green3dUnbFill_spec exampleMath (_chat_2 exampleMath) (2 * exampleHfact 0)
    exampleTopoUser exampleIstart exampleHfact exampleSymstart (fun _ => 0)).1
    0 (by decide) 0 (by decide) 0 (by decide)
  have h0 := greenSpectralFillReal_spec exampleMath exampleTopoUser exampleIstart
    exampleHfact exampleSymstart (fun _ => 0) 0 (by decide) 0 (by decide) 0 (by decide)
  rw [hidx, hr, hs] at h3
  rw [hidx, hk] at h0
  refine ⟨hr, hs, ?_, hk, ?_, rfl⟩
  · rw [h3]
    simp [_chat_2, fdiv]
  · rw [h0]
    simp [fdiv]

/-- The cells after `cmpt_Green_3D_0dirunbounded_3dirspectral` with CHAT_2, non-zero
`kfact`, `symstart ≥ 0` and start indices `istart ≥ 0`, in terms of the value `ksqr` that
the code computes: the routine returns; `ksqr` is the sum of the squares of the three
`k_d`; it is zero exactly at the global origin; the cell holds `-1 / ksqr` when `ksqr ≠ 0`
and 0 when `ksqr = 0`; on a complex topology (whose pencils do not overlap in memory and
whose first cell is at the index 0) these are the real parts and every imaginary part is
0. -/
theorem green_0dirunbounded_cells {R : Type} [LinearOrderedField R] (checks : Bool)
    (m : MathFns R) (localindex_ao : Int → Int → Int → Topology → Nat)
    (istart : Fin 3 → Int) (topo : Topology) (kfact : Fin 3 → R) (symstart : Fin 3 → Int)
    (green : Nat → R) (alpha : R)
    (hk : ∀ d, kfact d ≠ 0) (hs : ∀ d, 0 ≤ symstart d) (hist : ∀ d, 0 ≤ istart d)
    (hlayout : topo.nf = 2 →
      ∀ i1, i1 < (topo.nloc (topo.axis + 1)).toNat →
      ∀ i2, i2 < (topo.nloc (topo.axis + 2)).toNat →
      ∀ j1, j1 < (topo.nloc (topo.axis + 1)).toNat →
      ∀ j2, j2 < (topo.nloc (topo.axis + 2)).toNat →
      ∀ k, k < 2 * (topo.nloc topo.axis).toNat → ∀ l, l < 2 * (topo.nloc topo.axis).toNat →
      localindex_ao 0 (i1 : Int) (i2 : Int) topo + k
        = localindex_ao 0 (j1 : Int) (j2 : Int) topo + l → i1 = j1 ∧ i2 = j2)
    (hL0 : topo.nf = 2 → localindex_ao 0 ((0 : Nat) : Int) ((0 : Nat) : Int) topo = 0) :
    ∃ g, cmpt_Green_3D_0dirunbounded_3dirspectral checks m localindex_ao istart topo kfact
        symstart green GreenType.CHAT_2 alpha = Except.ok g ∧
      ∀ i0, i0 < (topo.nloc topo.axis).toNat →
      ∀ i1, i1 < (topo.nloc (topo.axis + 1)).toNat →
      ∀ i2, i2 < (topo.nloc (topo.axis + 2)).toNat →
        green3dKsqr kfact symstart istart topo.axis i0 i1 i2
          = ((symSpectral (symstart topo.axis) (istart topo.axis + (i0 : Int)) : R)
              * kfact topo.axis) ^ 2
            + ((symSpectral (symstart (topo.axis + 1))
                (istart (topo.axis + 1) + (i1 : Int)) : R) * kfact (topo.axis + 1)) ^ 2
            + ((symSpectral (symstart (topo.axis + 2))
                (istart (topo.axis + 2) + (i2 : Int)) : R) * kfact (topo.axis + 2)) ^ 2 ∧
        (green3dKsqr kfact symstart istart topo.axis i0 i1 i2 = 0 ↔
          istart topo.axis + (i0 : Int) = 0 ∧ istart (topo.axis + 1) + (i1 : Int) = 0 ∧
            istart (topo.axis + 2) + (i2 : Int) = 0) ∧
        (topo.nf = 2 →
          (green3dKsqr kfact symstart istart topo.axis i0 i1 i2 ≠ 0 →
            g (localindex_ao 0 (i1 : Int) (i2 : Int) topo + 2 * i0)
              = -(1 / green3dKsqr kfact symstart istart topo.axis i0 i1 i2)) ∧
          (green3dKsqr kfact symstart istart topo.axis i0 i1 i2 = 0 →
            g (localindex_ao 0 (i1 : Int) (i2 : Int) topo + 2 * i0) = 0) ∧
          g (localindex_ao 0 (i1 : Int) (i2 : Int) topo + 2 * i0 + 1) = 0) ∧
        (topo.nf ≠ 2 →
          (green3dKsqr kfact symstart istart topo.axis i0 i1 i2 ≠ 0 →
            g (greenFlatIndex topo i0 i1 i2)
              = -(1 / green3dKsqr kfact symstart istart topo.axis i0 i1 i2)) ∧
          (green3dKsqr kfact symstart istart topo.axis i0 i1 i2 = 0 →
            g (greenFlatIndex topo i0 i1 i2) = 0)) := by
  refine ⟨_, cmpt_Green_3D_0dirunbounded_ok checks m localindex_ao istart topo kfact symstart
    green alpha hk, ?_⟩
  intro i0 hi0 i1 hi1 i2 hi2
  have hiff := green3dKsqr_eq_zero_iff kfact symstart istart topo.axis i0 i1 i2 hk hs
  have h0 := hist topo.axis
  have h1 := hist (topo.axis + 1)
  have h2 := hist (topo.axis + 2)
  refine ⟨?_, hiff, ?_, ?_⟩
  · unfold green3dKsqr
    simp only []
    ring
  · intro hnf
    rw [if_pos hnf]
    have hfill := greenSpectralFillComplex_spec m localindex_ao topo istart kfact symstart
      green (hlayout hnf) i0 hi0 i1 hi1 i2 hi2
    have hz := hL0 hnf
    by_cases hown : istart topo.axis = 0 ∧ istart (topo.axis + 1) = 0 ∧
        istart (topo.axis + 2) = 0
    · rw [if_pos hown]
      obtain ⟨o0, o1, o2⟩ := hown
      -- the cells at the indices 0 and 1
      have hcell : localindex_ao 0 (i1 : Int) (i2 : Int) topo + 2 * i0 ≤ 1 →
          i0 = 0 ∧ i1 = 0 ∧ i2 = 0 := by
        intro hle
        have hl := hlayout hnf i1 hi1 i2 hi2 0 (by omega) 0 (by omega)
          (2 * i0) (by omega)
          (localindex_ao 0 (i1 : Int) (i2 : Int) topo + 2 * i0) (by omega)
          (by rw [hz]; omega)
        omega
      refine ⟨fun hne => ?_, fun hzero => ?_, ?_⟩
      · have hnot : ¬ (i0 = 0 ∧ i1 = 0 ∧ i2 = 0) := by
          intro h
          apply hne
          rw [hiff]
          omega
        have e1 : localindex_ao 0 (i1 : Int) (i2 : Int) topo + 2 * i0 ≠ 1 :=
          fun h => hnot (hcell (by omega))
        have e0 : localindex_ao 0 (i1 : Int) (i2 : Int) topo + 2 * i0 ≠ 0 :=
          fun h => hnot (hcell (by omega))
        simp only [writeAt, if_neg e1, if_neg e0]
        rw [hfill.1]
        unfold fdiv
        rw [if_neg hne]
      · have hc : i0 = 0 ∧ i1 = 0 ∧ i2 = 0 := by
          have := hiff.mp hzero
          omega
        obtain ⟨rfl, rfl, rfl⟩ := hc
        rw [hz]
        simp [writeAt]
      · by_cases e1 : localindex_ao 0 (i1 : Int) (i2 : Int) topo + 2 * i0 + 1 = 1
        · simp only [writeAt, if_pos e1]
        · have e0 : localindex_ao 0 (i1 : Int) (i2 : Int) topo + 2 * i0 + 1 ≠ 0 := by omega
          simp only [writeAt, if_neg e1, if_neg e0]
          exact hfill.2
    · rw [if_neg hown]
      have hne : green3dKsqr kfact symstart istart topo.axis i0 i1 i2 ≠ 0 := by
        rw [Ne, hiff]
        omega
      refine ⟨fun _ => ?_, fun hzero => absurd hzero hne, hfill.2⟩
      rw [hfill.1]
      unfold fdiv
      rw [if_neg hne]
  · intro hnf
    rw [if_neg hnf]
    have hfill := greenSpectralFillReal_spec m topo istart kfact symstart green i0 hi0 i1 hi1
      i2 hi2
    have hflat := greenFlatIndex_eq_zero_iff topo i0 i1 i2 hi0 hi1
    by_cases hown : istart topo.axis = 0 ∧ istart (topo.axis + 1) = 0 ∧
        istart (topo.axis + 2) = 0
    · rw [if_pos hown]
      obtain ⟨o0, o1, o2⟩ := hown
      refine ⟨fun hne => ?_, fun hzero => ?_⟩
      · have e0 : greenFlatIndex topo i0 i1 i2 ≠ 0 := by
          intro h
          apply hne
          rw [hiff]
          have := hflat.mp h
          omega
        simp only [writeAt, if_neg e0]
        rw [hfill]
        unfold fdiv
        rw [if_neg hne]
      · have hc : i0 = 0 ∧ i1 = 0 ∧ i2 = 0 := by
          have := hiff.mp hzero
          omega
        rw [hflat.mpr hc]
        simp [writeAt]
    · rw [if_neg hown]
      have hne : green3dKsqr kfact symstart istart topo.axis i0 i1 i2 ≠ 0 := by
        rw [Ne, hiff]
        omega
      refine ⟨fun _ => ?_, fun hzero => absurd hzero hne⟩
      rw [hfill]
      unfold fdiv
      rw [if_neg hne]

/-- For `symstart ≥ 0` the value `ksqr` of the code is the squared wave number of the
specification. -/
theorem green3dKsqr_eq_spec {R : Type} [Field R] (kfact : Fin 3 → R)
    (symstart istart : Fin 3 → Int) (ax0 : Fin 3) (i0 i1 i2 : Nat)
    (hs : ∀ d, 0 ≤ symstart d) :
    green3dKsqr kfact symstart istart ax0 i0 i1 i2
      = specKsqr kfact symstart istart ax0 i0 i1 i2 := by
  unfold green3dKsqr specKsqr
  simp only [symSpectral_eq_spec _ _ (hs _)]
  ring

/-- The index function of the examples follows the interleaved complex layout on
`exampleSpectralTopoLong`. -/
theorem exampleLocalIndex_layout_long :
    ∀ i1, i1 < (exampleSpectralTopoLong.nloc (exampleSpectralTopoLong.axis + 1)).toNat →
      ∀ i2, i2 < (exampleSpectralTopoLong.nloc (exampleSpectralTopoLong.axis + 2)).toNat →
      ∀ j1, j1 < (exampleSpectralTopoLong.nloc (exampleSpectralTopoLong.axis + 1)).toNat →
      ∀ j2, j2 < (exampleSpectralTopoLong.nloc (exampleSpectralTopoLong.axis + 2)).toNat →
      ∀ k, k < 2 * (exampleSpectralTopoLong.nloc exampleSpectralTopoLong.axis).toNat →
      ∀ l, l < 2 * (exampleSpectralTopoLong.nloc exampleSpectralTopoLong.axis).toNat →
      exampleLocalIndex 0 (i1 : Int) (i2 : Int) exampleSpectralTopoLong + k
        = exampleLocalIndex 0 (j1 : Int) (j2 : Int) exampleSpectralTopoLong + l →
      i1 = j1 ∧ i2 = j2 := by
  intro i1 hi1 i2 hi2 j1 hj1 j2 hj2 k hk l hl h
  have h1 : i1 < 2 := hi1
  have h2 : i2 < 1 := hi2
  have h3 : j1 < 2 := hj1
  have h4 : j2 < 1 := hj2
  have h5 : k < 6 := hk
  have h6 : l < 6 := hl
  interval_cases i1 <;> interval_cases j1 <;> interval_cases i2 <;> interval_cases j2 <;>
    simp [exampleLocalIndex, exampleSpectralTopoLong] at h ⊢ <;> omega

/-- C20: `cmpt_Green_3D_0dirunbounded_3dirspectral` with CHAT_2, non-zero `kfact`,
`symstart ≥ 0` and start indices `istart ≥ 0` returns.  For every local cell let
`K = k0^2 + k1^2 + k2^2` with `k_d` the symmetrised global index in direction `d` times
`kfact[d]`, the symmetrised index being the one of the reflection rule of a spectral axis
(`min(i - 2 symstart, -1)` for a global index `i` beyond `symstart > 0`, and `i` otherwise).
Then `K` is zero exactly at the global origin; the cell holds `-1 / K` when `K ≠ 0` and 0
when `K = 0` (the global origin, on the rank that owns it); on a complex topology (whose
pencils do not overlap in memory and whose first cell is at the index 0) these are the real
parts and every imaginary part is 0. -/
theorem green_0dirunbounded_spec {R : Type} [LinearOrderedField R] (checks : Bool)
    (m : MathFns R) (localindex_ao : Int → Int → Int → Topology → Nat)
    (istart : Fin 3 → Int) (topo : Topology) (kfact : Fin 3 → R) (symstart : Fin 3 → Int)
    (green : Nat → R) (alpha : R)
    (hk : ∀ d, kfact d ≠ 0) (hs : ∀ d, 0 ≤ symstart d) (hist : ∀ d, 0 ≤ istart d)
    (hlayout : topo.nf = 2 →
      ∀ i1, i1 < (topo.nloc (topo.axis + 1)).toNat →
      ∀ i2, i2 < (topo.nloc (topo.axis + 2)).toNat →
      ∀ j1, j1 < (topo.nloc (topo.axis + 1)).toNat →
      ∀ j2, j2 < (topo.nloc (topo.axis + 2)).toNat →
      ∀ k, k < 2 * (topo.nloc topo.axis).toNat → ∀ l, l < 2 * (topo.nloc topo.axis).toNat →
      localindex_ao 0 (i1 : Int) (i2 : Int) topo + k
        = localindex_ao 0 (j1 : Int) (j2 : Int) topo + l → i1 = j1 ∧ i2 = j2)
    (hL0 : topo.nf = 2 → localindex_ao 0 ((0 : Nat) : Int) ((0 : Nat) : Int) topo = 0) :
    ∃ g, cmpt_Green_3D_0dirunbounded_3dirspectral checks m localindex_ao istart topo kfact
        symstart green GreenType.CHAT_2 alpha = Except.ok g ∧
      ∀ i0, i0 < (topo.nloc topo.axis).toNat →
      ∀ i1, i1 < (topo.nloc (topo.axis + 1)).toNat →
      ∀ i2, i2 < (topo.nloc (topo.axis + 2)).toNat →
        (specKsqr kfact symstart istart topo.axis i0 i1 i2 = 0 ↔
          istart topo.axis + (i0 : Int) = 0 ∧ istart (topo.axis + 1) + (i1 : Int) = 0 ∧
            istart (topo.axis + 2) + (i2 : Int) = 0) ∧
        (topo.nf = 2 →
          (specKsqr kfact symstart istart topo.axis i0 i1 i2 ≠ 0 →
            g (localindex_ao 0 (i1 : Int) (i2 : Int) topo + 2 * i0)
              = -(1 / specKsqr kfact symstart istart topo.axis i0 i1 i2)) ∧
          (specKsqr kfact symstart istart topo.axis i0 i1 i2 = 0 →
            g (localindex_ao 0 (i1 : Int) (i2 : Int) topo + 2 * i0) = 0) ∧
          g (localindex_ao 0 (i1 : Int) (i2 : Int) topo + 2 * i0 + 1) = 0) ∧
        (topo.nf ≠ 2 →
          (specKsqr kfact symstart istart topo.axis i0 i1 i2 ≠ 0 →
            g (greenFlatIndex topo i0 i1 i2)
              = -(1 / specKsqr kfact symstart istart topo.axis i0 i1 i2)) ∧
          (specKsqr kfact symstart istart topo.axis i0 i1 i2 = 0 →
            g (greenFlatIndex topo i0 i1 i2) = 0)) := by
  obtain ⟨g, hg, hcells⟩ := green_0dirunbounded_cells checks m localindex_ao istart topo
    kfact symstart green alpha hk hs hist hlayout hL0
  refine ⟨g, hg, ?_⟩
  intro i0 hi0 i1 hi1 i2 hi2
  obtain ⟨-, hiff, hc, hr⟩ := hcells i0 hi0 i1 hi1 i2 hi2
  rw [green3dKsqr_eq_spec kfact symstart istart topo.axis i0 i1 i2 hs] at hiff hc hr
  exact ⟨hiff, hc, hr⟩

/-- Witness for C20: the complex topology of `3 x 2 x 1` cells on the rank that owns the
origin, with the wave-number factors `(1, 1/2, 1/4)` and a symmetry around the index 1 in
direction 0, so that the cells `(2, i1, 0)` are reflected to the index `-1`. -/
theorem green_0dirunbounded_spec_witness :
    (∀ d, exampleHfact d ≠ 0) ∧ (∀ d, 0 ≤ exampleSymstart d) ∧ (∀ d, 0 ≤ exampleIstart d) ∧
    exampleSpectralTopoLong.nf = 2 ∧
    exampleLocalIndex 0 ((0 : Nat) : Int) ((0 : Nat) : Int) exampleSpectralTopoLong = 0 ∧
    (2 < (exampleSpectralTopoLong.nloc exampleSpectralTopoLong.axis).toNat ∧
      specReflect AxisKind.spectral (exampleSymstart exampleSpectralTopoLong.axis)
        (exampleIstart exampleSpectralTopoLong.axis + ((2 : Nat) : Int)) = -1) ∧
    ∃ g, cmpt_Green_3D_0dirunbounded_3dirspectral true exampleMath exampleLocalIndex
        exampleIstart exampleSpectralTopoLong exampleHfact exampleSymstart (fun _ => 7)
        GreenType.CHAT_2 2 = Except.ok g ∧
      ∀ i0, i0 < (exampleSpectralTopoLong.nloc exampleSpectralTopoLong.axis).toNat →
      ∀ i1, i1 < (exampleSpectralTopoLong.nloc (exampleSpectralTopoLong.axis + 1)).toNat →
      ∀ i2, i2 < (exampleSpectralTopoLong.nloc (exampleSpectralTopoLong.axis + 2)).toNat →
        (specKsqr exampleHfact exampleSymstart exampleIstart exampleSpectralTopoLong.axis
            i0 i1 i2 = 0 ↔
          exampleIstart exampleSpectralTopoLong.axis + (i0 : Int) = 0 ∧
            exampleIstart (exampleSpectralTopoLong.axis + 1) + (i1 : Int) = 0 ∧
            exampleIstart (exampleSpectralTopoLong.axis + 2) + (i2 : Int) = 0) ∧
        (exampleSpectralTopoLong.nf = 2 →
          (specKsqr exampleHfact exampleSymstart exampleIstart exampleSpectralTopoLong.axis
              i0 i1 i2 ≠ 0 →
            g (exampleLocalIndex 0 (i1 : Int) (i2 : Int) exampleSpectralTopoLong + 2 * i0)
              = -(1 / specKsqr exampleHfact exampleSymstart exampleIstart
                  exampleSpectralTopoLong.axis i0 i1 i2)) ∧
          (specKsqr exampleHfact exampleSymstart exampleIstart exampleSpectralTopoLong.axis
              i0 i1 i2 = 0 →
            g (exampleLocalIndex 0 (i1 : Int) (i2 : Int) exampleSpectralTopoLong + 2 * i0)
              = 0) ∧
          g (exampleLocalIndex 0 (i1 : Int) (i2 : Int) exampleSpectralTopoLong + 2 * i0 + 1)
            = 0) ∧
        (exampleSpectralTopoLong.nf ≠ 2 →
          (specKsqr exampleHfact exampleSymstart exampleIstart exampleSpectralTopoLong.axis
              i0 i1 i2 ≠ 0 →
            g (greenFlatIndex exampleSpectralTopoLong i0 i1 i2)
              = -(1 / specKsqr exampleHfact exampleSymstart exampleIstart
                  exampleSpectralTopoLong.axis i0 i1 i2)) ∧
          (specKsqr exampleHfact exampleSymstart exampleIstart exampleSpectralTopoLong.axis
              i0 i1 i2 = 0 →
            g (greenFlatIndex exampleSpectralTopoLong i0 i1 i2) = 0)) :=
  ⟨exampleHfact_ne_zero, by decide, by decide, rfl, by decide, by decide,
    green_0dirunbounded_spec true exampleMath exampleLocalIndex exampleIstart
      exampleSpectralTopoLong exampleHfact exampleSymstart (fun _ => 7) 2
      exampleHfact_ne_zero (by decide) (by decide) (fun _ => exampleLocalIndex_layout_long)
      (fun _ => by decide)⟩

/-- The routine on the example of the witness: the reflected cell `(2, 0, 0)` has
`K = ((-1) * 1)^2 = 1` and holds `-1 + 0 i`; the cell `(1, 1, 0)` has
`K = 1 + 1/4 = 5/4` and holds `-4/5`. -/
theorem exampleGreenSpectral_reflected :
    ∃ g, cmpt_Green_3D_0dirunbounded_3dirspectral true exampleMath exampleLocalIndex
        exampleIstart exampleSpectralTopoLong exampleHfact exampleSymstart (fun _ => 7)
        GreenType.CHAT_2 2 = Except.ok g ∧
      g (exampleLocalIndex 0 0 0 exampleSpectralTopoLong + 2 * 2) = -1 ∧
      g (exampleLocalIndex 0 0 0 exampleSpectralTopoLong + 2 * 2 + 1) = 0 ∧
      g (exampleLocalIndex 0 1 0 exampleSpectralTopoLong + 2 * 1) = -(4 / 5) := by
  obtain ⟨g, hg, hcells⟩ := green_0dirunbounded_cells true exampleMath exampleLocalIndex
    exampleIstart exampleSpectralTopoLong exampleHfact exampleSymstart (fun _ => 7) 2
    exampleHfact_ne_zero (by decide) (by decide) (fun _ => exampleLocalIndex_layout_long)
    (fun _ => by decide)
  have k2 : green3dKsqr exampleHfact exampleSymstart exampleIstart
      exampleSpectralTopoLong.axis 2 0 0 = 1 := by
    simp [green3dKsqr, symSpectral, exampleHfact, exampleSymstart, exampleIstart,
      exampleSpectralTopoLong]
  have k1 : green3dKsqr exampleHfact exampleSymstart exampleIstart
      exampleSpectralTopoLong.axis 1 1 0 = 5 / 4 := by
    simp [green3dKsqr, symSpectral, exampleHfact, exampleSymstart, exampleIstart,
      exampleSpectralTopoLong]
    norm_num
  obtain ⟨-, -, hc2, -⟩ := hcells 2 (by decide) 0 (by decide) 0 (by decide)
  obtain ⟨-, -, hc1, -⟩ := hcells 1 (by decide) 1 (by decide) 0 (by decide)
  obtain ⟨h2re, -, h2im⟩ := hc2 rfl
  obtain ⟨h1re, -, -⟩ := hc1 rfl
  refine ⟨g, hg, ?_, h2im, ?_⟩
  · have := h2re (by rw [k2]; exact one_ne_zero)
    rw [k2] at this
    simpa using this
  · have := h1re (by rw [k1]; norm_num)
    rw [k1] at this
    rw [show ((1 : Nat) : Int) = 1 from rfl, show ((0 : Nat) : Int) = 0 from rfl] at this
    rw [this]
    norm_num

/-- Every kernel of `cmpt_Green_3D_3dirunbounded_0dirspectral` is the quotient
`c_1o4pi / r` times a factor: the radius is its denominator. -/
theorem greenKernel_denominator {R : Type} [Field R] [DecidableEq R] (m : MathFns R)
    (typeGreen : GreenType) :
    ∃ F : R → R → R, ∀ r eps : R,
      greenKernel m typeGreen r eps = fdiv m (c_1o4pi m) r * F r eps := by
  cases typeGreen
  · exact ⟨fun _ _ => 1, fun r eps => by simp [greenKernel, _chat_2]⟩
  · exact ⟨fun _ _ => 1, fun r eps => by simp [greenKernel, _chat_2]⟩
  · exact ⟨fun r eps => m.erf (fdiv m r eps * c_1osqrt2 m), fun _ _ => rfl⟩
  · exact ⟨fun r eps => c_1osqrt2 m * c_1osqrtpi m * fdiv m r eps
        * m.exp (-(fdiv m r eps) * fdiv m r eps * (1 / 2))
      + m.erf (fdiv m r eps * c_1osqrt2 m), fun _ _ => rfl⟩
  · exact ⟨fun r eps => c_1osqrt2 m * c_1osqrtpi m
        * ((7 / 4) * fdiv m r eps - (1 / 4) * m.pow (fdiv m r eps) 3)
        * m.exp (-(fdiv m r eps) * fdiv m r eps * (1 / 2))
      + m.erf (fdiv m r eps * c_1osqrt2 m), fun _ _ => rfl⟩

/-- C18 (amended): for non-zero grid spacings, non-zero wave-number factors, `symstart ≥ 0`
and start indices `istart ≥ 0`, let `(i0, i1, i2)` be a local cell.
In `cmpt_Green_3D_3dirunbounded_0dirspectral` (real topology, a type other than LGF_2) the
loops store in the entry of the cell the opposite of the kernel at the symmetrised radius
`r` of the cell, every kernel being `c_1o4pi / r` times a factor; `r` is zero exactly when
the cell is the global origin.  In `cmpt_Green_3D_0dirunbounded_3dirspectral` (CHAT_2), in
the real branch and in the complex branch (pencils that do not overlap in memory, first
cell at the index 0), the loops store the opposite of `1 / ksqr`, and `ksqr` is zero exactly
when the cell is the global origin.  So no cell other than the global origin, reflected
cells included, is evaluated with a zero denominator and the routine leaves in it the
value of the loops; the global origin is evaluated with a zero denominator (the loops store
the opposite of the result of a division by zero) and its entry is overwritten afterwards
by the reset: the routine leaves `-G0`, resp. 0, in it. -/
theorem green_zero_denominator_iff_origin {R : Type} [LinearOrderedField R]
    (checks : Bool) (m : MathFns R) (localindex_ao : Int → Int → Int → Topology → Nat)
    (topo : Topology) (istart : Fin 3 → Int) (hfact kfact : Fin 3 → R)
    (symstart : Fin 3 → Int) (green : Nat → R) (typeGreen : GreenType) (alpha : R)
    (i0 i1 i2 : Nat)
    (hi0 : i0 < (topo.nloc topo.axis).toNat)
    (hi1 : i1 < (topo.nloc (topo.axis + 1)).toNat)
    (hi2 : i2 < (topo.nloc (topo.axis + 2)).toNat)
    (hh : ∀ d, hfact d ≠ 0) (hk : ∀ d, kfact d ≠ 0) (hs : ∀ d, 0 ≤ symstart d)
    (hist : ∀ d, 0 ≤ istart d) (hT : typeGreen ≠ GreenType.LGF_2)
    (hsqrt : ∀ x : R, 0 ≤ x → (m.sqrt x = 0 ↔ x = 0))
    (hlayout : topo.nf = 2 →
      ∀ i1, i1 < (topo.nloc (topo.axis + 1)).toNat →
      ∀ i2, i2 < (topo.nloc (topo.axis + 2)).toNat →
      ∀ j1, j1 < (topo.nloc (topo.axis + 1)).toNat →
      ∀ j2, j2 < (topo.nloc (topo.axis + 2)).toNat →
      ∀ k, k < 2 * (topo.nloc topo.axis).toNat → ∀ l, l < 2 * (topo.nloc topo.axis).toNat →
      localindex_ao 0 (i1 : Int) (i2 : Int) topo + k
        = localindex_ao 0 (j1 : Int) (j2 : Int) topo + l → i1 = j1 ∧ i2 = j2)
    (hL0 : topo.nf = 2 → localindex_ao 0 ((0 : Nat) : Int) ((0 : Nat) : Int) topo = 0) :
    (topo.isComplex = false →
      ∃ (g : Nat → R) (F : R → R → R),
        cmpt_Green_3D_3dirunbounded_0dirspectral checks m istart topo hfact symstart green
          typeGreen alpha = Except.ok g ∧
        (∀ r eps : R, greenKernel m typeGreen r eps = fdiv m (c_1o4pi m) r * F r eps) ∧
        green3dUnbFill m (greenKernel m typeGreen) (alpha * hfact 0) topo istart hfact
            symstart green (greenFlatIndex topo i0 i1 i2)
          = -(greenKernel m typeGreen
              (m.sqrt (green3dRadiusSq hfact symstart istart topo.axis i0 i1 i2))
              (alpha * hfact 0)) ∧
        (m.sqrt (green3dRadiusSq hfact symstart istart topo.axis i0 i1 i2) = 0 ↔
          istart topo.axis + (i0 : Int) = 0 ∧ istart (topo.axis + 1) + (i1 : Int) = 0 ∧
            istart (topo.axis + 2) + (i2 : Int) = 0) ∧
        (¬ (istart topo.axis + (i0 : Int) = 0 ∧ istart (topo.axis + 1) + (i1 : Int) = 0 ∧
            istart (topo.axis + 2) + (i2 : Int) = 0) →
          g (greenFlatIndex topo i0 i1 i2)
            = green3dUnbFill m (greenKernel m typeGreen) (alpha * hfact 0) topo istart hfact
                symstart green (greenFlatIndex topo i0 i1 i2)) ∧
        ((istart topo.axis + (i0 : Int) = 0 ∧ istart (topo.axis + 1) + (i1 : Int) = 0 ∧
            istart (topo.axis + 2) + (i2 : Int) = 0) →
          green3dUnbFill m (greenKernel m typeGreen) (alpha * hfact 0) topo istart hfact
              symstart green (greenFlatIndex topo i0 i1 i2)
            = -(m.divZero (c_1o4pi m) * F 0 (alpha * hfact 0)) ∧
          g (greenFlatIndex topo i0 i1 i2)
            = -(specG0 m typeGreen (hfact 0) (hfact 1) (hfact 2) (alpha * hfact 0)))) ∧
    (topo.nf ≠ 2 →
      ∃ g : Nat → R,
        cmpt_Green_3D_0dirunbounded_3dirspectral checks m localindex_ao istart topo kfact
          symstart green GreenType.CHAT_2 alpha = Except.ok g ∧
        greenSpectralFillReal m topo istart kfact symstart green (greenFlatIndex topo i0 i1 i2)
          = -(fdiv m 1 (green3dKsqr kfact symstart istart topo.axis i0 i1 i2)) ∧
        (green3dKsqr kfact symstart istart topo.axis i0 i1 i2 = 0 ↔
          istart topo.axis + (i0 : Int) = 0 ∧ istart (topo.axis + 1) + (i1 : Int) = 0 ∧
            istart (topo.axis + 2) + (i2 : Int) = 0) ∧
        (¬ (istart topo.axis + (i0 : Int) = 0 ∧ istart (topo.axis + 1) + (i1 : Int) = 0 ∧
            istart (topo.axis + 2) + (i2 : Int) = 0) →
          g (greenFlatIndex topo i0 i1 i2)
            = greenSpectralFillReal m topo istart kfact symstart green
                (greenFlatIndex topo i0 i1 i2)) ∧
        ((istart topo.axis + (i0 : Int) = 0 ∧ istart (topo.axis + 1) + (i1 : Int) = 0 ∧
            istart (topo.axis + 2) + (i2 : Int) = 0) →
          greenSpectralFillReal m topo istart kfact symstart green
              (greenFlatIndex topo i0 i1 i2) = -(m.divZero 1) ∧
          g (greenFlatIndex topo i0 i1 i2) = 0)) ∧
    (topo.nf = 2 →
      ∃ g : Nat → R,
        cmpt_Green_3D_0dirunbounded_3dirspectral checks m localindex_ao istart topo kfact
          symstart green GreenType.CHAT_2 alpha = Except.ok g ∧
        greenSpectralFillComplex m localindex_ao topo istart kfact symstart green
            (localindex_ao 0 (i1 : Int) (i2 : Int) topo + 2 * i0)
          = -(fdiv m 1 (green3dKsqr kfact symstart istart topo.axis i0 i1 i2)) ∧
        (green3dKsqr kfact symstart istart topo.axis i0 i1 i2 = 0 ↔
          istart topo.axis + (i0 : Int) = 0 ∧ istart (topo.axis + 1) + (i1 : Int) = 0 ∧
            istart (topo.axis + 2) + (i2 : Int) = 0) ∧
        (¬ (istart topo.axis + (i0 : Int) = 0 ∧ istart (topo.axis + 1) + (i1 : Int) = 0 ∧
            istart (topo.axis + 2) + (i2 : Int) = 0) →
          g (localindex_ao 0 (i1 : Int) (i2 : Int) topo + 2 * i0)
            = greenSpectralFillComplex m localindex_ao topo istart kfact symstart green
                (localindex_ao 0 (i1 : Int) (i2 : Int) topo + 2 * i0)) ∧
        ((istart topo.axis + (i0 : Int) = 0 ∧ istart (topo.axis + 1) + (i1 : Int) = 0 ∧
            istart (topo.axis + 2) + (i2 : Int) = 0) →
          greenSpectralFillComplex m localindex_ao topo istart kfact symstart green
              (localindex_ao 0 (i1 : Int) (i2 : Int) topo + 2 * i0) = -(m.divZero 1) ∧
          g (localindex_ao 0 (i1 : Int) (i2 : Int) topo + 2 * i0) = 0 ∧
          g (localindex_ao 0 (i1 : Int) (i2 : Int) topo + 2 * i0 + 1) = 0)) := by
  have h0 := hist topo.axis
  have h1 := hist (topo.axis + 1)
  have h2 := hist (topo.axis + 2)
  have hflat := greenFlatIndex_eq_zero_iff topo i0 i1 i2 hi0 hi1
  have hkiff := green3dKsqr_eq_zero_iff kfact symstart istart topo.axis i0 i1 i2 hk hs
  refine ⟨?_, ?_, ?_⟩
  · intro hreal
    obtain ⟨F, hF⟩ := greenKernel_denominator m typeGreen
    have hfill := (green3dUnbFill_spec m (greenKernel m typeGreen) (alpha * hfact 0) topo
      istart hfact symstart green).1 i0 hi0 i1 hi1 i2 hi2
    have hnonneg : (0 : R) ≤ green3dRadiusSq hfact symstart istart topo.axis i0 i1 i2 := by
      unfold green3dRadiusSq
      simp only []
      have a0 := mul_self_nonneg ((symUnbounded (symstart topo.axis)
        (istart topo.axis + (i0 : Int)) : R) * hfact topo.axis)
      have a1 := mul_self_nonneg ((symUnbounded (symstart (topo.axis + 1))
        (istart (topo.axis + 1) + (i1 : Int)) : R) * hfact (topo.axis + 1))
      have a2 := mul_self_nonneg ((symUnbounded (symstart (topo.axis + 2))
        (istart (topo.axis + 2) + (i2 : Int)) : R) * hfact (topo.axis + 2))
      linarith
    have hrad : m.sqrt (green3dRadiusSq hfact symstart istart topo.axis i0 i1 i2) = 0 ↔
        istart topo.axis + (i0 : Int) = 0 ∧ istart (topo.axis + 1) + (i1 : Int) = 0 ∧
          istart (topo.axis + 2) + (i2 : Int) = 0 := by
      rw [hsqrt _ hnonneg]
      exact green3dRadiusSq_eq_zero_iff hfact symstart istart topo.axis i0 i1 i2 hh hs
    refine ⟨_, F, cmpt_Green_3D_3dirunbounded_ok checks m istart topo hfact symstart green
      typeGreen alpha hreal hh hT, hF, hfill, hrad, ?_, ?_⟩
    · intro hno
      by_cases hown : istart topo.axis = 0 ∧ istart (topo.axis + 1) = 0 ∧
          istart (topo.axis + 2) = 0
      · rw [if_pos hown]
        have hidx : greenFlatIndex topo i0 i1 i2 ≠ 0 := by
          intro h
          apply hno
          have := hflat.mp h
          omega
        unfold writeAt
        rw [if_neg hidx]
      · rw [if_neg hown]
    · intro ho
      have hown : istart topo.axis = 0 ∧ istart (topo.axis + 1) = 0 ∧
          istart (topo.axis + 2) = 0 := by omega
      constructor
      · rw [hfill, hrad.mpr ho, hF]
        unfold fdiv
        rw [if_pos rfl]
      · rw [if_pos hown, hflat.mpr (by omega)]
        simp [writeAt]
  · intro hnf
    obtain ⟨g, hg, hcells⟩ := green_0dirunbounded_cells checks m localindex_ao istart topo
      kfact symstart green alpha hk hs hist hlayout hL0
    obtain ⟨-, -, -, hr⟩ := hcells i0 hi0 i1 hi1 i2 hi2
    have hfill := greenSpectralFillReal_spec m topo istart kfact symstart green i0 hi0 i1 hi1
      i2 hi2
    refine ⟨g, hg, hfill, hkiff, ?_, ?_⟩
    · intro hno
      have hne : green3dKsqr kfact symstart istart topo.axis i0 i1 i2 ≠ 0 :=
        fun h => hno (hkiff.mp h)
      rw [(hr hnf).1 hne, hfill]
      unfold fdiv
      rw [if_neg hne]
    · intro ho
      constructor
      · rw [hfill, hkiff.mpr ho]
        unfold fdiv
        rw [if_pos rfl]
      · exact (hr hnf).2 (hkiff.mpr ho)
  · intro hnf
    obtain ⟨g, hg, hcells⟩ := green_0dirunbounded_cells checks m localindex_ao istart topo
      kfact symstart green alpha hk hs hist hlayout hL0
    obtain ⟨-, -, hc, -⟩ := hcells i0 hi0 i1 hi1 i2 hi2
    have hfill := (greenSpectralFillComplex_spec m localindex_ao topo istart kfact symstart
      green (hlayout hnf) i0 hi0 i1 hi1 i2 hi2).1
    refine ⟨g, hg, hfill, hkiff, ?_, ?_⟩
    · intro hno
      have hne : green3dKsqr kfact symstart istart topo.axis i0 i1 i2 ≠ 0 :=
        fun h => hno (hkiff.mp h)
      rw [(hc hnf).1 hne, hfill]
      unfold fdiv
      rw [if_neg hne]
    · intro ho
      refine ⟨?_, (hc hnf).2.1 (hkiff.mpr ho), (hc hnf).2.2⟩
      rw [hfill, hkiff.mpr ho]
      unfold fdiv
      rw [if_pos rfl]

/-- Witness for C18: in the routine with three unbounded directions (kernel HEJ_2), the cell
`(2, 0, 0)` of the real topology of 27 cells, reflected around the index 1 in direction 0;
in the complex branch of the spectral routine, the global origin of the complex topology
of `3 x 2 x 1` cells. -/
theorem green_zero_denominator_iff_origin_witness :
    ((2 < (exampleTopoUser.nloc exampleTopoUser.axis).toNat ∧
        0 < (exampleTopoUser.nloc (exampleTopoUser.axis + 1)).toNat ∧
        0 < (exampleTopoUser.nloc (exampleTopoUser.axis + 2)).toNat) ∧
      (∀ d, exampleHfact d ≠ 0) ∧ (∀ d, 0 ≤ exampleSymstart d) ∧
      (∀ d, 0 ≤ exampleIstart d) ∧ exampleTopoUser.isComplex = false ∧
      exampleSpectralTopoLong.nf = 2) ∧
    (∃ (g : Nat → ℚ) (F : ℚ → ℚ → ℚ),
      cmpt_Green_3D_3dirunbounded_0dirspectral true exampleMath exampleIstart exampleTopoUser
        exampleHfact exampleSymstart (fun _ => 0) GreenType.HEJ_2 2 = Except.ok g ∧
      (∀ r eps : ℚ, greenKernel exampleMath GreenType.HEJ_2 r eps
        = fdiv exampleMath (c_1o4pi exampleMath) r * F r eps) ∧
      green3dUnbFill exampleMath (greenKernel exampleMath GreenType.HEJ_2)
          (2 * exampleHfact 0) exampleTopoUser exampleIstart exampleHfact exampleSymstart
          (fun _ => 0) (greenFlatIndex exampleTopoUser 2 0 0)
        = -(greenKernel exampleMath GreenType.HEJ_2
            (exampleMath.sqrt (green3dRadiusSq exampleHfact exampleSymstart exampleIstart
              exampleTopoUser.axis 2 0 0)) (2 * exampleHfact 0)) ∧
      (exampleMath.sqrt (green3dRadiusSq exampleHfact exampleSymstart exampleIstart
          exampleTopoUser.axis 2 0 0) = 0 ↔
        exampleIstart exampleTopoUser.axis + ((2 : Nat) : Int) = 0 ∧
          exampleIstart (exampleTopoUser.axis + 1) + ((0 : Nat) : Int) = 0 ∧
          exampleIstart (exampleTopoUser.axis + 2) + ((0 : Nat) : Int) = 0) ∧
      (¬ (exampleIstart exampleTopoUser.axis + ((2 : Nat) : Int) = 0 ∧
          exampleIstart (exampleTopoUser.axis + 1) + ((0 : Nat) : Int) = 0 ∧
          exampleIstart (exampleTopoUser.axis + 2) + ((0 : Nat) : Int) = 0) →
        g (greenFlatIndex exampleTopoUser 2 0 0)
          = green3dUnbFill exampleMath (greenKernel exampleMath GreenType.HEJ_2)
              (2 * exampleHfact 0) exampleTopoUser exampleIstart exampleHfact
              exampleSymstart (fun _ => 0) (greenFlatIndex exampleTopoUser 2 0 0)) ∧
      ((exampleIstart exampleTopoUser.axis + ((2 : Nat) : Int) = 0 ∧
          exampleIstart (exampleTopoUser.axis + 1) + ((0 : Nat) : Int) = 0 ∧
          exampleIstart (exampleTopoUser.axis + 2) + ((0 : Nat) : Int) = 0) →
        green3dUnbFill exampleMath (greenKernel exampleMath GreenType.HEJ_2)
            (2 * exampleHfact 0) exampleTopoUser exampleIstart exampleHfact exampleSymstart
            (fun _ => 0) (greenFlatIndex exampleTopoUser 2 0 0)
          = -(exampleMath.divZero (c_1o4pi exampleMath) * F 0 (2 * exampleHfact 0)) ∧
        g (greenFlatIndex exampleTopoUser 2 0 0)
          = -(specG0 exampleMath GreenType.HEJ_2 (exampleHfact 0) (exampleHfact 1)
              (exampleHfact 2) (2 * exampleHfact 0)))) ∧
    (∃ g : Nat → ℚ,
      cmpt_Green_3D_0dirunbounded_3dirspectral true exampleMath exampleLocalIndex
        exampleIstart exampleSpectralTopoLong exampleHfact exampleSymstart (fun _ => 7)
        GreenType.CHAT_2 2 = Except.ok g ∧
      greenSpectralFillComplex exampleMath exampleLocalIndex exampleSpectralTopoLong
          exampleIstart exampleHfact exampleSymstart (fun _ => 7)
          (exampleLocalIndex 0 ((0 : Nat) : Int) ((0 : Nat) : Int) exampleSpectralTopoLong
            + 2 * 0)
        = -(fdiv exampleMath 1 (green3dKsqr exampleHfact exampleSymstart exampleIstart
            exampleSpectralTopoLong.axis 0 0 0)) ∧
      (green3dKsqr exampleHfact exampleSymstart exampleIstart exampleSpectralTopoLong.axis
          0 0 0 = 0 ↔
        exampleIstart exampleSpectralTopoLong.axis + ((0 : Nat) : Int) = 0 ∧
          exampleIstart (exampleSpectralTopoLong.axis + 1) + ((0 : Nat) : Int) = 0 ∧
          exampleIstart (exampleSpectralTopoLong.axis + 2) + ((0 : Nat) : Int) = 0) ∧
      (¬ (exampleIstart exampleSpectralTopoLong.axis + ((0 : Nat) : Int) = 0 ∧
          exampleIstart (exampleSpectralTopoLong.axis + 1) + ((0 : Nat) : Int) = 0 ∧
          exampleIstart (exampleSpectralTopoLong.axis + 2) + ((0 : Nat) : Int) = 0) →
        g (exampleLocalIndex 0 ((0 : Nat) : Int) ((0 : Nat) : Int) exampleSpectralTopoLong
            + 2 * 0)
          = greenSpectralFillComplex exampleMath exampleLocalIndex exampleSpectralTopoLong
              exampleIstart exampleHfact exampleSymstart (fun _ => 7)
              (exampleLocalIndex 0 ((0 : Nat) : Int) ((0 : Nat) : Int)
                exampleSpectralTopoLong + 2 * 0)) ∧
      ((exampleIstart exampleSpectralTopoLong.axis + ((0 : Nat) : Int) = 0 ∧
          exampleIstart (exampleSpectralTopoLong.axis + 1) + ((0 : Nat) : Int) = 0 ∧
          exampleIstart (exampleSpectralTopoLong.axis + 2) + ((0 : Nat) : Int) = 0) →
        greenSpectralFillComplex exampleMath exampleLocalIndex exampleSpectralTopoLong
            exampleIstart exampleHfact exampleSymstart (fun _ => 7)
            (exampleLocalIndex 0 ((0 : Nat) : Int) ((0 : Nat) : Int)
              exampleSpectralTopoLong + 2 * 0) = -(exampleMath.divZero 1) ∧
        g (exampleLocalIndex 0 ((0 : Nat) : Int) ((0 : Nat) : Int) exampleSpectralTopoLong
            + 2 * 0) = 0 ∧
        g (exampleLocalIndex 0 ((0 : Nat) : Int) ((0 : Nat) : Int) exampleSpectralTopoLong
            + 2 * 0 + 1) = 0)) :=
  ⟨⟨by decide, exampleHfact_ne_zero, by decide, by decide, by decide, rfl⟩,
    (green_zero_denominator_iff_origin true exampleMath exampleLocalIndex exampleTopoUser
      exampleIstart exampleHfact exampleHfact exampleSymstart (fun _ => 0) GreenType.HEJ_2 2
      2 0 0 (by decide) (by decide) (by decide) exampleHfact_ne_zero exampleHfact_ne_zero
      (by decide) (by decide) (by decide) exampleMath_sqrt
      (fun h => absurd h (by decide)) (fun h => absurd h (by decide))).1 (by decide),
    (green_zero_denominator_iff_origin true exampleMath exampleLocalIndex
      exampleSpectralTopoLong exampleIstart exampleHfact exampleHfact exampleSymstart
      (fun _ => 7) GreenType.CHAT_2 2 0 0 0 (by decide) (by decide) (by decide)
      exampleHfact_ne_zero exampleHfact_ne_zero (by decide) (by decide) (by decide)
      exampleMath_sqrt (fun _ => exampleLocalIndex_layout_long)
      (fun _ => by decide)).2.2 rfl⟩

/-- The complex branch of the spectral routine on the example: before the reset the entry 0
holds the opposite of the result of the division `1 / ksqr` by zero, which the example math
library gives as 1000000; the routine leaves `0 + 0 i` in the origin cell. -/
theorem exampleGreenSpectral_origin :
    greenSpectralFillComplex exampleMath exampleLocalIndex exampleSpectralTopoLong
        exampleIstart exampleHfact exampleSymstart (fun _ => 7) 0 = -1000000 ∧
    ∃ g, cmpt_Green_3D_0dirunbounded_3dirspectral true exampleMath exampleLocalIndex
        exampleIstart exampleSpectralTopoLong exampleHfact exampleSymstart (fun _ => 7)
        GreenType.CHAT_2 2 = Except.ok g ∧ g 0 = 0 ∧ g 1 = 0 := by
  have hfill := (greenSpectralFillComplex_spec exampleMath exampleLocalIndex
    exampleSpectralTopoLong exampleIstart exampleHfact exampleSymstart (fun _ => 7)
    exampleLocalIndex_layout_long 0 (by decide) 0 (by decide) 0 (by decide)).1
  have hk : green3dKsqr exampleHfact exampleSymstart exampleIstart
      exampleSpectralTopoLong.axis 0 0 0 = 0 :=
    (green3dKsqr_eq_zero_iff exampleHfact exampleSymstart exampleIstart
      exampleSpectralTopoLong.axis 0 0 0 exampleHfact_ne_zero (by decide)).mpr ⟨rfl, rfl, rfl⟩
  have hidx : exampleLocalIndex 0 ((0 : Nat) : Int) ((0 : Nat) : Int) exampleSpectralTopoLong
      + 2 * 0 = 0 := by decide
  rw [hidx, hk] at hfill
  obtain ⟨g, hg, hcells⟩ := green_0dirunbounded_cells true exampleMath exampleLocalIndex
    exampleIstart exampleSpectralTopoLong exampleHfact exampleSymstart (fun _ => 7) 2
    exampleHfact_ne_zero (by decide) (by decide) (fun _ => exampleLocalIndex_layout_long)
    (fun _ => by decide)
  obtain ⟨-, -, hc, -⟩ := hcells 0 (by decide) 0 (by decide) 0 (by decide)
  obtain ⟨-, hre, him⟩ := hc rfl
  refine ⟨?_, g, hg, ?_, ?_⟩
  · rw [hfill]
    simp [fdiv, exampleMath]
  · have := hre hk
    rwa [hidx] at this
  · have e : exampleLocalIndex 0 ((0 : Nat) : Int) ((0 : Nat) : Int) exampleSpectralTopoLong
        + 2 * 0 + 1 = 1 := by decide
    rwa [e] at him

/-! ## The remap strategies -/

/-- C26: the persistent-request strategy `SwitchTopoX_part` needs a send and a receive
buffer; the strategies `SwitchTopoX_isr` and `SwitchTopoX_stream` need a receive buffer and
no send buffer; `SwitchTopoX_stream` reports that it overlaps communication. -/
theorem switchtopo_buffer_requirements :
    (SwitchTopoX_part.need_send_buf = true ∧ SwitchTopoX_part.need_recv_buf = true) ∧
    (SwitchTopoX_isr.need_send_buf = false ∧ SwitchTopoX_isr.need_recv_buf = true) ∧
    (SwitchTopoX_stream.need_send_buf = false ∧ SwitchTopoX_stream.need_recv_buf = true) ∧
    SwitchTopoX_stream.overlap_comm = true :=
  ⟨⟨rfl, rfl⟩, ⟨rfl, rfl⟩, ⟨rfl, rfl⟩, rfl⟩

/-! ## The Bessel-integral function -/

/-- The effect of one iteration of the loop of `init_Ji0` on each entry. -/
theorem initJi0Step_apply {R : Type} [Field R] [DecidableEq R] (m : MathFns R) (k : Nat)
    (T : Nat → R) (j : Nat) :
    initJi0Step m k T j
      = if j = k then fdiv m 1 (T k * T k)
        else if j = k + 1 then T k * ((k + 1 : Nat) : R) else T j := by
  have e : k ≠ k + 1 := by omega
  simp only [initJi0Step, Nat.add_sub_cancel, writeAt, if_neg e]

/-- Invariant of the loop of `init_Ji0`: after `k` iterations the entry `k` holds `k!` and
every entry `j < k` holds `1 / (j!)^2`. -/
theorem initJi0_loop {R : Type} [LinearOrderedField R] (m : MathFns R) (t : Nat → R) (k : Nat) :
    forLoop (initJi0Step m) k (writeAt t 0 1) k = (k.factorial : R) ∧
    ∀ j, j < k → forLoop (initJi0Step m) k (writeAt t 0 1) j = 1 / ((j.factorial : R)) ^ 2 := by
  induction k with
  | zero =>
    refine ⟨?_, fun j hj => absurd hj (Nat.not_lt_zero j)⟩
    simp [forLoop, writeAt]
  | succ k ih =>
    obtain ⟨h1, h2⟩ := ih
    have hstep : forLoop (initJi0Step m) (k + 1) (writeAt t 0 1)
        = initJi0Step m k (forLoop (initJi0Step m) k (writeAt t 0 1)) := rfl
    rw [hstep]
    have hk : ((k.factorial : R)) ≠ 0 := Nat.cast_ne_zero.mpr (Nat.factorial_ne_zero k)
    constructor
    · rw [initJi0Step_apply, if_neg (show k + 1 ≠ k by omega), if_pos rfl, h1,
        Nat.factorial_succ]
      push_cast
      ring
    · intro j hj
      rw [initJi0Step_apply]
      by_cases hjk : j = k
      · subst hjk
        rw [if_pos rfl, h1]
        unfold fdiv
        rw [if_neg (mul_ne_zero hk hk)]
        ring
      · rw [if_neg hjk, if_neg (show j ≠ k + 1 by omega)]
        exact h2 j (by omega)

/-- The table left by `init_Ji0`: the entry `n ≤ N_KEPT` holds `1 / (n!)^2`. -/
theorem init_Ji0_entries {R : Type} [LinearOrderedField R] (m : MathFns R) (t : Nat → R)
    (n : Nat) (hn : n ≤ N_KEPT) : init_Ji0 m t n = 1 / ((n.factorial : R)) ^ 2 := by
  obtain ⟨h1, h2⟩ := initJi0_loop m t N_KEPT
  unfold init_Ji0
  by_cases h : n = N_KEPT
  · subst h
    have hk : ((N_KEPT.factorial : R)) ≠ 0 :=
      Nat.cast_ne_zero.mpr (Nat.factorial_ne_zero N_KEPT)
    simp only [writeAt, if_true, h1]
    unfold fdiv
    rw [if_neg (mul_ne_zero hk hk)]
    ring
  · simp only [writeAt, if_neg h]
    exact h2 n (by omega)

/-- C27: after `init_Ji0`, for every `n` with `0 ≤ n ≤ N_KEPT = 50` the entry
`inv_f_sqr[n]` is `1 / (n!)^2` in exact arithmetic, whatever the array held before; and
after `k ≤ 50` iterations of the loop the entry `k` holds the running factorial `k!` while
the entries below `k` already hold their inverse squares. -/
theorem init_Ji0_table {R : Type} [LinearOrderedField R] (m : MathFns R) (t : Nat → R) :
    N_KEPT = 50 ∧
    (∀ n, n ≤ 50 → init_Ji0 m t n = 1 / ((n.factorial : R)) ^ 2) ∧
    (∀ k, k ≤ 50 →
      forLoop (initJi0Step m) k (writeAt t 0 1) k = (k.factorial : R) ∧
      ∀ j, j < k →
        forLoop (initJi0Step m) k (writeAt t 0 1) j = 1 / ((j.factorial : R)) ^ 2) :=
  ⟨rfl, fun n hn => init_Ji0_entries m t n hn, fun k _ => initJi0_loop m t k⟩

/-- The loop of `Ji0c` subtracts its terms one after the other. -/
theorem ji0c_loop {R : Type} [LinearOrderedField R] (m : MathFns R) (tbl : Nat → R) (x : R)
    (j : Nat) :
    forLoop (ji0cStep m tbl x) j 0
      = -∑ k in Finset.range j,
          fdiv m ((-(1 / 4 * x * x)) ^ (N_KEPT - k) * tbl (N_KEPT - k))
            ((N_KEPT - k : Nat) : R) * (1 / 2) := by
  induction j with
  | zero => simp [forLoop]
  | succ j ih =>
    have hstep : forLoop (ji0cStep m tbl x) (j + 1) 0
        = ji0cStep m tbl x j (forLoop (ji0cStep m tbl x) j 0) := rfl
    rw [hstep, ih, Finset.sum_range_succ]
    unfold ji0cStep
    simp only []
    ring

/-- The term of index `n ≥ 1` of `Ji0c`, with the table of `init_Ji0`, is the term of the
series. -/
theorem ji0c_term {R : Type} [LinearOrderedField R] (m : MathFns R) (t : Nat → R) (x : R)
    (n : Nat) (h1 : 1 ≤ n) (h2 : n ≤ N_KEPT) :
    -(fdiv m ((-(1 / 4 * x * x)) ^ n * init_Ji0 m t n) (n : R) * (1 / 2))
      = (-1) ^ (n + 1) * (x / 2) ^ (2 * n) / (2 * (n : R) * ((n.factorial : R)) ^ 2) := by
  have hn : (n : R) ≠ 0 := Nat.cast_ne_zero.mpr (by omega)
  have hf : ((n.factorial : R)) ≠ 0 := Nat.cast_ne_zero.mpr (Nat.factorial_ne_zero n)
  rw [init_Ji0_entries m t n h2]
  unfold fdiv
  rw [if_neg hn]
  have e : (-(1 / 4 * x * x)) ^ n = (-1) ^ n * (x / 2) ^ (2 * n) := by
    rw [pow_mul, ← mul_pow]
    congr 1
    ring
  rw [e, pow_succ]
  field_simp
  ring

/-- The value of `Ji0c` after `init_Ji0` as a finite sum. -/
theorem Ji0c_eq_sum {R : Type} [LinearOrderedField R] (m : MathFns R) (t : Nat → R) (x : R) :
    Ji0c m (init_Ji0 m t) x
      = ∑ n in Finset.Icc (1 : Nat) 50,
          (-1) ^ (n + 1) * (x / 2) ^ (2 * n) / (2 * (n : R) * ((n.factorial : R)) ^ 2) := by
  unfold Ji0c
  rw [ji0c_loop, ← Finset.sum_neg_distrib]
  have hIcc : Finset.Icc (1 : Nat) 50 = Finset.Ico 1 (50 + 1) := by
    ext a
    simp [Finset.mem_Icc, Finset.mem_Ico, Nat.lt_succ_iff]
  rw [hIcc, Finset.sum_Ico_eq_sum_range]
  show _ = ∑ k in Finset.range N_KEPT, _
  rw [← Finset.sum_range_reflect _ N_KEPT]
  apply Finset.sum_congr rfl
  intro k hk
  have hk2 : k < N_KEPT := Finset.mem_range.mp hk
  have e : N_KEPT - (N_KEPT - 1 - k) = 1 + k := by omega
  rw [e]
  exact ji0c_term m t x (1 + k) (by omega) (by omega)

/-- C25: after `init_Ji0`, for every `x`, `Ji0c(x)` is in exact arithmetic the sum for
`n = 1 .. 50` of `(-1)^(n+1) (x/2)^(2n) / (2n (n!)^2)`; hence `Ji0c(0) = 0` and
`Ji0c(-x) = Ji0c(x)`; and `Ji0(x) = C_GAMMA + log(x/2) - Ji0c(x)`. -/
theorem Ji0c_series {R : Type} [LinearOrderedField R] (m : MathFns R) (log : R → R)
    (t : Nat → R) (x : R) :
    Ji0c m (init_Ji0 m t) x
      = ∑ n in Finset.Icc (1 : Nat) 50,
          (-1) ^ (n + 1) * (x / 2) ^ (2 * n) / (2 * (n : R) * ((n.factorial : R)) ^ 2) ∧
    Ji0c m (init_Ji0 m t) 0 = 0 ∧
    Ji0c m (init_Ji0 m t) (-x) = Ji0c m (init_Ji0 m t) x ∧
    Ji0 m log (init_Ji0 m t) x = C_GAMMA + log (x / 2) - Ji0c m (init_Ji0 m t) x := by
  refine ⟨Ji0c_eq_sum m t x, ?_, ?_, ?_⟩
  · rw [Ji0c_eq_sum]
    apply Finset.sum_eq_zero
    intro n hn
    have h1 : 1 ≤ n := (Finset.mem_Icc.mp hn).1
    have h0 : ((0 : R) / 2) ^ (2 * n) = 0 := by
      rw [zero_div]
      exact zero_pow (by omega)
    rw [h0, mul_zero, zero_div]
  · rw [Ji0c_eq_sum, Ji0c_eq_sum]
    apply Finset.sum_congr rfl
    intro n _
    have h0 : (-x / 2) ^ (2 * n) = (x / 2) ^ (2 * n) := by
      rw [neg_div, pow_mul, pow_mul, neg_sq]
    rw [h0]
  · unfold Ji0
    ring

/-! ## Intersection of two topologies and minimal padding -/

/-- The value of `start` after `n` iterations of the loop of `cmpt_intersect_id` is 0 or an
index `i < n` whose image in the other topology is not positive. -/
theorem intersectLoop_start (rankd nbyproc shift onglob : Int) (n : Nat) :
    (intersectLoop rankd nbyproc shift onglob n).1 = 0 ∨
    ∃ i : Nat, i < n ∧ (intersectLoop rankd nbyproc shift onglob n).1 = (i : Int) ∧
      rankd * nbyproc + (i : Int) + shift ≤ 0 := by
  induction n with
  | zero => exact Or.inl rfl
  | succ n ih =>
    show (if rankd * nbyproc + (n : Int) + shift ≤ 0 then (n : Int)
      else (intersectLoop rankd nbyproc shift onglob n).1) = 0 ∨ ∃ i : Nat, i < n + 1 ∧
      (if rankd * nbyproc + (n : Int) + shift ≤ 0 then (n : Int)
        else (intersectLoop rankd nbyproc shift onglob n).1) = (i : Int) ∧
      rankd * nbyproc + (i : Int) + shift ≤ 0
    by_cases h : rankd * nbyproc + (n : Int) + shift ≤ 0
    · rw [if_pos h]
      exact Or.inr ⟨n, by omega, rfl, h⟩
    · rw [if_neg h]
      rcases ih with h0 | ⟨i, hi, h1, h2⟩
      · exact Or.inl h0
      · exact Or.inr ⟨i, by omega, h1, h2⟩

/-- The value of `end` after `n` iterations of the loop of `cmpt_intersect_id` is above
every index `i < n` whose image lies below `onglob`, and is 0 when there is none. -/
theorem intersectLoop_end (rankd nbyproc shift onglob : Int) (n : Nat) :
    (∀ i : Nat, i < n → rankd * nbyproc + (i : Int) + shift < onglob →
      (i : Int) < (intersectLoop rankd nbyproc shift onglob n).2) ∧
    ((∀ i : Nat, i < n → ¬ rankd * nbyproc + (i : Int) + shift < onglob) →
      (intersectLoop rankd nbyproc shift onglob n).2 = 0) := by
  induction n with
  | zero => exact ⟨fun i hi => absurd hi (Nat.not_lt_zero i), fun _ => rfl⟩
  | succ n ih =>
    obtain ⟨ih1, ih2⟩ := ih
    have hstep : (intersectLoop rankd nbyproc shift onglob (n + 1)).2
        = if rankd * nbyproc + (n : Int) + shift < onglob then (n : Int) + 1
          else (intersectLoop rankd nbyproc shift onglob n).2 := rfl
    rw [hstep]
    constructor
    · intro i hi hlt
      by_cases h : rankd * nbyproc + (n : Int) + shift < onglob
      · rw [if_pos h]
        omega
      · rw [if_neg h]
        have hin : i ≠ n := by
          intro e
          subst e
          exact h hlt
        exact ih1 i (by omega) hlt
    · intro hnone
      rw [if_neg (hnone n (by omega))]
      exact ih2 (fun i hi => hnone i (by omega))

/-- C28: `Topology::cmpt_intersect_id` on two topologies that are both real or both complex
returns, and in every direction: every local index `i` (`0 ≤ i < nloc`) whose global index
`rankd * nbyproc + i + shift` in the other topology lies in `[0, other.nglob)` satisfies
`start ≤ i < end`; and when no local index maps below `other.nglob` (a non-negative size)
the returned range is `start = end = 0`. -/
theorem cmpt_intersect_id_keeps_valid (checks : Bool) (self other : Topology)
    (shift : Fin 3 → Int) (hflag : self.isComplex = other.isComplex) :
    ∃ st en : Fin 3 → Int,
      self.cmpt_intersect_id checks shift other = Except.ok (st, en) ∧
      ∀ id : Fin 3,
        (∀ i : Nat, (i : Int) < self.nloc id →
          0 ≤ self.rankd id * self.nbyproc id + (i : Int) + shift id →
          self.rankd id * self.nbyproc id + (i : Int) + shift id < other.nglob id →
          st id ≤ (i : Int) ∧ (i : Int) < en id) ∧
        ((∀ i : Nat, (i : Int) < self.nloc id →
            ¬ self.rankd id * self.nbyproc id + (i : Int) + shift id < other.nglob id) →
          0 ≤ other.nglob id → st id = 0 ∧ en id = 0) := by
  refine ⟨fun id => (intersectLoop (self.rankd id) (self.nbyproc id) (shift id)
      (other.nglob id) (self.nloc id).toNat).1,
    fun id => (intersectLoop (self.rankd id) (self.nbyproc id) (shift id)
      (other.nglob id) (self.nloc id).toNat).2, ?_, ?_⟩
  · simp [Topology.cmpt_intersect_id, FLUPS_CHECK, hflag, bind, Except.bind, pure,
      Except.pure]
  · intro id
    have hs := intersectLoop_start (self.rankd id) (self.nbyproc id) (shift id)
      (other.nglob id) (self.nloc id).toNat
    have he := intersectLoop_end (self.rankd id) (self.nbyproc id) (shift id)
      (other.nglob id) (self.nloc id).toNat
    constructor
    · intro i hi h0 h1
      refine ⟨?_, he.1 i (by omega) h1⟩
      show (intersectLoop (self.rankd id) (self.nbyproc id) (shift id)
        (other.nglob id) (self.nloc id).toNat).1 ≤ (i : Int)
      rcases hs with hz | ⟨j, _, hj1, hj2⟩
      · rw [hz]
        omega
      · rw [hj1]
        omega
    · intro hnone hg
      have hnone2 : ∀ i : Nat, i < (self.nloc id).toNat →
          ¬ self.rankd id * self.nbyproc id + (i : Int) + shift id < other.nglob id :=
        fun i hi => hnone i (by omega)
      refine ⟨?_, he.2 hnone2⟩
      show (intersectLoop (self.rankd id) (self.nbyproc id) (shift id)
        (other.nglob id) (self.nloc id).toNat).1 = 0
      rcases hs with hz | ⟨j, hj0, hj1, hj2⟩
      · exact hz
      · rw [hj1]
        have h0 := hnone2 0 (by omega)
        have hj := hnone2 j hj0
        simp only [Nat.cast_zero, add_zero] at h0
        omega

/-- Witness for C28: the rank `(0, 0, 0)` of the pencil of `nglob = (8, 4, 4)` against the
pencil of `nglob = (4, 4, 4)`, with the shift `(-2, 0, 0)`. -/
theorem cmpt_intersect_id_keeps_valid_witness :
    exampleTopoWide.isComplex = exampleTopoNarrow.isComplex ∧
    ∃ st en : Fin 3 → Int,
      exampleTopoWide.cmpt_intersect_id true ![-2, 0, 0] exampleTopoNarrow
        = Except.ok (st, en) ∧
      ∀ id : Fin 3,
        (∀ i : Nat, (i : Int) < exampleTopoWide.nloc id →
          0 ≤ exampleTopoWide.rankd id * exampleTopoWide.nbyproc id + (i : Int)
            + (![-2, 0, 0] : Fin 3 → Int) id →
          exampleTopoWide.rankd id * exampleTopoWide.nbyproc id + (i : Int)
            + (![-2, 0, 0] : Fin 3 → Int) id < exampleTopoNarrow.nglob id →
          st id ≤ (i : Int) ∧ (i : Int) < en id) ∧
        ((∀ i : Nat, (i : Int) < exampleTopoWide.nloc id →
            ¬ exampleTopoWide.rankd id * exampleTopoWide.nbyproc id + (i : Int)
              + (![-2, 0, 0] : Fin 3 → Int) id < exampleTopoNarrow.nglob id) →
          0 ≤ exampleTopoNarrow.nglob id → st id = 0 ∧ en id = 0) :=
  ⟨by decide,
    cmpt_intersect_id_keeps_valid true exampleTopoWide exampleTopoNarrow ![-2, 0, 0]
      (by decide)⟩

/-- The bytes added along the fast axis: nothing when the global pencil is a multiple of the
alignment, the complement to the next multiple otherwise. -/
theorem pad_value {nglob nf alignment : Int} (k : Int) (hnf : nf = 1 ∨ nf = 2)
    (hk : alignment = k * (nf * SIZEOF_DOUBLE)) (h0 : 0 < alignment)
    (h1 : alignment ≤ INT_MAX) (hg0 : 0 ≤ nglob) (hg1 : nglob * nf ≤ INT_MAX) :
    (if padModulo nglob nf alignment = 0 then 0
      else Int.tdiv (padDelta alignment (padModulo nglob nf alignment)) nf)
        * nf * SIZEOF_DOUBLE
      = if (nglob * nf * SIZEOF_DOUBLE) % alignment = 0 then 0
        else alignment - (nglob * nf * SIZEOF_DOUBLE) % alignment := by
  have hnf0 : 0 < nf := by rcases hnf with h | h <;> omega
  have hgn : 0 ≤ nglob * nf := Int.mul_nonneg hg0 (le_of_lt hnf0)
  have hm := padModulo_eq h0 h1 hgn hg1
  have hr := padModulo_range nglob nf h0 h1
  rw [hm] at hr ⊢
  split_ifs with hz
  · ring
  · rw [padDelta_eq h1 hr.1 hr.2]
    have hdvd : (nf * SIZEOF_DOUBLE) ∣ alignment := ⟨k, by rw [hk]; ring⟩
    have hmd : (nf * SIZEOF_DOUBLE) ∣ (nglob * nf * SIZEOF_DOUBLE) % alignment := by
      apply Int.dvd_of_emod_eq_zero
      rw [Int.emod_emod_of_dvd _ hdvd]
      exact Int.emod_eq_zero_of_dvd ⟨nglob, by ring⟩
    obtain ⟨j, hj⟩ := Int.dvd_sub hdvd hmd
    have hj0 : 0 ≤ nf * j := by
      have : 0 < nf * SIZEOF_DOUBLE * j := by rw [← hj]; omega
      unfold SIZEOF_DOUBLE at this
      nlinarith
    have hdelta : (alignment - (nglob * nf * SIZEOF_DOUBLE) % alignment) / SIZEOF_DOUBLE
        = nf * j := by
      rw [hj, show nf * SIZEOF_DOUBLE * j = SIZEOF_DOUBLE * (nf * j) by ring]
      exact Int.mul_ediv_cancel_left _ (by decide)
    rw [hdelta, Int.tdiv_eq_ediv hj0 (le_of_lt hnf0),
      Int.mul_ediv_cancel_left _ (ne_of_gt hnf0), hj]
    ring

/-- C29: in a topology built by the constructor whose fast axis is not split
(`nproc[axis] = 1`, hence `rankd[axis] = 0`) and whose alignment is a positive multiple of
`nf * sizeof(double)` (sizes and alignment fit an `int`), `nmem[axis] * nf * sizeof(double)`
is the smallest multiple of the alignment that is at least
`nglob[axis] * nf * sizeof(double)`; `nloc[axis] = nglob[axis]`, and `nmem[axis] =
nloc[axis]` when the unpadded pencil is already a multiple of the alignment.
`Topology::change_comm` recomputes the same `nloc[axis]` and `nmem[axis]`. -/
theorem topology_pencil_minimal_padding (checks : Bool) (axis : Fin 3)
    (nglob nproc : Fin 3 → Int) (isComplex : Bool) (axproc : Option (Fin 3 → Int))
    (alignment comm_size : Int) (rankd : Fin 3 → Int) (t : Topology) (k : Int)
    (h : Topology.new checks axis nglob nproc isComplex axproc alignment comm_size rankd
      = Except.ok t)
    (hk0 : 0 < k) (hk : alignment = k * (t.nf * SIZEOF_DOUBLE))
    (hal : alignment ≤ INT_MAX)
    (hg0 : 0 ≤ nglob axis) (hg1 : nglob axis * t.nf ≤ INT_MAX)
    (hp : nproc axis = 1) (hr : rankd axis = 0) :
    alignment ∣ t.nmem t.axis * t.nf * SIZEOF_DOUBLE ∧
    t.nglob t.axis * t.nf * SIZEOF_DOUBLE ≤ t.nmem t.axis * t.nf * SIZEOF_DOUBLE ∧
    (∀ Y : Int, alignment ∣ Y → t.nglob t.axis * t.nf * SIZEOF_DOUBLE ≤ Y →
      t.nmem t.axis * t.nf * SIZEOF_DOUBLE ≤ Y) ∧
    t.nloc t.axis = t.nglob t.axis ∧
    ((t.nglob t.axis * t.nf * SIZEOF_DOUBLE) % alignment = 0 →
      t.nmem t.axis = t.nloc t.axis) ∧
    (∀ rankd2 : Fin 3 → Int, rankd2 axis = 0 →
      (t.change_comm rankd2).nloc t.axis = t.nloc t.axis ∧
      (t.change_comm rankd2).nmem t.axis = t.nmem t.axis) := by
  have hmem := Topology.new_nmem h axis
  have hloc := Topology.new_nloc h axis
  obtain ⟨hglob, hnproc, -, hax, hnf, halign, hd⟩ := Topology.new_ok h
  have hnf2 : t.nf = 1 ∨ t.nf = 2 := by
    rw [hnf]; cases isComplex <;> simp
  have hnf0 : 0 < t.nf := by rcases hnf2 with h | h <;> omega
  have h0 : 0 < alignment := by
    rw [hk]
    exact Int.mul_pos hk0 (Int.mul_pos hnf0 (by decide))
  have hby : t.nbyproc axis = nglob axis := by
    obtain ⟨s, hs, hb, -, -⟩ := hd axis
    rw [hb, (topoDimSizes_ok hs).1, hp, Int.tdiv_one]
  have hcc : ∀ rankd2 : Fin 3 → Int, rankd2 axis = 0 →
      (t.change_comm rankd2).nloc axis = nglob axis ∧
      (t.change_comm rankd2).nmem axis = t.nmem axis := by
    intro rankd2 h2
    have hnm := Topology.new_nmem h axis
    have hlc := Topology.new_nloc h axis
    rw [hp, hr, if_neg (by omega), if_pos rfl] at hnm
    rw [hp, hr, if_neg (by omega), Int.tdiv_one] at hlc
    simp only [Topology.change_comm, changeCommDimSizes, hax, hglob, hnproc, halign, hby,
      hp, h2, if_true]
    rw [if_neg (by omega)]
    simp only [mul_zero, sub_zero, max_self]
    refine ⟨trivial, ?_⟩
    rw [hnm, hlc]
    simp
  have hloc2 : t.nloc axis = nglob axis := by
    rw [hloc, hp, hr, if_neg (by omega), Int.tdiv_one]
    simp
  have hpad := pad_value k hnf2 hk h0 hal hg0 hg1
  rw [hp, hr, if_neg (by omega), if_pos rfl, hloc2] at hmem
  rw [hax, hglob, hloc2]
  have hX : t.nmem axis * t.nf * SIZEOF_DOUBLE
      = nglob axis * t.nf * SIZEOF_DOUBLE
        + (if (nglob axis * t.nf * SIZEOF_DOUBLE) % alignment = 0 then 0
          else alignment - (nglob axis * t.nf * SIZEOF_DOUBLE) % alignment) := by
    rw [← hpad, hmem]
    ring
  have hmod0 := Int.emod_nonneg (nglob axis * t.nf * SIZEOF_DOUBLE) (ne_of_gt h0)
  have hmod1 := Int.emod_lt_of_pos (nglob axis * t.nf * SIZEOF_DOUBLE) h0
  have hdiv := Int.emod_add_ediv (nglob axis * t.nf * SIZEOF_DOUBLE) alignment
  refine ⟨?_, ?_, ?_, rfl, ?_, hcc⟩
  · rw [hX]
    split_ifs with hz
    · rw [add_zero]
      exact Int.dvd_of_emod_eq_zero hz
    · exact ⟨(nglob axis * t.nf * SIZEOF_DOUBLE) / alignment + 1, by linarith⟩
  · rw [hX]
    split_ifs with hz
    · omega
    · omega
  · intro Y hY hge
    rw [hX]
    split_ifs with hz
    · omega
    · obtain ⟨c, hc⟩ := hY
      have hlt : alignment * ((nglob axis * t.nf * SIZEOF_DOUBLE) / alignment)
          < alignment * c := by
        have hpos : 0 < (nglob axis * t.nf * SIZEOF_DOUBLE) % alignment := by omega
        linarith
      have hc2 : (nglob axis * t.nf * SIZEOF_DOUBLE) / alignment < c :=
        lt_of_mul_lt_mul_left hlt (le_of_lt h0)
      have hc3 : alignment * ((nglob axis * t.nf * SIZEOF_DOUBLE) / alignment + 1)
          ≤ alignment * c :=
        Int.mul_le_mul_of_nonneg_left (by omega) (le_of_lt h0)
      linarith
  · intro hz
    rw [hmem]
    have hz2 : padModulo (nglob axis) t.nf alignment = 0 := by
      rw [padModulo_eq h0 hal (Int.mul_nonneg hg0 (le_of_lt hnf0)) hg1]
      exact hz
    rw [if_pos hz2, add_zero]

/-- Witness for C29: `nglob = (65, 31, 127)` on `3 x 1 x 1` ranks with fast axis 1, real
data and alignment 32: the pencil of `31 * 8 = 248` bytes is padded to `32 * 8 = 256`
bytes. -/
theorem topology_pencil_minimal_padding_witness :
    Topology.new true 1 ![65, 31, 127] ![3, 1, 1] false none 32 3 ![0, 0, 0]
      = Except.ok (exampleTopoRank 0) ∧
    (0 : Int) < 4 ∧ (32 : Int) = 4 * ((exampleTopoRank 0).nf * SIZEOF_DOUBLE) ∧
    ((32 : Int) ∣ (exampleTopoRank 0).nmem (exampleTopoRank 0).axis * (exampleTopoRank 0).nf
        * SIZEOF_DOUBLE ∧
      (exampleTopoRank 0).nglob (exampleTopoRank 0).axis * (exampleTopoRank 0).nf
          * SIZEOF_DOUBLE
        ≤ (exampleTopoRank 0).nmem (exampleTopoRank 0).axis * (exampleTopoRank 0).nf
          * SIZEOF_DOUBLE ∧
      (∀ Y : Int, (32 : Int) ∣ Y →
        (exampleTopoRank 0).nglob (exampleTopoRank 0).axis * (exampleTopoRank 0).nf
          * SIZEOF_DOUBLE ≤ Y →
        (exampleTopoRank 0).nmem (exampleTopoRank 0).axis * (exampleTopoRank 0).nf
          * SIZEOF_DOUBLE ≤ Y) ∧
      (exampleTopoRank 0).nloc (exampleTopoRank 0).axis
        = (exampleTopoRank 0).nglob (exampleTopoRank 0).axis ∧
      (((exampleTopoRank 0).nglob (exampleTopoRank 0).axis * (exampleTopoRank 0).nf
          * SIZEOF_DOUBLE) % 32 = 0 →
        (exampleTopoRank 0).nmem (exampleTopoRank 0).axis
          = (exampleTopoRank 0).nloc (exampleTopoRank 0).axis) ∧
      (∀ rankd2 : Fin 3 → Int, rankd2 1 = 0 →
        ((exampleTopoRank 0).change_comm rankd2).nloc (exampleTopoRank 0).axis
          = (exampleTopoRank 0).nloc (exampleTopoRank 0).axis ∧
        ((exampleTopoRank 0).change_comm rankd2).nmem (exampleTopoRank 0).axis
          = (exampleTopoRank 0).nmem (exampleTopoRank 0).axis)) :=
  ⟨rfl, by decide, by decide,
    topology_pencil_minimal_padding true 1 ![65, 31, 127] ![3, 1, 1] false none 32 3
      ![0, 0, 0] (exampleTopoRank 0) 4 rfl (by decide) (by decide) (by decide) (by decide)
      (by decide) rfl rfl⟩

/-! ## Scaling of the Green function -/

/-- The loop over `i0` of `_scaleGreenFunction` multiplies the `n` doubles that start at
`id` by `volfact` and writes nowhere else. -/
theorem scalePencil_spec {R : Type} [Mul R] (volfact : R) (id n : Nat) (d : Nat → R) :
    ∀ j, forLoop (scaleCell volfact id) n d j
      = if id ≤ j ∧ j < id + n then d j * volfact else d j := by
  induction n with
  | zero =>
    intro j
    have : ¬ (id ≤ j ∧ j < id + 0) := by omega
    rw [if_neg this]
    rfl
  | succ n ih =>
    intro j
    show (if j = id + n then forLoop (scaleCell volfact id) n d (id + n) * volfact
      else forLoop (scaleCell volfact id) n d j) = _
    by_cases hj : j = id + n
    · rw [if_pos hj, ih, if_neg (by omega), if_pos (by omega), hj]
    · rw [if_neg hj, ih]
      by_cases h : id ≤ j ∧ j < id + n
      · rw [if_pos h, if_pos (by omega)]
      · rw [if_neg h, if_neg (by omega)]

/-- The loop that kills the mode zero writes 0 in the first `n` doubles. -/
theorem killLoop_spec {R : Type} [Zero R] (n : Nat) (d : Nat → R) (j : Nat) :
    forLoop (fun i0 d => writeAt d i0 0) n d j = if j < n then 0 else d j := by
  induction n with
  | zero => rfl
  | succ n ih =>
    show (if j = n then 0 else forLoop (fun i0 d => writeAt d i0 0) n d j) = _
    by_cases hj : j = n
    · rw [if_pos hj, if_pos (by omega)]
    · rw [if_neg hj, ih]
      by_cases h : j < n
      · rw [if_pos h, if_pos (by omega)]
      · rw [if_neg h, if_neg (by omega)]

/-- C24: for pencils that do not overlap in memory, `Solver::_scaleGreenFunction` with
`killModeZero = false` multiplies by `volfact` the `nloc(ax0) * nf` doubles of every local
pencil (`i1 < nloc(ax1)`, `i2 < nloc(ax2)`) and leaves every other entry unchanged, zeroing
nothing; with `killModeZero = true` the result is the same array, except that on the rank
whose global start index is `(0, 0, 0)`, and only there, the `nf` doubles of index
`0 .. nf - 1` (the first cell) are 0. -/
theorem scaleGreenFunction_spec {R : Type} [Mul R] [Zero R] (s : Solver R)
    (localindex_ao : Int → Int → Int → Topology → Nat) (istart : Fin 3 → Int)
    (topo : Topology) (data : Nat → R)
    (hlayout : ∀ i1, i1 < (topo.nloc (topo.axis + 1)).toNat →
      ∀ i2, i2 < (topo.nloc (topo.axis + 2)).toNat →
      ∀ j1, j1 < (topo.nloc (topo.axis + 1)).toNat →
      ∀ j2, j2 < (topo.nloc (topo.axis + 2)).toNat →
      ∀ k, k < (topo.nloc topo.axis * topo.nf).toNat →
      ∀ l, l < (topo.nloc topo.axis * topo.nf).toNat →
      localindex_ao 0 (i1 : Int) (i2 : Int) topo + k
        = localindex_ao 0 (j1 : Int) (j2 : Int) topo + l → i1 = j1 ∧ i2 = j2) :
    (∀ i1, i1 < (topo.nloc (topo.axis + 1)).toNat →
      ∀ i2, i2 < (topo.nloc (topo.axis + 2)).toNat →
      ∀ k, k < (topo.nloc topo.axis * topo.nf).toNat →
        s._scaleGreenFunction localindex_ao istart topo data false
            (localindex_ao 0 (i1 : Int) (i2 : Int) topo + k)
          = data (localindex_ao 0 (i1 : Int) (i2 : Int) topo + k) * s.volfact) ∧
    (∀ j, (∀ i1, i1 < (topo.nloc (topo.axis + 1)).toNat →
        ∀ i2, i2 < (topo.nloc (topo.axis + 2)).toNat →
        ¬ (localindex_ao 0 (i1 : Int) (i2 : Int) topo ≤ j ∧
          j < localindex_ao 0 (i1 : Int) (i2 : Int) topo
            + (topo.nloc topo.axis * topo.nf).toNat)) →
      s._scaleGreenFunction localindex_ao istart topo data false j = data j) ∧
    s._scaleGreenFunction localindex_ao istart topo data true
      = (if istart topo.axis = 0 ∧ istart (topo.axis + 1) = 0 ∧ istart (topo.axis + 2) = 0
          then fun j => if j < topo.nf.toNat then 0
            else s._scaleGreenFunction localindex_ao istart topo data false j
          else s._scaleGreenFunction localindex_ao istart topo data false) := by
  have key := forLoop2_regions
    (fun i1 i2 d => forLoop (scaleCell s.volfact (localindex_ao 0 (i1 : Int) (i2 : Int) topo))
      (topo.nloc topo.axis * topo.nf).toNat d)
    (fun i1 i2 j => localindex_ao 0 (i1 : Int) (i2 : Int) topo ≤ j ∧
      j < localindex_ao 0 (i1 : Int) (i2 : Int) topo + (topo.nloc topo.axis * topo.nf).toNat)
    (topo.nloc (topo.axis + 1)).toNat (topo.nloc (topo.axis + 2)).toNat
    (fun i1 _ i2 _ d j h => by
      show forLoop (scaleCell s.volfact _) _ d j = d j
      rw [scalePencil_spec, if_neg h])
    (fun i1 _ i2 _ d e j h hde => by
      show forLoop (scaleCell s.volfact _) _ d j = forLoop (scaleCell s.volfact _) _ e j
      rw [scalePencil_spec, scalePencil_spec, if_pos h, if_pos h, hde j h])
    (fun i1 hi1 i2 hi2 j1 hj1 j2 hj2 j h1 h2 =>
      hlayout i1 hi1 i2 hi2 j1 hj1 j2 hj2
        (j - localindex_ao 0 (i1 : Int) (i2 : Int) topo) (by omega)
        (j - localindex_ao 0 (j1 : Int) (j2 : Int) topo) (by omega) (by omega))
    data
  refine ⟨fun i1 hi1 i2 hi2 k hk => ?_, fun j hj => (key j).2 hj, ?_⟩
  · have h := (key (localindex_ao 0 (i1 : Int) (i2 : Int) topo + k)).1 i1 hi1 i2 hi2
      ⟨by omega, by omega⟩
    show forLoop _ _ data _ = _
    rw [h]
    show forLoop (scaleCell s.volfact _) _ data _ = _
    rw [scalePencil_spec, if_pos ⟨by omega, by omega⟩]
  · unfold Solver._scaleGreenFunction
    simp only [if_true, Bool.false_eq_true, if_false]
    by_cases hown : istart topo.axis = 0 ∧ istart (topo.axis + 1) = 0 ∧
        istart (topo.axis + 2) = 0
    · rw [if_pos hown, if_pos hown]
      funext j
      rw [killLoop_spec]
    · rw [if_neg hown, if_neg hown]

/-- Witness for C24: the complex topology of `2 x 2 x 1` cells with the volume factor 5, on
the rank that owns the global origin. -/
theorem scaleGreenFunction_spec_witness :
    (∀ i1, i1 < (exampleSpectralTopo.nloc (exampleSpectralTopo.axis + 1)).toNat →
      ∀ i2, i2 < (exampleSpectralTopo.nloc (exampleSpectralTopo.axis + 2)).toNat →
      ∀ k, k < (exampleSpectralTopo.nloc exampleSpectralTopo.axis
          * exampleSpectralTopo.nf).toNat →
        exampleScaleSolver._scaleGreenFunction exampleLocalIndex exampleIstart
            exampleSpectralTopo (fun j => (j : Int) + 1) false
            (exampleLocalIndex 0 (i1 : Int) (i2 : Int) exampleSpectralTopo + k)
          = (fun j : Nat => (j : Int) + 1)
              (exampleLocalIndex 0 (i1 : Int) (i2 : Int) exampleSpectralTopo + k)
            * exampleScaleSolver.volfact) ∧
    (∀ j, (∀ i1, i1 < (exampleSpectralTopo.nloc (exampleSpectralTopo.axis + 1)).toNat →
        ∀ i2, i2 < (exampleSpectralTopo.nloc (exampleSpectralTopo.axis + 2)).toNat →
        ¬ (exampleLocalIndex 0 (i1 : Int) (i2 : Int) exampleSpectralTopo ≤ j ∧
          j < exampleLocalIndex 0 (i1 : Int) (i2 : Int) exampleSpectralTopo
            + (exampleSpectralTopo.nloc exampleSpectralTopo.axis
              * exampleSpectralTopo.nf).toNat)) →
      exampleScaleSolver._scaleGreenFunction exampleLocalIndex exampleIstart
        exampleSpectralTopo (fun j => (j : Int) + 1) false j
        = (fun j : Nat => (j : Int) + 1) j) ∧
    exampleScaleSolver._scaleGreenFunction exampleLocalIndex exampleIstart
        exampleSpectralTopo (fun j => (j : Int) + 1) true
      = (if exampleIstart exampleSpectralTopo.axis = 0 ∧
            exampleIstart (exampleSpectralTopo.axis + 1) = 0 ∧
            exampleIstart (exampleSpectralTopo.axis + 2) = 0
          then fun j => if j < exampleSpectralTopo.nf.toNat then 0
            else exampleScaleSolver._scaleGreenFunction exampleLocalIndex exampleIstart
              exampleSpectralTopo (fun j => (j : Int) + 1) false j
          else exampleScaleSolver._scaleGreenFunction exampleLocalIndex exampleIstart
            exampleSpectralTopo (fun j => (j : Int) + 1) false) :=
  scaleGreenFunction_spec exampleScaleSolver exampleLocalIndex exampleIstart
    exampleSpectralTopo (fun j => (j : Int) + 1) exampleLocalIndex_layout

/-! ## Errors of the Green routines and of `_cmptGreenFunction` -/

/-- A check followed by a computation that does not raise `e` does not raise `e`, unless the
check itself raises it. -/
theorem check_bind_ne {α : Type} (checks a : Bool) (e0 e : FlupsError)
    (f : Unit → Except FlupsError α) (hne : e0 ≠ e) (hf : f () ≠ Except.error e) :
    (FLUPS_CHECK checks a e0 >>= f) ≠ Except.error e := by
  rcases FLUPS_CHECK_ok_or_error checks a e0 with h | h
  · rw [h]
    exact hf
  · rw [h]
    intro hc
    exact hne (Except.error.inj hc)

/-- A check followed by a computation that always fails always fails. -/
theorem check_bind_error {α : Type} (checks a : Bool) (e0 : FlupsError)
    (f : Unit → Except FlupsError α) (hf : ∃ e, f () = Except.error e) :
    ∃ e, (FLUPS_CHECK checks a e0 >>= f) = Except.error e := by
  rcases FLUPS_CHECK_ok_or_error checks a e0 with h | h
  · rw [h]
    exact hf
  · rw [h]
    exact ⟨e0, rfl⟩

/-- A check followed by a computation succeeds only if the computation does. -/
theorem check_bind_ok {α : Type} (checks a : Bool) (e0 : FlupsError)
    (f : Unit → Except FlupsError α) (g : α)
    (h : (FLUPS_CHECK checks a e0 >>= f) = Except.ok g) : f () = Except.ok g := by
  rcases FLUPS_CHECK_ok_or_error checks a e0 with hc | hc
  · rw [hc] at h
    exact h
  · rw [hc] at h
    exact absurd h (by simp [bind, Except.bind])

/-- The routine with three unbounded directions never raises the anisotropic-spacing
error. -/
theorem green_3dirunbounded_ne_anisotropic {R : Type} [Field R] [DecidableEq R]
    (checks : Bool) (m : MathFns R) (istart : Fin 3 → Int) (topo : Topology)
    (hfact : Fin 3 → R) (symstart : Fin 3 → Int) (green : Nat → R) (typeGreen : GreenType)
    (alpha : R) :
    cmpt_Green_3D_3dirunbounded_0dirspectral checks m istart topo hfact symstart green
      typeGreen alpha ≠ Except.error FlupsError.anisotropicSpacing := by
  unfold cmpt_Green_3D_3dirunbounded_0dirspectral
  refine check_bind_ne _ _ _ _ _ (by decide) ?_
  refine check_bind_ne _ _ _ _ _ (by decide) ?_
  refine check_bind_ne _ _ _ _ _ (by decide) ?_
  refine check_bind_ne _ _ _ _ _ (by decide) ?_
  cases typeGreen <;>
    simp only [green3dUnbSwitch, bind, Except.bind, pure, Except.pure] <;>
    first
    | (intro h; exact absurd (Except.error.inj h) (by decide))
    | (split_ifs <;> simp)

/-- The routine with one spectral direction never raises the anisotropic-spacing error, and
it returns only for CHAT_2. -/
theorem green_2dirunbounded_cases {R : Type} [Field R] [DecidableEq R] (checks : Bool)
    (loops : Topology → (Fin 3 → R) → (Fin 3 → R) → (Fin 3 → Int) → (Nat → R) → (Nat → R))
    (topo : Topology) (hfact kfact : Fin 3 → R) (symstart : Fin 3 → Int) (green : Nat → R)
    (typeGreen : GreenType) (alpha : R) :
    cmpt_Green_3D_2dirunbounded_1dirspectral checks loops topo hfact kfact symstart green
      typeGreen alpha ≠ Except.error FlupsError.anisotropicSpacing ∧
    (∀ g, cmpt_Green_3D_2dirunbounded_1dirspectral checks loops topo hfact kfact symstart
      green typeGreen alpha = Except.ok g → typeGreen = GreenType.CHAT_2) := by
  unfold cmpt_Green_3D_2dirunbounded_1dirspectral
  constructor
  · refine check_bind_ne _ _ _ _ _ (by decide) ?_
    refine check_bind_ne _ _ _ _ _ (by decide) ?_
    refine check_bind_ne _ _ _ _ _ (by decide) ?_
    refine check_bind_ne _ _ _ _ _ (by decide) ?_
    refine check_bind_ne _ _ _ _ _ (by decide) ?_
    refine check_bind_ne _ _ _ _ _ (by decide) ?_
    cases typeGreen <;> simp [throw, throwThe, MonadExceptOf.throw, pure, Except.pure]
  · intro g h
    have h1 := check_bind_ok _ _ _ _ g h
    have h2 := check_bind_ok _ _ _ _ g h1
    have h3 := check_bind_ok _ _ _ _ g h2
    have h4 := check_bind_ok _ _ _ _ g h3
    have h5 := check_bind_ok _ _ _ _ g h4
    have h6 := check_bind_ok _ _ _ _ g h5
    cases typeGreen <;>
      first
      | rfl
      | exact absurd h6 (by simp [throw, throwThe, MonadExceptOf.throw])

/-- The routine with two spectral directions never raises the anisotropic-spacing error. -/
theorem green_1dirunbounded_ne_anisotropic {R : Type} [Field R] [DecidableEq R]
    (checks : Bool)
    (loops : Topology → (Fin 3 → R) → (Fin 3 → R) → (Fin 3 → Int) → (Nat → R) → (Nat → R))
    (topo : Topology) (hfact kfact : Fin 3 → R) (symstart : Fin 3 → Int) (green : Nat → R)
    (typeGreen : GreenType) (alpha : R) :
    cmpt_Green_3D_1dirunbounded_2dirspectral checks loops topo hfact kfact symstart green
      typeGreen alpha ≠ Except.error FlupsError.anisotropicSpacing := by
  unfold cmpt_Green_3D_1dirunbounded_2dirspectral
  refine check_bind_ne _ _ _ _ _ (by decide) ?_
  refine check_bind_ne _ _ _ _ _ (by decide) ?_
  refine check_bind_ne _ _ _ _ _ (by decide) ?_
  refine check_bind_ne _ _ _ _ _ (by decide) ?_
  refine check_bind_ne _ _ _ _ _ (by decide) ?_
  refine check_bind_ne _ _ _ _ _ (by decide) ?_
  cases typeGreen <;> simp [throw, throwThe, MonadExceptOf.throw, pure, Except.pure]

/-- The fully spectral routine never raises the anisotropic-spacing error. -/
theorem green_0dirunbounded_ne_anisotropic {R : Type} [Field R] [DecidableEq R]
    (checks : Bool) (m : MathFns R) (localindex_ao : Int → Int → Int → Topology → Nat)
    (istart : Fin 3 → Int) (topo : Topology) (kfact : Fin 3 → R) (symstart : Fin 3 → Int)
    (green : Nat → R) (typeGreen : GreenType) (alpha : R) :
    cmpt_Green_3D_0dirunbounded_3dirspectral checks m localindex_ao istart topo kfact
      symstart green typeGreen alpha ≠ Except.error FlupsError.anisotropicSpacing := by
  unfold cmpt_Green_3D_0dirunbounded_3dirspectral
  refine check_bind_ne _ _ _ _ _ (by decide) ?_
  refine check_bind_ne _ _ _ _ _ (by decide) ?_
  refine check_bind_ne _ _ _ _ _ (by decide) ?_
  cases typeGreen <;>
    simp only [throw, throwThe, MonadExceptOf.throw, pure, Except.pure] <;>
    first
    | (intro h; exact absurd (Except.error.inj h) (by decide))
    | (split_ifs <;> simp)

/-- The fill of `_cmptGreenFunction` raises the anisotropic-spacing error exactly when its
own check fails; and when it returns with one spectral direction the type is CHAT_2. -/
theorem cmptGreenFunction_fill_cases {R : Type} [Field R] [DecidableEq R] (checks : Bool)
    (m : MathFns R) (ext : GreenExt R) (alphaGreen : R) (hgrid : Fin 3 → R)
    (typeGreen : GreenType) (topo : Fin 3 → Topology) (green : Nat → R)
    (planmap : Fin 3 → FFTW_plan_dim) (kfact koffset : Fin 3 → R) (a0 : GreenArrays R) :
    (Solver._cmptGreenFunction_fill checks m ext alphaGreen hgrid typeGreen topo green
        planmap kfact koffset a0 = Except.error FlupsError.anisotropicSpacing ↔
      (typeGreen = GreenType.HEJ_2 ∨ typeGreen = GreenType.HEJ_4 ∨
        typeGreen = GreenType.HEJ_6) ∧ (hgrid 0 ≠ hgrid 1 ∨ hgrid 1 ≠ hgrid 2)) ∧
    (∀ g, Solver._cmptGreenFunction_fill checks m ext alphaGreen hgrid typeGreen topo green
        planmap kfact koffset a0 = Except.ok g →
      cmptGreenNbrSpectral (cmptGreenArrays hgrid planmap kfact koffset a0).isSpectral = 1 →
      typeGreen = GreenType.CHAT_2) := by
  unfold Solver._cmptGreenFunction_fill
  by_cases hc : (typeGreen = GreenType.HEJ_2 ∨ typeGreen = GreenType.HEJ_4 ∨
      typeGreen = GreenType.HEJ_6) ∧ (hgrid 0 ≠ hgrid 1 ∨ hgrid 1 ≠ hgrid 2)
  · simp only [if_pos hc, bind, Except.bind, throw, throwThe, MonadExceptOf.throw]
    refine ⟨⟨fun _ => hc, fun _ => trivial⟩, fun g h => absurd h (by simp)⟩
  · simp only [if_neg hc, bind, Except.bind, pure, Except.pure]
    have h3 : GREEN_DIM = 3 := rfl
    simp only [h3, if_true]
    constructor
    · constructor
      · intro h
        exfalso
        revert h
        split_ifs
        · exact green_3dirunbounded_ne_anisotropic _ _ _ _ _ _ _ _ _
        · exact (green_2dirunbounded_cases _ _ _ _ _ _ _ _ _).1
        · exact green_1dirunbounded_ne_anisotropic _ _ _ _ _ _ _ _ _
        · exact green_0dirunbounded_ne_anisotropic _ _ _ _ _ _ _ _ _ _
        · simp
      · intro h
        exact absurd h hc
    · intro g h h1
      rw [if_neg (by rw [h1]; decide), if_pos h1] at h
      exact (green_2dirunbounded_cases _ _ _ _ _ _ _ _ _).2 g h

/-- C22: `Solver::_cmptGreenFunction` raises the anisotropic-spacing error if and only if
the Green type is one of HEJ_2, HEJ_4, HEJ_6 and the three grid spacings are not all equal
(`h[0] != h[1]` or `h[1] != h[2]`); in particular not for CHAT_2 and LGF_2, and for no type
when `h[0] = h[1] = h[2]`. -/
theorem cmptGreenFunction_anisotropic_error_iff {R : Type} [Field R] [DecidableEq R]
    (checks : Bool) (m : MathFns R) (ext : GreenExt R) (s : Solver R) (alphaGreen : R)
    (hgrid : Fin 3 → R) (typeGreen : GreenType) (topo : Fin 3 → Topology) (green : Nat → R)
    (planmap : Fin 3 → FFTW_plan_dim) (kfact koffset : Fin 3 → R) (a0 : GreenArrays R) :
    (Solver._cmptGreenFunction checks m ext s alphaGreen hgrid typeGreen topo green planmap
        kfact koffset a0 = Except.error FlupsError.anisotropicSpacing ↔
      (typeGreen = GreenType.HEJ_2 ∨ typeGreen = GreenType.HEJ_4 ∨
        typeGreen = GreenType.HEJ_6) ∧ (hgrid 0 ≠ hgrid 1 ∨ hgrid 1 ≠ hgrid 2)) ∧
    (typeGreen = GreenType.CHAT_2 ∨ typeGreen = GreenType.LGF_2 ∨
        (hgrid 0 = hgrid 1 ∧ hgrid 1 = hgrid 2) →
      Solver._cmptGreenFunction checks m ext s alphaGreen hgrid typeGreen topo green planmap
        kfact koffset a0 ≠ Except.error FlupsError.anisotropicSpacing) := by
  obtain ⟨hiff, hchat⟩ := cmptGreenFunction_fill_cases checks m ext alphaGreen hgrid
    typeGreen topo green planmap kfact koffset a0
  have main : Solver._cmptGreenFunction checks m ext s alphaGreen hgrid typeGreen topo green
      planmap kfact koffset a0 = Except.error FlupsError.anisotropicSpacing ↔
      (typeGreen = GreenType.HEJ_2 ∨ typeGreen = GreenType.HEJ_4 ∨
        typeGreen = GreenType.HEJ_6) ∧ (hgrid 0 ≠ hgrid 1 ∨ hgrid 1 ≠ hgrid 2) := by
    rw [← hiff]
    unfold Solver._cmptGreenFunction
    cases hfill : Solver._cmptGreenFunction_fill checks m ext alphaGreen hgrid typeGreen topo
      green planmap kfact koffset a0 with
    | error e =>
      simp only [bind, Except.bind, Except.error.injEq]
    | ok g =>
      have hne := hchat g hfill
      simp only [bind, Except.bind, pure, Except.pure]
      constructor
      · intro h
        exfalso
        split_ifs at h with hsp
        · have := hne hsp.2.1
          rcases hsp.2.2 with h2 | h2 | h2 <;> rw [this] at h2 <;> exact absurd h2 (by decide)
      · intro h
        exact absurd h (by simp)
  refine ⟨main, fun h => ?_⟩
  rw [Ne, main]
  rintro ⟨ht, hh⟩
  rcases h with h | h | h
  · rcases ht with h2 | h2 | h2 <;> rw [h] at h2 <;> exact absurd h2 (by decide)
  · rcases ht with h2 | h2 | h2 <;> rw [h] at h2 <;> exact absurd h2 (by decide)
  · rcases hh with h2 | h2
    · exact h2 h.1
    · exact h2 h.2

/-- The routine with three unbounded directions returns only for a type other than
LGF_2. -/
theorem green_3dirunbounded_ok_type {R : Type} [Field R] [DecidableEq R] (checks : Bool)
    (m : MathFns R) (istart : Fin 3 → Int) (topo : Topology) (hfact : Fin 3 → R)
    (symstart : Fin 3 → Int) (green : Nat → R) (typeGreen : GreenType) (alpha : R)
    (g : Nat → R)
    (h : cmpt_Green_3D_3dirunbounded_0dirspectral checks m istart topo hfact symstart green
      typeGreen alpha = Except.ok g) : typeGreen ≠ GreenType.LGF_2 := by
  unfold cmpt_Green_3D_3dirunbounded_0dirspectral at h
  have h1 := check_bind_ok _ _ _ _ g h
  have h2 := check_bind_ok _ _ _ _ g h1
  have h3 := check_bind_ok _ _ _ _ g h2
  have h4 := check_bind_ok _ _ _ _ g h3
  intro ht
  subst ht
  exact absurd h4 (by simp [green3dUnbSwitch, bind, Except.bind])

/-- The routine with two spectral directions returns only for CHAT_2. -/
theorem green_1dirunbounded_ok_type {R : Type} [Field R] [DecidableEq R] (checks : Bool)
    (loops : Topology → (Fin 3 → R) → (Fin 3 → R) → (Fin 3 → Int) → (Nat → R) → (Nat → R))
    (topo : Topology) (hfact kfact : Fin 3 → R) (symstart : Fin 3 → Int) (green : Nat → R)
    (typeGreen : GreenType) (alpha : R) (g : Nat → R)
    (h : cmpt_Green_3D_1dirunbounded_2dirspectral checks loops topo hfact kfact symstart green
      typeGreen alpha = Except.ok g) : typeGreen = GreenType.CHAT_2 := by
  unfold cmpt_Green_3D_1dirunbounded_2dirspectral at h
  have h1 := check_bind_ok _ _ _ _ g h
  have h2 := check_bind_ok _ _ _ _ g h1
  have h3 := check_bind_ok _ _ _ _ g h2
  have h4 := check_bind_ok _ _ _ _ g h3
  have h5 := check_bind_ok _ _ _ _ g h4
  have h6 := check_bind_ok _ _ _ _ g h5
  cases typeGreen <;>
    first
    | rfl
    | exact absurd h6 (by simp [throw, throwThe, MonadExceptOf.throw])

/-- The fully spectral routine returns only for CHAT_2. -/
theorem green_0dirunbounded_ok_type {R : Type} [Field R] [DecidableEq R] (checks : Bool)
    (m : MathFns R) (localindex_ao : Int → Int → Int → Topology → Nat)
    (istart : Fin 3 → Int) (topo : Topology) (kfact : Fin 3 → R) (symstart : Fin 3 → Int)
    (green : Nat → R) (typeGreen : GreenType) (alpha : R) (g : Nat → R)
    (h : cmpt_Green_3D_0dirunbounded_3dirspectral checks m localindex_ao istart topo kfact
      symstart green typeGreen alpha = Except.ok g) : typeGreen = GreenType.CHAT_2 := by
  unfold cmpt_Green_3D_0dirunbounded_3dirspectral at h
  have h1 := check_bind_ok _ _ _ _ g h
  have h2 := check_bind_ok _ _ _ _ g h1
  have h3 := check_bind_ok _ _ _ _ g h2
  cases typeGreen <;>
    first
    | rfl
    | exact absurd h3 (by simp [throw, throwThe, MonadExceptOf.throw])

/-- The routine with one spectral direction, when its checks on `hfact` and `kfact` pass. -/
theorem green_2dirunbounded_result {R : Type} [Field R] [DecidableEq R] (checks : Bool)
    (loops : Topology → (Fin 3 → R) → (Fin 3 → R) → (Fin 3 → Int) → (Nat → R) → (Nat → R))
    (topo : Topology) (hfact kfact : Fin 3 → R) (symstart : Fin 3 → Int) (green : Nat → R)
    (typeGreen : GreenType) (alpha : R)
    (hc : kfact topo.axis ≠ 0 ∧ hfact (topo.axis + 1) ≠ 0 ∧ hfact (topo.axis + 2) ≠ 0 ∧
      hfact topo.axis = 0 ∧ kfact (topo.axis + 1) = 0 ∧ kfact (topo.axis + 2) = 0) :
    cmpt_Green_3D_2dirunbounded_1dirspectral checks loops topo hfact kfact symstart green
        typeGreen alpha
      = match typeGreen with
        | GreenType.CHAT_2 => Except.ok (loops topo hfact kfact symstart green)
        | GreenType.LGF_2 => Except.error FlupsError.lgfNotImplemented
        | _ => Except.error FlupsError.hejNotImplemented := by
  obtain ⟨c1, c2, c3, c4, c5, c6⟩ := hc
  unfold cmpt_Green_3D_2dirunbounded_1dirspectral
  simp only [FLUPS_CHECK, c1, c2, c3, c4, c5, c6, bind, Except.bind, ne_eq,
    not_false_eq_true, decide_True, Bool.not_true, Bool.and_false, Bool.false_eq_true,
    if_false]
  cases typeGreen <;> rfl

/-- The routine with two spectral directions, when its checks on `hfact` and `kfact`
pass. -/
theorem green_1dirunbounded_result {R : Type} [Field R] [DecidableEq R] (checks : Bool)
    (loops : Topology → (Fin 3 → R) → (Fin 3 → R) → (Fin 3 → Int) → (Nat → R) → (Nat → R))
    (topo : Topology) (hfact kfact : Fin 3 → R) (symstart : Fin 3 → Int) (green : Nat → R)
    (typeGreen : GreenType) (alpha : R)
    (hc : kfact topo.axis = 0 ∧ kfact (topo.axis + 1) ≠ 0 ∧ kfact (topo.axis + 2) ≠ 0 ∧
      hfact topo.axis ≠ 0 ∧ hfact (topo.axis + 1) = 0 ∧ hfact (topo.axis + 2) = 0) :
    cmpt_Green_3D_1dirunbounded_2dirspectral checks loops topo hfact kfact symstart green
        typeGreen alpha
      = match typeGreen with
        | GreenType.CHAT_2 => Except.ok (loops topo hfact kfact symstart green)
        | GreenType.LGF_2 => Except.error FlupsError.lgfNotImplemented
        | _ => Except.error FlupsError.hejNotImplemented := by
  obtain ⟨c1, c2, c3, c4, c5, c6⟩ := hc
  unfold cmpt_Green_3D_1dirunbounded_2dirspectral
  simp only [FLUPS_CHECK, c1, c2, c3, c4, c5, c6, bind, Except.bind, ne_eq,
    not_false_eq_true, decide_True, Bool.not_true, Bool.and_false, Bool.false_eq_true,
    if_false]
  cases typeGreen <;> rfl

/-- The routines with three unbounded and with three spectral directions on a type that
they do not implement, when their checks pass. -/
theorem green_unimplemented_type {R : Type} [Field R] [DecidableEq R] (checks : Bool)
    (m : MathFns R) (localindex_ao : Int → Int → Int → Topology → Nat)
    (istart : Fin 3 → Int) (topo : Topology) (hfact kfact : Fin 3 → R)
    (symstart : Fin 3 → Int) (green : Nat → R) (typeGreen : GreenType) (alpha : R) :
    (topo.isComplex = false → (∀ d, hfact d ≠ 0) →
      cmpt_Green_3D_3dirunbounded_0dirspectral checks m istart topo hfact symstart green
        GreenType.LGF_2 alpha = Except.error FlupsError.lgfNotImplemented) ∧
    ((∀ d, kfact d ≠ 0) → typeGreen ≠ GreenType.CHAT_2 →
      cmpt_Green_3D_0dirunbounded_3dirspectral checks m localindex_ao istart topo kfact
        symstart green typeGreen alpha
        = Except.error (if typeGreen = GreenType.LGF_2 then FlupsError.lgfNotImplemented
          else FlupsError.hejNotImplemented)) := by
  constructor
  · intro hreal hh
    unfold cmpt_Green_3D_3dirunbounded_0dirspectral
    simp only [FLUPS_CHECK, hreal, hh, green3dUnbSwitch, bind, Except.bind, ne_eq,
      not_false_eq_true, decide_True, Bool.not_true, Bool.not_false, Bool.and_false,
      Bool.false_eq_true, if_false]
  · intro hk ht
    unfold cmpt_Green_3D_0dirunbounded_3dirspectral
    simp only [FLUPS_CHECK, hk, bind, Except.bind, ne_eq, not_false_eq_true, decide_True,
      Bool.not_true, Bool.and_false, Bool.false_eq_true, if_false]
    cases typeGreen <;>
      first
      | exact absurd rfl ht
      | rfl

/-- C23 (counterexample): with checks enabled, on the real topology of 27 cells with
non-zero spacings, the routine with three unbounded directions called with LGF_2, one of
the five known kernels, raises the error "Lattice Green Function not implemented yet". -/
theorem green_3dirunbounded_rejects_LGF :
    exampleTopoUser.isComplex = false ∧ (∀ d, exampleHfact d ≠ 0) ∧
    cmpt_Green_3D_3dirunbounded_0dirspectral true exampleMath exampleIstart exampleTopoUser
      exampleHfact exampleSymstart (fun _ => 0) GreenType.LGF_2 2
      = Except.error FlupsError.lgfNotImplemented :=
  ⟨by decide, exampleHfact_ne_zero,
    (green_unimplemented_type true exampleMath exampleLocalIndex exampleIstart exampleTopoUser
      exampleHfact exampleHfact exampleSymstart (fun _ => 0) GreenType.LGF_2 2).1
      (by decide) exampleHfact_ne_zero⟩

/-- C23 (amended): for each of the five known Green types.  The routine with three
unbounded directions returns only for CHAT_2, HEJ_2, HEJ_4 and HEJ_6, and when its checks
pass (real topology, non-zero spacings) it returns for these four and raises the
"not implemented" error for LGF_2.  Each of the three routines with at least one spectral
direction returns only for CHAT_2, and when its checks on `hfact` and `kfact` pass it
returns for CHAT_2, raises the "not implemented" error of the lattice Green function for
LGF_2 and that of the regularised kernels for HEJ_2, HEJ_4 and HEJ_6. -/
theorem green_routines_type_errors {R : Type} [Field R] [DecidableEq R] (checks : Bool)
    (typeGreen : GreenType) :
    (∀ (m : MathFns R) (istart : Fin 3 → Int) (topo : Topology) (hfact : Fin 3 → R)
      (symstart : Fin 3 → Int) (green : Nat → R) (alpha : R),
      (∀ g, cmpt_Green_3D_3dirunbounded_0dirspectral checks m istart topo hfact symstart
        green typeGreen alpha = Except.ok g → typeGreen ≠ GreenType.LGF_2) ∧
      (topo.isComplex = false → (∀ d, hfact d ≠ 0) →
        (typeGreen ≠ GreenType.LGF_2 →
          ∃ g, cmpt_Green_3D_3dirunbounded_0dirspectral checks m istart topo hfact symstart
            green typeGreen alpha = Except.ok g) ∧
        (typeGreen = GreenType.LGF_2 →
          cmpt_Green_3D_3dirunbounded_0dirspectral checks m istart topo hfact symstart
            green typeGreen alpha = Except.error FlupsError.lgfNotImplemented))) ∧
    (∀ (loops : Topology → (Fin 3 → R) → (Fin 3 → R) → (Fin 3 → Int) → (Nat → R) →
        (Nat → R)) (topo : Topology) (hfact kfact : Fin 3 → R) (symstart : Fin 3 → Int)
      (green : Nat → R) (alpha : R),
      (∀ g, cmpt_Green_3D_2dirunbounded_1dirspectral checks loops topo hfact kfact symstart
        green typeGreen alpha = Except.ok g → typeGreen = GreenType.CHAT_2) ∧
      (kfact topo.axis ≠ 0 ∧ hfact (topo.axis + 1) ≠ 0 ∧ hfact (topo.axis + 2) ≠ 0 ∧
          hfact topo.axis = 0 ∧ kfact (topo.axis + 1) = 0 ∧ kfact (topo.axis + 2) = 0 →
        cmpt_Green_3D_2dirunbounded_1dirspectral checks loops topo hfact kfact symstart
            green typeGreen alpha
          = match typeGreen with
            | GreenType.CHAT_2 => Except.ok (loops topo hfact kfact symstart green)
            | GreenType.LGF_2 => Except.error FlupsError.lgfNotImplemented
            | _ => Except.error FlupsError.hejNotImplemented)) ∧
    (∀ (loops : Topology → (Fin 3 → R) → (Fin 3 → R) → (Fin 3 → Int) → (Nat → R) →
        (Nat → R)) (topo : Topology) (hfact kfact : Fin 3 → R) (symstart : Fin 3 → Int)
      (green : Nat → R) (alpha : R),
      (∀ g, cmpt_Green_3D_1dirunbounded_2dirspectral checks loops topo hfact kfact symstart
        green typeGreen alpha = Except.ok g → typeGreen = GreenType.CHAT_2) ∧
      (kfact topo.axis = 0 ∧ kfact (topo.axis + 1) ≠ 0 ∧ kfact (topo.axis + 2) ≠ 0 ∧
          hfact topo.axis ≠ 0 ∧ hfact (topo.axis + 1) = 0 ∧ hfact (topo.axis + 2) = 0 →
        cmpt_Green_3D_1dirunbounded_2dirspectral checks loops topo hfact kfact symstart
            green typeGreen alpha
          = match typeGreen with
            | GreenType.CHAT_2 => Except.ok (loops topo hfact kfact symstart green)
            | GreenType.LGF_2 => Except.error FlupsError.lgfNotImplemented
            | _ => Except.error FlupsError.hejNotImplemented)) ∧
    (∀ (m : MathFns R) (localindex_ao : Int → Int → Int → Topology → Nat)
      (istart : Fin 3 → Int) (topo : Topology) (kfact : Fin 3 → R) (symstart : Fin 3 → Int)
      (green : Nat → R) (alpha : R),
      (∀ g, cmpt_Green_3D_0dirunbounded_3dirspectral checks m localindex_ao istart topo
        kfact symstart green typeGreen alpha = Except.ok g → typeGreen = GreenType.CHAT_2) ∧
      ((∀ d, kfact d ≠ 0) →
        (typeGreen = GreenType.CHAT_2 →
          ∃ g, cmpt_Green_3D_0dirunbounded_3dirspectral checks m localindex_ao istart topo
            kfact symstart green typeGreen alpha = Except.ok g) ∧
        (typeGreen ≠ GreenType.CHAT_2 →
          cmpt_Green_3D_0dirunbounded_3dirspectral checks m localindex_ao istart topo kfact
            symstart green typeGreen alpha
            = Except.error (if typeGreen = GreenType.LGF_2 then FlupsError.lgfNotImplemented
              else FlupsError.hejNotImplemented)))) := by
  refine ⟨?_, ?_, ?_, ?_⟩
  · intro m istart topo hfact symstart green alpha
    refine ⟨fun g h => green_3dirunbounded_ok_type checks m istart topo hfact symstart green
      typeGreen alpha g h, fun hreal hh => ⟨fun ht => ⟨_, cmpt_Green_3D_3dirunbounded_ok
        checks m istart topo hfact symstart green typeGreen alpha hreal hh ht⟩, fun ht => ?_⟩⟩
    subst ht
    exact (green_unimplemented_type checks m (fun _ _ _ _ => 0) istart topo hfact hfact
      symstart green GreenType.LGF_2 alpha).1 hreal hh
  · intro loops topo hfact kfact symstart green alpha
    exact ⟨(green_2dirunbounded_cases checks loops topo hfact kfact symstart green typeGreen
      alpha).2, green_2dirunbounded_result checks loops topo hfact kfact symstart green
      typeGreen alpha⟩
  · intro loops topo hfact kfact symstart green alpha
    exact ⟨fun g h => green_1dirunbounded_ok_type checks loops topo hfact kfact symstart
      green typeGreen alpha g h, green_1dirunbounded_result checks loops topo hfact kfact
      symstart green typeGreen alpha⟩
  · intro m localindex_ao istart topo kfact symstart green alpha
    refine ⟨fun g h => green_0dirunbounded_ok_type checks m localindex_ao istart topo kfact
      symstart green typeGreen alpha g h, fun hk => ⟨fun ht => ?_, fun ht =>
        (green_unimplemented_type checks m localindex_ao istart topo kfact kfact symstart
          green typeGreen alpha).2 hk ht⟩⟩
    subst ht
    exact ⟨_, cmpt_Green_3D_0dirunbounded_ok checks m localindex_ao istart topo kfact
      symstart green alpha hk⟩

/-! ## The smoothing length of the regularised kernels -/

theorem set3_other {α : Type} (a : Fin 3 → α) (i j : Fin 3) (v : α) (h : j ≠ i) :
    set3 a i v j = a j := by
  simp [set3, h]

/-- A computation followed by another raises `e` only if one of the two does. -/
theorem bind_ne_error {α β : Type} (x : Except FlupsError α) (f : α → Except FlupsError β)
    (e : FlupsError) (hx : x ≠ Except.error e)
    (hf : ∀ a, x = Except.ok a → f a ≠ Except.error e) : (x >>= f) ≠ Except.error e := by
  cases x with
  | error e2 =>
    intro h
    have h2 : (Except.error e2 : Except FlupsError β) = Except.error e := h
    exact hx (by rw [Except.error.inj h2])
  | ok a => exact hf a rfl

/-- The sizes of one direction are computed without the error of the Green dry run. -/
theorem topoDimSizes_ne_copy (checks : Bool) (id axis : Fin 3)
    (nf alignment nglob nproc rankd : Int) :
    topoDimSizes checks id axis nf alignment nglob nproc rankd
      ≠ Except.error FlupsError.copyTooManyNodes := by
  unfold topoDimSizes
  split_ifs
  · simp
  · exact check_bind_ne _ _ _ _ _ (by decide) (by simp [pure, Except.pure])
  · simp

/-- The constructor of `Topology` does not raise the error of the Green dry run. -/
theorem Topology.new_ne_copy (checks : Bool) (axis : Fin 3) (nglob nproc : Fin 3 → Int)
    (isComplex : Bool) (axproc : Option (Fin 3 → Int)) (alignment comm_size : Int)
    (rankd : Fin 3 → Int) :
    Topology.new checks axis nglob nproc isComplex axproc alignment comm_size rankd
      ≠ Except.error FlupsError.copyTooManyNodes := by
  unfold Topology.new
  refine check_bind_ne _ _ _ _ _ (by decide) ?_
  refine bind_ne_error _ _ _ (topoDimSizes_ne_copy _ _ _ _ _ _ _ _) (fun s0 _ => ?_)
  refine bind_ne_error _ _ _ (topoDimSizes_ne_copy _ _ _ _ _ _ _ _) (fun s1 _ => ?_)
  refine bind_ne_error _ _ _ (topoDimSizes_ne_copy _ _ _ _ _ _ _ _) (fun s2 _ => ?_)
  simp [pure, Except.pure]

/-- With checks disabled the constructor of `Topology` returns. -/
theorem Topology.new_unchecked (axis : Fin 3) (nglob nproc : Fin 3 → Int)
    (isComplex : Bool) (axproc : Option (Fin 3 → Int)) (alignment comm_size : Int)
    (rankd : Fin 3 → Int) :
    ∃ t, Topology.new false axis nglob nproc isComplex axproc alignment comm_size rankd
      = Except.ok t := by
  have hd : ∀ (id : Fin 3) (nf nglob nproc rankd : Int),
      ∃ s, topoDimSizes false id axis nf alignment nglob nproc rankd = Except.ok s := by
    intro id nf nglob nproc rankd
    unfold topoDimSizes
    split_ifs
    · exact ⟨_, rfl⟩
    · exact ⟨_, rfl⟩
    · exact ⟨_, rfl⟩
  unfold Topology.new
  obtain ⟨s0, h0⟩ := hd 0 (if !isComplex then 1 else 2) (nglob 0) (nproc 0) (rankd 0)
  obtain ⟨s1, h1⟩ := hd 1 (if !isComplex then 1 else 2) (nglob 1) (nproc 1) (rankd 1)
  obtain ⟨s2, h2⟩ := hd 2 (if !isComplex then 1 else 2) (nglob 2) (nproc 2) (rankd 2)
  simp only [FLUPS_CHECK, Bool.false_and, Bool.false_eq_true, if_false, bind, Except.bind,
    h0, h1, h2, pure, Except.pure]
  exact ⟨_, rfl⟩

/-- The decrement of the forward walk, written as one assignment. -/
theorem forwardSize_eq (s : Fin 3 → Int) (d : Fin 3) (n : Int) (ig : Bool) :
    (if ig then set3 (set3 s d n) d (set3 s d n d - 1) else set3 s d n)
      = set3 s d (n - if ig then 1 else 0) := by
  cases ig
  · funext j
    simp [set3]
  · funext j
    simp only [if_true, set3]
    by_cases h : j = d
    · simp [h]
    · simp [h]

/-- One iteration of the forward loop for Green: the plan is initialised, the size of its
direction becomes `n_out`, less one if the plan ignores a mode; no topology is created. -/
theorem dryRunForwardStep_green (checks : Bool) (ext : DryRunExt) (comm_size : Int)
    (hasTopomap hasSwitchtopo : Bool) (st : DryRunState) (ip : Fin 3) :
    dryRunForwardStep checks ext comm_size true hasTopomap hasSwitchtopo st ip
      = Except.ok
        { st with
          planmap := set3 st.planmap ip (ext.init (st.planmap ip) st.size_tmp st.isComplex)
          size_tmp := set3 st.size_tmp
            (dimOf (ext.init (st.planmap ip) st.size_tmp st.isComplex).dimID)
            ((ext.init (st.planmap ip) st.size_tmp st.isComplex).n_out
              - if (ext.init (st.planmap ip) st.size_tmp st.isComplex).ignoreMode then 1
                else 0)
          isComplex := (st.isComplex
            || (ext.init (st.planmap ip) st.size_tmp st.isComplex).isr2c) } := by
  unfold dryRunForwardStep
  simp only [Bool.not_true, Bool.false_and, Bool.false_eq_true, if_false, Bool.true_and,
    pure, Except.pure]
  rw [← forwardSize_eq]

/-- The forward walk for Green: it returns; the plans are initialised; when `init` keeps
`dimID` and the three plans have distinct directions, the size of the direction of each
plan is its `n_out`, less one if the plan ignores a mode. -/
theorem dryRunForward_green (checks : Bool) (ext : DryRunExt) (comm_size : Int)
    (hasTopomap hasSwitchtopo : Bool) (st0 : DryRunState)
    (hinit : ∀ p s c, (ext.init p s c).dimID = p.dimID)
    (hinj : Function.Injective (fun ip => dimOf (st0.planmap ip).dimID)) :
    ∃ st1, List.foldlM
        (dryRunForwardStep checks ext comm_size true hasTopomap hasSwitchtopo) st0 [0, 1, 2]
        = Except.ok st1 ∧
      st1.topomap = st0.topomap ∧ st1.switchtopo = st0.switchtopo ∧
      (∀ ip, (st1.planmap ip).dimID = (st0.planmap ip).dimID) ∧
      (∀ ip, st1.size_tmp (dimOf (st1.planmap ip).dimID)
        = (st1.planmap ip).n_out - if (st1.planmap ip).ignoreMode then 1 else 0) := by
  have h01 : dimOf (st0.planmap 0).dimID ≠ dimOf (st0.planmap 1).dimID :=
    fun h => absurd (hinj h) (by decide)
  have h02 : dimOf (st0.planmap 0).dimID ≠ dimOf (st0.planmap 2).dimID :=
    fun h => absurd (hinj h) (by decide)
  have h12 : dimOf (st0.planmap 1).dimID ≠ dimOf (st0.planmap 2).dimID :=
    fun h => absurd (hinj h) (by decide)
  simp only [List.foldlM, dryRunForwardStep_green, bind, Except.bind, pure, Except.pure]
  refine ⟨_, rfl, rfl, rfl, ?_, ?_⟩
  · intro ip
    fin_cases ip <;> simp [set3, hinit]
  · intro ip
    fin_cases ip
    · simp only [Fin.zero_eta, Fin.isValue]
      simp [set3, hinit, h01, h02, h12, h01.symm, h02.symm, h12.symm]
    · simp only [Fin.mk_one, Fin.isValue]
      simp [set3, hinit, h01, h02, h12, h01.symm, h02.symm, h12.symm]
    · simp only [Fin.reduceFinMk, Fin.isValue]
      simp [set3, hinit, h01, h02, h12, h01.symm, h02.symm, h12.symm]


/-- A sequence of two computations returns only if both do. -/
theorem bind_eq_ok {α β : Type} (x : Except FlupsError α) (f : α → Except FlupsError β)
    (b : β) (h : (x >>= f) = Except.ok b) : ∃ a, x = Except.ok a ∧ f a = Except.ok b := by
  cases x with
  | error e => exact absurd h (by simp [bind, Except.bind])
  | ok a => exact ⟨a, rfl, h⟩

/-- The checks of one iteration of the backward loop do not raise the "copy too much"
error when the sizes that the check compares agree. -/
theorem dryRunReverseSwitch_ne_copy (checks : Bool) (st : DryRunState) (ip : Fin 3)
    (t : Topology)
    (hpre : (st.planmap ip).ignoreMode = true →
      ∃ cur, st.current_topo = some cur ∧
        t.nglob (dimOf (st.planmap ip).dimID) - 1
          = cur.nglob (dimOf (st.planmap ip).dimID)
            - set3 (fun _ => 0) (dimOf (st.planmap (ip + 1)).dimID)
                (st.planmap (ip + 1)).fieldstart (dimOf (st.planmap ip).dimID)) :
    dryRunReverseSwitch checks st ip t ≠ Except.error FlupsError.copyTooManyNodes := by
  unfold dryRunReverseSwitch
  dsimp only
  cases hig : (st.planmap ip).ignoreMode
  · rw [if_pos (by simp)]
    refine check_bind_ne _ _ _ _ _ (by decide) ?_
    cases st.current_topo <;> simp [throw, throwThe, MonadExceptOf.throw, pure, Except.pure]
  · obtain ⟨cur, hcur, heq⟩ := hpre hig
    rw [if_neg (by simp), hcur]
    dsimp only
    have hchk : FLUPS_CHECK checks (decide (t.nglob (dimOf (st.planmap ip).dimID) - 1
        = cur.nglob (dimOf (st.planmap ip).dimID)
          - set3 (fun _ => 0) (dimOf (st.planmap (ip + 1)).dimID)
              (st.planmap (ip + 1)).fieldstart (dimOf (st.planmap ip).dimID)))
        FlupsError.copyTooManyNodes = Except.ok () := by
      simp [FLUPS_CHECK, heq]
    rw [hchk]
    simp [bind, Except.bind, pure, Except.pure]

/-- With checks disabled the remap of one iteration of the backward loop is created as soon
as a current topology exists. -/
theorem dryRunReverseSwitch_unchecked (st : DryRunState) (ip : Fin 3) (t : Topology)
    (cur : Topology) (hcur : st.current_topo = some cur) :
    ∃ sw, dryRunReverseSwitch false st ip t = Except.ok sw := by
  unfold dryRunReverseSwitch
  dsimp only
  rw [hcur]
  cases (st.planmap ip).ignoreMode <;>
    simp [FLUPS_CHECK, bind, Except.bind, pure, Except.pure]

/-- The sizes with which one iteration of the backward loop creates its topology. -/
theorem reverseSize_apply (st : DryRunState) (ip : Fin 3) (d : Fin 3) :
    (if (st.planmap ip).ignoreMode
      then set3 st.size_tmp (dimOf (st.planmap ip).dimID)
        (st.size_tmp (dimOf (st.planmap ip).dimID) + 1)
      else st.size_tmp) d
      = if d = dimOf (st.planmap ip).dimID
        then st.size_tmp d + (if (st.planmap ip).ignoreMode then 1 else 0)
        else st.size_tmp d := by
  cases (st.planmap ip).ignoreMode
  · simp
  · by_cases hd : d = dimOf (st.planmap ip).dimID
    · simp [set3, hd]
    · simp [set3, hd]

/-- One iteration of the backward loop does not raise the "copy too much" error when the
size of the direction of the plan, before the ignored mode is added back, is the size of
the current topology in that direction less the field start. -/
theorem dryRunReverseStep_ne_copy (checks : Bool) (ext : DryRunExt) (comm_size : Int)
    (st : DryRunState) (ip : Fin 3)
    (hpre : ip.val < 2 → (st.planmap ip).ignoreMode = true →
      ∃ cur, st.current_topo = some cur ∧
        st.size_tmp (dimOf (st.planmap ip).dimID)
          = cur.nglob (dimOf (st.planmap ip).dimID)
            - set3 (fun _ => 0) (dimOf (st.planmap (ip + 1)).dimID)
                (st.planmap (ip + 1)).fieldstart (dimOf (st.planmap ip).dimID)) :
    dryRunReverseStep checks ext comm_size st ip
      ≠ Except.error FlupsError.copyTooManyNodes := by
  unfold dryRunReverseStep
  dsimp only
  refine bind_ne_error _ _ _ (Topology.new_ne_copy _ _ _ _ _ _ _ _ _) (fun T hT => ?_)
  obtain ⟨hglob, -, -, -, -, -, -⟩ := Topology.new_ok hT
  by_cases hip : ip.val < 2
  · rw [if_pos hip]
    refine bind_ne_error _ _ _ (dryRunReverseSwitch_ne_copy checks st ip T (fun hig => ?_))
      (fun sw _ => ?_)
    · obtain ⟨cur, hcur, heq⟩ := hpre hip hig
      refine ⟨cur, hcur, ?_⟩
      rw [hglob, reverseSize_apply, if_pos rfl, hig, if_pos rfl, heq]
      ring
    · split_ifs <;> simp [pure, Except.pure]
  · rw [if_neg hip]
    simp only [pure, Except.pure, bind, Except.bind]
    split_ifs <;> simp

/-- One iteration of the backward loop, when it returns: the topology `T` that it created
has the fast axis of the plan and the current sizes, with the ignored mode added back in
the direction of the plan; it is stored, switched to real if the plan is `isr2c_green`, as
the topology of the plan and as the current topology; the sizes of the other directions and
the plans are unchanged. -/
theorem dryRunReverseStep_ok (checks : Bool) (ext : DryRunExt) (comm_size : Int)
    (st st2 : DryRunState) (ip : Fin 3)
    (h : dryRunReverseStep checks ext comm_size st ip = Except.ok st2) :
    ∃ T : Topology,
      T.axis = dimOf (st.planmap ip).dimID ∧
      T.nglob (dimOf (st.planmap ip).dimID)
        = st.size_tmp (dimOf (st.planmap ip).dimID)
          + (if (st.planmap ip).ignoreMode then 1 else 0) ∧
      (∀ d, d ≠ dimOf (st.planmap ip).dimID → T.nglob d = st.size_tmp d) ∧
      st2.planmap = st.planmap ∧
      st2.topomap = set3 st.topomap ip
        (some (if (st.planmap ip).isr2c_green then ext.switch2real T else T)) ∧
      st2.current_topo
        = some (if (st.planmap ip).isr2c_green then ext.switch2real T else T) ∧
      (∀ d, d ≠ dimOf (st.planmap ip).dimID → st2.size_tmp d = st.size_tmp d) := by
  unfold dryRunReverseStep at h
  dsimp only at h
  obtain ⟨T, hT, h1⟩ := bind_eq_ok _ _ _ h
  obtain ⟨hglob, -, -, hax, -, -, -⟩ := Topology.new_ok hT
  have key : ∀ sw : Fin 3 → Option SwitchTopo,
      (if (st.planmap ip).isr2c_green then
        (pure
          { st with
            topomap := set3 st.topomap ip (some (ext.switch2real T))
            switchtopo := sw
            size_tmp := set3 (if (st.planmap ip).ignoreMode
                then set3 st.size_tmp (dimOf (st.planmap ip).dimID)
                  (st.size_tmp (dimOf (st.planmap ip).dimID) + 1)
                else st.size_tmp) (dimOf (st.planmap ip).dimID)
              ((if (st.planmap ip).ignoreMode
                then set3 st.size_tmp (dimOf (st.planmap ip).dimID)
                  (st.size_tmp (dimOf (st.planmap ip).dimID) + 1)
                else st.size_tmp) (dimOf (st.planmap ip).dimID) * 2)
            isComplex := false
            current_topo := some (ext.switch2real T) } : Except FlupsError DryRunState)
      else
        pure
          { st with
            topomap := set3 st.topomap ip (some T)
            switchtopo := sw
            size_tmp := (if (st.planmap ip).ignoreMode
                then set3 st.size_tmp (dimOf (st.planmap ip).dimID)
                  (st.size_tmp (dimOf (st.planmap ip).dimID) + 1)
                else st.size_tmp)
            current_topo := some T }) = Except.ok st2 →
      st2.planmap = st.planmap ∧
      st2.topomap = set3 st.topomap ip
        (some (if (st.planmap ip).isr2c_green then ext.switch2real T else T)) ∧
      st2.current_topo
        = some (if (st.planmap ip).isr2c_green then ext.switch2real T else T) ∧
      (∀ d, d ≠ dimOf (st.planmap ip).dimID → st2.size_tmp d = st.size_tmp d) := by
    intro sw hsw
    cases hr : (st.planmap ip).isr2c_green
    · rw [hr] at hsw
      simp only [Bool.false_eq_true, if_false, pure, Except.pure] at hsw
      have e := Except.ok.inj hsw
      subst e
      exact ⟨rfl, rfl, rfl, fun d hd => by
        show (if (st.planmap ip).ignoreMode then _ else st.size_tmp) d = _
        rw [reverseSize_apply, if_neg hd]⟩
    · rw [hr] at hsw
      simp only [if_true, pure, Except.pure] at hsw
      have e := Except.ok.inj hsw
      subst e
      exact ⟨rfl, rfl, rfl, fun d hd => by
        show set3 _ _ _ d = _
        rw [set3_other _ _ _ _ hd, reverseSize_apply, if_neg hd]⟩
  refine ⟨T, hax, ?_, ?_, ?_⟩
  · rw [hglob, reverseSize_apply, if_pos rfl]
  · intro d hd
    rw [hglob, reverseSize_apply, if_neg hd]
  · by_cases hip : ip.val < 2
    · rw [if_pos hip] at h1
      obtain ⟨sw, -, h2⟩ := bind_eq_ok _ _ _ h1
      exact key sw h2
    · rw [if_neg hip] at h1
      exact key st.switchtopo h1

/-- With checks disabled one iteration of the backward loop returns as soon as, for
`ip < 2`, a current topology exists. -/
theorem dryRunReverseStep_unchecked (ext : DryRunExt) (comm_size : Int) (st : DryRunState)
    (ip : Fin 3) (hcur : ip.val < 2 → ∃ cur, st.current_topo = some cur) :
    ∃ st2, dryRunReverseStep false ext comm_size st ip = Except.ok st2 := by
  unfold dryRunReverseStep
  dsimp only
  obtain ⟨T, hT⟩ := Topology.new_unchecked (dimOf (st.planmap ip).dimID)
    (if (st.planmap ip).ignoreMode
      then set3 st.size_tmp (dimOf (st.planmap ip).dimID)
        (st.size_tmp (dimOf (st.planmap ip).dimID) + 1)
      else st.size_tmp)
    (ext.pencil_nproc (st.planmap ip).dimID comm_size) st.isComplex none ext.alignment
    comm_size (ext.rankd (ext.pencil_nproc (st.planmap ip).dimID comm_size))
  rw [hT]
  by_cases hip : ip.val < 2
  · obtain ⟨cur, hc⟩ := hcur hip
    obtain ⟨sw, hsw⟩ := dryRunReverseSwitch_unchecked st ip T cur hc
    simp only [bind, Except.bind, if_pos hip, hsw]
    split_ifs <;> exact ⟨_, rfl⟩
  · simp only [bind, Except.bind, if_neg hip, pure, Except.pure]
    split_ifs <;> exact ⟨_, rfl⟩

/-- The backward walk over the plans 2, 1, 0, for plans of distinct directions and a
`switch2real` that changes the global size of a topology along its fast axis only: the
"copy too much" error is not raised; and when the walk returns, the three topologies that it
created have the sizes of the forward walk with the ignored mode added back in their own
direction, and the topology of the plan `ip + 1` still has, in the direction of the plan
`ip`, the size of the forward walk. -/
theorem dryRunReverse_spec (checks : Bool) (ext : DryRunExt) (comm_size : Int)
    (st2 : DryRunState)
    (hinj : Function.Injective (fun ip => dimOf (st2.planmap ip).dimID))
    (hsw : ∀ (t : Topology) (d : Fin 3), d ≠ t.axis → (ext.switch2real t).nglob d = t.nglob d) :
    List.foldlM (dryRunReverseStep checks ext comm_size) st2 [2, 1, 0]
      ≠ Except.error FlupsError.copyTooManyNodes ∧
    ∀ st, List.foldlM (dryRunReverseStep checks ext comm_size) st2 [2, 1, 0] = Except.ok st →
      st.planmap = st2.planmap ∧
      ∃ T2 T1 T0 : Topology,
        st.topomap = set3 (set3 (set3 st2.topomap 2
            (some (if (st2.planmap 2).isr2c_green then ext.switch2real T2 else T2))) 1
            (some (if (st2.planmap 1).isr2c_green then ext.switch2real T1 else T1))) 0
            (some (if (st2.planmap 0).isr2c_green then ext.switch2real T0 else T0)) ∧
        (T2.axis = dimOf (st2.planmap 2).dimID ∧ T1.axis = dimOf (st2.planmap 1).dimID ∧
          T0.axis = dimOf (st2.planmap 0).dimID) ∧
        (T2.nglob (dimOf (st2.planmap 2).dimID)
            = st2.size_tmp (dimOf (st2.planmap 2).dimID)
              + (if (st2.planmap 2).ignoreMode then 1 else 0) ∧
          T1.nglob (dimOf (st2.planmap 1).dimID)
            = st2.size_tmp (dimOf (st2.planmap 1).dimID)
              + (if (st2.planmap 1).ignoreMode then 1 else 0) ∧
          T0.nglob (dimOf (st2.planmap 0).dimID)
            = st2.size_tmp (dimOf (st2.planmap 0).dimID)
              + (if (st2.planmap 0).ignoreMode then 1 else 0)) ∧
        (if (st2.planmap 2).isr2c_green then ext.switch2real T2 else T2).nglob
            (dimOf (st2.planmap 1).dimID) = st2.size_tmp (dimOf (st2.planmap 1).dimID) ∧
        (if (st2.planmap 1).isr2c_green then ext.switch2real T1 else T1).nglob
            (dimOf (st2.planmap 0).dimID) = st2.size_tmp (dimOf (st2.planmap 0).dimID) := by
  have h01 : dimOf (st2.planmap 0).dimID ≠ dimOf (st2.planmap 1).dimID :=
    fun h => absurd (hinj h) (by decide)
  have h02 : dimOf (st2.planmap 0).dimID ≠ dimOf (st2.planmap 2).dimID :=
    fun h => absurd (hinj h) (by decide)
  have h12 : dimOf (st2.planmap 1).dimID ≠ dimOf (st2.planmap 2).dimID :=
    fun h => absurd (hinj h) (by decide)
  have e12 : (1 : Fin 3) + 1 = 2 := rfl
  have e01 : (0 : Fin 3) + 1 = 1 := rfl
  -- the global size of a stored topology away from its fast axis
  have hreal : ∀ (T : Topology) (b : Bool) (d : Fin 3), d ≠ T.axis →
      (if b then ext.switch2real T else T).nglob d = T.nglob d := by
    intro T b d hd
    cases b
    · rfl
    · exact hsw T d hd
  -- what the first two iterations leave
  have step2 : ∀ a, dryRunReverseStep checks ext comm_size st2 2 = Except.ok a →
      ∃ T2 : Topology, T2.axis = dimOf (st2.planmap 2).dimID ∧
        T2.nglob (dimOf (st2.planmap 2).dimID)
          = st2.size_tmp (dimOf (st2.planmap 2).dimID)
            + (if (st2.planmap 2).ignoreMode then 1 else 0) ∧
        a.planmap = st2.planmap ∧
        a.topomap = set3 st2.topomap 2
          (some (if (st2.planmap 2).isr2c_green then ext.switch2real T2 else T2)) ∧
        a.current_topo
          = some (if (st2.planmap 2).isr2c_green then ext.switch2real T2 else T2) ∧
        (if (st2.planmap 2).isr2c_green then ext.switch2real T2 else T2).nglob
          (dimOf (st2.planmap 1).dimID) = st2.size_tmp (dimOf (st2.planmap 1).dimID) ∧
        a.size_tmp (dimOf (st2.planmap 1).dimID) = st2.size_tmp (dimOf (st2.planmap 1).dimID) ∧
        a.size_tmp (dimOf (st2.planmap 0).dimID)
          = st2.size_tmp (dimOf (st2.planmap 0).dimID) := by
    intro a ha
    obtain ⟨T2, hax, hd, ho, hp, ht, hc, hs⟩ := dryRunReverseStep_ok checks ext comm_size
      st2 a 2 ha
    refine ⟨T2, hax, hd, hp, ht, hc, ?_, hs _ h12, hs _ h02⟩
    rw [hreal T2 _ _ (by rw [hax]; exact h12), ho _ h12]
  have step1 : ∀ a b, a.planmap = st2.planmap →
      dryRunReverseStep checks ext comm_size a 1 = Except.ok b →
      ∃ T1 : Topology, T1.axis = dimOf (st2.planmap 1).dimID ∧
        T1.nglob (dimOf (st2.planmap 1).dimID)
          = a.size_tmp (dimOf (st2.planmap 1).dimID)
            + (if (st2.planmap 1).ignoreMode then 1 else 0) ∧
        b.planmap = st2.planmap ∧
        b.topomap = set3 a.topomap 1
          (some (if (st2.planmap 1).isr2c_green then ext.switch2real T1 else T1)) ∧
        b.current_topo
          = some (if (st2.planmap 1).isr2c_green then ext.switch2real T1 else T1) ∧
        (if (st2.planmap 1).isr2c_green then ext.switch2real T1 else T1).nglob
          (dimOf (st2.planmap 0).dimID) = a.size_tmp (dimOf (st2.planmap 0).dimID) ∧
        b.size_tmp (dimOf (st2.planmap 0).dimID)
          = a.size_tmp (dimOf (st2.planmap 0).dimID) := by
    intro a b hap hb
    obtain ⟨T1, hax, hd, ho, hp, ht, hc, hs⟩ := dryRunReverseStep_ok checks ext comm_size
      a b 1 hb
    rw [hap] at hax hd ho hp ht hc hs
    refine ⟨T1, hax, hd, hp, ht, hc, ?_, hs _ h01⟩
    rw [hreal T1 _ _ (by rw [hax]; exact h01), ho _ h01]
  -- the conditions of the checks
  have pre1 : ∀ a, dryRunReverseStep checks ext comm_size st2 2 = Except.ok a →
      ((1 : Fin 3).val < 2 → (a.planmap 1).ignoreMode = true →
        ∃ cur, a.current_topo = some cur ∧
          a.size_tmp (dimOf (a.planmap 1).dimID)
            = cur.nglob (dimOf (a.planmap 1).dimID)
              - set3 (fun _ => 0) (dimOf (a.planmap (1 + 1)).dimID)
                  (a.planmap (1 + 1)).fieldstart (dimOf (a.planmap 1).dimID)) := by
    intro a ha _ _
    obtain ⟨T2, -, -, hp, -, hc, hn, hs1, -⟩ := step2 a ha
    refine ⟨_, hc, ?_⟩
    rw [hp, e12, set3_other _ _ _ _ h12, hn, hs1]
    ring
  have pre0 : ∀ a b, a.planmap = st2.planmap →
      dryRunReverseStep checks ext comm_size a 1 = Except.ok b →
      ((0 : Fin 3).val < 2 → (b.planmap 0).ignoreMode = true →
        ∃ cur, b.current_topo = some cur ∧
          b.size_tmp (dimOf (b.planmap 0).dimID)
            = cur.nglob (dimOf (b.planmap 0).dimID)
              - set3 (fun _ => 0) (dimOf (b.planmap (0 + 1)).dimID)
                  (b.planmap (0 + 1)).fieldstart (dimOf (b.planmap 0).dimID)) := by
    intro a b hap hb _ _
    obtain ⟨T1, -, -, hp, -, hc, hn, hs0⟩ := step1 a b hap hb
    refine ⟨_, hc, ?_⟩
    rw [hp, e01, set3_other _ _ _ _ h01, hn, hs0]
    ring
  have hfold : List.foldlM (dryRunReverseStep checks ext comm_size) st2 [2, 1, 0]
      = dryRunReverseStep checks ext comm_size st2 2 >>= fun a =>
          dryRunReverseStep checks ext comm_size a 1 >>= fun b =>
            dryRunReverseStep checks ext comm_size b 0 >>= fun c => pure c := rfl
  rw [hfold]
  constructor
  · refine bind_ne_error _ _ _
      (dryRunReverseStep_ne_copy checks ext comm_size st2 2 (fun h => absurd h (by decide)))
      (fun a ha => ?_)
    have hap := (step2 a ha).choose_spec.2.2.1
    refine bind_ne_error _ _ _
      (dryRunReverseStep_ne_copy checks ext comm_size a 1 (pre1 a ha)) (fun b hb => ?_)
    refine bind_ne_error _ _ _
      (dryRunReverseStep_ne_copy checks ext comm_size b 0 (pre0 a b hap hb)) (fun c _ => ?_)
    simp [pure, Except.pure]
  · intro st hst
    obtain ⟨a, ha, h1⟩ := bind_eq_ok _ _ _ hst
    obtain ⟨b, hb, h2⟩ := bind_eq_ok _ _ _ h1
    obtain ⟨c, hc, h3⟩ := bind_eq_ok _ _ _ h2
    have hcst : c = st := Except.ok.inj h3
    subst hcst
    obtain ⟨T2, hax2, hd2, hp2, ht2, -, hn2, hs21, hs20⟩ := step2 a ha
    obtain ⟨T1, hax1, hd1, hp1, ht1, -, hn1, hs10⟩ := step1 a b hp2 hb
    obtain ⟨T0, hax0, hd0, -, hp0, ht0, -, -⟩ := dryRunReverseStep_ok checks ext comm_size
      b c 0 hc
    rw [hp1] at hax0 hd0 hp0 ht0
    refine ⟨hp0, T2, T1, T0, ?_, ⟨hax2, hax1, hax0⟩, ⟨hd2, ?_, ?_⟩, hn2, ?_⟩
    · rw [ht0, ht1, ht2]
    · rw [hd1, hs21]
    · rw [hd0, hs10, hs20]
    · rw [hn1, hs20]

/-- With assertions compiled out, the backward walk over the plans 2, 1, 0 returns. -/
theorem dryRunReverse_unchecked (ext : DryRunExt) (comm_size : Int) (st2 : DryRunState) :
    ∃ st, List.foldlM (dryRunReverseStep false ext comm_size) st2 [2, 1, 0] = Except.ok st := by
  obtain ⟨a, ha⟩ := dryRunReverseStep_unchecked ext comm_size st2 2
    (fun h => absurd h (by decide))
  obtain ⟨_, -, -, -, -, -, hca, -⟩ := dryRunReverseStep_ok false ext comm_size st2 a 2 ha
  obtain ⟨b, hb⟩ := dryRunReverseStep_unchecked ext comm_size a 1 (fun _ => ⟨_, hca⟩)
  obtain ⟨_, -, -, -, -, -, hcb, -⟩ := dryRunReverseStep_ok false ext comm_size a b 1 hb
  obtain ⟨c, hc⟩ := dryRunReverseStep_unchecked ext comm_size b 0 (fun _ => ⟨_, hcb⟩)
  refine ⟨c, ?_⟩
  have hfold : List.foldlM (dryRunReverseStep false ext comm_size) st2 [2, 1, 0]
      = dryRunReverseStep false ext comm_size st2 2 >>= fun a =>
          dryRunReverseStep false ext comm_size a 1 >>= fun b =>
            dryRunReverseStep false ext comm_size b 0 >>= fun c => pure c := rfl
  rw [hfold, ha]
  show (dryRunReverseStep false ext comm_size a 1 >>= fun b =>
    dryRunReverseStep false ext comm_size b 0 >>= fun c => pure c) = _
  rw [hb]
  show (dryRunReverseStep false ext comm_size b 0 >>= fun c => pure c) = _
  rw [hc]
  rfl

/-- For Green, the last loop of `_init_plansAndTopos` changes nothing. -/
theorem dryRunReset_green (ext : DryRunExt) (hasTopomap : Bool) (st : DryRunState) :
    List.foldl (dryRunResetStep ext true hasTopomap) st [0, 1, 2] = st := by
  simp [List.foldl, dryRunResetStep]

/-- For Green with `topomap` and `switchtopo` given, `_init_plansAndTopos` is the backward
walk started from the state that the forward walk leaves, with `current_topo` reset. -/
theorem init_plansAndTopos_green_eq (checks : Bool) (ext : DryRunExt) (comm_size : Int)
    (topo : Topology) (topomap : Fin 3 → Option Topology)
    (switchtopo : Fin 3 → Option SwitchTopo) (planmap : Fin 3 → FFTW_plan_dim)
    (st1 : DryRunState)
    (h : List.foldlM (dryRunForwardStep checks ext comm_size true true true)
      { planmap := planmap, topomap := topomap, switchtopo := switchtopo,
        size_tmp := topo.nglob, isComplex := false, current_topo := some topo } [0, 1, 2]
      = Except.ok st1) :
    Solver._init_plansAndTopos checks ext comm_size topo topomap switchtopo planmap
        true true true
      = List.foldlM (dryRunReverseStep checks ext comm_size)
          { st1 with current_topo := none } [2, 1, 0] := by
  unfold Solver._init_plansAndTopos
  dsimp only
  rw [h]
  show ((if (true && true && true) = true then
      List.foldlM (dryRunReverseStep checks ext comm_size)
        { st1 with current_topo := none } [2, 1, 0]
    else pure { st1 with current_topo := none }) >>= fun st3 =>
      pure (List.foldl (dryRunResetStep ext true true) st3 [0, 1, 2])) = _
  rw [if_pos (show (true && true && true) = true from rfl)]
  cases List.foldlM (dryRunReverseStep checks ext comm_size)
      { st1 with current_topo := none } [2, 1, 0] with
  | error e => rfl
  | ok s =>
    show Except.ok (List.foldl (dryRunResetStep ext true true) s [0, 1, 2]) = Except.ok s
    rw [dryRunReset_green]

/-- A property of the three plan indices holds as soon as it holds for 0, 1 and 2. -/
theorem fin3_cases (P : Fin 3 → Prop) (h0 : P 0) (h1 : P 1) (h2 : P 2) : ∀ ip, P ip := by
  intro ip
  fin_cases ip
  · exact h0
  · exact h1
  · exact h2

/-- The example `switch2real` changes the global size along the fast axis only. -/
theorem exampleSwitch2real_nglob (t : Topology) (d : Fin 3) (hd : d ≠ t.axis) :
    (exampleDryRunExt.switch2real t).nglob d = t.nglob d := by
  show (exampleSwitch2real t).nglob d = t.nglob d
  unfold exampleSwitch2real
  split_ifs
  · exact set3_other _ _ _ _ hd
  · rfl

/-- The example plans have pairwise distinct directions. -/
theorem exampleDryRunPlans_injective :
    Function.Injective (fun ip => dimOf (exampleDryRunPlans ip).dimID) := by
  decide

/-- C30: in the Green dry run of `Solver::_init_plansAndTopos` (`topomap` and `switchtopo`
given) with three plans of pairwise distinct `dimID`, a `dimID` that `init` does not change,
and a `switch2real` that changes the global size of a topology along its fast axis only:
the check "you will copy too much node" never fails; when the function returns, the
topology `T` created for the plan `ip` in the backward walk (stored in `topomap[ip]`,
switched to real when the plan is `isr2c_green`) has the plan direction as fast axis and
global size `n_out(ip)` in that direction, so that the decrement of the forward walk is
undone, and for `ip < 2` with `ignoreMode` set it satisfies
`T.nglob(dimID) - 1 = topomap[ip+1].nglob(dimID) - fieldstart[dimID]`; and with assertions
compiled out the function does return. -/
theorem green_dry_run_ignored_mode_restored (checks : Bool) (ext : DryRunExt)
    (comm_size : Int) (topo : Topology) (topomap : Fin 3 → Option Topology)
    (switchtopo : Fin 3 → Option SwitchTopo) (planmap : Fin 3 → FFTW_plan_dim)
    (hinit : ∀ p s c, (ext.init p s c).dimID = p.dimID)
    (hinj : Function.Injective (fun ip => dimOf (planmap ip).dimID))
    (hsw : ∀ (t : Topology) (d : Fin 3), d ≠ t.axis → (ext.switch2real t).nglob d = t.nglob d) :
    Solver._init_plansAndTopos checks ext comm_size topo topomap switchtopo planmap
        true true true ≠ Except.error FlupsError.copyTooManyNodes ∧
    (∀ st, Solver._init_plansAndTopos checks ext comm_size topo topomap switchtopo planmap
        true true true = Except.ok st →
      ∀ ip : Fin 3, ∃ T : Topology,
        st.topomap ip
          = some (if (st.planmap ip).isr2c_green then ext.switch2real T else T) ∧
        T.axis = dimOf (st.planmap ip).dimID ∧
        T.nglob (dimOf (st.planmap ip).dimID) = (st.planmap ip).n_out ∧
        (ip.val < 2 → (st.planmap ip).ignoreMode = true →
          ∃ C : Topology, st.topomap (ip + 1) = some C ∧
            T.nglob (dimOf (st.planmap ip).dimID) - 1
              = C.nglob (dimOf (st.planmap ip).dimID)
                - set3 (fun _ => 0) (dimOf (st.planmap (ip + 1)).dimID)
                    (st.planmap (ip + 1)).fieldstart (dimOf (st.planmap ip).dimID))) ∧
    ∃ st, Solver._init_plansAndTopos false ext comm_size topo topomap switchtopo planmap
        true true true = Except.ok st := by
  refine ⟨?_, ?_, ?_⟩
  · obtain ⟨st1, hfw, -, -, hdim, -⟩ := dryRunForward_green checks ext comm_size true true
      { planmap := planmap, topomap := topomap, switchtopo := switchtopo,
        size_tmp := topo.nglob, isComplex := false, current_topo := some topo } hinit hinj
    have hinj2 : Function.Injective (fun ip => dimOf (st1.planmap ip).dimID) := by
      intro a b hab
      apply hinj
      show dimOf (planmap a).dimID = dimOf (planmap b).dimID
      have ha := hdim a
      have hb := hdim b
      dsimp only at ha hb hab
      rw [← ha, ← hb]
      exact hab
    rw [init_plansAndTopos_green_eq checks ext comm_size topo topomap switchtopo planmap
      st1 hfw]
    exact (dryRunReverse_spec checks ext comm_size { st1 with current_topo := none }
      hinj2 hsw).1
  · obtain ⟨st1, hfw, -, -, hdim, hsz⟩ := dryRunForward_green checks ext comm_size true true
      { planmap := planmap, topomap := topomap, switchtopo := switchtopo,
        size_tmp := topo.nglob, isComplex := false, current_topo := some topo } hinit hinj
    have hinj2 : Function.Injective (fun ip => dimOf (st1.planmap ip).dimID) := by
      intro a b hab
      apply hinj
      show dimOf (planmap a).dimID = dimOf (planmap b).dimID
      have ha := hdim a
      have hb := hdim b
      dsimp only at ha hb hab
      rw [← ha, ← hb]
      exact hab
    have h01 : dimOf (st1.planmap 0).dimID ≠ dimOf (st1.planmap 1).dimID :=
      fun h => absurd (hinj2 h) (by decide)
    have h12 : dimOf (st1.planmap 1).dimID ≠ dimOf (st1.planmap 2).dimID :=
      fun h => absurd (hinj2 h) (by decide)
    rw [init_plansAndTopos_green_eq checks ext comm_size topo topomap switchtopo planmap
      st1 hfw]
    intro st hst
    obtain ⟨hp, T2, T1, T0, htm, ⟨hax2, hax1, hax0⟩, ⟨hd2, hd1, hd0⟩, hn21, hn10⟩ :=
      (dryRunReverse_spec checks ext comm_size { st1 with current_topo := none }
        hinj2 hsw).2 st hst
    dsimp only at hp htm hax2 hax1 hax0 hd2 hd1 hd0 hn21 hn10
    have hadd : ∀ ip, st1.size_tmp (dimOf (st1.planmap ip).dimID)
        + (if (st1.planmap ip).ignoreMode then 1 else 0) = (st1.planmap ip).n_out := by
      intro ip
      rw [hsz ip]
      ring
    rw [hp, htm]
    refine fin3_cases _ ?_ ?_ ?_
    · refine ⟨T0, rfl, hax0, ?_, ?_⟩
      · rw [hd0, hadd]
      · intro _ hig
        refine ⟨_, rfl, ?_⟩
        show T0.nglob (dimOf (st1.planmap 0).dimID) - 1
          = (if (st1.planmap 1).isr2c_green then ext.switch2real T1 else T1).nglob
              (dimOf (st1.planmap 0).dimID)
            - set3 (fun _ => 0) (dimOf (st1.planmap 1).dimID) (st1.planmap 1).fieldstart
                (dimOf (st1.planmap 0).dimID)
        rw [hn10, hd0, set3_other _ _ _ _ h01, if_pos hig]
        ring
    · refine ⟨T1, rfl, hax1, ?_, ?_⟩
      · rw [hd1, hadd]
      · intro _ hig
        refine ⟨_, rfl, ?_⟩
        show T1.nglob (dimOf (st1.planmap 1).dimID) - 1
          = (if (st1.planmap 2).isr2c_green then ext.switch2real T2 else T2).nglob
              (dimOf (st1.planmap 1).dimID)
            - set3 (fun _ => 0) (dimOf (st1.planmap 2).dimID) (st1.planmap 2).fieldstart
                (dimOf (st1.planmap 1).dimID)
        rw [hn21, hd1, set3_other _ _ _ _ h12, if_pos hig]
        ring
    · refine ⟨T2, rfl, hax2, ?_, ?_⟩
      · rw [hd2, hadd]
      · intro h
        exact absurd h (by decide)
  · obtain ⟨st1, hfw, -⟩ := dryRunForward_green false ext comm_size true true
      { planmap := planmap, topomap := topomap, switchtopo := switchtopo,
        size_tmp := topo.nglob, isComplex := false, current_topo := some topo } hinit hinj
    rw [init_plansAndTopos_green_eq false ext comm_size topo topomap switchtopo planmap
      st1 hfw]
    exact dryRunReverse_unchecked ext comm_size _

/-- Witness for C30: the example plans, which all ignore one mode, on one process. -/
theorem green_dry_run_ignored_mode_restored_witness :
    (∀ p s c, (exampleDryRunExt.init p s c).dimID = p.dimID) ∧
    Function.Injective (fun ip => dimOf (exampleDryRunPlans ip).dimID) ∧
    (∀ (t : Topology) (d : Fin 3), d ≠ t.axis →
      (exampleDryRunExt.switch2real t).nglob d = t.nglob d) ∧
    (Solver._init_plansAndTopos true exampleDryRunExt 1 exampleTopoUser (fun _ => none)
        (fun _ => none) exampleDryRunPlans true true true
        ≠ Except.error FlupsError.copyTooManyNodes ∧
    (∀ st, Solver._init_plansAndTopos true exampleDryRunExt 1 exampleTopoUser
        (fun _ => none) (fun _ => none) exampleDryRunPlans true true true = Except.ok st →
      ∀ ip : Fin 3, ∃ T : Topology,
        st.topomap ip
          = some (if (st.planmap ip).isr2c_green then exampleDryRunExt.switch2real T
            else T) ∧
        T.axis = dimOf (st.planmap ip).dimID ∧
        T.nglob (dimOf (st.planmap ip).dimID) = (st.planmap ip).n_out ∧
        (ip.val < 2 → (st.planmap ip).ignoreMode = true →
          ∃ C : Topology, st.topomap (ip + 1) = some C ∧
            T.nglob (dimOf (st.planmap ip).dimID) - 1
              = C.nglob (dimOf (st.planmap ip).dimID)
                - set3 (fun _ => 0) (dimOf (st.planmap (ip + 1)).dimID)
                    (st.planmap (ip + 1)).fieldstart (dimOf (st.planmap ip).dimID))) ∧
    ∃ st, Solver._init_plansAndTopos false exampleDryRunExt 1 exampleTopoUser
        (fun _ => none) (fun _ => none) exampleDryRunPlans true true true = Except.ok st) :=
  ⟨fun _ _ _ => rfl, exampleDryRunPlans_injective, exampleSwitch2real_nglob,
    green_dry_run_ignored_mode_restored true exampleDryRunExt 1 exampleTopoUser
      (fun _ => none) (fun _ => none) exampleDryRunPlans (fun _ _ _ => rfl)
      exampleDryRunPlans_injective exampleSwitch2real_nglob⟩

/-- The Green dry run on the example, with assertions active: it returns, and the global
sizes of the three topologies are (16, 8, 8) for the plan 0, whose topology is switched to
real, (7, 8, 8) for the plan 1 and (7, 7, 8) for the plan 2: each has 8 = `n_out` in its own
direction before the switch to real, and still 7 = 8 - 1 in the direction of the plan
before it. -/
theorem exampleDryRun_sizes :
    (Solver._init_plansAndTopos true exampleDryRunExt 1 exampleTopoUser (fun _ => none)
        (fun _ => none) exampleDryRunPlans true true true).toOption.map
      (fun st => ((st.topomap 0).map (fun t => (t.nglob 0, t.nglob 1, t.nglob 2)),
        (st.topomap 1).map (fun t => (t.nglob 0, t.nglob 1, t.nglob 2)),
        (st.topomap 2).map (fun t => (t.nglob 0, t.nglob 1, t.nglob 2))))
      = some (some (16, 8, 8), some (7, 8, 8), some (7, 7, 8)) := by
  decide

end FLUPS
